import Mathlib

/-!
# DiskArbitration request engine (`diskarbitrationd/DARequest.c`)

A shallow embedding of the request lifecycle engine of `DARequest.c`.

* Requests, disks and units are heap objects: the state `DAState` maps
  references to records, and every C function becomes a function on `DAState`.
* Every call that leaves `DARequest.c` (approval and authorization
  submission, helpers, system calls, client callback queueing, the stage
  signal) is appended to `DAState.trace`, in call order.
* Results of synchronous external calls (`open`, `ioctl`, `_DADiskRefresh`,
  `DAMountContainsArgument`, ...) are read from an environment `DAEnv`.
* A function that dereferences the request's disk returns `none` when the
  request has no disk (a NULL dereference in C).
* Status codes (`DAReturn`, `int`) are natural numbers holding the 32-bit
  pattern of the C value.
-/

namespace DiskArbitration

/-! ## Status codes and dissenters -/

/-- Status code type of `DADissenter.h`: the 32-bit pattern of the C value. -/
abbrev DAReturn := Nat

/-- Modelled from the spec: `DADissenter.h` is not among the sources; the
status names are those of the error taxonomy of the spec, with the values of
the public header (`err_local | err_local_diskarbitration | n`). -/
def kDAReturnSuccess : DAReturn := 0

/-- Modelled from the spec: status `Busy` (see `kDAReturnSuccess`). -/
def kDAReturnBusy : DAReturn := 0xF8DA0002

/-- Modelled from the spec: status `NotMounted` (see `kDAReturnSuccess`). -/
def kDAReturnNotMounted : DAReturn := 0xF8DA0007

/-- Modelled from the spec: status `NotPermitted` (see `kDAReturnSuccess`). -/
def kDAReturnNotPermitted : DAReturn := 0xF8DA0008

/-- Modelled from the spec: status `NotPrivileged` (see `kDAReturnSuccess`). -/
def kDAReturnNotPrivileged : DAReturn := 0xF8DA0009

/-- Modelled from the spec: status `NotReady` (see `kDAReturnSuccess`). -/
def kDAReturnNotReady : DAReturn := 0xF8DA000A

/-- Modelled from the spec: status `Unsupported` (see `kDAReturnSuccess`). -/
def kDAReturnUnsupported : DAReturn := 0xF8DA000C

/-- Modelled from the spec: the macro `unix_err` of `mach/error.h`
(`err_kern | err_sub(3) | errno`), which translates an errno into a status. -/
def unix_err (errno : Nat) : DAReturn := 0xC000 ||| errno

/-- The errno `ENOTTY` of `sys/errno.h`. -/
def ENOTTY : Nat := 25

/-- The errno `ENOTSUP` of `sys/errno.h`. -/
def ENOTSUP : Nat := 45

/-- The `int` value `-1`, as a 32-bit pattern. -/
def minusOne : Nat := 0xFFFFFFFF

/-- Dissenter of `DADissenter.h`: a status and an optional reason string. -/
structure DADissenter where
  status : DAReturn
  string : Option String
  deriving DecidableEq, Repr

/-- The two-argument `DADissenterCreate( allocator, status )` of the daemon. -/
def DADissenterCreate (status : DAReturn) : DADissenter :=
  { status := status, string := none }

/-- Accessor `DADissenterGetStatus`. -/
def DADissenterGetStatus (dissenter : DADissenter) : DAReturn :=
  dissenter.status

/-! ## Values, callbacks, requests -/

/-- CoreFoundation values read by the engine. -/
inductive CFType where
  | boolean (value : Bool)
  | number (value : Nat)
  | string (value : String)
  | url (value : String)
  deriving DecidableEq, Repr

/-- The singleton `kCFBooleanFalse`. -/
def kCFBooleanFalse : CFType := CFType.boolean false

abbrev DASessionRef := Nat
abbrev DADiskRef := Nat
abbrev DAUnitRef := Nat
abbrev DARequestRef := Nat
abbrev DAFileSystemRef := Nat

/-- Callback kinds of `DAInternal.h`; the engine names only the claim-release kind. -/
inductive _DACallbackKind where
  | _kDADiskClaimReleaseCallback
  | client (kind : Nat)
  deriving DecidableEq, Repr

/-- Callback handle of `DACallback.h`: session, destination address, context, kind. -/
structure DACallback where
  session : Option DASessionRef
  address : Nat
  context : Nat
  kind : _DACallbackKind
  deriving DecidableEq, Repr

/-- Request kinds (`_DARequestKind`) handled by the `switch` of `DARequestDispatch`. -/
inductive _DARequestKind where
  | _kDADiskClaim
  | _kDADiskEject
  | _kDADiskMount
  | _kDADiskRefresh
  | _kDADiskRename
  | _kDADiskUnmount
  deriving DecidableEq, Repr

/-- The request dictionary of `DARequestCreate`, one field per key, and the
CoreFoundation retain count of the object. A key that is absent reads as
`none` (values) or `0` (integers). -/
structure DARequest where
  kind : _DARequestKind
  disk : Option DADiskRef
  argument1 : Nat
  argument2 : Option CFType
  argument3 : Option CFType
  userGID : Nat
  userUID : Nat
  callback : Option DACallback
  dissenter : Option DADissenter
  link : Option (List DARequestRef)
  state : Nat
  retainCount : Nat
  deriving DecidableEq, Repr

/-- Request state bits of `DARequest.h`. -/
abbrev DARequestState := Nat

/-- Modelled from the spec: the staging bit `StagedProbe` (header absent;
the three staging bits are distinct single bits). -/
def kDARequestStateStagedProbe : DARequestState := 0x00010000

/-- Modelled from the spec: the staging bit `StagedApprove`. -/
def kDARequestStateStagedApprove : DARequestState := 0x00100000

/-- Modelled from the spec: the staging bit `StagedAuthorize`. -/
def _kDARequestStateStagedAuthorize : DARequestState := 0x00200000

/-- Unmount option `kDADiskUnmountOptionForce` of `DiskArbitration.h`. -/
def kDADiskUnmountOptionForce : Nat := 0x00080000

/-! ## Disks and units -/

/-- Description keys the engine reads or writes. -/
inductive DADiskDescriptionKey where
  | kDADiskDescriptionMediaPathKey
  | kDADiskDescriptionMediaWholeKey
  | kDADiskDescriptionVolumeMountableKey
  | kDADiskDescriptionVolumeNameKey
  | kDADiskDescriptionVolumePathKey
  deriving DecidableEq, Repr

/-- Disk state flags the engine reads or writes. -/
inductive DADiskState where
  | kDADiskStateCommandActive
  | kDADiskStateRequireRepair
  | kDADiskStateStagedProbe
  | kDADiskStateStagedAppear
  | kDADiskStateZombie
  | _kDADiskStateMountPreferenceNoWrite
  deriving DecidableEq, Repr

/-- Unit state flags. -/
inductive DAUnitState where
  | kDAUnitStateCommandActive
  | kDAUnitStateEjected
  deriving DecidableEq, Repr

/-- Modelled from the spec: the disk object of `DADisk.c` (absent): its
description, one boolean per state flag, the claim owner, the by-path, the
BSD device path, the filesystem and the unit it belongs to. -/
structure DADisk where
  mediaPath : Option CFType
  mediaWhole : Option CFType
  volumeMountable : Option CFType
  volumeName : Option CFType
  volumePath : Option CFType
  commandActive : Bool
  requireRepair : Bool
  stagedProbe : Bool
  stagedAppear : Bool
  zombie : Bool
  mountPreferenceNoWrite : Bool
  claim : Option DACallback
  bypath : Option CFType
  bsdPath : Option String
  fileSystem : Option DAFileSystemRef
  unit : DAUnitRef
  deriving DecidableEq, Repr

/-- Modelled from the spec: the unit record, with its `CommandActive` and
`Ejected` latches. -/
structure DAUnit where
  commandActive : Bool
  ejected : Bool
  deriving DecidableEq, Repr

/-! ## External calls and the engine state -/

/-- Options of `DAAuthorizeWithCallback` named by the engine. -/
inductive DAAuthorizeOption where
  | kDAAuthorizeOptionForce
  | kDAAuthorizeOptionInteract
  deriving DecidableEq, Repr

/-- Authorization rights named by the engine. -/
inductive DAAuthorizeRight where
  | _kDAAuthorizeRightMount
  | _kDAAuthorizeRightUnmount
  deriving DecidableEq, Repr

/-- Callbacks of this file that are handed to an external call. -/
inductive DARequestCallback where
  | __DARequestClaimReleaseCallback
  | __DARequestEjectApprovalCallback
  | __DARequestEjectAuthorizationCallback
  | __DARequestMountApprovalCallback
  | __DARequestMountAuthorizationCallback
  | __DARequestMountCallback
  | __DARequestRenameCallback
  | __DARequestUnmountApprovalCallback
  | __DARequestUnmountAuthorizationCallback
  | __DARequestUnmountCallback
  deriving DecidableEq, Repr

/-- Mount point actions of `DAMount.h` named by the engine. -/
inductive DAMountPointAction where
  | kDAMountPointActionMove
  deriving DecidableEq, Repr

/-- One call that leaves `DARequest.c`, with its arguments. -/
inductive DAEvent where
  | DAQueueCallback (callback : DACallback) (disk : Option DADiskRef)
      (dissenter : Option DADissenter)
  | DAStageSignal
  | DAAuthorizeWithCallback (options : List DAAuthorizeOption) (disk : Option DADiskRef)
      (userUID : Nat) (userGID : Nat) (callback : DARequestCallback)
      (callbackContext : DARequestRef) (right : DAAuthorizeRight)
  | DADiskClaimReleaseCallback (disk : DADiskRef) (callback : DACallback)
      (response : DARequestCallback) (responseContext : DARequestRef)
  | DADiskEjectApprovalCallback (disk : DADiskRef) (response : DARequestCallback)
      (responseContext : DARequestRef)
  | DADiskMountApprovalCallback (disk : DADiskRef) (response : DARequestCallback)
      (responseContext : DARequestRef)
  | DADiskUnmountApprovalCallback (disk : DADiskRef) (response : DARequestCallback)
      (responseContext : DARequestRef)
  | sys_open (path : Option String)
  | sys_ioctl_DKIOCEJECT (file : Nat)
  | sys_close (file : Nat)
  | DAMountWithArguments (disk : DADiskRef) (mountpoint : Option CFType)
      (callback : DARequestCallback) (callbackContext : DARequestRef)
      (arguments : Option CFType)
  | DAFileSystemRename (filesystem : Option DAFileSystemRef) (mountpoint : Option CFType)
      (name : Option CFType) (callback : DARequestCallback) (callbackContext : DARequestRef)
  | DAFileSystemUnmountWithArguments (filesystem : Option DAFileSystemRef)
      (mountpoint : Option CFType) (callback : DARequestCallback)
      (callbackContext : DARequestRef) (argument : Option String)
  | _DADiskRefresh (disk : DADiskRef)
  | DADiskDescriptionChangedCallback (disk : DADiskRef) (keys : List DADiskDescriptionKey)
  | DADiskDisappearedCallback (disk : DADiskRef)
  | DADiskLog (disk : DADiskRef)
  | DAMountRemoveMountPoint (mountpoint : Option CFType)
  | DAMountCreateMountPointWithAction (disk : DADiskRef) (action : DAMountPointAction)
  deriving DecidableEq, Repr

/-- Result of a system call: the returned `int` and the `errno` it leaves. -/
structure SysResult where
  value : Nat
  errno : Nat
  deriving DecidableEq, Repr

/-- Results of the synchronous calls into code outside `DARequest.c`. -/
structure DAEnv where
  /-- Result of `open( path, O_RDONLY )`. -/
  sys_open : Option String → SysResult
  /-- Result of `ioctl( file, DKIOCEJECT, NULL )`. -/
  sys_ioctl : Nat → SysResult
  /-- Value read from an automatic variable that was never assigned. -/
  indeterminate : Nat
  /-- Status returned by `_DADiskRefresh( disk )`. -/
  _DADiskRefresh : DADiskRef → DAReturn
  /-- Function `DAMountContainsArgument( arguments, argument )` of `DAMount.c`. -/
  DAMountContainsArgument : CFType → String → Bool
  /-- Result of `DAMountCreateMountPointWithAction( disk, action )`. -/
  DAMountCreateMountPointWithAction : DADiskRef → DAMountPointAction → Option CFType

/-- The mount argument `kDAFileSystemMountArgumentUpdate` of `DAFileSystem.h`. -/
def kDAFileSystemMountArgumentUpdate : String := "update"

/-- The unmount argument `kDAFileSystemUnmountArgumentForce` of `DAFileSystem.h`. -/
def kDAFileSystemUnmountArgumentForce : String := "force"

/-- Everything the engine reads and writes: the request, disk and unit
objects, the global disk list `gDADiskList`, and the trace of external calls. -/
structure DAState where
  requests : DARequestRef → DARequest
  disks : DADiskRef → DADisk
  units : DAUnitRef → DAUnit
  gDADiskList : List DADiskRef
  trace : List DAEvent

/-- Append one external call to the trace. -/
def DAState.emit (s : DAState) (event : DAEvent) : DAState :=
  { s with trace := s.trace ++ [event] }

/-- Replace the request object behind a reference. -/
def DAState.updateRequest (s : DAState) (request : DARequestRef)
    (f : DARequest → DARequest) : DAState :=
  { s with requests := fun r => if r = request then f (s.requests r) else s.requests r }

/-- Replace the disk object behind a reference. -/
def DAState.updateDisk (s : DAState) (disk : DADiskRef) (f : DADisk → DADisk) : DAState :=
  { s with disks := fun d => if d = disk then f (s.disks d) else s.disks d }

/-- Replace the unit object behind a reference. -/
def DAState.updateUnit (s : DAState) (unit : DAUnitRef) (f : DAUnit → DAUnit) : DAState :=
  { s with units := fun u => if u = unit then f (s.units u) else s.units u }

/-! ## Request accessors and mutators (`DARequest.c`, end of file) -/

def DARequestGetArgument1 (s : DAState) (request : DARequestRef) : Nat :=
  (s.requests request).argument1

def DARequestGetArgument2 (s : DAState) (request : DARequestRef) : Option CFType :=
  (s.requests request).argument2

def DARequestGetArgument3 (s : DAState) (request : DARequestRef) : Option CFType :=
  (s.requests request).argument3

def DARequestGetCallback (s : DAState) (request : DARequestRef) : Option DACallback :=
  (s.requests request).callback

def DARequestGetDisk (s : DAState) (request : DARequestRef) : Option DADiskRef :=
  (s.requests request).disk

def DARequestGetDissenter (s : DAState) (request : DARequestRef) : Option DADissenter :=
  (s.requests request).dissenter

def DARequestGetKind (s : DAState) (request : DARequestRef) : _DARequestKind :=
  (s.requests request).kind

def DARequestGetLink (s : DAState) (request : DARequestRef) : Option (List DARequestRef) :=
  (s.requests request).link

/-- The test `( value & state ) ? TRUE : FALSE` on the stored state integer. -/
def DARequestGetState (s : DAState) (request : DARequestRef) (state : DARequestState) : Bool :=
  if (s.requests request).state &&& state ≠ 0 then true else false

def DARequestGetUserGID (s : DAState) (request : DARequestRef) : Nat :=
  (s.requests request).userGID

def DARequestGetUserUID (s : DAState) (request : DARequestRef) : Nat :=
  (s.requests request).userUID

/-- Setting `none` removes the key. -/
def DARequestSetCallback (request : DARequestRef) (callback : Option DACallback)
    (s : DAState) : DAState :=
  s.updateRequest request (fun r => { r with callback := callback })

/-- Setting `none` removes the key. -/
def DARequestSetDissenter (request : DARequestRef) (dissenter : Option DADissenter)
    (s : DAState) : DAState :=
  s.updateRequest request (fun r => { r with dissenter := dissenter })

/-- Setting `none` removes the key. -/
def DARequestSetLink (request : DARequestRef) (link : Option (List DARequestRef))
    (s : DAState) : DAState :=
  s.updateRequest request (fun r => { r with link := link })

/-- Or the bits in when `value` holds, mask them out (`& ~state`, a 32-bit
complement) otherwise. -/
def DARequestSetState (request : DARequestRef) (state : DARequestState) (value : Bool)
    (s : DAState) : DAState :=
  s.updateRequest request (fun r =>
    { r with state := if value then r.state ||| state
                      else r.state &&& (0xFFFFFFFF ^^^ (state % 2 ^ 32)) })

/-- The constructor `DARequestCreate`: a fresh dictionary with the given
keys, no dissenter, no link, state 0, and one reference held by the caller. -/
def DARequestCreate (kind : _DARequestKind) (argument0 : Option DADiskRef) (argument1 : Nat)
    (argument2 : Option CFType) (argument3 : Option CFType) (userUID : Nat) (userGID : Nat)
    (callback : Option DACallback) : DARequest :=
  { kind := kind, disk := argument0, argument1 := argument1, argument2 := argument2,
    argument3 := argument3, userGID := userGID, userUID := userUID, callback := callback,
    dissenter := none, link := none, state := 0, retainCount := 1 }

/-- The call `CFRetain( request )`. -/
def CFRetain (request : DARequestRef) (s : DAState) : DAState :=
  s.updateRequest request (fun r => { r with retainCount := r.retainCount + 1 })

/-- The call `CFRelease( request )`. -/
def CFRelease (request : DARequestRef) (s : DAState) : DAState :=
  s.updateRequest request (fun r => { r with retainCount := r.retainCount - 1 })

/-! ## Disk and unit accessors (`DADisk.c`, `DAStage.c`: absent) -/

/-- Modelled from the spec: description lookup `DADiskGetDescription`. -/
def DADiskGetDescription (s : DAState) (disk : DADiskRef) (key : DADiskDescriptionKey) :
    Option CFType :=
  match key with
  | .kDADiskDescriptionMediaPathKey => (s.disks disk).mediaPath
  | .kDADiskDescriptionMediaWholeKey => (s.disks disk).mediaWhole
  | .kDADiskDescriptionVolumeMountableKey => (s.disks disk).volumeMountable
  | .kDADiskDescriptionVolumeNameKey => (s.disks disk).volumeName
  | .kDADiskDescriptionVolumePathKey => (s.disks disk).volumePath

/-- Modelled from the spec: description update `DADiskSetDescription`
(`none` removes the key). -/
def DADiskSetDescription (disk : DADiskRef) (key : DADiskDescriptionKey)
    (value : Option CFType) (s : DAState) : DAState :=
  s.updateDisk disk (fun d =>
    match key with
    | .kDADiskDescriptionMediaPathKey => { d with mediaPath := value }
    | .kDADiskDescriptionMediaWholeKey => { d with mediaWhole := value }
    | .kDADiskDescriptionVolumeMountableKey => { d with volumeMountable := value }
    | .kDADiskDescriptionVolumeNameKey => { d with volumeName := value }
    | .kDADiskDescriptionVolumePathKey => { d with volumePath := value })

/-- Modelled from the spec: `DADiskCompareDescription` answers non-zero
(here `true`) when the description value differs from `value`. -/
def DADiskCompareDescription (s : DAState) (disk : DADiskRef) (key : DADiskDescriptionKey)
    (value : Option CFType) : Bool :=
  if DADiskGetDescription s disk key = value then false else true

/-- Modelled from the spec: state flag test `DADiskGetState`. -/
def DADiskGetState (s : DAState) (disk : DADiskRef) (state : DADiskState) : Bool :=
  match state with
  | .kDADiskStateCommandActive => (s.disks disk).commandActive
  | .kDADiskStateRequireRepair => (s.disks disk).requireRepair
  | .kDADiskStateStagedProbe => (s.disks disk).stagedProbe
  | .kDADiskStateStagedAppear => (s.disks disk).stagedAppear
  | .kDADiskStateZombie => (s.disks disk).zombie
  | ._kDADiskStateMountPreferenceNoWrite => (s.disks disk).mountPreferenceNoWrite

/-- Modelled from the spec: state flag update `DADiskSetState`. -/
def DADiskSetState (disk : DADiskRef) (state : DADiskState) (value : Bool)
    (s : DAState) : DAState :=
  s.updateDisk disk (fun d =>
    match state with
    | .kDADiskStateCommandActive => { d with commandActive := value }
    | .kDADiskStateRequireRepair => { d with requireRepair := value }
    | .kDADiskStateStagedProbe => { d with stagedProbe := value }
    | .kDADiskStateStagedAppear => { d with stagedAppear := value }
    | .kDADiskStateZombie => { d with zombie := value }
    | ._kDADiskStateMountPreferenceNoWrite => { d with mountPreferenceNoWrite := value })

/-- Modelled from the spec: `DAUnitGetState( disk, state )` reads the flag
of the unit beneath the disk. -/
def DAUnitGetState (s : DAState) (disk : DADiskRef) (state : DAUnitState) : Bool :=
  match state with
  | .kDAUnitStateCommandActive => (s.units (s.disks disk).unit).commandActive
  | .kDAUnitStateEjected => (s.units (s.disks disk).unit).ejected

/-- Modelled from the spec: `DAUnitSetState( disk, state, value )` writes
the flag of the unit beneath the disk. -/
def DAUnitSetState (disk : DADiskRef) (state : DAUnitState) (value : Bool)
    (s : DAState) : DAState :=
  s.updateUnit (s.disks disk).unit (fun u =>
    match state with
    | .kDAUnitStateCommandActive => { u with commandActive := value }
    | .kDAUnitStateEjected => { u with ejected := value })

/-- Modelled from the spec: claim owner lookup `DADiskGetClaim`. -/
def DADiskGetClaim (s : DAState) (disk : DADiskRef) : Option DACallback :=
  (s.disks disk).claim

/-- Modelled from the spec: claim owner update `DADiskSetClaim`. -/
def DADiskSetClaim (disk : DADiskRef) (claim : Option DACallback) (s : DAState) : DAState :=
  s.updateDisk disk (fun d => { d with claim := claim })

/-- Modelled from the spec: by-path update `DADiskSetBypath`. -/
def DADiskSetBypath (disk : DADiskRef) (bypath : Option CFType) (s : DAState) : DAState :=
  s.updateDisk disk (fun d => { d with bypath := bypath })

/-- Modelled from the spec: `DADiskGetBSDPath( disk, TRUE )`, the raw device path. -/
def DADiskGetBSDPath (s : DAState) (disk : DADiskRef) : Option String :=
  (s.disks disk).bsdPath

/-- Modelled from the spec: filesystem lookup `DADiskGetFileSystem`. -/
def DADiskGetFileSystem (s : DAState) (disk : DADiskRef) : Option DAFileSystemRef :=
  (s.disks disk).fileSystem

/-- Accessor `DACallbackGetAddress`. -/
def DACallbackGetAddress (callback : DACallback) : Nat :=
  callback.address

/-- Accessor `DACallbackGetSession`. -/
def DACallbackGetSession (callback : DACallback) : Option DASessionRef :=
  callback.session

/-- Modelled from the spec: `DACallbackCreate` builds the callback handle
from session, address, context and kind. -/
def DACallbackCreate (session : DASessionRef) (address : Nat) (context : Nat)
    (kind : _DACallbackKind) : Option DACallback :=
  some { session := some session, address := address, context := context, kind := kind }

/-- The helper `___CFNumberGetIntegerValue`: the integer of a number, 0 otherwise. -/
def ___CFNumberGetIntegerValue (number : Option CFType) : Nat :=
  match number with
  | some (CFType.number n) => n
  | _ => 0

/-- The call `CFURLCreateWithString( allocator, string, NULL )`. -/
def CFURLCreateWithString (string : CFType) : Option CFType :=
  match string with
  | CFType.string value => some (CFType.url value)
  | CFType.url value => some (CFType.url value)
  | _ => none

/-- The call `CFURLGetString( url )`. The call reads the object it is handed
without a NULL test, so it returns only for a URL: `none` stands for a call
that does not return (`url` is NULL, or is no URL). -/
def CFURLGetString (url : Option CFType) : Option String :=
  match url with
  | some (CFType.url value) => some value
  | some (CFType.string value) => some value
  | _ => none

/-- The call `___CFArrayRemoveValue( gDADiskList, disk )`. -/
def ___CFArrayRemoveValue_gDADiskList (disk : DADiskRef) (s : DAState) : DAState :=
  { s with gDADiskList := s.gDADiskList.erase disk }

/-- The call `DAStageSignal( )`. -/
def DAStageSignal (s : DAState) : DAState :=
  s.emit DAEvent.DAStageSignal

/-- The call `DAQueueCallback( callback, disk, dissenter )`. -/
def DAQueueCallback (callback : DACallback) (disk : Option DADiskRef)
    (dissenter : Option DADissenter) (s : DAState) : DAState :=
  s.emit (DAEvent.DAQueueCallback callback disk dissenter)

/-! ## Authorization and the completion dispatcher -/

/-- The function `__DARequestAuthorize` (lines 58-71): one
`DAAuthorizeWithCallback` call with the options Force and Interact. -/
def __DARequestAuthorize (request : DARequestRef) (callback : DARequestCallback)
    (callbackContext : DARequestRef) (right : DAAuthorizeRight) (s : DAState) : DAState :=
  s.emit (DAEvent.DAAuthorizeWithCallback
    [DAAuthorizeOption.kDAAuthorizeOptionForce, DAAuthorizeOption.kDAAuthorizeOptionInteract]
    (DARequestGetDisk s request) (DARequestGetUserUID s request)
    (DARequestGetUserGID s request) callback callbackContext right)

/-- The `for` loop of `__DARequestDispatchCallback` (lines 96-105): each
round overwrites `dissenter` with the dissenter of the next element of the
link and stops at the first one that is not NULL. -/
def __DARequestDispatchCallback_loop (s : DAState) (dissenter : Option DADissenter) :
    List DARequestRef → Option DADissenter
  | [] => dissenter
  | subrequest :: rest =>
    let dissenter := DARequestGetDissenter s subrequest
    if dissenter.isSome then dissenter
    else __DARequestDispatchCallback_loop s dissenter rest

/-- The completion dispatcher `__DARequestDispatchCallback` (lines 73-111). -/
def __DARequestDispatchCallback (request : DARequestRef) (dissenter : Option DADissenter)
    (s : DAState) : DAState :=
  match DARequestGetCallback s request with
  | some callback =>
    let dissenter :=
      match DARequestGetLink s request with
      | some link =>
        let dissenter := DARequestGetDissenter s request
        if dissenter = none then __DARequestDispatchCallback_loop s dissenter link
        else dissenter
      | none => dissenter
    DAQueueCallback callback (DARequestGetDisk s request) dissenter s
  | none => s

/-- The function `DARequestDispatchCallback` (lines 1481-1497). -/
def DARequestDispatchCallback (request : DARequestRef) (status : DAReturn)
    (s : DAState) : DAState :=
  if status ≠ 0 then
    let dissenter := DADissenterCreate status
    __DARequestDispatchCallback request (some dissenter) s
  else
    __DARequestDispatchCallback request none s

/-! ## Claim -/

/-- The callback `__DARequestClaimCallback` (lines 219-237). -/
def __DARequestClaimCallback (status : Nat) (request : DARequestRef) (s : DAState) :
    Option DAState :=
  match DARequestGetDisk s request with
  | none => none
  | some disk =>
    let s := DARequestDispatchCallback request (if status ≠ 0 then unix_err status else status) s
    let s := DADiskSetState disk .kDADiskStateCommandActive false s
    let s := DAStageSignal s
    let s := CFRelease request s
    some s

/-- The callback `__DARequestClaimReleaseCallback` (lines 239-250). -/
def __DARequestClaimReleaseCallback (response : Option DADissenter) (request : DARequestRef)
    (s : DAState) : Option DAState :=
  let s := DARequestSetDissenter request response s
  match DARequestGetDisk s request with
  | none => none
  | some disk =>
    let s := DADiskSetState disk .kDADiskStateCommandActive false s
    let s := DAStageSignal s
    let s := CFRelease request s
    some s

/-- The handler `__DARequestClaim` (lines 113-217). -/
def __DARequestClaim (request : DARequestRef) (s : DAState) : Option (Bool × DAState) :=
  match DARequestGetDisk s request with
  | none => none
  | some disk =>
    if DARequestGetState s request kDARequestStateStagedApprove = false then
      let callback := DADiskGetClaim s disk
      let s := CFRetain request s
      let s := DADiskSetState disk .kDADiskStateCommandActive true s
      let s := DARequestSetState request kDARequestStateStagedApprove true s
      match callback with
      | some callback =>
        if DACallbackGetAddress callback ≠ 0 then
          let s := s.emit (DAEvent.DADiskClaimReleaseCallback disk callback
            DARequestCallback.__DARequestClaimReleaseCallback request)
          some (false, s)
        else
          let dissenter := DADissenterCreate kDAReturnNotPermitted
          (__DARequestClaimReleaseCallback (some dissenter) request s).map
            (fun s => (false, s))
      | none =>
        (__DARequestClaimReleaseCallback none request s).map (fun s => (false, s))
    else if (DARequestGetDissenter s request).isSome then
      let dissenter := DARequestGetDissenter s request
      let s := __DARequestDispatchCallback request dissenter s
      let s := DAStageSignal s
      some (true, s)
    else
      let s := CFRetain request s
      let s := DADiskSetState disk .kDADiskStateCommandActive true s
      let s := DADiskSetClaim disk none s
      let s :=
        match DARequestGetCallback s request with
        | some callback =>
          match DACallbackGetSession callback with
          | some session =>
            let address := ___CFNumberGetIntegerValue (DARequestGetArgument2 s request)
            let context := ___CFNumberGetIntegerValue (DARequestGetArgument3 s request)
            match DACallbackCreate session address context
                _DACallbackKind._kDADiskClaimReleaseCallback with
            | some callback => DADiskSetClaim disk (some callback) s
            | none => s
          | none => s
        | none => s
      (__DARequestClaimCallback 0 request s).map (fun s => (true, s))

/-! ## Eject -/

/-- The callback `__DARequestEjectCallback` (lines 414-451). -/
def __DARequestEjectCallback (status : Nat) (request : DARequestRef) (s : DAState) :
    Option DAState :=
  match DARequestGetDisk s request with
  | none => none
  | some disk =>
    let s := DARequestDispatchCallback request (if status ≠ 0 then unix_err status else status) s
    let s := DAUnitSetState disk .kDAUnitStateCommandActive false s
    let s := DADiskSetState disk .kDADiskStateCommandActive false s
    let s := DAStageSignal s
    let s := CFRelease request s
    some s

/-- The callback `__DARequestEjectApprovalCallback` (lines 453-476). -/
def __DARequestEjectApprovalCallback (response : Option DADissenter) (request : DARequestRef)
    (s : DAState) : Option DAState :=
  let s := if DARequestGetUserUID s request ≠ 0 then DARequestSetDissenter request response s
           else s
  let s :=
    match response with
    | some dissenter =>
      if DADissenterGetStatus dissenter = 0xF8DAFF01 then
        DARequestSetDissenter request response s
      else s
    | none => s
  match DARequestGetDisk s request with
  | none => none
  | some disk =>
    let s := DADiskSetState disk .kDADiskStateCommandActive false s
    let s := DAStageSignal s
    let s := CFRelease request s
    some s

/-- The callback `__DARequestEjectAuthorizationCallback` (lines 478-498). -/
def __DARequestEjectAuthorizationCallback (status : DAReturn) (request : DARequestRef)
    (s : DAState) : Option DAState :=
  let s := if status ≠ 0 then
             let dissenter := DADissenterCreate status
             DARequestSetDissenter request (some dissenter) s
           else s
  match DARequestGetDisk s request with
  | none => none
  | some disk =>
    let s := DADiskSetState disk .kDADiskStateCommandActive false s
    let s := DAStageSignal s
    let s := CFRelease request s
    some s

/-- The system calls of `__DARequestEject` (lines 379-402): open the device,
eject unless the unit is already latched Ejected, close. The result is the
value of `status` and the new state. When the unit is already latched
Ejected and the open succeeds, `status` is read without ever having been
assigned. -/
def __DARequestEject_ioctl (env : DAEnv) (disk : DADiskRef) (s : DAState) : Nat × DAState :=
  let file := env.sys_open (DADiskGetBSDPath s disk)
  let s := s.emit (DAEvent.sys_open (DADiskGetBSDPath s disk))
  if file.value = minusOne then
    (file.errno, s)
  else
    let r : Nat × DAState :=
      if DAUnitGetState s disk .kDAUnitStateEjected = false then
        let result := env.sys_ioctl file.value
        let s := s.emit (DAEvent.sys_ioctl_DKIOCEJECT file.value)
        let status := result.value
        let status := if status = minusOne then
                        (if result.errno = ENOTTY then 0 else result.errno)
                      else status
        let s := if status = 0 then DAUnitSetState disk .kDAUnitStateEjected true s
                 else s
        (status, s)
      else
        (env.indeterminate, s)
    (r.1, r.2.emit (DAEvent.sys_close file.value))

/-- The tail of `__DARequestEject` (lines 349-411): completion with a
dissenter that is still recorded, else the eject itself. -/
def __DARequestEject_commence (env : DAEnv) (request : DARequestRef) (disk : DADiskRef)
    (s : DAState) : Option (Bool × DAState) :=
  if (DARequestGetDissenter s request).isSome then
    let dissenter := DARequestGetDissenter s request
    let s := __DARequestDispatchCallback request dissenter s
    let s := DAStageSignal s
    some (true, s)
  else if DAUnitGetState s disk .kDAUnitStateCommandActive = false then
    let s := CFRetain request s
    let s := DADiskSetState disk .kDADiskStateCommandActive true s
    let s := DAUnitSetState disk .kDAUnitStateCommandActive true s
    let r := __DARequestEject_ioctl env disk s
    (__DARequestEjectCallback r.1 request r.2).map (fun s => (true, s))
  else
    some (false, s)

/-- The value of `status` after the checks of `__DARequestEject` before the
approval (lines 268-282): is the disk ejectable. -/
def __DARequestEject_status (disk : DADiskRef) (s : DAState) : DAReturn :=
  let status := kDAReturnSuccess
  let status :=
    if DADiskGetDescription s disk .kDADiskDescriptionMediaWholeKey = none then
      kDAReturnUnsupported
    else status
  let status :=
    if DADiskGetDescription s disk .kDADiskDescriptionMediaWholeKey = some kCFBooleanFalse then
      kDAReturnUnsupported
    else status
  status

/-- The handler `__DARequestEject` (lines 252-412). -/
def __DARequestEject (env : DAEnv) (request : DARequestRef) (s : DAState) :
    Option (Bool × DAState) :=
  match DARequestGetDisk s request with
  | none => none
  | some disk =>
    if DARequestGetState s request kDARequestStateStagedApprove = false then
      let status := __DARequestEject_status disk s
      if status ≠ 0 then
        let s := DARequestDispatchCallback request status s
        let s := DAStageSignal s
        some (true, s)
      else
        let s := CFRetain request s
        let s := DADiskSetState disk .kDADiskStateCommandActive true s
        let s := DARequestSetState request kDARequestStateStagedApprove true s
        let s := s.emit (DAEvent.DADiskEjectApprovalCallback disk
          DARequestCallback.__DARequestEjectApprovalCallback request)
        some (false, s)
    else if DARequestGetState s request _kDARequestStateStagedAuthorize = false then
      let status := kDAReturnSuccess
      let r : DAReturn × DAState :=
        match DARequestGetDissenter s request with
        | some dissenter =>
          if DADissenterGetStatus dissenter = 0xF8DAFF01 then
            (kDAReturnNotPrivileged, DARequestSetDissenter request none s)
          else (status, s)
        | none => (status, s)
      let status := r.1
      let s := r.2
      if status ≠ 0 then
        let s := CFRetain request s
        let s := DADiskSetState disk .kDADiskStateCommandActive true s
        let s := DARequestSetState request _kDARequestStateStagedAuthorize true s
        let s := __DARequestAuthorize request
          DARequestCallback.__DARequestEjectAuthorizationCallback request
          DAAuthorizeRight._kDAAuthorizeRightUnmount s
        some (false, s)
      else
        let s := DARequestSetState request _kDARequestStateStagedAuthorize true s
        __DARequestEject_commence env request disk s
    else
      __DARequestEject_commence env request disk s

/-! ## Mount -/

/-- The callback `__DARequestMountCallback` (lines 755-808). -/
def __DARequestMountCallback (status : Nat) (mountpoint : Option CFType)
    (request : DARequestRef) (s : DAState) : Option DAState :=
  match DARequestGetDisk s request with
  | none => none
  | some disk =>
    let s :=
      if status ≠ 0 then
        let dissenter := DADissenterCreate (unix_err status)
        DARequestSetDissenter request (some dissenter) s
      else
        let s := DADiskSetBypath disk mountpoint s
        let s := DADiskSetDescription disk .kDADiskDescriptionVolumePathKey mountpoint s
        let s := s.emit (DAEvent.DADiskLog disk)
        s.emit (DAEvent.DADiskDescriptionChangedCallback disk
          [DADiskDescriptionKey.kDADiskDescriptionVolumePathKey])
    let s := DARequestDispatchCallback request (if status ≠ 0 then unix_err status else status) s
    let s := DAUnitSetState disk .kDAUnitStateCommandActive false s
    let s := DADiskSetState disk .kDADiskStateCommandActive false s
    let s := DAStageSignal s
    let s := CFRelease request s
    some s

/-- The callback `__DARequestMountApprovalCallback` (lines 810-843). -/
def __DARequestMountApprovalCallback (response : Option DADissenter) (request : DARequestRef)
    (s : DAState) : Option DAState :=
  let s := if DARequestGetUserUID s request ≠ 0 then DARequestSetDissenter request response s
           else s
  let s :=
    match response with
    | some dissenter =>
      let s := if DADissenterGetStatus dissenter = 0xF8DAFF01 then
                 DARequestSetDissenter request response s
               else s
      let s := if DADissenterGetStatus dissenter = 0xF8DAFF02 then
                 DARequestSetDissenter request response s
               else s
      let s := if DADissenterGetStatus dissenter = 0xF8DAFF03 then
                 DARequestSetDissenter request response s
               else s
      s
    | none => s
  match DARequestGetDisk s request with
  | none => none
  | some disk =>
    let s := DADiskSetState disk .kDADiskStateCommandActive false s
    let s := DAStageSignal s
    let s := CFRelease request s
    some s

/-- The callback `__DARequestMountAuthorizationCallback` (lines 845-865). -/
def __DARequestMountAuthorizationCallback (status : DAReturn) (request : DARequestRef)
    (s : DAState) : Option DAState :=
  let s := if status ≠ 0 then
             let dissenter := DADissenterCreate status
             DARequestSetDissenter request (some dissenter) s
           else s
  match DARequestGetDisk s request with
  | none => none
  | some disk =>
    let s := DADiskSetState disk .kDADiskStateCommandActive false s
    let s := DAStageSignal s
    let s := CFRelease request s
    some s

/-- The tail of `__DARequestMount` (lines 683-753): the reinterpretation of
the sentinels 0xF8DAFF02 and 0xF8DAFF03, completion with a dissenter that is
still recorded, else the mount itself. The local `dissenter` keeps the value
read before `DARequestSetDissenter( request, NULL )`. -/
def __DARequestMount_commence (request : DARequestRef) (disk : DADiskRef) (s : DAState) :
    Bool × DAState :=
  let s :=
    match DARequestGetDissenter s request with
    | some dissenter =>
      let s := if DADissenterGetStatus dissenter = 0xF8DAFF02 then
                 let s := DADiskSetState disk ._kDADiskStateMountPreferenceNoWrite true s
                 DARequestSetDissenter request none s
               else s
      let s := if DADissenterGetStatus dissenter = 0xF8DAFF03 then
                 let s := DADiskSetState disk ._kDADiskStateMountPreferenceNoWrite true s
                 DARequestSetDissenter request none s
               else s
      s
    | none => s
  if (DARequestGetDissenter s request).isSome then
    let dissenter := DARequestGetDissenter s request
    let s := __DARequestDispatchCallback request dissenter s
    let s := DAStageSignal s
    (true, s)
  else if DAUnitGetState s disk .kDAUnitStateCommandActive = false then
    let path := DARequestGetArgument2 s request
    let path := match path with
                | some string => CFURLCreateWithString string
                | none => none
    let s := CFRetain request s
    let s := DADiskSetState disk .kDADiskStateCommandActive true s
    let s := DAUnitSetState disk .kDAUnitStateCommandActive true s
    let s := s.emit (DAEvent.DAMountWithArguments disk path
      DARequestCallback.__DARequestMountCallback request (DARequestGetArgument3 s request))
    (true, s)
  else
    (false, s)

/-- The authorization stage and what follows it in `__DARequestMount`
(lines 638-753). -/
def __DARequestMount_authorize (request : DARequestRef) (disk : DADiskRef) (s : DAState) :
    Bool × DAState :=
  if DARequestGetState s request _kDARequestStateStagedAuthorize = false then
    let status := kDAReturnSuccess
    let r : DAReturn × DAState :=
      match DARequestGetDissenter s request with
      | some dissenter =>
        let r : DAReturn × DAState :=
          if DADissenterGetStatus dissenter = 0xF8DAFF01 then
            (kDAReturnNotPrivileged, DARequestSetDissenter request none s)
          else (status, s)
        if DADissenterGetStatus dissenter = 0xF8DAFF03 then
          (kDAReturnNotPrivileged, r.2)
        else r
      | none => (status, s)
    let status := r.1
    let s := r.2
    if status ≠ 0 then
      let s := CFRetain request s
      let s := DADiskSetState disk .kDADiskStateCommandActive true s
      let s := DARequestSetState request _kDARequestStateStagedAuthorize true s
      let s := __DARequestAuthorize request
        DARequestCallback.__DARequestMountAuthorizationCallback request
        DAAuthorizeRight._kDAAuthorizeRightMount s
      (false, s)
    else
      let s := DARequestSetState request _kDARequestStateStagedAuthorize true s
      __DARequestMount_commence request disk s
  else
    __DARequestMount_commence request disk s

/-- The value of `status` after the first two checks of the approval stage
of `__DARequestMount` (lines 556-593): is the disk mountable, is it mounted
already without an update argument. -/
def __DARequestMount_status (env : DAEnv) (request : DARequestRef) (disk : DADiskRef)
    (s : DAState) : DAReturn :=
  let status := kDAReturnSuccess
  let status :=
    if DADiskGetDescription s disk .kDADiskDescriptionVolumeMountableKey
        = some kCFBooleanFalse then
      kDAReturnUnsupported
    else status
  let status :=
    if (DADiskGetDescription s disk .kDADiskDescriptionVolumePathKey).isSome then
      match DARequestGetArgument3 s request with
      | some arguments =>
        let status := if env.DAMountContainsArgument arguments "-u" = false then
                        kDAReturnBusy
                      else status
        let status :=
          if env.DAMountContainsArgument arguments kDAFileSystemMountArgumentUpdate = false then
            kDAReturnBusy
          else status
        status
      | none => kDAReturnBusy
    else status
  status

/-- The approval stage and what follows it in `__DARequestMount`
(lines 552-753). -/
def __DARequestMount_approve (env : DAEnv) (request : DARequestRef) (disk : DADiskRef)
    (s : DAState) : Bool × DAState :=
  if DARequestGetState s request kDARequestStateStagedApprove = false then
    let status := __DARequestMount_status env request disk s
    let r : DAReturn × DAState :=
      if DADiskGetState s disk .kDADiskStateRequireRepair then
        let dissenter := DADissenterCreate kDAReturnNotReady
        (kDAReturnNotReady, DARequestSetDissenter request (some dissenter) s)
      else (status, s)
    let status := r.1
    let s := r.2
    if status ≠ 0 then
      let s := DARequestDispatchCallback request status s
      let s := DAStageSignal s
      (true, s)
    else
      let s := CFRetain request s
      let s := DADiskSetState disk .kDADiskStateCommandActive true s
      let s := DARequestSetState request kDARequestStateStagedApprove true s
      let s := s.emit (DAEvent.DADiskMountApprovalCallback disk
        DARequestCallback.__DARequestMountApprovalCallback request)
      (false, s)
  else
    __DARequestMount_authorize request disk s

/-- The handler `__DARequestMount` (lines 501-753). -/
def __DARequestMount (env : DAEnv) (request : DARequestRef) (s : DAState) :
    Option (Bool × DAState) :=
  match DARequestGetDisk s request with
  | none => none
  | some disk =>
    let s := DAUnitSetState disk .kDAUnitStateEjected false s
    if (DARequestGetLink s request).isSome
        ∧ DAUnitGetState s disk .kDAUnitStateCommandActive = true then
      some (false, s)
    else if DARequestGetState s request kDARequestStateStagedProbe = false then
      if DADiskGetDescription s disk .kDADiskDescriptionVolumePathKey = none then
        let s := DARequestSetState request kDARequestStateStagedProbe true s
        let s := DADiskSetState disk .kDADiskStateStagedProbe false s
        let s := DAStageSignal s
        some (false, s)
      else
        some (__DARequestMount_approve env request disk s)
    else
      if DADiskGetState s disk .kDADiskStateStagedProbe = false then
        some (false, s)
      else
        some (__DARequestMount_approve env request disk s)

/-! ## Refresh -/

/-- The callback `__DARequestRefreshCallback` (lines 915-929). -/
def __DARequestRefreshCallback (status : Nat) (request : DARequestRef) (s : DAState) :
    Option DAState :=
  match DARequestGetDisk s request with
  | none => none
  | some disk =>
    let s := DARequestDispatchCallback request (if status ≠ 0 then unix_err status else status) s
    let s := DADiskSetState disk .kDADiskStateCommandActive false s
    let s := DAStageSignal s
    let s := CFRelease request s
    some s

/-- The value of `status` after the check of `__DARequestRefresh` (lines
881-890): is the disk mountable. -/
def __DARequestRefresh_status (disk : DADiskRef) (s : DAState) : DAReturn :=
  let status := kDAReturnSuccess
  let status :=
    if DADiskGetDescription s disk .kDADiskDescriptionVolumeMountableKey
        = some kCFBooleanFalse then
      kDAReturnUnsupported
    else status
  status

/-- The handler `__DARequestRefresh` (lines 868-913). -/
def __DARequestRefresh (env : DAEnv) (request : DARequestRef) (s : DAState) :
    Option (Bool × DAState) :=
  match DARequestGetDisk s request with
  | none => none
  | some disk =>
    let status := __DARequestRefresh_status disk s
    if status ≠ 0 then
      let s := DARequestDispatchCallback request status s
      let s := DAStageSignal s
      some (true, s)
    else
      let s := CFRetain request s
      let s := DADiskSetState disk .kDADiskStateCommandActive true s
      let status := env._DADiskRefresh disk
      let s := s.emit (DAEvent._DADiskRefresh disk)
      (__DARequestRefreshCallback (if status ≠ 0 then ENOTSUP else 0) request s).map
        (fun s => (true, s))

/-! ## Rename -/

/-- The callback `__DARequestRenameCallback` (lines 1009-1105). Line 1058
hands the VolumePath of the disk to `CFURLGetString` without a NULL test:
where that call does not return, the callback does not return either, and the
result is `none`. -/
def __DARequestRenameCallback (env : DAEnv) (status : Nat) (request : DARequestRef)
    (s : DAState) : Option DAState :=
  match DARequestGetDisk s request with
  | none => none
  | some disk =>
    let renamed : Option DAState :=
      if status ≠ 0 then some s
      else
        let keys : List DADiskDescriptionKey := []
        let name := DARequestGetArgument2 s request
        if DADiskCompareDescription s disk .kDADiskDescriptionVolumeNameKey name then
          let s := DADiskSetDescription disk .kDADiskDescriptionVolumeNameKey name s
          let keys := keys ++ [DADiskDescriptionKey.kDADiskDescriptionVolumeNameKey]
          let mountpoint := DADiskGetDescription s disk .kDADiskDescriptionVolumePathKey
          match CFURLGetString mountpoint with
          | none => none
          | some string =>
            let r : List DADiskDescriptionKey × DAState :=
              if string = "file://localhost/" then
                let mountpoint :=
                  env.DAMountCreateMountPointWithAction disk .kDAMountPointActionMove
                let s := s.emit (DAEvent.DAMountCreateMountPointWithAction disk
                  DAMountPointAction.kDAMountPointActionMove)
                if mountpoint.isSome then (keys, DADiskSetBypath disk mountpoint s)
                else (keys, s)
              else
                let mountpoint :=
                  env.DAMountCreateMountPointWithAction disk .kDAMountPointActionMove
                let s := s.emit (DAEvent.DAMountCreateMountPointWithAction disk
                  DAMountPointAction.kDAMountPointActionMove)
                if mountpoint.isSome then
                  let s := DADiskSetBypath disk mountpoint s
                  let s :=
                    DADiskSetDescription disk .kDADiskDescriptionVolumePathKey mountpoint s
                  (keys ++ [DADiskDescriptionKey.kDADiskDescriptionVolumePathKey], s)
                else (keys, s)
            some (r.2.emit (DAEvent.DADiskDescriptionChangedCallback disk r.1))
        else some s
    match renamed with
    | none => none
    | some s =>
      let s :=
        DARequestDispatchCallback request (if status ≠ 0 then unix_err status else status) s
      let s := DAUnitSetState disk .kDAUnitStateCommandActive false s
      let s := DADiskSetState disk .kDADiskStateCommandActive false s
      let s := DAStageSignal s
      let s := CFRelease request s
      some s

/-- The value of `status` after the checks of `__DARequestRename` (lines
947-974): is the disk mountable, is it mounted, is the name valid. -/
def __DARequestRename_status (request : DARequestRef) (disk : DADiskRef) (s : DAState) :
    DAReturn :=
  let status := kDAReturnSuccess
  let status :=
    if DADiskGetDescription s disk .kDADiskDescriptionVolumeMountableKey
        = some kCFBooleanFalse then
      kDAReturnUnsupported
    else status
  let status :=
    if DADiskGetDescription s disk .kDADiskDescriptionVolumePathKey = none then
      kDAReturnNotMounted
    else status
  let status :=
    if DARequestGetArgument2 s request = none then kDAReturnUnsupported else status
  status

/-- The handler `__DARequestRename` (lines 931-1007). -/
def __DARequestRename (request : DARequestRef) (s : DAState) : Option (Bool × DAState) :=
  match DARequestGetDisk s request with
  | none => none
  | some disk =>
    if DAUnitGetState s disk .kDAUnitStateCommandActive = false then
      let status := __DARequestRename_status request disk s
      if status ≠ 0 then
        let s := DARequestDispatchCallback request status s
        let s := DAStageSignal s
        some (true, s)
      else
        let s := CFRetain request s
        let s := DADiskSetState disk .kDADiskStateCommandActive true s
        let s := DAUnitSetState disk .kDAUnitStateCommandActive true s
        let s := s.emit (DAEvent.DAFileSystemRename (DADiskGetFileSystem s disk)
          (DADiskGetDescription s disk .kDADiskDescriptionVolumePathKey)
          (DARequestGetArgument2 s request)
          DARequestCallback.__DARequestRenameCallback request)
        some (true, s)
    else
      some (false, s)

/-! ## Unmount -/

/-- The callback `__DARequestUnmountCallback` (lines 1262-1334). -/
def __DARequestUnmountCallback (status : Nat) (request : DARequestRef) (s : DAState) :
    Option DAState :=
  match DARequestGetDisk s request with
  | none => none
  | some disk =>
    let s :=
      if status ≠ 0 then
        let dissenter := DADissenterCreate (unix_err status)
        DARequestSetDissenter request (some dissenter) s
      else
        let mountpoint := DADiskGetDescription s disk .kDADiskDescriptionVolumePathKey
        let s := s.emit (DAEvent.DAMountRemoveMountPoint mountpoint)
        let s := DADiskSetBypath disk none s
        if (DADiskGetDescription s disk .kDADiskDescriptionMediaPathKey).isSome then
          let s := DADiskSetDescription disk .kDADiskDescriptionVolumePathKey none s
          s.emit (DAEvent.DADiskDescriptionChangedCallback disk
            [DADiskDescriptionKey.kDADiskDescriptionVolumePathKey])
        else
          let s := s.emit (DAEvent.DADiskDisappearedCallback disk)
          let s := DADiskSetDescription disk .kDADiskDescriptionVolumePathKey none s
          let s := DADiskSetState disk .kDADiskStateZombie true s
          ___CFArrayRemoveValue_gDADiskList disk s
    let s := DARequestDispatchCallback request (if status ≠ 0 then unix_err status else status) s
    let s := DAUnitSetState disk .kDAUnitStateCommandActive false s
    let s := DADiskSetState disk .kDADiskStateCommandActive false s
    let s := DAStageSignal s
    let s := CFRelease request s
    some s

/-- The callback `__DARequestUnmountApprovalCallback` (lines 1336-1359). -/
def __DARequestUnmountApprovalCallback (response : Option DADissenter)
    (request : DARequestRef) (s : DAState) : Option DAState :=
  let s := if DARequestGetUserUID s request ≠ 0 then DARequestSetDissenter request response s
           else s
  let s :=
    match response with
    | some dissenter =>
      if DADissenterGetStatus dissenter = 0xF8DAFF01 then
        DARequestSetDissenter request response s
      else s
    | none => s
  match DARequestGetDisk s request with
  | none => none
  | some disk =>
    let s := DADiskSetState disk .kDADiskStateCommandActive false s
    let s := DAStageSignal s
    let s := CFRelease request s
    some s

/-- The callback `__DARequestUnmountAuthorizationCallback` (lines 1361-1381). -/
def __DARequestUnmountAuthorizationCallback (status : DAReturn) (request : DARequestRef)
    (s : DAState) : Option DAState :=
  let s := if status ≠ 0 then
             let dissenter := DADissenterCreate status
             DARequestSetDissenter request (some dissenter) s
           else s
  match DARequestGetDisk s request with
  | none => none
  | some disk =>
    let s := DADiskSetState disk .kDADiskStateCommandActive false s
    let s := DAStageSignal s
    let s := CFRelease request s
    some s

/-- The tail of `__DARequestUnmount` (lines 1216-1259): completion with a
dissenter that is still recorded, else the unmount itself. -/
def __DARequestUnmount_commence (request : DARequestRef) (disk : DADiskRef) (s : DAState) :
    Bool × DAState :=
  if (DARequestGetDissenter s request).isSome then
    let dissenter := DARequestGetDissenter s request
    let s := __DARequestDispatchCallback request dissenter s
    let s := DAStageSignal s
    (true, s)
  else if DAUnitGetState s disk .kDAUnitStateCommandActive = false then
    let options := DARequestGetArgument1 s request
    let s := CFRetain request s
    let s := DADiskSetState disk .kDADiskStateCommandActive true s
    let s := DAUnitSetState disk .kDAUnitStateCommandActive true s
    let s := s.emit (DAEvent.DAFileSystemUnmountWithArguments (DADiskGetFileSystem s disk)
      (DADiskGetDescription s disk .kDADiskDescriptionVolumePathKey)
      DARequestCallback.__DARequestUnmountCallback request
      (if options &&& kDADiskUnmountOptionForce ≠ 0 then
         some kDAFileSystemUnmountArgumentForce
       else none))
    (true, s)
  else
    (false, s)

/-- The value of `status` after the checks of `__DARequestUnmount` before
the approval (lines 1131-1149): is the disk mountable, is it mounted. -/
def __DARequestUnmount_status (disk : DADiskRef) (s : DAState) : DAReturn :=
  let status := kDAReturnSuccess
  let status :=
    if DADiskGetDescription s disk .kDADiskDescriptionVolumeMountableKey
        = some kCFBooleanFalse then
      kDAReturnUnsupported
    else status
  let status :=
    if DADiskGetDescription s disk .kDADiskDescriptionVolumePathKey = none then
      kDAReturnNotMounted
    else status
  status

/-- The handler `__DARequestUnmount` (lines 1107-1260). -/
def __DARequestUnmount (request : DARequestRef) (s : DAState) : Option (Bool × DAState) :=
  match DARequestGetDisk s request with
  | none => none
  | some disk =>
    if (DARequestGetLink s request).isSome
        ∧ DAUnitGetState s disk .kDAUnitStateCommandActive = true then
      some (false, s)
    else if DARequestGetState s request kDARequestStateStagedApprove = false then
      let status := __DARequestUnmount_status disk s
      if status ≠ 0 then
        let s := DARequestDispatchCallback request status s
        let s := DAStageSignal s
        some (true, s)
      else
        let s := CFRetain request s
        let s := DADiskSetState disk .kDADiskStateCommandActive true s
        let s := DARequestSetState request kDARequestStateStagedApprove true s
        let s := s.emit (DAEvent.DADiskUnmountApprovalCallback disk
          DARequestCallback.__DARequestUnmountApprovalCallback request)
        some (false, s)
    else if DARequestGetState s request _kDARequestStateStagedAuthorize = false then
      let status := kDAReturnSuccess
      let r : DAReturn × DAState :=
        match DARequestGetDissenter s request with
        | some dissenter =>
          if DADissenterGetStatus dissenter = 0xF8DAFF01 then
            (kDAReturnNotPrivileged, DARequestSetDissenter request none s)
          else (status, s)
        | none => (status, s)
      let status := r.1
      let s := r.2
      if status ≠ 0 then
        let s := CFRetain request s
        let s := DADiskSetState disk .kDADiskStateCommandActive true s
        let s := DARequestSetState request _kDARequestStateStagedAuthorize true s
        let s := __DARequestAuthorize request
          DARequestCallback.__DARequestUnmountAuthorizationCallback request
          DAAuthorizeRight._kDAAuthorizeRightUnmount s
        some (false, s)
      else
        let s := DARequestSetState request _kDARequestStateStagedAuthorize true s
        some (__DARequestUnmount_commence request disk s)
    else
      some (__DARequestUnmount_commence request disk s)

/-! ## The dispatcher -/

/-- The entry point `DARequestDispatch` (lines 1416-1479); `none` as the
request is the NULL request. -/
def DARequestDispatch (env : DAEnv) (request : Option DARequestRef) (s : DAState) :
    Option (Bool × DAState) :=
  let dispatch := false
  match request with
  | none => some (dispatch, s)
  | some request =>
    match DARequestGetDisk s request with
    | none => some (dispatch, s)
    | some disk =>
      if DADiskGetState s disk .kDADiskStateCommandActive = false then
        if DADiskGetState s disk .kDADiskStateStagedAppear then
          match DARequestGetKind s request with
          | ._kDADiskClaim => __DARequestClaim request s
          | ._kDADiskEject => __DARequestEject env request s
          | ._kDADiskMount => __DARequestMount env request s
          | ._kDADiskRefresh => __DARequestRefresh env request s
          | ._kDADiskRename => __DARequestRename request s
          | ._kDADiskUnmount => __DARequestUnmount request s
        else some (dispatch, s)
      else some (dispatch, s)

/-! ## Vocabulary for the statements -/

/-- The external calls made between state `s` and a later state `t`. -/
def traceSince (s t : DAState) : List DAEvent :=
  t.trace.drop s.trace.length

/-- Events that queue the client callback (the completion of a request). -/
def DAEvent.isCompletion : DAEvent → Bool
  | DAEvent.DAQueueCallback _ _ _ => true
  | _ => false

/-- Events that start an asynchronous execute helper (mount, rename, unmount). -/
def DAEvent.isExecuteHelper : DAEvent → Bool
  | DAEvent.DAMountWithArguments _ _ _ _ _ => true
  | DAEvent.DAFileSystemRename _ _ _ _ _ => true
  | DAEvent.DAFileSystemUnmountWithArguments _ _ _ _ _ => true
  | _ => false

/-- Events of the execute stage: the helpers and the system calls of eject. -/
def DAEvent.isExecute : DAEvent → Bool
  | DAEvent.DAMountWithArguments _ _ _ _ _ => true
  | DAEvent.DAFileSystemRename _ _ _ _ _ => true
  | DAEvent.DAFileSystemUnmountWithArguments _ _ _ _ _ => true
  | DAEvent.sys_open _ => true
  | DAEvent.sys_ioctl_DKIOCEJECT _ => true
  | DAEvent.sys_close _ => true
  | _ => false

/-- Events that submit an authorization request. -/
def DAEvent.isAuthorize : DAEvent → Bool
  | DAEvent.DAAuthorizeWithCallback _ _ _ _ _ _ _ => true
  | _ => false

/-- Events that submit an approval round-trip. -/
def DAEvent.isApproval : DAEvent → Bool
  | DAEvent.DADiskClaimReleaseCallback _ _ _ _ => true
  | DAEvent.DADiskEjectApprovalCallback _ _ _ => true
  | DAEvent.DADiskMountApprovalCallback _ _ _ => true
  | DAEvent.DADiskUnmountApprovalCallback _ _ _ => true
  | _ => false

/-- The three sentinel statuses of the observer protocol. -/
def isSentinel (status : DAReturn) : Bool :=
  status = 0xF8DAFF01 || status = 0xF8DAFF02 || status = 0xF8DAFF03

/-! ## Concrete objects for the worked instances -/

/-- A client callback of session 7. -/
def exampleCallback : DACallback :=
  { session := some 7, address := 4096, context := 0, kind := _DACallbackKind.client 1 }

/-- A mounted, mountable whole-media disk on unit 0 that has appeared. -/
def exampleDisk : DADisk :=
  { mediaPath := some (CFType.string "IODeviceTree:/disk1"),
    mediaWhole := some (CFType.boolean true),
    volumeMountable := some (CFType.boolean true),
    volumeName := some (CFType.string "Untitled"),
    volumePath := some (CFType.url "file://localhost/Volumes/Untitled/"),
    commandActive := false, requireRepair := false, stagedProbe := true,
    stagedAppear := true, zombie := false, mountPreferenceNoWrite := false,
    claim := none, bypath := none, bsdPath := some "/dev/rdisk1",
    fileSystem := some 1, unit := 0 }

/-- An idle unit. -/
def exampleUnit : DAUnit :=
  { commandActive := false, ejected := false }

/-- A request of user 501 on disk 0 with a client callback. -/
def exampleRequest (kind : _DARequestKind) (state : Nat) : DARequest :=
  { kind := kind, disk := some 0, argument1 := 0, argument2 := none, argument3 := none,
    userGID := 20, userUID := 501, callback := some exampleCallback, dissenter := none,
    link := none, state := state, retainCount := 1 }

/-- A state in which every request reference holds `request`, every disk is
`disk` and every unit is `unit`. -/
def exampleState (request : DARequest) (disk : DADisk) (unit : DAUnit) : DAState :=
  { requests := fun _ => request, disks := fun _ => disk, units := fun _ => unit,
    gDADiskList := [0], trace := [] }

/-- An environment in which `open` answers descriptor 3, `DKIOCEJECT`
fails with errno 16 (EBUSY), and the refresh succeeds. -/
def exampleEnv : DAEnv :=
  { sys_open := fun _ => { value := 3, errno := 0 },
    sys_ioctl := fun _ => { value := minusOne, errno := 16 },
    indeterminate := 0,
    _DADiskRefresh := fun _ => 0,
    DAMountContainsArgument := fun arguments argument =>
      decide (arguments = CFType.string argument),
    DAMountCreateMountPointWithAction := fun _ _ => none }

/-- A leader (request 0) without a dissenter whose link is [1, 2], where
request 1 has no dissenter and request 2 has the dissenter Busy. -/
def exampleLinkState : DAState :=
  { requests := fun r =>
      if r = 0 then { exampleRequest ._kDADiskEject 0 with link := some [1, 2] }
      else if r = 2 then
        { exampleRequest ._kDADiskUnmount 0 with
          dissenter := some (DADissenterCreate kDAReturnBusy) }
      else exampleRequest ._kDADiskUnmount 0,
    disks := fun _ => exampleDisk, units := fun _ => exampleUnit,
    gDADiskList := [0], trace := [] }

/-- The approval callback that the handler of an eject, mount or unmount
request hands to its approval call (lines 300, 628, 1167); the other kinds
are not covered. -/
def approvalCallback (kind : _DARequestKind) (response : Option DADissenter)
    (request : DARequestRef) (s : DAState) : Option DAState :=
  match kind with
  | ._kDADiskEject => __DARequestEjectApprovalCallback response request s
  | ._kDADiskMount => __DARequestMountApprovalCallback response request s
  | ._kDADiskUnmount => __DARequestUnmountApprovalCallback response request s
  | _ => none

/-- The authorization callback that the handler of an eject, mount or
unmount request hands to `__DARequestAuthorize` (lines 338, 671, 1205). -/
def authorizationCallback (kind : _DARequestKind) (status : DAReturn)
    (request : DARequestRef) (s : DAState) : Option DAState :=
  match kind with
  | ._kDADiskEject => __DARequestEjectAuthorizationCallback status request s
  | ._kDADiskMount => __DARequestMountAuthorizationCallback status request s
  | ._kDADiskUnmount => __DARequestUnmountAuthorizationCallback status request s
  | _ => none

/-- The kinds that go through approval, authorization and execute. -/
def isStagedKind (kind : _DARequestKind) : Bool :=
  match kind with
  | ._kDADiskEject => true
  | ._kDADiskMount => true
  | ._kDADiskUnmount => true
  | _ => false

/-- The events `__DARequestDispatchCallback` adds to the trace: the queued
client callback, or nothing when the request has no client callback. -/
def completionOf (request : DARequestRef) (dissenter : Option DADissenter) (s : DAState) :
    List DAEvent :=
  traceSince s (__DARequestDispatchCallback request dissenter s)

/-- Events that settle a dispatch: the completion of the request or the
start of an asynchronous execute helper. -/
def DAEvent.isOutcome (e : DAEvent) : Bool :=
  e.isCompletion || e.isExecuteHelper

/-- The events the system calls of eject add to the trace. -/
def ejectSyscalls (env : DAEnv) (disk : DADiskRef) (s : DAState) : List DAEvent :=
  traceSince s (__DARequestEject_ioctl env disk s).2

/-- What one dispatch of `request` from state `s` that answered `b` in
state `t` did: the trace grew by `traceSince s t`; when the answer is FALSE
no completion was queued and no execute helper was started; when the request
has a client callback and the answer is TRUE, one of the two happened. -/
def DispatchOutcome (s : DAState) (request : DARequestRef) (b : Bool) (t : DAState) : Prop :=
  t.trace = s.trace ++ traceSince s t
  ∧ (b = false → (traceSince s t).any DAEvent.isOutcome = false)
  ∧ ((s.requests request).callback ≠ none → b = true →
      (traceSince s t).any DAEvent.isOutcome = true)

/-- A mount request past approval and authorization, with a client callback,
on a mounted disk whose unit is idle. -/
def exampleMountState : DAState :=
  exampleState (exampleRequest ._kDADiskMount 0x00300000) exampleDisk exampleUnit

/-- The approval of the request is under way: the request is an eject, mount
or unmount request of `disk`, the disk has appeared, StagedApprove is set and
StagedAuthorize is not, and a mount request is past its probe stage. -/
def ApprovalPending (s : DAState) (request : DARequestRef) (disk : DADiskRef) : Prop :=
  isStagedKind (DARequestGetKind s request) = true
  ∧ DARequestGetDisk s request = some disk
  ∧ DADiskGetState s disk .kDADiskStateStagedAppear = true
  ∧ DARequestGetState s request kDARequestStateStagedApprove = true
  ∧ DARequestGetState s request _kDARequestStateStagedAuthorize = false
  ∧ (DARequestGetKind s request = ._kDADiskMount →
      (DARequestGetState s request kDARequestStateStagedProbe = true →
        DADiskGetState s disk .kDADiskStateStagedProbe = true)
      ∧ (DARequestGetState s request kDARequestStateStagedProbe = false →
        DADiskGetDescription s disk .kDADiskDescriptionVolumePathKey ≠ none))

/-- The gate at the head of `__DARequestMount` and `__DARequestUnmount`
(lines 511-517, 1115-1121): a request with a link yields while the unit of its
disk is CommandActive. -/
def YieldsToUnit (s : DAState) (request : DARequestRef) (disk : DADiskRef) : Prop :=
  (DARequestGetKind s request = ._kDADiskMount ∨ DARequestGetKind s request = ._kDADiskUnmount)
  ∧ DARequestGetLink s request ≠ none
  ∧ DAUnitGetState s disk .kDAUnitStateCommandActive = true

/-- The external calls of a dispatch that completes a request: the queued
client callback, when the request has one, then the stage signal. -/
def completionTrace (callback : Option DACallback) (disk : Option DADiskRef)
    (dissenter : Option DADissenter) : List DAEvent :=
  match callback with
  | some callback => [DAEvent.DAQueueCallback callback disk dissenter, DAEvent.DAStageSignal]
  | none => [DAEvent.DAStageSignal]


/-- The right the handler of each kind asks for (lines 338, 671, 1205). -/
def authorizeRightOf (kind : _DARequestKind) : DAAuthorizeRight :=
  match kind with
  | ._kDADiskMount => DAAuthorizeRight._kDAAuthorizeRightMount
  | _ => DAAuthorizeRight._kDAAuthorizeRightUnmount

/-- The authorization callback the handler of each kind hands over
(lines 338, 671, 1205). -/
def authorizationCallbackOf (kind : _DARequestKind) : DARequestCallback :=
  match kind with
  | ._kDADiskEject => DARequestCallback.__DARequestEjectAuthorizationCallback
  | ._kDADiskMount => DARequestCallback.__DARequestMountAuthorizationCallback
  | _ => DARequestCallback.__DARequestUnmountAuthorizationCallback

/-- A vetoing dissenter with a reason, as an approval observer supplies it. -/
def exampleVeto : DADissenter :=
  { status := kDAReturnBusy, string := some "in use" }

/-- The sentinel dissenter 0xF8DAFF01, "requires authorization". -/
def exampleSentinel : DADissenter :=
  { status := 0xF8DAFF01, string := none }

/-- A request of the given kind whose approval is under way: StagedApprove
is set and its disk is CommandActive. -/
def examplePendingState (kind : _DARequestKind) : DAState :=
  exampleState (exampleRequest kind 0x00100000) { exampleDisk with commandActive := true }
    exampleUnit

/-- A linked request of the given kind whose approval is under way, while
the unit of its disk is CommandActive and latched Ejected. -/
def exampleLinkedBusyState (kind : _DARequestKind) : DAState :=
  exampleState { exampleRequest kind 0x00100000 with link := some [1] }
    { exampleDisk with commandActive := true } { commandActive := true, ejected := true }

/-- The authorization of the request is under way or over: the request is an
eject, mount or unmount request of `disk`, the disk has appeared, StagedApprove
and StagedAuthorize are set, the sentinel dissenter has been cleared (no
dissenter is recorded), and a mount request is past its probe stage. -/
def AuthorizationPending (s : DAState) (request : DARequestRef) (disk : DADiskRef) : Prop :=
  isStagedKind (DARequestGetKind s request) = true
  ∧ DARequestGetDisk s request = some disk
  ∧ DADiskGetState s disk .kDADiskStateStagedAppear = true
  ∧ DARequestGetState s request kDARequestStateStagedApprove = true
  ∧ DARequestGetState s request _kDARequestStateStagedAuthorize = true
  ∧ DARequestGetDissenter s request = none
  ∧ (DARequestGetKind s request = ._kDADiskMount →
      (DARequestGetState s request kDARequestStateStagedProbe = true →
        DADiskGetState s disk .kDADiskStateStagedProbe = true)
      ∧ (DARequestGetState s request kDARequestStateStagedProbe = false →
        DADiskGetDescription s disk .kDADiskDescriptionVolumePathKey ≠ none))

/-- A request of the given kind whose authorization is under way:
StagedApprove and StagedAuthorize are set, no dissenter is recorded, and its
disk is CommandActive. -/
def exampleAuthorizingState (kind : _DARequestKind) : DAState :=
  exampleState (exampleRequest kind 0x00300000) { exampleDisk with commandActive := true }
    exampleUnit

/-- An eject request (request 0) with a client callback that is past
approval and authorization, has no dissenter, and is linked to the unmount
request 1, which has no dissenter either. -/
def exampleLinkedEjectState : DAState :=
  { requests := fun r =>
      if r = 0 then { exampleRequest ._kDADiskEject 0x00300000 with link := some [1] }
      else exampleRequest ._kDADiskUnmount 0,
    disks := fun _ => exampleDisk, units := fun _ => exampleUnit,
    gDADiskList := [0], trace := [] }

/-- The sentinel dissenter 0xF8DAFF02, "mount read-only instead". -/
def exampleReadOnly : DADissenter :=
  { status := 0xF8DAFF02, string := none }

/-- A mount request (request 0) with a client callback whose approval is under
way, linked to the unmount request 1, which has the dissenter Busy; the unit
is idle. -/
def exampleLinkedMountState : DAState :=
  { requests := fun r =>
      if r = 0 then { exampleRequest ._kDADiskMount 0x00100000 with link := some [1] }
      else { exampleRequest ._kDADiskUnmount 0 with
             dissenter := some (DADissenterCreate kDAReturnBusy) },
    disks := fun _ => { exampleDisk with commandActive := true },
    units := fun _ => exampleUnit, gDADiskList := [0], trace := [] }

/-- The sentinel dissenter 0xF8DAFF03, "mount read-only and authorize". -/
def exampleReadOnlyAuthorize : DADissenter :=
  { status := 0xF8DAFF03, string := none }

/-- A fresh eject request of user 501 on a disk that is not whole media. -/
def examplePartitionState : DAState :=
  exampleState (exampleRequest ._kDADiskEject 0)
    { exampleDisk with mediaWhole := some kCFBooleanFalse } exampleUnit

/-- An eject request of user 501 past approval and authorization, without a
dissenter, on an idle unit that is not latched Ejected. -/
def exampleEjectState : DAState :=
  exampleState (exampleRequest ._kDADiskEject 0x00300000) exampleDisk exampleUnit

/-- An environment in which `open` answers descriptor 3 and `DKIOCEJECT`
fails with errno ENOTTY. -/
def exampleEnvNoEject : DAEnv :=
  { exampleEnv with sys_ioctl := fun _ => { value := minusOne, errno := ENOTTY } }

/-- The request is a mount request of `disk` whose dispatch reaches the
approval stage of `__DARequestMount` (line 552) with StagedApprove unset: the
disk passes the gates of the dispatcher, the request does not yield to a
CommandActive unit (lines 511-517), and it passes the probe (lines 523-546). -/
def MountApproveStage (s : DAState) (request : DARequestRef) (disk : DADiskRef) : Prop :=
  DARequestGetKind s request = ._kDADiskMount
  ∧ DARequestGetDisk s request = some disk
  ∧ DADiskGetState s disk .kDADiskStateCommandActive = false
  ∧ DADiskGetState s disk .kDADiskStateStagedAppear = true
  ∧ ¬ YieldsToUnit s request disk
  ∧ (DARequestGetState s request kDARequestStateStagedProbe = true →
      DADiskGetState s disk .kDADiskStateStagedProbe = true)
  ∧ (DARequestGetState s request kDARequestStateStagedProbe = false →
      DADiskGetDescription s disk .kDADiskDescriptionVolumePathKey ≠ none)
  ∧ DARequestGetState s request kDARequestStateStagedApprove = false

/-- A fresh mount request of user 501 on a disk that is not mountable and not
mounted. -/
def exampleUnmountableState : DAState :=
  exampleState (exampleRequest ._kDADiskMount 0)
    { exampleDisk with volumeMountable := some kCFBooleanFalse, volumePath := none } exampleUnit

/-- The same request after the probe: StagedProbe is set on the request and
on the disk. -/
def exampleUnmountableProbedState : DAState :=
  exampleState (exampleRequest ._kDADiskMount 0x00010000)
    { exampleDisk with volumeMountable := some kCFBooleanFalse, volumePath := none } exampleUnit

/-- A fresh mount request of user 501, without arguments, on a disk that is
not mountable and yet has a VolumePath. -/
def exampleUnmountableMountedState : DAState :=
  exampleState (exampleRequest ._kDADiskMount 0)
    { exampleDisk with volumeMountable := some kCFBooleanFalse } exampleUnit

/-- A probed mount request of user 501 on a disk that is not mountable, not
mounted, and requires repair. -/
def exampleUnmountableDirtyState : DAState :=
  exampleState (exampleRequest ._kDADiskMount 0x00010000)
    { exampleDisk with volumeMountable := some kCFBooleanFalse, volumePath := none,
                       requireRepair := true } exampleUnit

/-- A probed mount request of user 501 with a link, on a disk that is not
mountable and not mounted; no request has a dissenter. -/
def exampleUnmountableLinkedState : DAState :=
  exampleState { exampleRequest ._kDADiskMount 0x00010000 with link := some [1] }
    { exampleDisk with volumeMountable := some kCFBooleanFalse, volumePath := none } exampleUnit

/-- Modelled from the spec: the function `DAMountContainsArgument` of
`DAMount.c`, on an argument string that spells a single argument: the string
contains that argument and no other one, so "-u" and the canonical update
token are each found only in the string that spells them. -/
def DAMountContainsArgument (arguments : CFType) (argument : String) : Bool :=
  decide (arguments = CFType.string argument)

/-- A probed mount request of user 501 with a link, on a disk that requires
repair; no request has a dissenter. -/
def exampleDirtyLinkedState : DAState :=
  exampleState { exampleRequest ._kDADiskMount 0x00010000 with link := some [1] }
    { exampleDisk with requireRepair := true } exampleUnit

/-- The request is an unmount request of `disk` whose dispatch reaches the
approval stage of `__DARequestUnmount` (line 1127) with StagedApprove unset:
the disk passes the gates of the dispatcher and the request does not yield to
a CommandActive unit (lines 1115-1121). -/
def UnmountApproveStage (s : DAState) (request : DARequestRef) (disk : DADiskRef) : Prop :=
  DARequestGetKind s request = ._kDADiskUnmount
  ∧ DARequestGetDisk s request = some disk
  ∧ DADiskGetState s disk .kDADiskStateCommandActive = false
  ∧ DADiskGetState s disk .kDADiskStateStagedAppear = true
  ∧ ¬ YieldsToUnit s request disk
  ∧ DARequestGetState s request kDARequestStateStagedApprove = false

/-- A fresh unmount request of user 501 on a disk that is neither mountable
nor mounted. -/
def exampleNotMountedState : DAState :=
  exampleState (exampleRequest ._kDADiskUnmount 0)
    { exampleDisk with volumeMountable := some kCFBooleanFalse, volumePath := none } exampleUnit

/-- An unmount request of user 501 past approval and authorization, without a
dissenter, whose arg1 has the Force bit and bit 0 set; the unit is idle. -/
def exampleForceState : DAState :=
  exampleState { exampleRequest ._kDADiskUnmount 0x00300000 with argument1 := 0x00080001 }
    exampleDisk exampleUnit

/-- An unmount request of user 501 whose helper is running, on a mounted disk
whose media is gone (no MediaPath); the disk and its unit are CommandActive. -/
def exampleMediaGoneState : DAState :=
  exampleState (exampleRequest ._kDADiskUnmount 0x00300000)
    { exampleDisk with mediaPath := none, commandActive := true }
    { commandActive := true, ejected := false }

/-- A rename request of user 501 to the name "Data" on the mounted disk of an
idle unit. -/
def exampleRenameState : DAState :=
  exampleState { exampleRequest ._kDADiskRename 0 with argument2 := some (CFType.string "Data") }
    exampleDisk exampleUnit

/-- A rename request of user 501 to the name "Data" whose helper is running:
the disk, named "Untitled", and its unit are CommandActive. -/
def exampleRenamingState : DAState :=
  exampleState { exampleRequest ._kDADiskRename 0 with argument2 := some (CFType.string "Data") }
    { exampleDisk with commandActive := true } { commandActive := true, ejected := false }

/-- An environment in which the mount point is moved to /Volumes/Data. -/
def exampleMoveEnv : DAEnv :=
  { exampleEnv with
    DAMountCreateMountPointWithAction := fun _ _ =>
      some (CFType.url "file://localhost/Volumes/Data/") }

/-- A claim owner whose session is gone: the callback has a null address. -/
def exampleDeadOwner : DACallback :=
  { session := some 9, address := 0, context := 0,
    kind := _DACallbackKind._kDADiskClaimReleaseCallback }

/-- A fresh claim request of user 501, with a link, on a disk whose claim
owner has a null address. -/
def exampleDeadOwnerState : DAState :=
  exampleState { exampleRequest ._kDADiskClaim 0 with link := some [1] }
    { exampleDisk with claim := some exampleDeadOwner } exampleUnit

/-- A live claim owner of session 9. -/
def exampleOwner : DACallback :=
  { session := some 9, address := 8192, context := 5,
    kind := _DACallbackKind._kDADiskClaimReleaseCallback }

/-- A claim request of user 501 with address 12288 and context 7 whose
ClaimRelease approval is under way, on a disk owned by `exampleOwner`. -/
def exampleClaimingState : DAState :=
  exampleState { exampleRequest ._kDADiskClaim 0x00100000 with
      argument2 := some (CFType.number 12288), argument3 := some (CFType.number 7) }
    { exampleDisk with claim := some exampleOwner, commandActive := true } exampleUnit

/-! ## The ways through the handlers -/

/-- The ways through `__DARequestClaim` (lines 113-217) from state `s`, each
with the answer and the state it leaves: the ClaimRelease hook of a live owner
is invoked; an owner with a null address is answered for with NotPermitted; a
disk without owner is released at once; a recorded dissenter completes the
request; else the claim is replaced (by `callback`, when the client callback
of the request has a session) and the request completed. -/
inductive ClaimPath (request : DARequestRef) (disk : DADiskRef) (s : DAState) :
    Bool → DAState → Prop
  | release (owner : DACallback) :
      DARequestGetState s request kDARequestStateStagedApprove = false →
      DADiskGetClaim s disk = some owner → DACallbackGetAddress owner ≠ 0 →
      ClaimPath request disk s false
        ((DARequestSetState request kDARequestStateStagedApprove true
          (DADiskSetState disk .kDADiskStateCommandActive true (CFRetain request s))).emit
          (DAEvent.DADiskClaimReleaseCallback disk owner
            DARequestCallback.__DARequestClaimReleaseCallback request))
  | refuse (owner : DACallback) :
      DARequestGetState s request kDARequestStateStagedApprove = false →
      DADiskGetClaim s disk = some owner → DACallbackGetAddress owner = 0 →
      ClaimPath request disk s false
        (CFRelease request (DAStageSignal
          (DADiskSetState disk .kDADiskStateCommandActive false
            (DARequestSetDissenter request (some (DADissenterCreate kDAReturnNotPermitted))
              (DARequestSetState request kDARequestStateStagedApprove true
                (DADiskSetState disk .kDADiskStateCommandActive true
                  (CFRetain request s)))))))
  | free :
      DARequestGetState s request kDARequestStateStagedApprove = false →
      DADiskGetClaim s disk = none →
      ClaimPath request disk s false
        (CFRelease request (DAStageSignal
          (DADiskSetState disk .kDADiskStateCommandActive false
            (DARequestSetDissenter request none
              (DARequestSetState request kDARequestStateStagedApprove true
                (DADiskSetState disk .kDADiskStateCommandActive true
                  (CFRetain request s)))))))
  | dissent (d : DADissenter) :
      DARequestGetState s request kDARequestStateStagedApprove = true →
      DARequestGetDissenter s request = some d →
      ClaimPath request disk s true
        (DAStageSignal (__DARequestDispatchCallback request (some d) s))
  | claim (callback : Option DACallback) :
      DARequestGetState s request kDARequestStateStagedApprove = true →
      DARequestGetDissenter s request = none →
      ClaimPath request disk s true
        (CFRelease request (DAStageSignal
          (DADiskSetState disk .kDADiskStateCommandActive false
            (DARequestDispatchCallback request 0
              (match callback with
               | some callback =>
                 DADiskSetClaim disk (some callback)
                   (DADiskSetClaim disk none
                     (DADiskSetState disk .kDADiskStateCommandActive true
                       (CFRetain request s)))
               | none =>
                 DADiskSetClaim disk none
                   (DADiskSetState disk .kDADiskStateCommandActive true
                     (CFRetain request s)))))))

/-- The ways through the tail of `__DARequestEject` (lines 349-411) from the
state `s` in which it is entered: a recorded dissenter completes the request;
else the eject runs when the unit is not CommandActive; else the request
yields. -/
inductive EjectCommencePath (env : DAEnv) (request : DARequestRef) (disk : DADiskRef)
    (s : DAState) : Bool → DAState → Prop
  | dissent (d : DADissenter) :
      DARequestGetDissenter s request = some d →
      EjectCommencePath env request disk s true
        (DAStageSignal (__DARequestDispatchCallback request (some d) s))
  | eject :
      DARequestGetDissenter s request = none →
      DAUnitGetState s disk .kDAUnitStateCommandActive = false →
      EjectCommencePath env request disk s true
        (CFRelease request (DAStageSignal
          (DADiskSetState disk .kDADiskStateCommandActive false
            (DAUnitSetState disk .kDAUnitStateCommandActive false
              (DARequestDispatchCallback request
                (if (__DARequestEject_ioctl env disk
                      (DAUnitSetState disk .kDAUnitStateCommandActive true
                        (DADiskSetState disk .kDADiskStateCommandActive true
                          (CFRetain request s)))).1 ≠ 0 then
                   unix_err (__DARequestEject_ioctl env disk
                      (DAUnitSetState disk .kDAUnitStateCommandActive true
                        (DADiskSetState disk .kDADiskStateCommandActive true
                          (CFRetain request s)))).1
                 else (__DARequestEject_ioctl env disk
                      (DAUnitSetState disk .kDAUnitStateCommandActive true
                        (DADiskSetState disk .kDADiskStateCommandActive true
                          (CFRetain request s)))).1)
                (__DARequestEject_ioctl env disk
                  (DAUnitSetState disk .kDAUnitStateCommandActive true
                    (DADiskSetState disk .kDADiskStateCommandActive true
                      (CFRetain request s)))).2)))))
  | yield :
      DARequestGetDissenter s request = none →
      DAUnitGetState s disk .kDAUnitStateCommandActive = true →
      EjectCommencePath env request disk s false s

/-- The ways through `__DARequestEject` (lines 252-412) from state `s`: the
disk is not ejectable; the approval is submitted; the sentinel 0xF8DAFF01 is
turned into an authorization request; else the tail is entered, after
StagedAuthorize is set when it was not. -/
inductive EjectPath (env : DAEnv) (request : DARequestRef) (disk : DADiskRef) (s : DAState) :
    Bool → DAState → Prop
  | refuse :
      DARequestGetState s request kDARequestStateStagedApprove = false →
      __DARequestEject_status disk s ≠ 0 →
      EjectPath env request disk s true
        (DAStageSignal (DARequestDispatchCallback request (__DARequestEject_status disk s) s))
  | approve :
      DARequestGetState s request kDARequestStateStagedApprove = false →
      __DARequestEject_status disk s = 0 →
      EjectPath env request disk s false
        ((DARequestSetState request kDARequestStateStagedApprove true
          (DADiskSetState disk .kDADiskStateCommandActive true (CFRetain request s))).emit
          (DAEvent.DADiskEjectApprovalCallback disk
            DARequestCallback.__DARequestEjectApprovalCallback request))
  | authorize (d : DADissenter) :
      DARequestGetState s request kDARequestStateStagedApprove = true →
      DARequestGetState s request _kDARequestStateStagedAuthorize = false →
      DARequestGetDissenter s request = some d → DADissenterGetStatus d = 0xF8DAFF01 →
      EjectPath env request disk s false
        (__DARequestAuthorize request DARequestCallback.__DARequestEjectAuthorizationCallback
          request DAAuthorizeRight._kDAAuthorizeRightUnmount
          (DARequestSetState request _kDARequestStateStagedAuthorize true
            (DADiskSetState disk .kDADiskStateCommandActive true
              (CFRetain request (DARequestSetDissenter request none s)))))
  | commenceFirst (b : Bool) (t : DAState) :
      DARequestGetState s request kDARequestStateStagedApprove = true →
      DARequestGetState s request _kDARequestStateStagedAuthorize = false →
      (∀ d, DARequestGetDissenter s request = some d → DADissenterGetStatus d ≠ 0xF8DAFF01) →
      EjectCommencePath env request disk
        (DARequestSetState request _kDARequestStateStagedAuthorize true s) b t →
      EjectPath env request disk s b t
  | commence (b : Bool) (t : DAState) :
      DARequestGetState s request kDARequestStateStagedApprove = true →
      DARequestGetState s request _kDARequestStateStagedAuthorize = true →
      EjectCommencePath env request disk s b t →
      EjectPath env request disk s b t

/-- The ways through the tail of `__DARequestMount` (lines 683-753) from the
state `s` in which it is entered: a dissenter other than the sentinels
0xF8DAFF02 and 0xF8DAFF03 completes the request; else, after such a sentinel
was turned into MountPreferenceNoWrite, the mount starts when the unit is not
CommandActive, and the request yields when it is. -/
inductive MountCommencePath (request : DARequestRef) (disk : DADiskRef) (s : DAState) :
    Bool → DAState → Prop
  | dissent (d : DADissenter) :
      DARequestGetDissenter s request = some d →
      DADissenterGetStatus d ≠ 0xF8DAFF02 → DADissenterGetStatus d ≠ 0xF8DAFF03 →
      MountCommencePath request disk s true
        (DAStageSignal (__DARequestDispatchCallback request (some d) s))
  | mount :
      DARequestGetDissenter s request = none →
      DAUnitGetState s disk .kDAUnitStateCommandActive = false →
      MountCommencePath request disk s true
        ((DAUnitSetState disk .kDAUnitStateCommandActive true
          (DADiskSetState disk .kDADiskStateCommandActive true (CFRetain request s))).emit
          (DAEvent.DAMountWithArguments disk
            ((DARequestGetArgument2 s request).bind CFURLCreateWithString)
            DARequestCallback.__DARequestMountCallback request
            (DARequestGetArgument3 s request)))
  | yield :
      DARequestGetDissenter s request = none →
      DAUnitGetState s disk .kDAUnitStateCommandActive = true →
      MountCommencePath request disk s false s
  | mountReadOnly (d : DADissenter) :
      DARequestGetDissenter s request = some d →
      (DADissenterGetStatus d = 0xF8DAFF02 ∨ DADissenterGetStatus d = 0xF8DAFF03) →
      DAUnitGetState s disk .kDAUnitStateCommandActive = false →
      MountCommencePath request disk s true
        ((DAUnitSetState disk .kDAUnitStateCommandActive true
          (DADiskSetState disk .kDADiskStateCommandActive true
            (CFRetain request
              (DARequestSetDissenter request none
                (DADiskSetState disk ._kDADiskStateMountPreferenceNoWrite true s))))).emit
          (DAEvent.DAMountWithArguments disk
            ((DARequestGetArgument2 s request).bind CFURLCreateWithString)
            DARequestCallback.__DARequestMountCallback request
            (DARequestGetArgument3 s request)))
  | yieldReadOnly (d : DADissenter) :
      DARequestGetDissenter s request = some d →
      (DADissenterGetStatus d = 0xF8DAFF02 ∨ DADissenterGetStatus d = 0xF8DAFF03) →
      DAUnitGetState s disk .kDAUnitStateCommandActive = true →
      MountCommencePath request disk s false
        (DARequestSetDissenter request none
          (DADiskSetState disk ._kDADiskStateMountPreferenceNoWrite true s))

/-- The ways through `__DARequestMount` from its approval stage on (lines
552-753), entered in state `s`: the disk requires repair; another check
fails; the approval is submitted; the sentinel 0xF8DAFF01 or 0xF8DAFF03 is
turned into an authorization request; else the tail is entered, after
StagedAuthorize is set when it was not. -/
inductive MountApprovePath (env : DAEnv) (request : DARequestRef) (disk : DADiskRef)
    (s : DAState) : Bool → DAState → Prop
  | repair :
      DARequestGetState s request kDARequestStateStagedApprove = false →
      DADiskGetState s disk .kDADiskStateRequireRepair = true →
      MountApprovePath env request disk s true
        (DAStageSignal (DARequestDispatchCallback request kDAReturnNotReady
          (DARequestSetDissenter request (some (DADissenterCreate kDAReturnNotReady)) s)))
  | refuse :
      DARequestGetState s request kDARequestStateStagedApprove = false →
      DADiskGetState s disk .kDADiskStateRequireRepair = false →
      __DARequestMount_status env request disk s ≠ 0 →
      MountApprovePath env request disk s true
        (DAStageSignal (DARequestDispatchCallback request
          (__DARequestMount_status env request disk s) s))
  | approve :
      DARequestGetState s request kDARequestStateStagedApprove = false →
      DADiskGetState s disk .kDADiskStateRequireRepair = false →
      __DARequestMount_status env request disk s = 0 →
      MountApprovePath env request disk s false
        ((DARequestSetState request kDARequestStateStagedApprove true
          (DADiskSetState disk .kDADiskStateCommandActive true (CFRetain request s))).emit
          (DAEvent.DADiskMountApprovalCallback disk
            DARequestCallback.__DARequestMountApprovalCallback request))
  | authorize (d : DADissenter) :
      DARequestGetState s request kDARequestStateStagedApprove = true →
      DARequestGetState s request _kDARequestStateStagedAuthorize = false →
      DARequestGetDissenter s request = some d → DADissenterGetStatus d = 0xF8DAFF01 →
      MountApprovePath env request disk s false
        (__DARequestAuthorize request DARequestCallback.__DARequestMountAuthorizationCallback
          request DAAuthorizeRight._kDAAuthorizeRightMount
          (DARequestSetState request _kDARequestStateStagedAuthorize true
            (DADiskSetState disk .kDADiskStateCommandActive true
              (CFRetain request (DARequestSetDissenter request none s)))))
  | authorizeReadOnly (d : DADissenter) :
      DARequestGetState s request kDARequestStateStagedApprove = true →
      DARequestGetState s request _kDARequestStateStagedAuthorize = false →
      DARequestGetDissenter s request = some d → DADissenterGetStatus d = 0xF8DAFF03 →
      MountApprovePath env request disk s false
        (__DARequestAuthorize request DARequestCallback.__DARequestMountAuthorizationCallback
          request DAAuthorizeRight._kDAAuthorizeRightMount
          (DARequestSetState request _kDARequestStateStagedAuthorize true
            (DADiskSetState disk .kDADiskStateCommandActive true (CFRetain request s))))
  | commenceFirst (b : Bool) (t : DAState) :
      DARequestGetState s request kDARequestStateStagedApprove = true →
      DARequestGetState s request _kDARequestStateStagedAuthorize = false →
      (∀ d, DARequestGetDissenter s request = some d →
        DADissenterGetStatus d ≠ 0xF8DAFF01 ∧ DADissenterGetStatus d ≠ 0xF8DAFF03) →
      MountCommencePath request disk
        (DARequestSetState request _kDARequestStateStagedAuthorize true s) b t →
      MountApprovePath env request disk s b t
  | commence (b : Bool) (t : DAState) :
      DARequestGetState s request kDARequestStateStagedApprove = true →
      DARequestGetState s request _kDARequestStateStagedAuthorize = true →
      MountCommencePath request disk s b t →
      MountApprovePath env request disk s b t

/-- The ways through `__DARequestMount` (lines 501-753) from state `s`, all
after the Ejected latch of the unit was cleared: a request with a link yields
to a CommandActive unit; the disk is handed to the probe; the probe is awaited;
else the approval stage is entered. -/
inductive MountPath (env : DAEnv) (request : DARequestRef) (disk : DADiskRef) (s : DAState) :
    Bool → DAState → Prop
  | yield :
      DARequestGetLink s request ≠ none →
      DAUnitGetState s disk .kDAUnitStateCommandActive = true →
      MountPath env request disk s false (DAUnitSetState disk .kDAUnitStateEjected false s)
  | handOff :
      (DARequestGetLink s request = none
        ∨ DAUnitGetState s disk .kDAUnitStateCommandActive = false) →
      DARequestGetState s request kDARequestStateStagedProbe = false →
      DADiskGetDescription s disk .kDADiskDescriptionVolumePathKey = none →
      MountPath env request disk s false
        (DAStageSignal (DADiskSetState disk .kDADiskStateStagedProbe false
          (DARequestSetState request kDARequestStateStagedProbe true
            (DAUnitSetState disk .kDAUnitStateEjected false s))))
  | wait :
      (DARequestGetLink s request = none
        ∨ DAUnitGetState s disk .kDAUnitStateCommandActive = false) →
      DARequestGetState s request kDARequestStateStagedProbe = true →
      DADiskGetState s disk .kDADiskStateStagedProbe = false →
      MountPath env request disk s false (DAUnitSetState disk .kDAUnitStateEjected false s)
  | approve (b : Bool) (t : DAState) :
      (DARequestGetLink s request = none
        ∨ DAUnitGetState s disk .kDAUnitStateCommandActive = false) →
      ((DARequestGetState s request kDARequestStateStagedProbe = false
          ∧ DADiskGetDescription s disk .kDADiskDescriptionVolumePathKey ≠ none)
        ∨ (DARequestGetState s request kDARequestStateStagedProbe = true
          ∧ DADiskGetState s disk .kDADiskStateStagedProbe = true)) →
      MountApprovePath env request disk (DAUnitSetState disk .kDAUnitStateEjected false s) b t →
      MountPath env request disk s b t

/-- The ways through `__DARequestRefresh` (lines 868-913) from state `s`: the
disk is not mountable; else the refresh runs and the request is completed. -/
inductive RefreshPath (env : DAEnv) (request : DARequestRef) (disk : DADiskRef)
    (s : DAState) : Bool → DAState → Prop
  | refuse :
      __DARequestRefresh_status disk s ≠ 0 →
      RefreshPath env request disk s true
        (DAStageSignal (DARequestDispatchCallback request (__DARequestRefresh_status disk s) s))
  | refresh :
      __DARequestRefresh_status disk s = 0 →
      RefreshPath env request disk s true
        (CFRelease request (DAStageSignal
          (DADiskSetState disk .kDADiskStateCommandActive false
            (DARequestDispatchCallback request
              (if env._DADiskRefresh disk ≠ 0 then unix_err ENOTSUP else 0)
              ((DADiskSetState disk .kDADiskStateCommandActive true
                (CFRetain request s)).emit (DAEvent._DADiskRefresh disk))))))

/-- The ways through `__DARequestRename` (lines 931-1007) from state `s`: the
request yields to a CommandActive unit; a check fails; else the rename
starts. -/
inductive RenamePath (request : DARequestRef) (disk : DADiskRef) (s : DAState) :
    Bool → DAState → Prop
  | yield :
      DAUnitGetState s disk .kDAUnitStateCommandActive = true →
      RenamePath request disk s false s
  | refuse :
      DAUnitGetState s disk .kDAUnitStateCommandActive = false →
      __DARequestRename_status request disk s ≠ 0 →
      RenamePath request disk s true
        (DAStageSignal (DARequestDispatchCallback request
          (__DARequestRename_status request disk s) s))
  | rename :
      DAUnitGetState s disk .kDAUnitStateCommandActive = false →
      __DARequestRename_status request disk s = 0 →
      RenamePath request disk s true
        ((DAUnitSetState disk .kDAUnitStateCommandActive true
          (DADiskSetState disk .kDADiskStateCommandActive true (CFRetain request s))).emit
          (DAEvent.DAFileSystemRename (DADiskGetFileSystem s disk)
            (DADiskGetDescription s disk .kDADiskDescriptionVolumePathKey)
            (DARequestGetArgument2 s request)
            DARequestCallback.__DARequestRenameCallback request))

/-- The ways through the tail of `__DARequestUnmount` (lines 1216-1259) from
the state `s` in which it is entered: a recorded dissenter completes the
request; else the unmount starts when the unit is not CommandActive; else the
request yields. -/
inductive UnmountCommencePath (request : DARequestRef) (disk : DADiskRef) (s : DAState) :
    Bool → DAState → Prop
  | dissent (d : DADissenter) :
      DARequestGetDissenter s request = some d →
      UnmountCommencePath request disk s true
        (DAStageSignal (__DARequestDispatchCallback request (some d) s))
  | unmount :
      DARequestGetDissenter s request = none →
      DAUnitGetState s disk .kDAUnitStateCommandActive = false →
      UnmountCommencePath request disk s true
        ((DAUnitSetState disk .kDAUnitStateCommandActive true
          (DADiskSetState disk .kDADiskStateCommandActive true (CFRetain request s))).emit
          (DAEvent.DAFileSystemUnmountWithArguments (DADiskGetFileSystem s disk)
            (DADiskGetDescription s disk .kDADiskDescriptionVolumePathKey)
            DARequestCallback.__DARequestUnmountCallback request
            (if DARequestGetArgument1 s request &&& kDADiskUnmountOptionForce ≠ 0 then
               some kDAFileSystemUnmountArgumentForce
             else none)))
  | yield :
      DARequestGetDissenter s request = none →
      DAUnitGetState s disk .kDAUnitStateCommandActive = true →
      UnmountCommencePath request disk s false s

/-- The ways through `__DARequestUnmount` (lines 1107-1260) from state `s`: a
request with a link yields to a CommandActive unit; a check fails; the approval
is submitted; the sentinel 0xF8DAFF01 is turned into an authorization request;
else the tail is entered, after StagedAuthorize is set when it was not. -/
inductive UnmountPath (request : DARequestRef) (disk : DADiskRef) (s : DAState) :
    Bool → DAState → Prop
  | yield :
      DARequestGetLink s request ≠ none →
      DAUnitGetState s disk .kDAUnitStateCommandActive = true →
      UnmountPath request disk s false s
  | refuse :
      (DARequestGetLink s request = none
        ∨ DAUnitGetState s disk .kDAUnitStateCommandActive = false) →
      DARequestGetState s request kDARequestStateStagedApprove = false →
      __DARequestUnmount_status disk s ≠ 0 →
      UnmountPath request disk s true
        (DAStageSignal (DARequestDispatchCallback request (__DARequestUnmount_status disk s) s))
  | approve :
      (DARequestGetLink s request = none
        ∨ DAUnitGetState s disk .kDAUnitStateCommandActive = false) →
      DARequestGetState s request kDARequestStateStagedApprove = false →
      __DARequestUnmount_status disk s = 0 →
      UnmountPath request disk s false
        ((DARequestSetState request kDARequestStateStagedApprove true
          (DADiskSetState disk .kDADiskStateCommandActive true (CFRetain request s))).emit
          (DAEvent.DADiskUnmountApprovalCallback disk
            DARequestCallback.__DARequestUnmountApprovalCallback request))
  | authorize (d : DADissenter) :
      (DARequestGetLink s request = none
        ∨ DAUnitGetState s disk .kDAUnitStateCommandActive = false) →
      DARequestGetState s request kDARequestStateStagedApprove = true →
      DARequestGetState s request _kDARequestStateStagedAuthorize = false →
      DARequestGetDissenter s request = some d → DADissenterGetStatus d = 0xF8DAFF01 →
      UnmountPath request disk s false
        (__DARequestAuthorize request
          DARequestCallback.__DARequestUnmountAuthorizationCallback
          request DAAuthorizeRight._kDAAuthorizeRightUnmount
          (DARequestSetState request _kDARequestStateStagedAuthorize true
            (DADiskSetState disk .kDADiskStateCommandActive true
              (CFRetain request (DARequestSetDissenter request none s)))))
  | commenceFirst (b : Bool) (t : DAState) :
      (DARequestGetLink s request = none
        ∨ DAUnitGetState s disk .kDAUnitStateCommandActive = false) →
      DARequestGetState s request kDARequestStateStagedApprove = true →
      DARequestGetState s request _kDARequestStateStagedAuthorize = false →
      (∀ d, DARequestGetDissenter s request = some d → DADissenterGetStatus d ≠ 0xF8DAFF01) →
      UnmountCommencePath request disk
        (DARequestSetState request _kDARequestStateStagedAuthorize true s) b t →
      UnmountPath request disk s b t
  | commence (b : Bool) (t : DAState) :
      (DARequestGetLink s request = none
        ∨ DAUnitGetState s disk .kDAUnitStateCommandActive = false) →
      DARequestGetState s request kDARequestStateStagedApprove = true →
      DARequestGetState s request _kDARequestStateStagedAuthorize = true →
      UnmountCommencePath request disk s b t →
      UnmountPath request disk s b t

/-- The ways through `DARequestDispatch` (lines 1416-1479) for a request that
is not NULL, from state `s`: the request has no disk, the disk is
CommandActive, or the disk has not appeared, and nothing is done; else the
handler of the kind of the request runs. -/
inductive DispatchPath (env : DAEnv) (request : DARequestRef) (s : DAState) :
    Bool → DAState → Prop
  | noDisk :
      DARequestGetDisk s request = none → DispatchPath env request s false s
  | busy (disk : DADiskRef) :
      DARequestGetDisk s request = some disk →
      DADiskGetState s disk .kDADiskStateCommandActive = true →
      DispatchPath env request s false s
  | unseen (disk : DADiskRef) :
      DARequestGetDisk s request = some disk →
      DADiskGetState s disk .kDADiskStateCommandActive = false →
      DADiskGetState s disk .kDADiskStateStagedAppear = false →
      DispatchPath env request s false s
  | claim (disk : DADiskRef) (b : Bool) (t : DAState) :
      DARequestGetDisk s request = some disk →
      DADiskGetState s disk .kDADiskStateCommandActive = false →
      DADiskGetState s disk .kDADiskStateStagedAppear = true →
      DARequestGetKind s request = ._kDADiskClaim →
      ClaimPath request disk s b t → DispatchPath env request s b t
  | eject (disk : DADiskRef) (b : Bool) (t : DAState) :
      DARequestGetDisk s request = some disk →
      DADiskGetState s disk .kDADiskStateCommandActive = false →
      DADiskGetState s disk .kDADiskStateStagedAppear = true →
      DARequestGetKind s request = ._kDADiskEject →
      EjectPath env request disk s b t → DispatchPath env request s b t
  | mount (disk : DADiskRef) (b : Bool) (t : DAState) :
      DARequestGetDisk s request = some disk →
      DADiskGetState s disk .kDADiskStateCommandActive = false →
      DADiskGetState s disk .kDADiskStateStagedAppear = true →
      DARequestGetKind s request = ._kDADiskMount →
      MountPath env request disk s b t → DispatchPath env request s b t
  | refresh (disk : DADiskRef) (b : Bool) (t : DAState) :
      DARequestGetDisk s request = some disk →
      DADiskGetState s disk .kDADiskStateCommandActive = false →
      DADiskGetState s disk .kDADiskStateStagedAppear = true →
      DARequestGetKind s request = ._kDADiskRefresh →
      RefreshPath env request disk s b t → DispatchPath env request s b t
  | rename (disk : DADiskRef) (b : Bool) (t : DAState) :
      DARequestGetDisk s request = some disk →
      DADiskGetState s disk .kDADiskStateCommandActive = false →
      DADiskGetState s disk .kDADiskStateStagedAppear = true →
      DARequestGetKind s request = ._kDADiskRename →
      RenamePath request disk s b t → DispatchPath env request s b t
  | unmount (disk : DADiskRef) (b : Bool) (t : DAState) :
      DARequestGetDisk s request = some disk →
      DADiskGetState s disk .kDADiskStateCommandActive = false →
      DADiskGetState s disk .kDADiskStateStagedAppear = true →
      DARequestGetKind s request = ._kDADiskUnmount →
      UnmountPath request disk s b t → DispatchPath env request s b t

/-! ## Steps and runs of the engine -/

/-- One step of the engine on `request` from state `s`: a `DARequestDispatch`
call for it, or one of the callbacks of this file, run with `request` as its
context: those that are handed to an external call (claim release, approval,
authorization, mount, rename and unmount helpers), and those that the handlers
call themselves (`__DARequestClaimCallback`, `__DARequestEjectCallback`,
`__DARequestRefreshCallback`), here also as steps of their own. -/
inductive DAStepOf (env : DAEnv) (request : DARequestRef) (s : DAState) : DAState → Prop
  | dispatch (b : Bool) (t : DAState) :
      DARequestDispatch env (some request) s = some (b, t) → DAStepOf env request s t
  | claimRelease (response : Option DADissenter) (t : DAState) :
      __DARequestClaimReleaseCallback response request s = some t → DAStepOf env request s t
  | ejectApproval (response : Option DADissenter) (t : DAState) :
      __DARequestEjectApprovalCallback response request s = some t → DAStepOf env request s t
  | ejectAuthorization (status : DAReturn) (t : DAState) :
      __DARequestEjectAuthorizationCallback status request s = some t →
      DAStepOf env request s t
  | mountApproval (response : Option DADissenter) (t : DAState) :
      __DARequestMountApprovalCallback response request s = some t → DAStepOf env request s t
  | mountAuthorization (status : DAReturn) (t : DAState) :
      __DARequestMountAuthorizationCallback status request s = some t →
      DAStepOf env request s t
  | mount (status : Nat) (mountpoint : Option CFType) (t : DAState) :
      __DARequestMountCallback status mountpoint request s = some t → DAStepOf env request s t
  | rename (status : Nat) (t : DAState) :
      __DARequestRenameCallback env status request s = some t → DAStepOf env request s t
  | unmountApproval (response : Option DADissenter) (t : DAState) :
      __DARequestUnmountApprovalCallback response request s = some t →
      DAStepOf env request s t
  | unmountAuthorization (status : DAReturn) (t : DAState) :
      __DARequestUnmountAuthorizationCallback status request s = some t →
      DAStepOf env request s t
  | unmount (status : Nat) (t : DAState) :
      __DARequestUnmountCallback status request s = some t → DAStepOf env request s t
  | claimed (status : Nat) (t : DAState) :
      __DARequestClaimCallback status request s = some t → DAStepOf env request s t
  | ejected (status : Nat) (t : DAState) :
      __DARequestEjectCallback status request s = some t → DAStepOf env request s t
  | refreshed (status : Nat) (t : DAState) :
      __DARequestRefreshCallback status request s = some t → DAStepOf env request s t

/-- One step of the engine from state `s`: a `DARequestDispatch` call with
NULL, or a step on some request. -/
inductive DAStep (env : DAEnv) (s : DAState) : DAState → Prop
  | null (b : Bool) (t : DAState) :
      DARequestDispatch env none s = some (b, t) → DAStep env s t
  | of (request : DARequestRef) (t : DAState) : DAStepOf env request s t → DAStep env s t

/-- The staging bits of a request. -/
def stagingBits : List DARequestState :=
  [kDARequestStateStagedProbe, kDARequestStateStagedApprove, _kDARequestStateStagedAuthorize]

/-- Events that submit an approval round-trip with `request` as the context
of the response. -/
def DAEvent.isApprovalOf (request : DARequestRef) : DAEvent → Bool
  | DAEvent.DADiskClaimReleaseCallback _ _ _ responseContext => responseContext = request
  | DAEvent.DADiskEjectApprovalCallback _ _ responseContext => responseContext = request
  | DAEvent.DADiskMountApprovalCallback _ _ responseContext => responseContext = request
  | DAEvent.DADiskUnmountApprovalCallback _ _ responseContext => responseContext = request
  | _ => false

/-- Events that submit an authorization request with `request` as the context
of the callback. -/
def DAEvent.isAuthorizeOf (request : DARequestRef) : DAEvent → Bool
  | DAEvent.DAAuthorizeWithCallback _ _ _ _ _ callbackContext _ => callbackContext = request
  | _ => false

/-- The number 1 when the staging bit is set on the request, else 0. -/
def stagedCount (s : DAState) (request : DARequestRef) (state : DARequestState) : Nat :=
  if DARequestGetState s request state then 1 else 0

/-- What one step on `request` does to the staging bits of the request `r`:
the trace grows; the state word of `r` stays or gains one staging bit that was
unset; an approval or authorization is submitted for `r` only together with
the bit StagedApprove or StagedAuthorize being set where it was unset; and the
StagedProbe flag of a disk is touched only together with StagedProbe being set
on `request` where it was unset. -/
def StagingStep (s t : DAState) (request r : DARequestRef) : Prop :=
  t.trace = s.trace ++ traceSince s t
  ∧ ((t.requests r).state = (s.requests r).state
    ∨ ∃ bit ∈ stagingBits, DARequestGetState s r bit = false
        ∧ (t.requests r).state = (s.requests r).state ||| bit)
  ∧ (traceSince s t).countP (DAEvent.isApprovalOf r)
      + stagedCount s r kDARequestStateStagedApprove
    ≤ stagedCount t r kDARequestStateStagedApprove
  ∧ (traceSince s t).countP (DAEvent.isAuthorizeOf r)
      + stagedCount s r _kDARequestStateStagedAuthorize
    ≤ stagedCount t r _kDARequestStateStagedAuthorize
  ∧ ((∀ d, (t.disks d).stagedProbe = (s.disks d).stagedProbe)
    ∨ (DARequestGetState s request kDARequestStateStagedProbe = false
      ∧ DARequestGetState t request kDARequestStateStagedProbe = true))

/-- A step that submits neither approval nor authorization for the request
`r` and leaves its state word: the trace grows by other calls only. -/
def QuietStep (s t : DAState) (r : DARequestRef) : Prop :=
  t.trace = s.trace ++ traceSince s t
  ∧ (t.requests r).state = (s.requests r).state
  ∧ (traceSince s t).countP (DAEvent.isApprovalOf r) = 0
  ∧ (traceSince s t).countP (DAEvent.isAuthorizeOf r) = 0
  ∧ ∀ d, (t.disks d).stagedProbe = (s.disks d).stagedProbe

/-- A fresh eject request (request 0) with a client callback on the example
disk, whose unit is idle. -/
def exampleFreshEjectState : DAState :=
  exampleState (exampleRequest ._kDADiskEject 0) exampleDisk exampleUnit

/-- The state after the first dispatch of the fresh eject request: the
approval has been submitted. -/
def exampleApprovingState : DAState :=
  (DARequestSetState 0 kDARequestStateStagedApprove true
    (DADiskSetState 0 .kDADiskStateCommandActive true
      (CFRetain 0 exampleFreshEjectState))).emit
    (DAEvent.DADiskEjectApprovalCallback 0
      DARequestCallback.__DARequestEjectApprovalCallback 0)

/-- The state after the approval of the eject request came back without a
dissenter. -/
def exampleApprovedState : DAState :=
  CFRelease 0 (DAStageSignal
    (DADiskSetState 0 .kDADiskStateCommandActive false
      (DARequestSetDissenter 0 none exampleApprovingState)))

/-- A mount request (request 0) that was handed to the probe: StagedProbe is
set on the request, the disk has no VolumePath and its probe is not over, and
the unit is latched Ejected. -/
def exampleProbingState : DAState :=
  exampleState (exampleRequest ._kDADiskMount 0x00010000)
    { exampleDisk with volumePath := none, stagedProbe := false }
    { commandActive := false, ejected := true }

/-- What the tail of a handler, entered in state `s`, does about the execute
stage: with the unit CommandActive it starts nothing, leaves the CommandActive
flag of every unit and answers TRUE only to report a recorded dissenter; and a
helper is started only with the unit CommandActive afterwards. -/
def CommenceGated (s t : DAState) (request : DARequestRef) (disk : DADiskRef) (b : Bool) :
    Prop :=
  (DAUnitGetState s disk .kDAUnitStateCommandActive = true →
    (traceSince s t).any DAEvent.isExecute = false
    ∧ (∀ u, (t.units u).commandActive = (s.units u).commandActive)
    ∧ (b = true → (DARequestGetDissenter s request).isSome = true))
  ∧ ((traceSince s t).any DAEvent.isExecuteHelper = true →
    DAUnitGetState t disk .kDAUnitStateCommandActive = true)

/-- What a handler, entered in state `s`, does about the execute stage: with
the unit CommandActive it starts nothing, leaves the CommandActive flag of
every unit and answers TRUE only before StagedApprove is set or to report a
recorded dissenter; and a helper is started only with the unit CommandActive
afterwards. -/
def ExecuteGated (s t : DAState) (request : DARequestRef) (disk : DADiskRef) (b : Bool) :
    Prop :=
  (DAUnitGetState s disk .kDAUnitStateCommandActive = true →
    (traceSince s t).any DAEvent.isExecute = false
    ∧ (∀ u, (t.units u).commandActive = (s.units u).commandActive)
    ∧ (b = true → DARequestGetState s request kDARequestStateStagedApprove = false
        ∨ (DARequestGetDissenter s request).isSome = true))
  ∧ ((traceSince s t).any DAEvent.isExecuteHelper = true →
    DAUnitGetState t disk .kDAUnitStateCommandActive = true)

/-- Every unit that is CommandActive in `s` is CommandActive in `t`. -/
def BusyKept (s t : DAState) : Prop :=
  ∀ u, (s.units u).commandActive = true → (t.units u).commandActive = true

/-- A fresh unmount request of a disk without VolumePath whose unit is
CommandActive. -/
def exampleBusyUnitState : DAState :=
  exampleState (exampleRequest ._kDADiskUnmount 0) { exampleDisk with volumePath := none }
    { commandActive := true, ejected := false }

/-- The state after the dispatch of the mount request of `exampleMountState`:
the mount helper has been started. -/
def exampleMountingState : DAState :=
  (DAUnitSetState 0 .kDAUnitStateCommandActive true
    (DADiskSetState 0 .kDADiskStateCommandActive true
      (CFRetain 0 (DAUnitSetState 0 .kDAUnitStateEjected false exampleMountState)))).emit
    (DAEvent.DAMountWithArguments 0 none DARequestCallback.__DARequestMountCallback 0 none)

/-- What the tail of a handler, entered in state `s`, does about the order of
the stages: it submits no approval and requests no authorization; and when it starts the execute stage
it leaves the state word of the request, the request has no dissenter
afterwards, and a dissenter recorded on entry was one of the sentinels
0xF8DAFF02 and 0xF8DAFF03. -/
def CommenceOrder (s t : DAState) (request : DARequestRef) : Prop :=
  (traceSince s t).any DAEvent.isApproval = false
  ∧ (traceSince s t).any DAEvent.isAuthorize = false
  ∧ ((traceSince s t).any DAEvent.isExecute = true →
    (t.requests request).state = (s.requests request).state
    ∧ DARequestGetDissenter t request = none
    ∧ ∀ d, DARequestGetDissenter s request = some d →
        DADissenterGetStatus d = 0xF8DAFF02 ∨ DADissenterGetStatus d = 0xF8DAFF03)

/-- What a handler, entered in state `s`, does about the order of the stages:
an approval is submitted only with StagedApprove unset on entry, and
StagedApprove is set afterwards; an authorization is requested only with StagedApprove set and StagedAuthorize
unset on entry, and StagedAuthorize is set afterwards; the execute stage
starts only with StagedApprove set on entry, and then StagedAuthorize is set
and the request has no dissenter afterwards, and a dissenter recorded on entry
was one of the sentinels 0xF8DAFF02 and 0xF8DAFF03. -/
def StageOrder (s t : DAState) (request : DARequestRef) : Prop :=
  ((traceSince s t).any DAEvent.isApproval = true →
    DARequestGetState s request kDARequestStateStagedApprove = false
    ∧ DARequestGetState t request kDARequestStateStagedApprove = true)
  ∧ ((traceSince s t).any DAEvent.isAuthorize = true →
    DARequestGetState s request kDARequestStateStagedApprove = true
    ∧ DARequestGetState s request _kDARequestStateStagedAuthorize = false
    ∧ DARequestGetState t request _kDARequestStateStagedAuthorize = true)
  ∧ ((traceSince s t).any DAEvent.isExecute = true →
    DARequestGetState s request kDARequestStateStagedApprove = true
    ∧ DARequestGetState t request _kDARequestStateStagedAuthorize = true
    ∧ DARequestGetDissenter t request = none
    ∧ ∀ d, DARequestGetDissenter s request = some d →
        DADissenterGetStatus d = 0xF8DAFF02 ∨ DADissenterGetStatus d = 0xF8DAFF03)

/-- Where a request stands in a run: not yet answered TRUE; answered TRUE with
an execute helper started whose callback is outstanding; or settled. -/
inductive DAPhase where
  | pending
  | executing
  | finished
  deriving DecidableEq, Repr

/-- The runs of the engine from state `s0`, seen from `request`: the phase of
the request, the state reached, and the number of client callbacks that the
steps on `request` have queued. Steps on other requests interleave freely.
The request is dispatched only while no dispatch has returned TRUE for it; a
dispatch that returns TRUE either settles it or starts an execute helper,
whose callback is then delivered once; claim-release, approval and
authorization callbacks of the request may be delivered at any time. -/
inductive DARun (env : DAEnv) (request : DARequestRef) (s0 : DAState) :
    DAPhase → DAState → Nat → Prop
  | start : DARun env request s0 .pending s0 0
  | other (q : DARequestRef) (phase : DAPhase) (s t : DAState) (n : Nat) :
      DARun env request s0 phase s n → q ≠ request → DAStepOf env q s t →
      DARun env request s0 phase t n
  | yield (s t : DAState) (n : Nat) :
      DARun env request s0 .pending s n →
      DARequestDispatch env (some request) s = some (false, t) →
      DARun env request s0 .pending t (n + (traceSince s t).countP DAEvent.isCompletion)
  | settle (s t : DAState) (n : Nat) :
      DARun env request s0 .pending s n →
      DARequestDispatch env (some request) s = some (true, t) →
      (traceSince s t).any DAEvent.isExecuteHelper = false →
      DARun env request s0 .finished t (n + (traceSince s t).countP DAEvent.isCompletion)
  | execute (s t : DAState) (n : Nat) :
      DARun env request s0 .pending s n →
      DARequestDispatch env (some request) s = some (true, t) →
      (traceSince s t).any DAEvent.isExecuteHelper = true →
      DARun env request s0 .executing t (n + (traceSince s t).countP DAEvent.isCompletion)
  | respond (phase : DAPhase) (s t : DAState) (n : Nat) :
      DARun env request s0 phase s n →
      ((∃ response, __DARequestClaimReleaseCallback response request s = some t)
        ∨ (∃ response, approvalCallback (DARequestGetKind s request) response request s
            = some t)
        ∨ (∃ status, authorizationCallback (DARequestGetKind s request) status request s
            = some t)) →
      DARun env request s0 phase t (n + (traceSince s t).countP DAEvent.isCompletion)
  | executed (s t : DAState) (n : Nat) :
      DARun env request s0 .executing s n →
      ((∃ status mountpoint, __DARequestMountCallback status mountpoint request s = some t)
        ∨ (∃ status, __DARequestRenameCallback env status request s = some t)
        ∨ (∃ status, __DARequestUnmountCallback status request s = some t)) →
      DARun env request s0 .finished t (n + (traceSince s t).countP DAEvent.isCompletion)

/-- What one dispatch of `request` that answered `b` queued and started: every
client callback handle is kept; with FALSE nothing is queued and no helper is
started; with TRUE either the client callback is queued (once, when the
request has one) and no helper is started, or nothing is queued and one helper
is started. -/
def CompletionStep (s t : DAState) (request : DARequestRef) (b : Bool) : Prop :=
  (∀ r, (t.requests r).callback = (s.requests r).callback)
  ∧ (b = false → (traceSince s t).countP DAEvent.isCompletion = 0
      ∧ (traceSince s t).countP DAEvent.isExecuteHelper = 0)
  ∧ (b = true →
      ((traceSince s t).countP DAEvent.isCompletion
          = (if (DARequestGetCallback s request).isSome then 1 else 0)
        ∧ (traceSince s t).countP DAEvent.isExecuteHelper = 0)
      ∨ ((traceSince s t).countP DAEvent.isCompletion = 0
        ∧ (traceSince s t).countP DAEvent.isExecuteHelper = 1))

/-- The state after the mount helper started in `exampleMountingState`
reported success with a mount point: the state its callback leaves. -/
def exampleMountedState : DAState :=
  (__DARequestMountCallback 0 (some (CFType.url "file://localhost/Volumes/Untitled/")) 0
    exampleMountingState).getD exampleMountingState

/-- Every unit that is latched Ejected in `s` is latched Ejected in `t`. -/
def LatchKept (s t : DAState) : Prop :=
  ∀ u, (s.units u).ejected = true → (t.units u).ejected = true

/-- The Ejected latch of every unit is in `t` as it is in `s`. -/
def LatchSame (s t : DAState) : Prop :=
  ∀ u, (t.units u).ejected = (s.units u).ejected

/-- The Ejected latch of the unit of `disk` is cleared in `t`, and the latch
of every other unit is as it is in `s`. -/
def LatchCleared (s t : DAState) (disk : DADiskRef) : Prop :=
  ∀ u, (t.units u).ejected = if u = (s.disks disk).unit then false else (s.units u).ejected

/-- An eject request past approval and authorization, without dissenter, on
an idle unit that is already latched Ejected. -/
def exampleLatchedState : DAState :=
  exampleState (exampleRequest ._kDADiskEject 0x00300000) exampleDisk
    { commandActive := false, ejected := true }

/-- The state after the dispatch of the eject request of
`exampleLatchedState`. -/
def exampleLatchedDoneState : DAState :=
  ((DARequestDispatch exampleEnv (some 0) exampleLatchedState).map Prod.snd).getD
    exampleLatchedState

/-- A fresh mount request (request 0) with a link, on a disk without
VolumePath whose unit is CommandActive. -/
def exampleLinkedProbeState : DAState :=
  exampleState { exampleRequest ._kDADiskMount 0 with link := some [1] }
    { exampleDisk with volumePath := none } { commandActive := true, ejected := false }

/-- A fresh mount request (request 0) without a link, on a disk without
VolumePath whose unit is idle. -/
def exampleUnprobedState : DAState :=
  exampleState (exampleRequest ._kDADiskMount 0) { exampleDisk with volumePath := none }
    exampleUnit

/-- A rename request of user 501 to the name "Data" whose helper is running,
on the root-mounted disk (VolumePath file://localhost/), named "Untitled" and
without by-path; the disk and its unit are CommandActive. -/
def exampleRootRenamingState : DAState :=
  exampleState { exampleRequest ._kDADiskRename 0 with argument2 := some (CFType.string "Data") }
    { exampleDisk with volumePath := some (CFType.url "file://localhost/"),
                       commandActive := true }
    { commandActive := true, ejected := false }

/-- An environment in which `open` answers descriptor 3 and the automatic
variable that was never assigned happens to hold 5. -/
def exampleEnvIndeterminate : DAEnv :=
  { exampleEnv with indeterminate := 5 }

/-- What a handler, entered in state `s`, does about authorization: it submits
an authorization request only when a dissenter with the sentinel status
0xF8DAFF01, or with 0xF8DAFF03 when `readOnly` is true, is recorded on the
request on entry. -/
def AuthorizeOnSentinel (s t : DAState) (request : DARequestRef) (readOnly : Bool) : Prop :=
  (traceSince s t).any DAEvent.isAuthorize = true →
    ∃ d, DARequestGetDissenter s request = some d
      ∧ (DADissenterGetStatus d = 0xF8DAFF01
        ∨ (readOnly = true ∧ DADissenterGetStatus d = 0xF8DAFF03))

/-! ## Basic facts about the state operations -/

@[simp] theorem emit_requests (s : DAState) (e : DAEvent) : (s.emit e).requests = s.requests := rfl

@[simp] theorem emit_disks (s : DAState) (e : DAEvent) : (s.emit e).disks = s.disks := rfl

@[simp] theorem emit_units (s : DAState) (e : DAEvent) : (s.emit e).units = s.units := rfl

@[simp] theorem emit_gDADiskList (s : DAState) (e : DAEvent) :
    (s.emit e).gDADiskList = s.gDADiskList := rfl

@[simp] theorem emit_trace (s : DAState) (e : DAEvent) : (s.emit e).trace = s.trace ++ [e] := rfl

@[simp] theorem updateRequest_requests_same (s : DAState) (r : DARequestRef)
    (f : DARequest → DARequest) : (s.updateRequest r f).requests r = f (s.requests r) := by
  simp [DAState.updateRequest]

theorem updateRequest_requests (s : DAState) (r q : DARequestRef)
    (f : DARequest → DARequest) :
    (s.updateRequest r f).requests q = if q = r then f (s.requests q) else s.requests q := rfl

@[simp] theorem updateRequest_disks (s : DAState) (r : DARequestRef)
    (f : DARequest → DARequest) : (s.updateRequest r f).disks = s.disks := rfl

@[simp] theorem updateRequest_units (s : DAState) (r : DARequestRef)
    (f : DARequest → DARequest) : (s.updateRequest r f).units = s.units := rfl

@[simp] theorem updateRequest_gDADiskList (s : DAState) (r : DARequestRef)
    (f : DARequest → DARequest) : (s.updateRequest r f).gDADiskList = s.gDADiskList := rfl

@[simp] theorem updateRequest_trace (s : DAState) (r : DARequestRef)
    (f : DARequest → DARequest) : (s.updateRequest r f).trace = s.trace := rfl

@[simp] theorem updateDisk_requests (s : DAState) (d : DADiskRef) (f : DADisk → DADisk) :
    (s.updateDisk d f).requests = s.requests := rfl

@[simp] theorem updateDisk_disks_same (s : DAState) (d : DADiskRef) (f : DADisk → DADisk) :
    (s.updateDisk d f).disks d = f (s.disks d) := by
  simp [DAState.updateDisk]

theorem updateDisk_disks (s : DAState) (d e : DADiskRef) (f : DADisk → DADisk) :
    (s.updateDisk d f).disks e = if e = d then f (s.disks e) else s.disks e := rfl

@[simp] theorem updateDisk_units (s : DAState) (d : DADiskRef) (f : DADisk → DADisk) :
    (s.updateDisk d f).units = s.units := rfl

@[simp] theorem updateDisk_gDADiskList (s : DAState) (d : DADiskRef) (f : DADisk → DADisk) :
    (s.updateDisk d f).gDADiskList = s.gDADiskList := rfl

@[simp] theorem updateDisk_trace (s : DAState) (d : DADiskRef) (f : DADisk → DADisk) :
    (s.updateDisk d f).trace = s.trace := rfl

@[simp] theorem updateUnit_requests (s : DAState) (u : DAUnitRef) (f : DAUnit → DAUnit) :
    (s.updateUnit u f).requests = s.requests := rfl

@[simp] theorem updateUnit_disks (s : DAState) (u : DAUnitRef) (f : DAUnit → DAUnit) :
    (s.updateUnit u f).disks = s.disks := rfl

@[simp] theorem updateUnit_units_same (s : DAState) (u : DAUnitRef) (f : DAUnit → DAUnit) :
    (s.updateUnit u f).units u = f (s.units u) := by
  simp [DAState.updateUnit]

theorem updateUnit_units (s : DAState) (u v : DAUnitRef) (f : DAUnit → DAUnit) :
    (s.updateUnit u f).units v = if v = u then f (s.units v) else s.units v := rfl

@[simp] theorem updateUnit_gDADiskList (s : DAState) (u : DAUnitRef) (f : DAUnit → DAUnit) :
    (s.updateUnit u f).gDADiskList = s.gDADiskList := rfl

@[simp] theorem updateUnit_trace (s : DAState) (u : DAUnitRef) (f : DAUnit → DAUnit) :
    (s.updateUnit u f).trace = s.trace := rfl

/-! ## Projections of the state operations -/

attribute [simp] DARequestGetArgument1 DARequestGetArgument2 DARequestGetArgument3
  DARequestGetCallback DARequestGetDisk DARequestGetDissenter DARequestGetKind DARequestGetLink
  DARequestGetState DARequestGetUserGID DARequestGetUserUID
  DADiskGetDescription DADiskCompareDescription DADiskGetState DAUnitGetState DADiskGetClaim
  DADiskGetBSDPath DADiskGetFileSystem DACallbackGetAddress DACallbackGetSession
  DACallbackCreate DADissenterCreate DADissenterGetStatus
  kDARequestStateStagedProbe kDARequestStateStagedApprove _kDARequestStateStagedAuthorize
  kDAReturnSuccess kDAReturnBusy kDAReturnNotMounted kDAReturnNotPermitted
  kDAReturnNotPrivileged kDAReturnNotReady kDAReturnUnsupported traceSince

@[simp] theorem or_and_self_bit (x b : Nat) : (x ||| b) &&& b = b := by
  apply Nat.eq_of_testBit_eq
  intro i
  simp only [Nat.testBit_and, Nat.testBit_or]
  cases x.testBit i <;> cases b.testBit i <;> rfl

@[simp] theorem or_approve_and_authorize (x : Nat) :
    (x ||| 0x00100000) &&& 0x00200000 = x &&& 0x00200000 := by
  rw [Nat.and_distrib_right]; exact Nat.or_zero _

@[simp] theorem or_approve_and_probe (x : Nat) :
    (x ||| 0x00100000) &&& 0x00010000 = x &&& 0x00010000 := by
  rw [Nat.and_distrib_right]; exact Nat.or_zero _

@[simp] theorem or_authorize_and_approve (x : Nat) :
    (x ||| 0x00200000) &&& 0x00100000 = x &&& 0x00100000 := by
  rw [Nat.and_distrib_right]; exact Nat.or_zero _

@[simp] theorem or_authorize_and_probe (x : Nat) :
    (x ||| 0x00200000) &&& 0x00010000 = x &&& 0x00010000 := by
  rw [Nat.and_distrib_right]; exact Nat.or_zero _

@[simp] theorem or_probe_and_approve (x : Nat) :
    (x ||| 0x00010000) &&& 0x00100000 = x &&& 0x00100000 := by
  rw [Nat.and_distrib_right]; exact Nat.or_zero _

@[simp] theorem or_probe_and_authorize (x : Nat) :
    (x ||| 0x00010000) &&& 0x00200000 = x &&& 0x00200000 := by
  rw [Nat.and_distrib_right]; exact Nat.or_zero _

@[simp] theorem DAStageSignal_requests  (s : DAState) :
    (DAStageSignal s).requests = s.requests :=
  rfl

@[simp] theorem DAStageSignal_disks  (s : DAState) :
    (DAStageSignal s).disks = s.disks :=
  rfl

@[simp] theorem DAStageSignal_units  (s : DAState) :
    (DAStageSignal s).units = s.units :=
  rfl

@[simp] theorem DAStageSignal_gDADiskList  (s : DAState) :
    (DAStageSignal s).gDADiskList = s.gDADiskList :=
  rfl

@[simp] theorem DAStageSignal_trace  (s : DAState) :
    (DAStageSignal s).trace = s.trace ++ [DAEvent.DAStageSignal] :=
  rfl

@[simp] theorem DAQueueCallback_requests (callback : DACallback) (disk : Option DADiskRef)
    (dissenter : Option DADissenter) (s : DAState) :
    (DAQueueCallback callback disk dissenter s).requests = s.requests :=
  rfl

@[simp] theorem DAQueueCallback_disks (callback : DACallback) (disk : Option DADiskRef)
    (dissenter : Option DADissenter) (s : DAState) :
    (DAQueueCallback callback disk dissenter s).disks = s.disks :=
  rfl

@[simp] theorem DAQueueCallback_units (callback : DACallback) (disk : Option DADiskRef)
    (dissenter : Option DADissenter) (s : DAState) :
    (DAQueueCallback callback disk dissenter s).units = s.units :=
  rfl

@[simp] theorem DAQueueCallback_gDADiskList (callback : DACallback) (disk : Option DADiskRef)
    (dissenter : Option DADissenter) (s : DAState) :
    (DAQueueCallback callback disk dissenter s).gDADiskList = s.gDADiskList :=
  rfl

@[simp] theorem DAQueueCallback_trace (callback : DACallback) (disk : Option DADiskRef)
    (dissenter : Option DADissenter) (s : DAState) :
    (DAQueueCallback callback disk dissenter s).trace
      = s.trace ++ [DAEvent.DAQueueCallback callback disk dissenter] :=
  rfl

@[simp] theorem DARequestAuthorize_requests (request : DARequestRef)
    (callback : DARequestCallback) (context : DARequestRef) (right : DAAuthorizeRight)
    (s : DAState) :
    (__DARequestAuthorize request callback context right s).requests = s.requests :=
  rfl

@[simp] theorem DARequestAuthorize_disks (request : DARequestRef) (callback : DARequestCallback)
    (context : DARequestRef) (right : DAAuthorizeRight) (s : DAState) :
    (__DARequestAuthorize request callback context right s).disks = s.disks :=
  rfl

@[simp] theorem DARequestAuthorize_units (request : DARequestRef) (callback : DARequestCallback)
    (context : DARequestRef) (right : DAAuthorizeRight) (s : DAState) :
    (__DARequestAuthorize request callback context right s).units = s.units :=
  rfl

@[simp] theorem DARequestAuthorize_gDADiskList (request : DARequestRef)
    (callback : DARequestCallback) (context : DARequestRef) (right : DAAuthorizeRight)
    (s : DAState) :
    (__DARequestAuthorize request callback context right s).gDADiskList = s.gDADiskList :=
  rfl

@[simp] theorem DARequestAuthorize_trace (request : DARequestRef) (callback : DARequestCallback)
    (context : DARequestRef) (right : DAAuthorizeRight) (s : DAState) :
    (__DARequestAuthorize request callback context right s).trace
      = s.trace ++ [DAEvent.DAAuthorizeWithCallback
          [DAAuthorizeOption.kDAAuthorizeOptionForce,
            DAAuthorizeOption.kDAAuthorizeOptionInteract]
          (s.requests request).disk (s.requests request).userUID
          (s.requests request).userGID callback context right] :=
  rfl

@[simp] theorem DADiskSetState_requests (disk : DADiskRef) (state : DADiskState) (value : Bool)
    (s : DAState) :
    (DADiskSetState disk state value s).requests = s.requests :=
  rfl

@[simp] theorem DADiskSetState_units (disk : DADiskRef) (state : DADiskState) (value : Bool)
    (s : DAState) :
    (DADiskSetState disk state value s).units = s.units :=
  rfl

@[simp] theorem DADiskSetState_gDADiskList (disk : DADiskRef) (state : DADiskState) (value : Bool)
    (s : DAState) :
    (DADiskSetState disk state value s).gDADiskList = s.gDADiskList :=
  rfl

@[simp] theorem DADiskSetState_trace (disk : DADiskRef) (state : DADiskState) (value : Bool)
    (s : DAState) :
    (DADiskSetState disk state value s).trace = s.trace :=
  rfl

@[simp] theorem DADiskSetDescription_requests (disk : DADiskRef) (key : DADiskDescriptionKey)
    (value : Option CFType) (s : DAState) :
    (DADiskSetDescription disk key value s).requests = s.requests :=
  rfl

@[simp] theorem DADiskSetDescription_units (disk : DADiskRef) (key : DADiskDescriptionKey)
    (value : Option CFType) (s : DAState) :
    (DADiskSetDescription disk key value s).units = s.units :=
  rfl

@[simp] theorem DADiskSetDescription_gDADiskList (disk : DADiskRef) (key : DADiskDescriptionKey)
    (value : Option CFType) (s : DAState) :
    (DADiskSetDescription disk key value s).gDADiskList = s.gDADiskList :=
  rfl

@[simp] theorem DADiskSetDescription_trace (disk : DADiskRef) (key : DADiskDescriptionKey)
    (value : Option CFType) (s : DAState) :
    (DADiskSetDescription disk key value s).trace = s.trace :=
  rfl

@[simp] theorem DADiskSetClaim_requests (disk : DADiskRef) (claim : Option DACallback)
    (s : DAState) :
    (DADiskSetClaim disk claim s).requests = s.requests :=
  rfl

@[simp] theorem DADiskSetClaim_units (disk : DADiskRef) (claim : Option DACallback) (s : DAState) :
    (DADiskSetClaim disk claim s).units = s.units :=
  rfl

@[simp] theorem DADiskSetClaim_gDADiskList (disk : DADiskRef) (claim : Option DACallback)
    (s : DAState) :
    (DADiskSetClaim disk claim s).gDADiskList = s.gDADiskList :=
  rfl

@[simp] theorem DADiskSetClaim_trace (disk : DADiskRef) (claim : Option DACallback) (s : DAState) :
    (DADiskSetClaim disk claim s).trace = s.trace :=
  rfl

@[simp] theorem DADiskSetBypath_requests (disk : DADiskRef) (bypath : Option CFType) (s : DAState) :
    (DADiskSetBypath disk bypath s).requests = s.requests :=
  rfl

@[simp] theorem DADiskSetBypath_units (disk : DADiskRef) (bypath : Option CFType) (s : DAState) :
    (DADiskSetBypath disk bypath s).units = s.units :=
  rfl

@[simp] theorem DADiskSetBypath_gDADiskList (disk : DADiskRef) (bypath : Option CFType)
    (s : DAState) :
    (DADiskSetBypath disk bypath s).gDADiskList = s.gDADiskList :=
  rfl

@[simp] theorem DADiskSetBypath_trace (disk : DADiskRef) (bypath : Option CFType) (s : DAState) :
    (DADiskSetBypath disk bypath s).trace = s.trace :=
  rfl

@[simp] theorem DAUnitSetState_requests (disk : DADiskRef) (state : DAUnitState) (value : Bool)
    (s : DAState) :
    (DAUnitSetState disk state value s).requests = s.requests :=
  rfl

@[simp] theorem DAUnitSetState_disks (disk : DADiskRef) (state : DAUnitState) (value : Bool)
    (s : DAState) :
    (DAUnitSetState disk state value s).disks = s.disks :=
  rfl

@[simp] theorem DAUnitSetState_gDADiskList (disk : DADiskRef) (state : DAUnitState) (value : Bool)
    (s : DAState) :
    (DAUnitSetState disk state value s).gDADiskList = s.gDADiskList :=
  rfl

@[simp] theorem DAUnitSetState_trace (disk : DADiskRef) (state : DAUnitState) (value : Bool)
    (s : DAState) :
    (DAUnitSetState disk state value s).trace = s.trace :=
  rfl

@[simp] theorem CFArrayRemoveValue_gDADiskList_requests (disk : DADiskRef) (s : DAState) :
    (___CFArrayRemoveValue_gDADiskList disk s).requests = s.requests :=
  rfl

@[simp] theorem CFArrayRemoveValue_gDADiskList_disks (disk : DADiskRef) (s : DAState) :
    (___CFArrayRemoveValue_gDADiskList disk s).disks = s.disks :=
  rfl

@[simp] theorem CFArrayRemoveValue_gDADiskList_units (disk : DADiskRef) (s : DAState) :
    (___CFArrayRemoveValue_gDADiskList disk s).units = s.units :=
  rfl

@[simp] theorem CFArrayRemoveValue_gDADiskList_trace (disk : DADiskRef) (s : DAState) :
    (___CFArrayRemoveValue_gDADiskList disk s).trace = s.trace :=
  rfl

@[simp] theorem CFRetain_disks (request : DARequestRef) (s : DAState) :
    (CFRetain request s).disks = s.disks :=
  rfl

@[simp] theorem CFRetain_units (request : DARequestRef) (s : DAState) :
    (CFRetain request s).units = s.units :=
  rfl

@[simp] theorem CFRetain_gDADiskList (request : DARequestRef) (s : DAState) :
    (CFRetain request s).gDADiskList = s.gDADiskList :=
  rfl

@[simp] theorem CFRetain_trace (request : DARequestRef) (s : DAState) :
    (CFRetain request s).trace = s.trace :=
  rfl

@[simp] theorem CFRelease_disks (request : DARequestRef) (s : DAState) :
    (CFRelease request s).disks = s.disks :=
  rfl

@[simp] theorem CFRelease_units (request : DARequestRef) (s : DAState) :
    (CFRelease request s).units = s.units :=
  rfl

@[simp] theorem CFRelease_gDADiskList (request : DARequestRef) (s : DAState) :
    (CFRelease request s).gDADiskList = s.gDADiskList :=
  rfl

@[simp] theorem CFRelease_trace (request : DARequestRef) (s : DAState) :
    (CFRelease request s).trace = s.trace :=
  rfl

@[simp] theorem DARequestSetDissenter_disks (request : DARequestRef)
    (dissenter : Option DADissenter) (s : DAState) :
    (DARequestSetDissenter request dissenter s).disks = s.disks :=
  rfl

@[simp] theorem DARequestSetDissenter_units (request : DARequestRef)
    (dissenter : Option DADissenter) (s : DAState) :
    (DARequestSetDissenter request dissenter s).units = s.units :=
  rfl

@[simp] theorem DARequestSetDissenter_gDADiskList (request : DARequestRef)
    (dissenter : Option DADissenter) (s : DAState) :
    (DARequestSetDissenter request dissenter s).gDADiskList = s.gDADiskList :=
  rfl

@[simp] theorem DARequestSetDissenter_trace (request : DARequestRef)
    (dissenter : Option DADissenter) (s : DAState) :
    (DARequestSetDissenter request dissenter s).trace = s.trace :=
  rfl

@[simp] theorem DARequestSetState_disks (request : DARequestRef) (state : DARequestState)
    (value : Bool) (s : DAState) :
    (DARequestSetState request state value s).disks = s.disks :=
  rfl

@[simp] theorem DARequestSetState_units (request : DARequestRef) (state : DARequestState)
    (value : Bool) (s : DAState) :
    (DARequestSetState request state value s).units = s.units :=
  rfl

@[simp] theorem DARequestSetState_gDADiskList (request : DARequestRef) (state : DARequestState)
    (value : Bool) (s : DAState) :
    (DARequestSetState request state value s).gDADiskList = s.gDADiskList :=
  rfl

@[simp] theorem DARequestSetState_trace (request : DARequestRef) (state : DARequestState)
    (value : Bool) (s : DAState) :
    (DARequestSetState request state value s).trace = s.trace :=
  rfl

@[simp] theorem CFRetain_requests_same (request : DARequestRef) (s : DAState) :
    (CFRetain request s).requests request
      = { s.requests request with retainCount := (s.requests request).retainCount + 1 } := by
  simp [CFRetain]

theorem CFRetain_requests_other (request : DARequestRef) (s : DAState) (other : DARequestRef)
    (h : other ≠ request) : (CFRetain request s).requests other = s.requests other := by
  simp [CFRetain, updateRequest_requests, h]

@[simp] theorem CFRelease_requests_same (request : DARequestRef) (s : DAState) :
    (CFRelease request s).requests request
      = { s.requests request with retainCount := (s.requests request).retainCount - 1 } := by
  simp [CFRelease]

theorem CFRelease_requests_other (request : DARequestRef) (s : DAState) (other : DARequestRef)
    (h : other ≠ request) : (CFRelease request s).requests other = s.requests other := by
  simp [CFRelease, updateRequest_requests, h]

@[simp] theorem DARequestSetDissenter_requests_same (request : DARequestRef)
    (dissenter : Option DADissenter) (s : DAState) :
    (DARequestSetDissenter request dissenter s).requests request
      = { s.requests request with dissenter := dissenter } := by
  simp [DARequestSetDissenter]

theorem DARequestSetDissenter_requests_other (request : DARequestRef)
    (dissenter : Option DADissenter) (s : DAState) (other : DARequestRef)
    (h : other ≠ request) :
    (DARequestSetDissenter request dissenter s).requests other = s.requests other := by
  simp [DARequestSetDissenter, updateRequest_requests, h]

@[simp] theorem DARequestSetState_requests_same (request : DARequestRef) (state : DARequestState)
    (value : Bool) (s : DAState) :
    (DARequestSetState request state value s).requests request
      = { s.requests request with
          state := if value then (s.requests request).state ||| state
                   else (s.requests request).state &&& (0xFFFFFFFF ^^^ (state % 2 ^ 32)) } := by
  simp [DARequestSetState]

theorem DARequestSetState_requests_other (request : DARequestRef) (state : DARequestState)
    (value : Bool) (s : DAState) (other : DARequestRef)
    (h : other ≠ request) :
    (DARequestSetState request state value s).requests other = s.requests other := by
  simp [DARequestSetState, updateRequest_requests, h]

@[simp] theorem DADiskSetState_disks_same (disk : DADiskRef) (state : DADiskState)
    (value : Bool) (s : DAState) :
    (DADiskSetState disk state value s).disks disk =
      (match state with
       | .kDADiskStateCommandActive => { s.disks disk with commandActive := value }
       | .kDADiskStateRequireRepair => { s.disks disk with requireRepair := value }
       | .kDADiskStateStagedProbe => { s.disks disk with stagedProbe := value }
       | .kDADiskStateStagedAppear => { s.disks disk with stagedAppear := value }
       | .kDADiskStateZombie => { s.disks disk with zombie := value }
       | ._kDADiskStateMountPreferenceNoWrite =>
         { s.disks disk with mountPreferenceNoWrite := value }) := by
  cases state <;> simp [DADiskSetState]

theorem DADiskSetState_disks_other (disk : DADiskRef) (state : DADiskState) (value : Bool)
    (s : DAState) (other : DADiskRef) (h : other ≠ disk) :
    (DADiskSetState disk state value s).disks other = s.disks other := by
  simp [DADiskSetState, updateDisk_disks, h]

@[simp] theorem DADiskSetDescription_disks_same (disk : DADiskRef)
    (key : DADiskDescriptionKey) (value : Option CFType) (s : DAState) :
    (DADiskSetDescription disk key value s).disks disk =
      (match key with
       | .kDADiskDescriptionMediaPathKey => { s.disks disk with mediaPath := value }
       | .kDADiskDescriptionMediaWholeKey => { s.disks disk with mediaWhole := value }
       | .kDADiskDescriptionVolumeMountableKey => { s.disks disk with volumeMountable := value }
       | .kDADiskDescriptionVolumeNameKey => { s.disks disk with volumeName := value }
       | .kDADiskDescriptionVolumePathKey => { s.disks disk with volumePath := value }) := by
  cases key <;> simp [DADiskSetDescription]

theorem DADiskSetDescription_disks_other (disk : DADiskRef) (key : DADiskDescriptionKey)
    (value : Option CFType) (s : DAState) (other : DADiskRef) (h : other ≠ disk) :
    (DADiskSetDescription disk key value s).disks other = s.disks other := by
  simp [DADiskSetDescription, updateDisk_disks, h]

@[simp] theorem DADiskSetClaim_disks_same (disk : DADiskRef) (claim : Option DACallback)
    (s : DAState) :
    (DADiskSetClaim disk claim s).disks disk = { s.disks disk with claim := claim } := by
  simp [DADiskSetClaim]

theorem DADiskSetClaim_disks_other (disk : DADiskRef) (claim : Option DACallback)
    (s : DAState) (other : DADiskRef) (h : other ≠ disk) :
    (DADiskSetClaim disk claim s).disks other = s.disks other := by
  simp [DADiskSetClaim, updateDisk_disks, h]

@[simp] theorem DADiskSetBypath_disks_same (disk : DADiskRef) (bypath : Option CFType)
    (s : DAState) :
    (DADiskSetBypath disk bypath s).disks disk = { s.disks disk with bypath := bypath } := by
  simp [DADiskSetBypath]

theorem DADiskSetBypath_disks_other (disk : DADiskRef) (bypath : Option CFType)
    (s : DAState) (other : DADiskRef) (h : other ≠ disk) :
    (DADiskSetBypath disk bypath s).disks other = s.disks other := by
  simp [DADiskSetBypath, updateDisk_disks, h]

@[simp] theorem DAUnitSetState_units_same (disk : DADiskRef) (state : DAUnitState)
    (value : Bool) (s : DAState) (unit : DAUnitRef) (h : unit = (s.disks disk).unit) :
    (DAUnitSetState disk state value s).units unit =
      (match state with
       | .kDAUnitStateCommandActive => { s.units unit with commandActive := value }
       | .kDAUnitStateEjected => { s.units unit with ejected := value }) := by
  subst h
  cases state <;> simp [DAUnitSetState]

theorem DAUnitSetState_units_other (disk : DADiskRef) (state : DAUnitState) (value : Bool)
    (s : DAState) (unit : DAUnitRef) (h : unit ≠ (s.disks disk).unit) :
    (DAUnitSetState disk state value s).units unit = s.units unit := by
  simp [DAUnitSetState, updateUnit_units, h]

@[simp] theorem dispatchCallback_requests (request : DARequestRef)
    (dissenter : Option DADissenter) (s : DAState) :
    (__DARequestDispatchCallback request dissenter s).requests = s.requests := by
  unfold __DARequestDispatchCallback
  split <;> rfl

@[simp] theorem dispatchCallback_disks (request : DARequestRef)
    (dissenter : Option DADissenter) (s : DAState) :
    (__DARequestDispatchCallback request dissenter s).disks = s.disks := by
  unfold __DARequestDispatchCallback
  split <;> rfl

@[simp] theorem dispatchCallback_units (request : DARequestRef)
    (dissenter : Option DADissenter) (s : DAState) :
    (__DARequestDispatchCallback request dissenter s).units = s.units := by
  unfold __DARequestDispatchCallback
  split <;> rfl

@[simp] theorem dispatchCallback_gDADiskList (request : DARequestRef)
    (dissenter : Option DADissenter) (s : DAState) :
    (__DARequestDispatchCallback request dissenter s).gDADiskList = s.gDADiskList := by
  unfold __DARequestDispatchCallback
  split <;> rfl

@[simp] theorem dispatchCallback_trace (request : DARequestRef)
    (dissenter : Option DADissenter) (s : DAState) :
    (__DARequestDispatchCallback request dissenter s).trace
      = s.trace ++ completionOf request dissenter s := by
  unfold completionOf __DARequestDispatchCallback
  split <;> simp

@[simp] theorem completionOf_any_isOutcome (request : DARequestRef)
    (dissenter : Option DADissenter) (s : DAState) :
    (completionOf request dissenter s).any DAEvent.isOutcome
      = ((s.requests request).callback).isSome := by
  unfold completionOf __DARequestDispatchCallback
  cases h : (s.requests request).callback <;>
    simp [h, DAEvent.isOutcome, DAEvent.isCompletion]

@[simp] theorem completionOf_any_isExecute (request : DARequestRef)
    (dissenter : Option DADissenter) (s : DAState) :
    (completionOf request dissenter s).any DAEvent.isExecute = false := by
  unfold completionOf __DARequestDispatchCallback
  cases h : (s.requests request).callback <;> simp [h, DAEvent.isExecute]

@[simp] theorem completionOf_any_isAuthorize (request : DARequestRef)
    (dissenter : Option DADissenter) (s : DAState) :
    (completionOf request dissenter s).any DAEvent.isAuthorize = false := by
  unfold completionOf __DARequestDispatchCallback
  cases h : (s.requests request).callback <;> simp [h, DAEvent.isAuthorize]

@[simp] theorem dispatchCallback_status_requests (request : DARequestRef) (status : DAReturn)
    (s : DAState) : (DARequestDispatchCallback request status s).requests = s.requests := by
  unfold DARequestDispatchCallback
  split <;> simp

@[simp] theorem dispatchCallback_status_disks (request : DARequestRef) (status : DAReturn)
    (s : DAState) : (DARequestDispatchCallback request status s).disks = s.disks := by
  unfold DARequestDispatchCallback
  split <;> simp

@[simp] theorem dispatchCallback_status_units (request : DARequestRef) (status : DAReturn)
    (s : DAState) : (DARequestDispatchCallback request status s).units = s.units := by
  unfold DARequestDispatchCallback
  split <;> simp

@[simp] theorem dispatchCallback_status_gDADiskList (request : DARequestRef)
    (status : DAReturn) (s : DAState) :
    (DARequestDispatchCallback request status s).gDADiskList = s.gDADiskList := by
  unfold DARequestDispatchCallback
  split <;> simp

@[simp] theorem dispatchCallback_status_trace (request : DARequestRef) (status : DAReturn)
    (s : DAState) :
    (DARequestDispatchCallback request status s).trace
      = s.trace ++ completionOf request
          (if status ≠ 0 then some (DADissenterCreate status) else none) s := by
  unfold DARequestDispatchCallback
  split <;> simp [*]

/-! ## C1: dispatcher gating -/

/-- C1. When the request is NULL, or has no disk, or its disk has
CommandActive set, or its disk lacks StagedAppear, `DARequestDispatch`
returns FALSE and the whole engine state (every request with its staging
bits, dissenter and link, every disk, every unit, the disk list and the trace
of approval, authorization, helper and client-callback calls) is unchanged. -/
theorem C1_dispatch_gating (env : DAEnv) (request : Option DARequestRef) (s : DAState)
    (h : request = none ∨ ∃ r, request = some r ∧
      (DARequestGetDisk s r = none ∨ ∃ d, DARequestGetDisk s r = some d ∧
        (DADiskGetState s d .kDADiskStateCommandActive = true
          ∨ DADiskGetState s d .kDADiskStateStagedAppear = false))) :
    DARequestDispatch env request s = some (false, s) := by
  rcases h with h | ⟨r, hr, h⟩
  · subst h
    rfl
  · subst hr
    simp only [DARequestGetDisk, DADiskGetState] at h
    rcases h with h | ⟨d, hd, h⟩
    · simp [DARequestDispatch, h]
    · rcases h with h | h
      · simp [DARequestDispatch, hd, h]
      · simp [DARequestDispatch, hd, h]

/-- C1 at an eject request whose disk is busy with another command. -/
theorem C1_dispatch_gating_witness :
    DARequestDispatch exampleEnv (some 0)
        (exampleState (exampleRequest ._kDADiskEject 0)
          { exampleDisk with commandActive := true } exampleUnit)
      = some (false, exampleState (exampleRequest ._kDADiskEject 0)
          { exampleDisk with commandActive := true } exampleUnit) :=
  C1_dispatch_gating exampleEnv (some 0) _
    (Or.inr ⟨0, rfl, Or.inr ⟨0, rfl, Or.inl rfl⟩⟩)

/-! ## The system calls of eject -/

@[simp] theorem eject_ioctl_requests (env : DAEnv) (disk : DADiskRef) (s : DAState) :
    (__DARequestEject_ioctl env disk s).2.requests = s.requests := by
  unfold __DARequestEject_ioctl
  simp only []
  repeat' split
  all_goals simp

@[simp] theorem eject_ioctl_disks (env : DAEnv) (disk : DADiskRef) (s : DAState) :
    (__DARequestEject_ioctl env disk s).2.disks = s.disks := by
  unfold __DARequestEject_ioctl
  simp only []
  repeat' split
  all_goals simp

@[simp] theorem eject_ioctl_gDADiskList (env : DAEnv) (disk : DADiskRef) (s : DAState) :
    (__DARequestEject_ioctl env disk s).2.gDADiskList = s.gDADiskList := by
  unfold __DARequestEject_ioctl
  simp only []
  repeat' split
  all_goals simp

@[simp] theorem eject_ioctl_trace (env : DAEnv) (disk : DADiskRef) (s : DAState) :
    (__DARequestEject_ioctl env disk s).2.trace = s.trace ++ ejectSyscalls env disk s := by
  unfold ejectSyscalls __DARequestEject_ioctl
  simp only []
  repeat' split
  all_goals simp

@[simp] theorem ejectSyscalls_any_isOutcome (env : DAEnv) (disk : DADiskRef) (s : DAState) :
    (ejectSyscalls env disk s).any DAEvent.isOutcome = false := by
  unfold ejectSyscalls __DARequestEject_ioctl
  simp only []
  repeat' split
  all_goals simp [DAEvent.isOutcome, DAEvent.isCompletion, DAEvent.isExecuteHelper]

@[simp] theorem eject_ioctl_commandActive (env : DAEnv) (disk : DADiskRef) (s : DAState)
    (unit : DAUnitRef) :
    ((__DARequestEject_ioctl env disk s).2.units unit).commandActive
      = (s.units unit).commandActive := by
  unfold __DARequestEject_ioctl
  simp only []
  repeat' split
  all_goals simp [DAUnitSetState, updateUnit_units]
  all_goals split <;> rfl

/-! ## What a dispatch answers and what it did (for C2) -/

theorem DispatchOutcome.of_same (s u : DAState) (request : DARequestRef) (b : Bool)
    (t : DAState) (htrace : u.trace = s.trace)
    (hcallback : (u.requests request).callback = (s.requests request).callback)
    (h : DispatchOutcome u request b t) : DispatchOutcome s request b t := by
  unfold DispatchOutcome traceSince at *
  rw [htrace, hcallback] at h
  exact h

theorem claim_outcome (request : DARequestRef) (disk : DADiskRef) (s : DAState)
    (hdisk : (s.requests request).disk = some disk) (b : Bool) (t : DAState)
    (h : __DARequestClaim request s = some (b, t)) : DispatchOutcome s request b t := by
  unfold __DARequestClaim at h
  simp only [DARequestGetDisk, hdisk] at h
  repeat' split at h
  all_goals simp [__DARequestClaimReleaseCallback, __DARequestClaimCallback, hdisk] at h
  all_goals obtain ⟨rfl, rfl⟩ := h
  all_goals simp [DispatchOutcome, DAEvent.isOutcome, DAEvent.isCompletion,
    DAEvent.isExecuteHelper, Option.isSome_iff_ne_none]

theorem eject_commence_outcome (env : DAEnv) (request : DARequestRef) (disk : DADiskRef)
    (s : DAState) (hdisk : (s.requests request).disk = some disk) (b : Bool) (t : DAState)
    (h : __DARequestEject_commence env request disk s = some (b, t)) :
    DispatchOutcome s request b t := by
  unfold __DARequestEject_commence at h
  repeat' split at h
  all_goals simp [__DARequestEjectCallback, hdisk] at h
  all_goals obtain ⟨rfl, rfl⟩ := h
  all_goals simp [DispatchOutcome, DAEvent.isOutcome, DAEvent.isCompletion,
    DAEvent.isExecuteHelper, Option.isSome_iff_ne_none]

theorem eject_outcome (env : DAEnv) (request : DARequestRef) (disk : DADiskRef) (s : DAState)
    (hdisk : (s.requests request).disk = some disk) (b : Bool) (t : DAState)
    (h : __DARequestEject env request s = some (b, t)) :
    DispatchOutcome s request b t := by
  unfold __DARequestEject at h
  simp only [DARequestGetDisk, hdisk] at h
  split at h
  · split at h
    all_goals simp at h
    all_goals obtain ⟨rfl, rfl⟩ := h
    all_goals simp [DispatchOutcome, DAEvent.isOutcome, DAEvent.isCompletion,
      DAEvent.isExecuteHelper, Option.isSome_iff_ne_none]
  · split at h
    · cases hdis : (s.requests request).dissenter with
      | none =>
        simp [hdis] at h
        refine DispatchOutcome.of_same s _ request b t ?_ ?_
          (eject_commence_outcome env request disk _ ?_ b t h)
        all_goals simp [hdisk]
      | some d =>
        by_cases hs : d.status = 4175101697
        · simp [hdis, hs] at h
          obtain ⟨rfl, rfl⟩ := h
          simp [DispatchOutcome, DAEvent.isOutcome, DAEvent.isCompletion,
            DAEvent.isExecuteHelper]
        · simp [hdis, hs] at h
          refine DispatchOutcome.of_same s _ request b t ?_ ?_
            (eject_commence_outcome env request disk _ ?_ b t h)
          all_goals simp [hdisk]
    · exact eject_commence_outcome env request disk s hdisk b t h

theorem mount_commence_outcome (request : DARequestRef) (disk : DADiskRef) (s : DAState)
    (b : Bool) (t : DAState) (h : __DARequestMount_commence request disk s = (b, t)) :
    DispatchOutcome s request b t := by
  unfold __DARequestMount_commence at h
  cases hdis : (s.requests request).dissenter with
  | none =>
    simp only [DARequestGetDissenter, hdis] at h
    repeat' split at h
    all_goals simp at h
    all_goals obtain ⟨rfl, rfl⟩ := h
    all_goals simp [DispatchOutcome, DAEvent.isOutcome, DAEvent.isCompletion,
      DAEvent.isExecuteHelper, Option.isSome_iff_ne_none]
  | some d =>
    simp only [DARequestGetDissenter, hdis] at h
    repeat' split at h
    all_goals simp at h
    all_goals obtain ⟨rfl, rfl⟩ := h
    all_goals simp [DispatchOutcome, DAEvent.isOutcome, DAEvent.isCompletion,
      DAEvent.isExecuteHelper, Option.isSome_iff_ne_none]

theorem mount_authorize_outcome (request : DARequestRef) (disk : DADiskRef) (s : DAState)
    (b : Bool) (t : DAState) (h : __DARequestMount_authorize request disk s = (b, t)) :
    DispatchOutcome s request b t := by
  unfold __DARequestMount_authorize at h
  split at h
  · cases hdis : (s.requests request).dissenter with
    | none =>
      simp [hdis] at h
      refine DispatchOutcome.of_same s _ request b t ?_ ?_
        (mount_commence_outcome request disk _ b t h)
      all_goals simp
    | some d =>
      by_cases h1 : d.status = 4175101697
      · simp [hdis, h1] at h
        obtain ⟨rfl, rfl⟩ := h
        simp [DispatchOutcome, DAEvent.isOutcome, DAEvent.isCompletion,
          DAEvent.isExecuteHelper]
      · by_cases h3 : d.status = 4175101699
        · simp [hdis, h3] at h
          obtain ⟨rfl, rfl⟩ := h
          simp [DispatchOutcome, DAEvent.isOutcome, DAEvent.isCompletion,
            DAEvent.isExecuteHelper]
        · simp [hdis, h1, h3] at h
          refine DispatchOutcome.of_same s _ request b t ?_ ?_
            (mount_commence_outcome request disk _ b t h)
          all_goals simp
  · exact mount_commence_outcome request disk s b t h

theorem mount_approve_outcome (env : DAEnv) (request : DARequestRef) (disk : DADiskRef)
    (s : DAState) (b : Bool) (t : DAState)
    (h : __DARequestMount_approve env request disk s = (b, t)) :
    DispatchOutcome s request b t := by
  unfold __DARequestMount_approve at h
  split at h
  · by_cases hrepair : (s.disks disk).requireRepair = true
    · simp [hrepair] at h
      obtain ⟨rfl, rfl⟩ := h
      simp [DispatchOutcome, DAEvent.isOutcome, DAEvent.isCompletion,
        DAEvent.isExecuteHelper, Option.isSome_iff_ne_none]
    · simp only [DADiskGetState, hrepair, Bool.false_eq_true, if_false] at h
      split at h
      all_goals simp at h
      all_goals obtain ⟨rfl, rfl⟩ := h
      all_goals simp [DispatchOutcome, DAEvent.isOutcome, DAEvent.isCompletion,
        DAEvent.isExecuteHelper, Option.isSome_iff_ne_none]
  · exact mount_authorize_outcome request disk s b t h

theorem mount_outcome (env : DAEnv) (request : DARequestRef) (disk : DADiskRef) (s : DAState)
    (hdisk : (s.requests request).disk = some disk) (b : Bool) (t : DAState)
    (h : __DARequestMount env request s = some (b, t)) :
    DispatchOutcome s request b t := by
  unfold __DARequestMount at h
  simp only [DARequestGetDisk, hdisk] at h
  repeat' split at h
  all_goals simp at h
  all_goals first
    | (obtain ⟨rfl, rfl⟩ := h
       simp [DispatchOutcome, DAEvent.isOutcome, DAEvent.isCompletion,
         DAEvent.isExecuteHelper])
    | (refine DispatchOutcome.of_same s _ request b t ?_ ?_
         (mount_approve_outcome env request disk _ b t h)
       all_goals simp)

theorem refresh_outcome (env : DAEnv) (request : DARequestRef) (disk : DADiskRef)
    (s : DAState) (hdisk : (s.requests request).disk = some disk) (b : Bool) (t : DAState)
    (h : __DARequestRefresh env request s = some (b, t)) :
    DispatchOutcome s request b t := by
  unfold __DARequestRefresh at h
  simp only [DARequestGetDisk, hdisk] at h
  repeat' split at h
  all_goals simp [__DARequestRefreshCallback, hdisk] at h
  all_goals obtain ⟨rfl, rfl⟩ := h
  all_goals simp [DispatchOutcome, DAEvent.isOutcome, DAEvent.isCompletion,
    DAEvent.isExecuteHelper, Option.isSome_iff_ne_none]

theorem rename_outcome (request : DARequestRef) (disk : DADiskRef) (s : DAState)
    (hdisk : (s.requests request).disk = some disk) (b : Bool) (t : DAState)
    (h : __DARequestRename request s = some (b, t)) :
    DispatchOutcome s request b t := by
  unfold __DARequestRename at h
  simp only [DARequestGetDisk, hdisk] at h
  repeat' split at h
  all_goals simp at h
  all_goals obtain ⟨rfl, rfl⟩ := h
  all_goals simp [DispatchOutcome, DAEvent.isOutcome, DAEvent.isCompletion,
    DAEvent.isExecuteHelper, Option.isSome_iff_ne_none]

theorem unmount_commence_outcome (request : DARequestRef) (disk : DADiskRef) (s : DAState)
    (b : Bool) (t : DAState) (h : __DARequestUnmount_commence request disk s = (b, t)) :
    DispatchOutcome s request b t := by
  unfold __DARequestUnmount_commence at h
  repeat' split at h
  all_goals simp at h
  all_goals obtain ⟨rfl, rfl⟩ := h
  all_goals simp [DispatchOutcome, DAEvent.isOutcome, DAEvent.isCompletion,
    DAEvent.isExecuteHelper, Option.isSome_iff_ne_none]

theorem unmount_outcome (request : DARequestRef) (disk : DADiskRef) (s : DAState)
    (hdisk : (s.requests request).disk = some disk) (b : Bool) (t : DAState)
    (h : __DARequestUnmount request s = some (b, t)) :
    DispatchOutcome s request b t := by
  unfold __DARequestUnmount at h
  simp only [DARequestGetDisk, hdisk] at h
  split at h
  · simp at h
    obtain ⟨rfl, rfl⟩ := h
    simp [DispatchOutcome]
  · split at h
    · split at h
      all_goals simp at h
      all_goals obtain ⟨rfl, rfl⟩ := h
      all_goals simp [DispatchOutcome, DAEvent.isOutcome, DAEvent.isCompletion,
        DAEvent.isExecuteHelper, Option.isSome_iff_ne_none]
    · split at h
      · cases hdis : (s.requests request).dissenter with
        | none =>
          simp [hdis] at h
          refine DispatchOutcome.of_same s _ request b t ?_ ?_
            (unmount_commence_outcome request disk _ b t h)
          all_goals simp
        | some d =>
          by_cases hs : d.status = 4175101697
          · simp [hdis, hs] at h
            obtain ⟨rfl, rfl⟩ := h
            simp [DispatchOutcome, DAEvent.isOutcome, DAEvent.isCompletion,
              DAEvent.isExecuteHelper]
          · simp [hdis, hs] at h
            refine DispatchOutcome.of_same s _ request b t ?_ ?_
              (unmount_commence_outcome request disk _ b t h)
            all_goals simp
      · simp at h
        exact unmount_commence_outcome request disk s b t h

theorem claim_total (request : DARequestRef) (disk : DADiskRef) (s : DAState)
    (hdisk : (s.requests request).disk = some disk) :
    (__DARequestClaim request s).isSome = true := by
  unfold __DARequestClaim
  simp only [DARequestGetDisk, hdisk]
  repeat' split
  all_goals simp [__DARequestClaimReleaseCallback, __DARequestClaimCallback, hdisk]

theorem eject_commence_total (env : DAEnv) (request : DARequestRef) (disk : DADiskRef)
    (s : DAState) (hdisk : (s.requests request).disk = some disk) :
    (__DARequestEject_commence env request disk s).isSome = true := by
  unfold __DARequestEject_commence
  repeat' split
  all_goals simp [__DARequestEjectCallback, hdisk]

theorem eject_total (env : DAEnv) (request : DARequestRef) (disk : DADiskRef) (s : DAState)
    (hdisk : (s.requests request).disk = some disk) :
    (__DARequestEject env request s).isSome = true := by
  unfold __DARequestEject
  simp only [DARequestGetDisk, hdisk]
  split
  · split <;> simp
  · split
    · split
      · simp
      · exact eject_commence_total env request disk _ (by
          cases hdis : (s.requests request).dissenter with
          | none => simp [hdis, hdisk]
          | some d => by_cases hs : d.status = 4175101697 <;> simp [hdis, hs, hdisk])
    · exact eject_commence_total env request disk s hdisk

theorem mount_total (env : DAEnv) (request : DARequestRef) (disk : DADiskRef) (s : DAState)
    (hdisk : (s.requests request).disk = some disk) :
    (__DARequestMount env request s).isSome = true := by
  unfold __DARequestMount
  simp only [DARequestGetDisk, hdisk]
  repeat' split
  all_goals simp

theorem refresh_total (env : DAEnv) (request : DARequestRef) (disk : DADiskRef) (s : DAState)
    (hdisk : (s.requests request).disk = some disk) :
    (__DARequestRefresh env request s).isSome = true := by
  unfold __DARequestRefresh
  simp only [DARequestGetDisk, hdisk]
  repeat' split
  all_goals simp [__DARequestRefreshCallback, hdisk]

theorem rename_total (request : DARequestRef) (disk : DADiskRef) (s : DAState)
    (hdisk : (s.requests request).disk = some disk) :
    (__DARequestRename request s).isSome = true := by
  unfold __DARequestRename
  simp only [DARequestGetDisk, hdisk]
  repeat' split
  all_goals simp

theorem unmount_total (request : DARequestRef) (disk : DADiskRef) (s : DAState)
    (hdisk : (s.requests request).disk = some disk) :
    (__DARequestUnmount request s).isSome = true := by
  unfold __DARequestUnmount
  simp only [DARequestGetDisk, hdisk]
  repeat' split
  all_goals simp

/-- `DARequestDispatch` always returns: the gating guarantees the disk that
the handlers dereference. -/
theorem dispatch_total (env : DAEnv) (request : Option DARequestRef) (s : DAState) :
    (DARequestDispatch env request s).isSome = true := by
  unfold DARequestDispatch
  cases request with
  | none => rfl
  | some r =>
    cases hdisk : (s.requests r).disk with
    | none => simp [hdisk]
    | some disk =>
      simp only [DARequestGetDisk, hdisk]
      split
      · split
        · split
          · exact claim_total r disk s hdisk
          · exact eject_total env r disk s hdisk
          · exact mount_total env r disk s hdisk
          · exact refresh_total env r disk s hdisk
          · exact rename_total r disk s hdisk
          · exact unmount_total r disk s hdisk
        · rfl
      · rfl

theorem dispatch_outcome (env : DAEnv) (request : DARequestRef) (s : DAState) (b : Bool)
    (t : DAState) (h : DARequestDispatch env (some request) s = some (b, t)) :
    DispatchOutcome s request b t := by
  unfold DARequestDispatch at h
  cases hdisk : (s.requests request).disk with
  | none =>
    simp [hdisk] at h
    obtain ⟨rfl, rfl⟩ := h
    simp [DispatchOutcome]
  | some disk =>
    simp only [DARequestGetDisk, hdisk] at h
    split at h
    · split at h
      · split at h
        · exact claim_outcome request disk s hdisk b t h
        · exact eject_outcome env request disk s hdisk b t h
        · exact mount_outcome env request disk s hdisk b t h
        · exact refresh_outcome env request disk s hdisk b t h
        · exact rename_outcome request disk s hdisk b t h
        · exact unmount_outcome request disk s hdisk b t h
      · simp at h
        obtain ⟨rfl, rfl⟩ := h
        simp [DispatchOutcome]
    · simp at h
      obtain ⟨rfl, rfl⟩ := h
      simp [DispatchOutcome]

/-- C2 fails as stated: dispatching a mount request that is past approval
and authorization returns TRUE although the call only starts the mount helper;
no client callback is queued in the call. -/
theorem C2_counterexample :
    (DARequestDispatch exampleEnv (some 0) exampleMountState).map
        (fun r => (r.1, r.2.trace))
      = some (true, [DAEvent.DAMountWithArguments 0 none
          DARequestCallback.__DARequestMountCallback 0 none])
    ∧ ∀ e ∈ [DAEvent.DAMountWithArguments 0 none
          DARequestCallback.__DARequestMountCallback 0 none], e.isCompletion = false := by
  constructor
  · rfl
  · decide

/-- C2, amended. For every request of every kind and every state,
`DARequestDispatch` returns, and its answer relates to what the call did as
follows. When it returns FALSE, the call queued no client callback and
started no mount, rename or unmount helper (the request yielded or could not
yet run). For a request with a client callback it returns TRUE if and only if
the call queued the client callback (the completion was dispatched) or started
the mount, rename or unmount helper, whose callback dispatches the completion
later. -/
theorem C2_dispatch_result (env : DAEnv) (request : DARequestRef) (s : DAState) :
    ∃ b t, DARequestDispatch env (some request) s = some (b, t)
      ∧ t.trace = s.trace ++ traceSince s t
      ∧ (b = false →
          ∀ e ∈ traceSince s t, e.isCompletion = false ∧ e.isExecuteHelper = false)
      ∧ (DARequestGetCallback s request ≠ none →
          (b = true ↔
            ∃ e ∈ traceSince s t, e.isCompletion = true ∨ e.isExecuteHelper = true)) := by
  obtain ⟨⟨b, t⟩, h⟩ := Option.isSome_iff_exists.mp (dispatch_total env (some request) s)
  obtain ⟨htrace, hfalse, htrue⟩ := dispatch_outcome env request s b t h
  refine ⟨b, t, h, htrace, ?_, ?_⟩
  · intro hb e he
    have hany := hfalse hb
    rw [List.any_eq_false] at hany
    have := hany e he
    simpa [DAEvent.isOutcome] using this
  · intro hcallback
    constructor
    · intro hb
      have hany := htrue hcallback hb
      rw [List.any_eq_true] at hany
      obtain ⟨e, he, hout⟩ := hany
      exact ⟨e, he, by simpa [DAEvent.isOutcome] using hout⟩
    · rintro ⟨e, he, hout⟩
      cases hb : b with
      | true => rfl
      | false =>
        have hany := hfalse hb
        rw [List.any_eq_false] at hany
        have := hany e he
        simp [DAEvent.isOutcome] at this
        rcases hout with hout | hout
        · rw [this.1] at hout; cases hout
        · rw [this.2] at hout; cases hout

/-! ## C3, C4: the completion dispatcher -/

/-- The loop stops at the first element that has a dissenter. -/
theorem dispatchCallback_loop_first (s : DAState) (start : Option DADissenter)
    (before : List DARequestRef) (q : DARequestRef) (after : List DARequestRef)
    (d : DADissenter) (hbefore : ∀ p ∈ before, DARequestGetDissenter s p = none)
    (hq : DARequestGetDissenter s q = some d) :
    __DARequestDispatchCallback_loop s start (before ++ q :: after) = some d := by
  simp only [DARequestGetDissenter] at hbefore hq
  induction before generalizing start with
  | nil => simp [__DARequestDispatchCallback_loop, hq]
  | cons p rest ih =>
    have hp : (s.requests p).dissenter = none := hbefore p (List.mem_cons_self _ _)
    have hrest : ∀ x ∈ rest, (s.requests x).dissenter = none :=
      fun x hx => hbefore x (List.mem_cons_of_mem _ hx)
    simp [__DARequestDispatchCallback_loop, hp, ih none hrest]

/-- The loop ends with NULL when it starts with NULL and no element has a dissenter. -/
theorem dispatchCallback_loop_none (s : DAState) (link : List DARequestRef)
    (hall : ∀ p ∈ link, DARequestGetDissenter s p = none) :
    __DARequestDispatchCallback_loop s none link = none := by
  simp only [DARequestGetDissenter] at hall
  induction link with
  | nil => rfl
  | cons p rest ih =>
    have hp : (s.requests p).dissenter = none := hall p (List.mem_cons_self _ _)
    have hrest : ∀ x ∈ rest, (s.requests x).dissenter = none :=
      fun x hx => hall x (List.mem_cons_of_mem _ hx)
    simp [__DARequestDispatchCallback_loop, hp, ih hrest]

/-- C3. For a request with a client callback and a link, whatever dissenter
the caller passes in: the completion dispatcher queues one client callback
that carries the dissenter of the request itself when it has one; otherwise
the dissenter of the first element of the link, in index order, that has one;
and no dissenter when no element has one. -/
theorem C3_link_adoption (s : DAState) (request : DARequestRef) (passed : Option DADissenter)
    (callback : DACallback) (link : List DARequestRef)
    (hcallback : DARequestGetCallback s request = some callback)
    (hlink : DARequestGetLink s request = some link) :
    (∀ own, DARequestGetDissenter s request = some own →
      __DARequestDispatchCallback request passed s
        = s.emit (DAEvent.DAQueueCallback callback (DARequestGetDisk s request) (some own)))
    ∧ (∀ before q after d, DARequestGetDissenter s request = none →
        link = before ++ q :: after →
        (∀ p ∈ before, DARequestGetDissenter s p = none) →
        DARequestGetDissenter s q = some d →
        __DARequestDispatchCallback request passed s
          = s.emit (DAEvent.DAQueueCallback callback (DARequestGetDisk s request) (some d)))
    ∧ (DARequestGetDissenter s request = none →
        (∀ p ∈ link, DARequestGetDissenter s p = none) →
        __DARequestDispatchCallback request passed s
          = s.emit (DAEvent.DAQueueCallback callback (DARequestGetDisk s request) none)) := by
  simp only [DARequestGetCallback, DARequestGetLink] at hcallback hlink
  refine ⟨?_, ?_, ?_⟩
  · intro own hown
    simp only [DARequestGetDissenter] at hown
    simp [__DARequestDispatchCallback, hcallback, hlink, hown, DAQueueCallback]
  · intro before q after d hown hsplit hbefore hq
    subst hsplit
    have hloop := dispatchCallback_loop_first s none before q after d hbefore hq
    simp only [DARequestGetDissenter] at hown
    simp [__DARequestDispatchCallback, hcallback, hlink, hown, DAQueueCallback, hloop]
  · intro hown hall
    have hloop := dispatchCallback_loop_none s link hall
    simp only [DARequestGetDissenter] at hown
    simp [__DARequestDispatchCallback, hcallback, hlink, hown, DAQueueCallback, hloop]

/-- C3 at a group whose second child alone has a dissenter: the client is
told the dissenter of the second child. -/
theorem C3_link_adoption_witness :
    __DARequestDispatchCallback 0 none exampleLinkState
      = exampleLinkState.emit (DAEvent.DAQueueCallback exampleCallback (some 0)
          (some (DADissenterCreate kDAReturnBusy))) :=
  (C3_link_adoption exampleLinkState 0 none exampleCallback [1, 2] rfl rfl).2.1
    [1] 2 [] (DADissenterCreate kDAReturnBusy) rfl rfl
    (by intro p hp; simp at hp; subst hp; rfl) rfl

/-- C4. For a request without a link, `DARequestDispatchCallback( request,
status )` queues exactly one client callback, carrying the disk of the
request and a dissenter with that status when the status is non-zero, NULL
when it is 0; without a client callback nothing is queued and the state is
unchanged. No request object, disk or unit is modified. -/
theorem C4_dispatchCallback_unlinked (s : DAState) (request : DARequestRef)
    (status : DAReturn) (hlink : DARequestGetLink s request = none) :
    (∀ callback, DARequestGetCallback s request = some callback →
      traceSince s (DARequestDispatchCallback request status s)
        = [DAEvent.DAQueueCallback callback (DARequestGetDisk s request)
            (if status ≠ 0 then some { status := status, string := none } else none)])
    ∧ (DARequestGetCallback s request = none →
        DARequestDispatchCallback request status s = s)
    ∧ (DARequestDispatchCallback request status s).requests = s.requests
    ∧ (DARequestDispatchCallback request status s).disks = s.disks
    ∧ (DARequestDispatchCallback request status s).units = s.units
    ∧ (DARequestDispatchCallback request status s).trace
        = s.trace ++ traceSince s (DARequestDispatchCallback request status s) := by
  simp only [DARequestGetLink] at hlink
  simp only [DARequestGetCallback, DARequestGetDisk]
  cases hcb : (s.requests request).callback with
  | none =>
    by_cases hstatus : status = 0 <;>
      simp [DARequestDispatchCallback, __DARequestDispatchCallback, hcb, hstatus, traceSince]
  | some callback =>
    by_cases hstatus : status = 0 <;>
      simp [DARequestDispatchCallback, __DARequestDispatchCallback, hcb, hlink, hstatus,
        traceSince, DAQueueCallback, DADissenterCreate]

/-- C4 at an unlinked eject request completed with Unsupported. -/
theorem C4_dispatchCallback_unlinked_witness :
    traceSince (exampleState (exampleRequest ._kDADiskEject 0) exampleDisk exampleUnit)
        (DARequestDispatchCallback 0 kDAReturnUnsupported
          (exampleState (exampleRequest ._kDADiskEject 0) exampleDisk exampleUnit))
      = [DAEvent.DAQueueCallback exampleCallback (some 0)
          (some { status := kDAReturnUnsupported, string := none })] :=
  (C4_dispatchCallback_unlinked
    (exampleState (exampleRequest ._kDADiskEject 0) exampleDisk exampleUnit) 0
    kDAReturnUnsupported rfl).1 exampleCallback rfl

/-! ## C5: a failing status and the client callback -/

/-- C5, the code at a failing input. A linked eject request with a client
callback reaches the execute stage; the open succeeds and DKIOCEJECT fails
with errno 16. `__DARequestEjectCallback` completes the request with the
non-zero status `unix_err( 16 )`, yet the client callback is queued with a NULL
dissenter: for a request with a link the completion dispatcher drops the
dissenter it is handed and reports the dissenter recorded on the request or
its link, and the eject callback records none. -/
theorem C5_linked_eject_failure_reported_as_success :
    (DARequestDispatch exampleEnv (some 0) exampleLinkedEjectState).map
        (fun r => (r.1, r.2.trace))
      = some (true, [DAEvent.sys_open (some "/dev/rdisk1"), DAEvent.sys_ioctl_DKIOCEJECT 3,
          DAEvent.sys_close 3, DAEvent.DAQueueCallback exampleCallback (some 0) none,
          DAEvent.DAStageSignal])
    ∧ unix_err 16 ≠ 0 := by
  constructor
  · rfl
  · decide

/-! ## C6: approval responses and the root bypass -/

/-- C6. For an eject, mount or unmount request and an approval response
that is a dissenter whose status is none of the three sentinels: the approval
callback of its kind returns, and afterwards the dissenter of the request is
what it was before when userUID is 0, and is exactly the response when
userUID is not 0. -/
theorem C6_root_bypass (s : DAState) (request : DARequestRef) (disk : DADiskRef)
    (response : DADissenter)
    (hkind : isStagedKind (DARequestGetKind s request) = true)
    (hdisk : DARequestGetDisk s request = some disk)
    (hordinary : isSentinel (DADissenterGetStatus response) = false) :
    ∃ t, approvalCallback (DARequestGetKind s request) (some response) request s = some t
      ∧ (DARequestGetUserUID s request = 0 →
          DARequestGetDissenter t request = DARequestGetDissenter s request)
      ∧ (DARequestGetUserUID s request ≠ 0 →
          DARequestGetDissenter t request = some response) := by
  simp only [isSentinel, Bool.or_eq_false_iff, decide_eq_false_iff_not] at hordinary
  obtain ⟨⟨h1, h2⟩, h3⟩ := hordinary
  simp only [DARequestGetDisk] at hdisk
  by_cases huid : (s.requests request).userUID = 0 <;>
    cases hk : (s.requests request).kind <;>
    simp_all [isStagedKind, DARequestGetKind, approvalCallback,
      __DARequestEjectApprovalCallback, __DARequestMountApprovalCallback,
      __DARequestUnmountApprovalCallback, DARequestGetUserUID, DARequestGetDisk,
      DARequestGetDissenter, DARequestSetDissenter, DADiskSetState, DAStageSignal, CFRelease]

/-- C6 at a mount request of user 501 vetoed with Busy: the veto is recorded. -/
theorem C6_root_bypass_witness :
    ∃ t, approvalCallback ._kDADiskMount (some (DADissenterCreate kDAReturnBusy)) 0
        (exampleState (exampleRequest ._kDADiskMount 0x00100000) exampleDisk exampleUnit)
          = some t
      ∧ ((501 : Nat) = 0 → DARequestGetDissenter t 0 = none)
      ∧ ((501 : Nat) ≠ 0 →
          DARequestGetDissenter t 0 = some (DADissenterCreate kDAReturnBusy)) :=
  C6_root_bypass (exampleState (exampleRequest ._kDADiskMount 0x00100000) exampleDisk exampleUnit)
    0 0 (DADissenterCreate kDAReturnBusy) rfl rfl (by decide)

/-! ## C7: a veto is forwarded to the client -/

@[simp] theorem DAUnitSetState_ejected_commandActive (disk : DADiskRef) (value : Bool)
    (s : DAState) (unit : DAUnitRef) :
    ((DAUnitSetState disk .kDAUnitStateEjected value s).units unit).commandActive
      = (s.units unit).commandActive := by
  by_cases hu : unit = (s.disks disk).unit
  · simp [hu]
  · simp [DAUnitSetState_units_other, hu]

@[simp] theorem DAUnitSetState_commandActive_ejected (disk : DADiskRef) (value : Bool)
    (s : DAState) (unit : DAUnitRef) :
    ((DAUnitSetState disk .kDAUnitStateCommandActive value s).units unit).ejected
      = (s.units unit).ejected := by
  by_cases hu : unit = (s.disks disk).unit
  · simp [hu]
  · simp [DAUnitSetState_units_other, hu]

theorem completionOf_own (request : DARequestRef) (s : DAState) (own : DADissenter)
    (h : (s.requests request).dissenter = some own) :
    completionOf request (some own) s
      = match (s.requests request).callback with
        | some callback =>
          [DAEvent.DAQueueCallback callback (s.requests request).disk (some own)]
        | none => [] := by
  unfold completionOf __DARequestDispatchCallback
  cases hcb : (s.requests request).callback with
  | none => simp [hcb]
  | some cb => cases hl : (s.requests request).link <;> simp [hcb, hl, h]

@[simp] theorem ejectSyscalls_any_isExecute (env : DAEnv) (disk : DADiskRef) (s : DAState) :
    (ejectSyscalls env disk s).any DAEvent.isExecute = true := by
  unfold ejectSyscalls __DARequestEject_ioctl
  simp only []
  repeat' split
  all_goals simp [DAEvent.isExecute]

@[simp] theorem ejectSyscalls_any_isAuthorize (env : DAEnv) (disk : DADiskRef) (s : DAState) :
    (ejectSyscalls env disk s).any DAEvent.isAuthorize = false := by
  unfold ejectSyscalls __DARequestEject_ioctl
  simp only []
  repeat' split
  all_goals simp [DAEvent.isAuthorize]

/-- Removing a dissenter that is not there changes nothing. -/
theorem setDissenter_none_of_clean (request : DARequestRef) (s : DAState)
    (h : (s.requests request).dissenter = none) : DARequestSetDissenter request none s = s := by
  have hreq : (fun r => if r = request then
      { s.requests r with dissenter := (none : Option DADissenter) } else s.requests r)
      = s.requests := by
    funext r
    by_cases hr : r = request
    · subst hr
      simp only [if_true]
      rw [← h]
    · simp [hr]
  simp only [DARequestSetDissenter, DAState.updateRequest, hreq]

/-- An approval that answers NULL for a request without a dissenter only
ends the command on the disk. -/
theorem approvalCallback_none (s : DAState) (request : DARequestRef) (disk : DADiskRef)
    (hkind : isStagedKind (s.requests request).kind = true)
    (hdisk : (s.requests request).disk = some disk)
    (hclean : (s.requests request).dissenter = none) :
    approvalCallback (s.requests request).kind none request s
      = some (CFRelease request (DAStageSignal
          (DADiskSetState disk .kDADiskStateCommandActive false s))) := by
  cases hk : (s.requests request).kind <;>
    simp [hk, isStagedKind] at hkind <;>
    by_cases huid : (s.requests request).userUID = 0 <;>
    simp [approvalCallback, __DARequestEjectApprovalCallback,
      __DARequestMountApprovalCallback, __DARequestUnmountApprovalCallback, huid, hdisk,
      setDissenter_none_of_clean, hclean]

/-- Recording a dissenter twice keeps the last one. -/
theorem setDissenter_setDissenter (request : DARequestRef) (s : DAState)
    (first second : Option DADissenter) :
    DARequestSetDissenter request second (DARequestSetDissenter request first s)
      = DARequestSetDissenter request second s := by
  simp only [DARequestSetDissenter, DAState.updateRequest]
  congr 1
  funext r
  by_cases hr : r = request <;> simp [hr]

/-- An approval that answers with the sentinel 0xF8DAFF01 records it, for
every userUID, and ends the command on the disk. -/
theorem approvalCallback_sentinel (s : DAState) (request : DARequestRef) (disk : DADiskRef)
    (response : DADissenter)
    (hkind : isStagedKind (s.requests request).kind = true)
    (hdisk : (s.requests request).disk = some disk)
    (hsentinel : response.status = 4175101697) :
    approvalCallback (s.requests request).kind (some response) request s
      = some (CFRelease request (DAStageSignal
          (DADiskSetState disk .kDADiskStateCommandActive false
            (DARequestSetDissenter request (some response) s)))) := by
  cases hk : (s.requests request).kind <;>
    simp [hk, isStagedKind] at hkind <;>
    by_cases huid : (s.requests request).userUID = 0 <;>
    simp [approvalCallback, __DARequestEjectApprovalCallback,
      __DARequestMountApprovalCallback, __DARequestUnmountApprovalCallback, huid, hdisk,
      setDissenter_setDissenter, hsentinel]

/-- An authorization callback records a dissenter with the delivered status
when it is not 0, and ends the command on the disk. -/
theorem authorizationCallback_eval (s : DAState) (request : DARequestRef) (disk : DADiskRef)
    (status : DAReturn)
    (hkind : isStagedKind (s.requests request).kind = true)
    (hdisk : (s.requests request).disk = some disk) :
    authorizationCallback (s.requests request).kind status request s
      = some (CFRelease request (DAStageSignal
          (DADiskSetState disk .kDADiskStateCommandActive false
            (if status ≠ 0 then
              DARequestSetDissenter request (some (DADissenterCreate status)) s
             else s)))) := by
  cases hk : (s.requests request).kind <;>
    simp [hk, isStagedKind] at hkind <;>
    by_cases hstatus : status = 0 <;>
    simp [authorizationCallback, __DARequestEjectAuthorizationCallback,
      __DARequestMountAuthorizationCallback, __DARequestUnmountAuthorizationCallback,
      hstatus, hdisk]

/-- C7, amended. For an eject, mount or unmount request with non-zero
userUID whose approval is under way and whose approval response is a dissenter
D with a status outside the three sentinel values: the next dispatch, unless a
linked mount or unmount request yields to a CommandActive unit, returns TRUE;
its only external calls are the client callback, which receives D itself
(same status and reason), and the stage signal, so no authorization is
requested and the execute step is not started; the VolumePath of the disk is
unchanged; and the unit state is unchanged, except that the dispatch of a
mount request clears the Ejected latch of the unit of its disk. -/
theorem C7_vetoed_dispatch (env : DAEnv) (s : DAState) (request : DARequestRef)
    (disk : DADiskRef) (response : DADissenter)
    (hpending : ApprovalPending s request disk)
    (huid : DARequestGetUserUID s request ≠ 0)
    (hordinary : isSentinel (DADissenterGetStatus response) = false)
    (hrun : ¬ YieldsToUnit s request disk) :
    ∃ t u, approvalCallback (DARequestGetKind s request) (some response) request s = some t
      ∧ DARequestDispatch env (some request) t = some (true, u)
      ∧ u.trace = t.trace ++ traceSince t u
      ∧ traceSince t u
          = completionTrace (DARequestGetCallback s request) (some disk) (some response)
      ∧ DADiskGetDescription u disk .kDADiskDescriptionVolumePathKey
          = DADiskGetDescription s disk .kDADiskDescriptionVolumePathKey
      ∧ (∀ unit, (u.units unit).commandActive = (s.units unit).commandActive)
      ∧ (DARequestGetKind s request ≠ ._kDADiskMount → u.units = s.units)
      ∧ (∀ unit, unit ≠ (s.disks disk).unit → u.units unit = s.units unit)
      ∧ (DARequestGetKind s request = ._kDADiskMount →
          DAUnitGetState u disk .kDAUnitStateEjected = false) := by
  simp [ApprovalPending, isSentinel, YieldsToUnit] at hpending hordinary hrun huid
  obtain ⟨hkind, hdisk, happear, happrove, hauthorize, hprobe⟩ := hpending
  obtain ⟨⟨h1, h2⟩, h3⟩ := hordinary
  cases hk : (s.requests request).kind
  case _kDADiskEject =>
    simp [approvalCallback, __DARequestEjectApprovalCallback, huid, h1, hdisk,
      DARequestDispatch, happear, hk, __DARequestEject, happrove, hauthorize,
      __DARequestEject_commence, completionTrace, completionOf_own]
    cases (s.requests request).callback <;> rfl
  case _kDADiskUnmount =>
    have hgate : ¬ (¬(s.requests request).link = none
        ∧ (s.units (s.disks disk).unit).commandActive = true) := by
      intro hc
      have := hrun (Or.inr hk) hc.1
      simp [this] at hc
    simp [approvalCallback, __DARequestUnmountApprovalCallback, huid, h1, hdisk,
      DARequestDispatch, happear, hk, __DARequestUnmount, happrove, hauthorize,
      __DARequestUnmount_commence, completionTrace, completionOf_own, hgate,
      Option.isSome_iff_ne_none]
    cases (s.requests request).callback <;> rfl
  case _kDADiskMount =>
    have hgate : ¬ (¬(s.requests request).link = none
        ∧ (s.units (s.disks disk).unit).commandActive = true) := by
      intro hc
      have := hrun (Or.inl hk) hc.1
      simp [this] at hc
    obtain ⟨hprobe1, hprobe2⟩ := hprobe hk
    by_cases hp : (s.requests request).state &&& 65536 = 0
    · have hvol := hprobe2 hp
      simp [approvalCallback, __DARequestMountApprovalCallback, huid, h1, h2, h3, hdisk,
        DARequestDispatch, happear, hk, __DARequestMount, happrove, hauthorize,
        __DARequestMount_approve, __DARequestMount_authorize,
        __DARequestMount_commence, completionTrace, completionOf_own, hgate,
        Option.isSome_iff_ne_none, hp, hvol]
      refine ⟨?_, ?_⟩
      · cases (s.requests request).callback <;> rfl
      · intro unit hu
        rw [DAUnitSetState_units_other _ _ _ _ _ (by simpa using hu)]
        simp
    · have hsp := hprobe1 hp
      simp [approvalCallback, __DARequestMountApprovalCallback, huid, h1, h2, h3, hdisk,
        DARequestDispatch, happear, hk, __DARequestMount, happrove, hauthorize,
        __DARequestMount_approve, __DARequestMount_authorize,
        __DARequestMount_commence, completionTrace, completionOf_own, hgate,
        Option.isSome_iff_ne_none, hp, hsp]
      refine ⟨?_, ?_⟩
      · cases (s.requests request).callback <;> rfl
      · intro unit hu
        rw [DAUnitSetState_units_other _ _ _ _ _ (by simpa using hu)]
        simp
  all_goals simp [hk, isStagedKind] at hkind


/-- C7 at an unmount request of user 501 vetoed with Busy and a reason. -/
theorem C7_vetoed_dispatch_witness :
    ∃ t u, approvalCallback ._kDADiskUnmount (some exampleVeto) 0
        (examplePendingState ._kDADiskUnmount) = some t
      ∧ DARequestDispatch exampleEnv (some 0) t = some (true, u)
      ∧ u.trace = t.trace ++ traceSince t u
      ∧ traceSince t u
          = completionTrace (some exampleCallback) (some 0) (some exampleVeto)
      ∧ DADiskGetDescription u 0 .kDADiskDescriptionVolumePathKey
          = DADiskGetDescription (examplePendingState ._kDADiskUnmount) 0
              .kDADiskDescriptionVolumePathKey
      ∧ (∀ unit, (u.units unit).commandActive
          = ((examplePendingState ._kDADiskUnmount).units unit).commandActive)
      ∧ (_DARequestKind._kDADiskUnmount ≠ ._kDADiskMount →
          u.units = (examplePendingState ._kDADiskUnmount).units)
      ∧ (∀ unit, unit ≠ ((examplePendingState ._kDADiskUnmount).disks 0).unit →
          u.units unit = (examplePendingState ._kDADiskUnmount).units unit)
      ∧ (_DARequestKind._kDADiskUnmount = ._kDADiskMount →
          DAUnitGetState u 0 .kDAUnitStateEjected = false) :=
  C7_vetoed_dispatch exampleEnv (examplePendingState ._kDADiskUnmount) 0 0 exampleVeto
    ⟨rfl, rfl, rfl, rfl, rfl, fun h => by cases h⟩ (by decide) (by decide)
    (fun h => by cases h.2.2)

/-- C7 fails as stated: a linked mount request of user 501 is vetoed with
Busy while the unit of its disk is CommandActive and latched Ejected. The next
dispatch returns FALSE, makes no external call (the client callback is not
queued), and clears the Ejected latch of the unit. -/
theorem C7_counterexample :
    (approvalCallback ._kDADiskMount (some exampleVeto) 0
        (exampleLinkedBusyState ._kDADiskMount)).bind
      (fun t => (DARequestDispatch exampleEnv (some 0) t).map
        (fun r => (r.1, traceSince t r.2, (t.units 0).ejected, (r.2.units 0).ejected)))
      = some (false, [], true, false) := by
  rfl


/-! ## C8: the sentinel 0xF8DAFF01 is turned into an authorization request -/

/-- C8 fails as stated: a linked unmount request receives the sentinel
0xF8DAFF01 while the unit of its disk is CommandActive. The next dispatch
returns FALSE without clearing the dissenter, without setting StagedAuthorize,
and without submitting an authorization request. -/
theorem C8_counterexample :
    (approvalCallback ._kDADiskUnmount (some exampleSentinel) 0
        (exampleLinkedBusyState ._kDADiskUnmount)).bind
      (fun t => (DARequestDispatch exampleEnv (some 0) t).map
        (fun r => (r.1, traceSince t r.2, DARequestGetDissenter r.2 0,
          DARequestGetState r.2 0 _kDARequestStateStagedAuthorize)))
      = some (false, [], some exampleSentinel, false) := by
  rfl

/-- C8, amended. For an eject, mount or unmount request whose approval is
under way, for every userUID including 0: an approval response with status
0xF8DAFF01 is recorded as the dissenter of the request; and the next dispatch,
provided a linked mount or unmount request finds the unit of its disk not
CommandActive (otherwise it yields), clears that dissenter, sets
StagedAuthorize and the CommandActive flag of the disk, returns FALSE, and
makes exactly one external call: an authorization request carrying the disk,
userUID and userGID of the request, the options Force and Interact, and the
right Mount for a mount request, Unmount for an eject or unmount request.
The request is then in the state in which its authorization is under way. -/
theorem C8_sentinel_authorize (env : DAEnv) (s : DAState) (request : DARequestRef)
    (disk : DADiskRef) (response : DADissenter)
    (hpending : ApprovalPending s request disk)
    (hsentinel : DADissenterGetStatus response = 0xF8DAFF01)
    (hrun : ¬ YieldsToUnit s request disk) :
    ∃ t u, approvalCallback (DARequestGetKind s request) (some response) request s = some t
      ∧ DARequestGetDissenter t request = some response
      ∧ DARequestDispatch env (some request) t = some (false, u)
      ∧ DARequestGetDissenter u request = none
      ∧ DARequestGetState u request _kDARequestStateStagedAuthorize = true
      ∧ DADiskGetState u disk .kDADiskStateCommandActive = true
      ∧ u.trace = t.trace ++ traceSince t u
      ∧ traceSince t u
          = [DAEvent.DAAuthorizeWithCallback
              [DAAuthorizeOption.kDAAuthorizeOptionForce,
                DAAuthorizeOption.kDAAuthorizeOptionInteract]
              (some disk) (DARequestGetUserUID s request) (DARequestGetUserGID s request)
              (authorizationCallbackOf (DARequestGetKind s request)) request
              (authorizeRightOf (DARequestGetKind s request))]
      ∧ AuthorizationPending u request disk := by
  simp [ApprovalPending, YieldsToUnit] at hpending hsentinel hrun
  obtain ⟨hkind, hdisk, happear, happrove, hauthorize, hprobe⟩ := hpending
  refine ⟨CFRelease request (DAStageSignal
    (DADiskSetState disk .kDADiskStateCommandActive false
      (DARequestSetDissenter request (some response) s))), ?_⟩
  simp only [DARequestGetKind,
    approvalCallback_sentinel s request disk response hkind hdisk hsentinel, true_and]
  cases hk : (s.requests request).kind
  case _kDADiskEject =>
    simp [hsentinel, hdisk, DARequestDispatch, happear, hk, __DARequestEject, happrove,
      hauthorize, authorizationCallbackOf, authorizeRightOf, AuthorizationPending,
      isStagedKind]
  case _kDADiskUnmount =>
    have hgate : ¬ (¬(s.requests request).link = none
        ∧ (s.units (s.disks disk).unit).commandActive = true) := by
      intro hc
      have := hrun (Or.inr hk) hc.1
      simp [this] at hc
    simp [hsentinel, hdisk, DARequestDispatch, happear, hk, __DARequestUnmount, happrove,
      hauthorize, authorizationCallbackOf, authorizeRightOf, hgate, Option.isSome_iff_ne_none,
      AuthorizationPending, isStagedKind]
  case _kDADiskMount =>
    have hgate : ¬ (¬(s.requests request).link = none
        ∧ (s.units (s.disks disk).unit).commandActive = true) := by
      intro hc
      have := hrun (Or.inl hk) hc.1
      simp [this] at hc
    obtain ⟨hprobe1, hprobe2⟩ := hprobe hk
    by_cases hp : (s.requests request).state &&& 65536 = 0
    · have hvol := hprobe2 hp
      simp [hsentinel, hdisk, DARequestDispatch, happear, hk, __DARequestMount, happrove,
        hauthorize, __DARequestMount_approve, __DARequestMount_authorize,
        authorizationCallbackOf, authorizeRightOf, hgate, Option.isSome_iff_ne_none, hp, hvol,
        AuthorizationPending, isStagedKind]
    · have hsp := hprobe1 hp
      simp [hsentinel, hdisk, DARequestDispatch, happear, hk, __DARequestMount, happrove,
        hauthorize, __DARequestMount_approve, __DARequestMount_authorize,
        authorizationCallbackOf, authorizeRightOf, hgate, Option.isSome_iff_ne_none, hp, hsp,
        AuthorizationPending, isStagedKind]
  all_goals simp [hk, isStagedKind] at hkind

/-- C8 at an eject request that receives the sentinel 0xF8DAFF01. -/
theorem C8_sentinel_authorize_witness :
    ∃ t u, approvalCallback ._kDADiskEject (some exampleSentinel) 0
        (examplePendingState ._kDADiskEject) = some t
      ∧ DARequestGetDissenter t 0 = some exampleSentinel
      ∧ DARequestDispatch exampleEnv (some 0) t = some (false, u)
      ∧ DARequestGetDissenter u 0 = none
      ∧ DARequestGetState u 0 _kDARequestStateStagedAuthorize = true
      ∧ DADiskGetState u 0 .kDADiskStateCommandActive = true
      ∧ u.trace = t.trace ++ traceSince t u
      ∧ traceSince t u
          = [DAEvent.DAAuthorizeWithCallback
              [DAAuthorizeOption.kDAAuthorizeOptionForce,
                DAAuthorizeOption.kDAAuthorizeOptionInteract]
              (some 0) 501 20 DARequestCallback.__DARequestEjectAuthorizationCallback 0
              DAAuthorizeRight._kDAAuthorizeRightUnmount]
      ∧ AuthorizationPending u 0 0 :=
  C8_sentinel_authorize exampleEnv (examplePendingState ._kDADiskEject) 0 0 exampleSentinel
    ⟨rfl, rfl, rfl, rfl, rfl, fun h => by cases h⟩ rfl (fun h => by cases h.1 <;> contradiction)


/-! ## C9: the outcome of the authorization -/

/-- C9 fails as stated: an eject request receives the sentinel 0xF8DAFF01,
the next dispatch submits the authorization, and the authorization callback
delivers the non-zero status NotPermitted. The client callback then receives a
dissenter whose status is NotPermitted, not NotPrivileged. -/
theorem C9_counterexample :
    (approvalCallback ._kDADiskEject (some exampleSentinel) 0
        (examplePendingState ._kDADiskEject)).bind
      (fun t => (DARequestDispatch exampleEnv (some 0) t).bind
        (fun r => (authorizationCallback ._kDADiskEject kDAReturnNotPermitted 0 r.2).bind
          (fun v => (DARequestDispatch exampleEnv (some 0) v).map
            (fun w => (w.1, traceSince v w.2)))))
      = some (true, [DAEvent.DAQueueCallback exampleCallback (some 0)
          (some { status := kDAReturnNotPermitted, string := none }), DAEvent.DAStageSignal])
    ∧ kDAReturnNotPermitted ≠ kDAReturnNotPrivileged := by
  constructor
  · rfl
  · decide

/-- C9, amended. For an eject, mount or unmount request whose authorization
was requested for the sentinel 0xF8DAFF01 (the sentinel has been cleared):
if the authorization callback delivers a non-zero status (for a mount request,
one that is neither 0xF8DAFF02 nor 0xF8DAFF03), then the next dispatch, unless
a linked mount or unmount request yields to a CommandActive unit, returns TRUE
and its only external calls are the client callback, with a dissenter that
carries the delivered status (NotPrivileged exactly when that is what the
authorization delivers), and the stage signal: the execute step is not
started. If it delivers 0, no dissenter is recorded and the next dispatch,
when the unit is not CommandActive, starts the execute step. -/
theorem C9_authorization_outcome (env : DAEnv) (s : DAState) (request : DARequestRef)
    (disk : DADiskRef) (hpending : AuthorizationPending s request disk)
    (hrun : ¬ YieldsToUnit s request disk) :
    (∀ status : DAReturn, status ≠ 0 →
      (DARequestGetKind s request = ._kDADiskMount →
        status ≠ 0xF8DAFF02 ∧ status ≠ 0xF8DAFF03) →
      ∃ t u, authorizationCallback (DARequestGetKind s request) status request s = some t
        ∧ DARequestDispatch env (some request) t = some (true, u)
        ∧ u.trace = t.trace ++ traceSince t u
        ∧ traceSince t u = completionTrace (DARequestGetCallback s request) (some disk)
            (some (DADissenterCreate status)))
    ∧ (∃ t, authorizationCallback (DARequestGetKind s request) 0 request s = some t
        ∧ DARequestGetDissenter t request = none
        ∧ (DAUnitGetState s disk .kDAUnitStateCommandActive = false →
            ∃ u, DARequestDispatch env (some request) t = some (true, u)
              ∧ u.trace = t.trace ++ traceSince t u
              ∧ (traceSince t u).any DAEvent.isExecute = true)) := by
  simp [AuthorizationPending, YieldsToUnit] at hpending hrun
  obtain ⟨hkind, hdisk, happear, happrove, hauthorize, hclean, hprobe⟩ := hpending
  have hgate : ¬ (s.requests request).kind = _DARequestKind._kDADiskEject →
      ¬ (¬(s.requests request).link = none
        ∧ (s.units (s.disks disk).unit).commandActive = true) := by
    intro hne hc
    have hmu : (s.requests request).kind = _DARequestKind._kDADiskMount
        ∨ (s.requests request).kind = _DARequestKind._kDADiskUnmount := by
      cases hk : (s.requests request).kind <;> simp_all [isStagedKind]
    have := hrun hmu hc.1
    simp [this] at hc
  have hpass : (s.requests request).kind = _DARequestKind._kDADiskMount →
      ((s.requests request).state &&& 65536 = 0 ∧ ¬(s.disks disk).volumePath = none)
        ∨ (¬(s.requests request).state &&& 65536 = 0 ∧ (s.disks disk).stagedProbe = true) := by
    intro hk
    obtain ⟨hprobe1, hprobe2⟩ := hprobe hk
    by_cases hp : (s.requests request).state &&& 65536 = 0
    · exact Or.inl ⟨hp, hprobe2 hp⟩
    · exact Or.inr ⟨hp, hprobe1 hp⟩
  refine ⟨?_, ?_⟩
  · intro status hstatus hother
    refine ⟨CFRelease request (DAStageSignal
      (DADiskSetState disk .kDADiskStateCommandActive false
        (DARequestSetDissenter request (some (DADissenterCreate status)) s))), ?_⟩
    simp only [DARequestGetKind, authorizationCallback_eval s request disk status hkind hdisk,
      hstatus, ne_eq, not_false_eq_true, if_true, true_and]
    cases hk : (s.requests request).kind
    case _kDADiskEject =>
      simp [hdisk, DARequestDispatch, happear, hk, __DARequestEject, happrove, hauthorize,
        __DARequestEject_commence, completionTrace, completionOf_own]
      cases (s.requests request).callback <;> rfl
    case _kDADiskUnmount =>
      have hg := hgate (by simp [hk])
      simp [hdisk, DARequestDispatch, happear, hk, __DARequestUnmount, happrove, hauthorize,
        __DARequestUnmount_commence, completionTrace, completionOf_own, hg,
        Option.isSome_iff_ne_none]
      cases (s.requests request).callback <;> rfl
    case _kDADiskMount =>
      have hg := hgate (by simp [hk])
      obtain ⟨h2, h3⟩ := hother hk
      rcases hpass hk with ⟨hp, hvol⟩ | ⟨hp, hsp⟩
      · simp [hdisk, DARequestDispatch, happear, hk, __DARequestMount, happrove, hauthorize,
          __DARequestMount_approve, __DARequestMount_authorize, __DARequestMount_commence,
          completionTrace, completionOf_own, hg, Option.isSome_iff_ne_none, hp, hvol, h2, h3]
        cases (s.requests request).callback <;> rfl
      · simp [hdisk, DARequestDispatch, happear, hk, __DARequestMount, happrove, hauthorize,
          __DARequestMount_approve, __DARequestMount_authorize, __DARequestMount_commence,
          completionTrace, completionOf_own, hg, Option.isSome_iff_ne_none, hp, hsp, h2, h3]
        cases (s.requests request).callback <;> rfl
    all_goals simp [hk, isStagedKind] at hkind
  · refine ⟨CFRelease request (DAStageSignal
      (DADiskSetState disk .kDADiskStateCommandActive false s)), ?_⟩
    simp only [DARequestGetKind, authorizationCallback_eval s request disk 0 hkind hdisk,
      ne_eq, not_true_eq_false, if_false, true_and]
    refine ⟨by simp [hclean], ?_⟩
    intro hidle
    simp only [DAUnitGetState] at hidle
    cases hk : (s.requests request).kind
    case _kDADiskEject =>
      simp [-List.any_eq_true, hdisk, hclean, DARequestDispatch, happear, hk,
        __DARequestEject, happrove, hauthorize, __DARequestEject_commence,
        __DARequestEjectCallback, hidle]
    case _kDADiskUnmount =>
      simp [-List.any_eq_true, hdisk, hclean, DARequestDispatch, happear, hk,
        __DARequestUnmount, happrove, hauthorize, __DARequestUnmount_commence, hidle,
        DAEvent.isExecute]
    case _kDADiskMount =>
      rcases hpass hk with ⟨hp, hvol⟩ | ⟨hp, hsp⟩
      · simp [-List.any_eq_true, hdisk, hclean, DARequestDispatch, happear, hk,
          __DARequestMount, happrove, hauthorize, __DARequestMount_approve,
          __DARequestMount_authorize, __DARequestMount_commence, hidle, hp, hvol,
          DAEvent.isExecute]
      · simp [-List.any_eq_true, hdisk, hclean, DARequestDispatch, happear, hk,
          __DARequestMount, happrove, hauthorize, __DARequestMount_approve,
          __DARequestMount_authorize, __DARequestMount_commence, hidle, hp, hsp,
          DAEvent.isExecute]
    all_goals simp [hk, isStagedKind] at hkind

/-- C9 at an eject request whose authorization is under way: a delivered
NotPrivileged reaches the client, a delivered 0 leaves no dissenter. -/
theorem C9_authorization_outcome_witness :
    (∃ t u, authorizationCallback ._kDADiskEject kDAReturnNotPrivileged 0
          (exampleAuthorizingState ._kDADiskEject) = some t
        ∧ DARequestDispatch exampleEnv (some 0) t = some (true, u)
        ∧ u.trace = t.trace ++ traceSince t u
        ∧ traceSince t u = completionTrace (some exampleCallback) (some 0)
            (some (DADissenterCreate kDAReturnNotPrivileged)))
    ∧ (∃ t, authorizationCallback ._kDADiskEject 0 0
          (exampleAuthorizingState ._kDADiskEject) = some t
        ∧ DARequestGetDissenter t 0 = none) :=
  ⟨(C9_authorization_outcome exampleEnv (exampleAuthorizingState ._kDADiskEject) 0 0
      ⟨rfl, rfl, rfl, rfl, rfl, rfl, fun h => by cases h⟩
      (fun h => by cases h.1 <;> contradiction)).1 kDAReturnNotPrivileged (by decide)
      (fun h => by cases h),
    (C9_authorization_outcome exampleEnv (exampleAuthorizingState ._kDADiskEject) 0 0
      ⟨rfl, rfl, rfl, rfl, rfl, rfl, fun h => by cases h⟩
      (fun h => by cases h.1 <;> contradiction)).2.elim
      (fun t ht => ⟨t, ht.1, ht.2.1⟩)⟩


/-! ## C11: the sentinel 0xF8DAFF02, mount read-only -/

/-- The loop of the completion dispatcher reads the requests only. -/
theorem dispatchCallback_loop_congr (s t : DAState) (start : Option DADissenter)
    (link : List DARequestRef) (h : t.requests = s.requests) :
    __DARequestDispatchCallback_loop t start link
      = __DARequestDispatchCallback_loop s start link := by
  induction link generalizing start with
  | nil => rfl
  | cons p rest ih => simp [__DARequestDispatchCallback_loop, h, ih]

/-- A mount approval that answers with the sentinel 0xF8DAFF02 or 0xF8DAFF03
records it, for every userUID, and ends the command on the disk. -/
theorem approvalCallback_mount_sentinel (s : DAState) (request : DARequestRef) (disk : DADiskRef)
    (response : DADissenter)
    (hdisk : (s.requests request).disk = some disk)
    (hsentinel : response.status = 4175101698 ∨ response.status = 4175101699) :
    __DARequestMountApprovalCallback (some response) request s
      = some (CFRelease request (DAStageSignal
          (DADiskSetState disk .kDADiskStateCommandActive false
            (DARequestSetDissenter request (some response) s)))) := by
  rcases hsentinel with h | h <;>
    by_cases huid : (s.requests request).userUID = 0 <;>
    simp [__DARequestMountApprovalCallback, huid, hdisk, setDissenter_setDissenter, h]

@[simp] theorem dispatchCallback_loop_emit (s : DAState) (event : DAEvent)
    (start : Option DADissenter) (link : List DARequestRef) :
    __DARequestDispatchCallback_loop (s.emit event) start link
      = __DARequestDispatchCallback_loop s start link :=
  dispatchCallback_loop_congr s _ start link (by simp)

@[simp] theorem dispatchCallback_loop_setDescription (s : DAState) (disk : DADiskRef)
    (key : DADiskDescriptionKey) (value : Option CFType)
    (start : Option DADissenter) (link : List DARequestRef) :
    __DARequestDispatchCallback_loop (DADiskSetDescription disk key value s) start link
      = __DARequestDispatchCallback_loop s start link :=
  dispatchCallback_loop_congr s _ start link (by simp)

@[simp] theorem dispatchCallback_loop_setBypath (s : DAState) (disk : DADiskRef)
    (value : Option CFType) (start : Option DADissenter) (link : List DARequestRef) :
    __DARequestDispatchCallback_loop (DADiskSetBypath disk value s) start link
      = __DARequestDispatchCallback_loop s start link :=
  dispatchCallback_loop_congr s _ start link (by simp)

/-- The client callback the completion dispatcher queues, and with which
dissenter. -/
theorem completionOf_eval (request : DARequestRef) (passed : Option DADissenter)
    (s : DAState) :
    completionOf request passed s
      = match (s.requests request).callback with
        | some callback =>
          [DAEvent.DAQueueCallback callback (s.requests request).disk
            (match (s.requests request).link with
             | some link =>
               if (s.requests request).dissenter = none then
                 __DARequestDispatchCallback_loop s none link
               else (s.requests request).dissenter
             | none => passed)]
        | none => [] := by
  unfold completionOf __DARequestDispatchCallback
  cases hcb : (s.requests request).callback with
  | none => simp [hcb]
  | some cb =>
    cases hl : (s.requests request).link with
    | none => simp [hcb, hl, DAQueueCallback]
    | some link =>
      by_cases hd : (s.requests request).dissenter = none <;>
        simp [hcb, hl, hd, DAQueueCallback]

/-- C11, amended. For a mount request whose approval is under way, for every
userUID including 0, and an approval response with status 0xF8DAFF02: the
response is recorded as the dissenter of the request; and the next dispatch,
provided a request with a link finds the unit of its disk not CommandActive
(otherwise it yields and changes neither the dissenter nor the disk), requests
no authorization, queues no completion, sets MountPreferenceNoWrite on the
disk and clears the dissenter of the request. It returns TRUE exactly when the
unit is not CommandActive, and then its only external call is the mount
helper, with the disk, the mount point of arg2 and arg3. If the helper then
reports status 0, the client callback of a request without a link receives no
dissenter, and that of a request with a link receives the first dissenter
recorded on a request of the link, none when there is none. -/
theorem C11_read_only_sentinel (env : DAEnv) (s : DAState) (request : DARequestRef)
    (disk : DADiskRef) (response : DADissenter)
    (hpending : ApprovalPending s request disk)
    (hkind : DARequestGetKind s request = ._kDADiskMount)
    (hsentinel : DADissenterGetStatus response = 0xF8DAFF02)
    (hrun : ¬ YieldsToUnit s request disk) :
    ∃ t u, __DARequestMountApprovalCallback (some response) request s = some t
      ∧ DARequestGetDissenter t request = some response
      ∧ DARequestDispatch env (some request) t
          = some (!DAUnitGetState s disk .kDAUnitStateCommandActive, u)
      ∧ u.trace = t.trace ++ traceSince t u
      ∧ (traceSince t u).any DAEvent.isAuthorize = false
      ∧ (traceSince t u).any DAEvent.isCompletion = false
      ∧ DADiskGetState u disk ._kDADiskStateMountPreferenceNoWrite = true
      ∧ DARequestGetDissenter u request = none
      ∧ (DAUnitGetState s disk .kDAUnitStateCommandActive = false →
          traceSince t u
            = [DAEvent.DAMountWithArguments disk
                ((DARequestGetArgument2 s request).bind CFURLCreateWithString)
                DARequestCallback.__DARequestMountCallback request
                (DARequestGetArgument3 s request)]
          ∧ ∀ mountpoint, ∃ v, __DARequestMountCallback 0 mountpoint request u = some v
            ∧ v.trace = u.trace ++ traceSince u v
            ∧ (DARequestGetLink s request = none →
                traceSince u v
                  = [DAEvent.DADiskLog disk, DAEvent.DADiskDescriptionChangedCallback disk
                      [DADiskDescriptionKey.kDADiskDescriptionVolumePathKey]]
                    ++ completionTrace (DARequestGetCallback s request) (some disk) none)
            ∧ (∀ link, DARequestGetLink s request = some link →
                traceSince u v
                  = [DAEvent.DADiskLog disk, DAEvent.DADiskDescriptionChangedCallback disk
                      [DADiskDescriptionKey.kDADiskDescriptionVolumePathKey]]
                    ++ completionTrace (DARequestGetCallback s request) (some disk)
                        (__DARequestDispatchCallback_loop u none link))) := by
  simp [ApprovalPending, YieldsToUnit] at hpending hsentinel hrun hkind
  obtain ⟨-, hdisk, happear, happrove, hauthorize, hprobe⟩ := hpending
  refine ⟨CFRelease request (DAStageSignal
    (DADiskSetState disk .kDADiskStateCommandActive false
      (DARequestSetDissenter request (some response) s))), ?_⟩
  simp only [approvalCallback_mount_sentinel s request disk response hdisk (Or.inl hsentinel),
    true_and]
  have hgate : ¬ (¬(s.requests request).link = none
      ∧ (s.units (s.disks disk).unit).commandActive = true) := by
    intro hc
    have := hrun (Or.inl hkind) hc.1
    simp [this] at hc
  obtain ⟨hprobe1, hprobe2⟩ := hprobe hkind
  have hpass : ((s.requests request).state &&& 65536 = 0 ∧ ¬(s.disks disk).volumePath = none)
      ∨ (¬(s.requests request).state &&& 65536 = 0 ∧ (s.disks disk).stagedProbe = true) := by
    by_cases hp : (s.requests request).state &&& 65536 = 0
    · exact Or.inl ⟨hp, hprobe2 hp⟩
    · exact Or.inr ⟨hp, hprobe1 hp⟩
  by_cases hidle : (s.units (s.disks disk).unit).commandActive = false
  · rcases hpass with ⟨hp, hvol⟩ | ⟨hp, hsp⟩
    · simp [-List.any_eq_true, -List.any_eq_false, hsentinel, hdisk,
          DARequestDispatch, happear, hkind, __DARequestMount, happrove, hauthorize,
          __DARequestMount_approve, __DARequestMount_authorize, __DARequestMount_commence,
          hidle, hp, hvol, DAEvent.isExecuteHelper, DAEvent.isAuthorize, DAEvent.isCompletion,
          __DARequestMountCallback, completionOf_eval, completionTrace]
      refine ⟨by cases (s.requests request).argument2 <;> rfl, fun hl => ?_, fun link hl => ?_⟩
      · cases (s.requests request).callback <;> simp [hl]
      · cases (s.requests request).callback <;> simp [hl]
    · simp [-List.any_eq_true, -List.any_eq_false, hsentinel, hdisk,
          DARequestDispatch, happear, hkind, __DARequestMount, happrove, hauthorize,
          __DARequestMount_approve, __DARequestMount_authorize, __DARequestMount_commence,
          hidle, hp, hsp, DAEvent.isExecuteHelper, DAEvent.isAuthorize, DAEvent.isCompletion,
          __DARequestMountCallback, completionOf_eval, completionTrace]
      refine ⟨by cases (s.requests request).argument2 <;> rfl, fun hl => ?_, fun link hl => ?_⟩
      · cases (s.requests request).callback <;> simp [hl]
      · cases (s.requests request).callback <;> simp [hl]
  · have hlink : (s.requests request).link = none := by
      by_contra hl
      exact hidle (hrun (Or.inl hkind) hl)
    rcases hpass with ⟨hp, hvol⟩ | ⟨hp, hsp⟩
    · simp [-List.any_eq_true, -List.any_eq_false, hsentinel, hdisk,
          DARequestDispatch, happear, hkind, __DARequestMount, happrove, hauthorize,
          __DARequestMount_approve, __DARequestMount_authorize, __DARequestMount_commence,
          hidle, hlink, hp, hvol, DAEvent.isAuthorize, DAEvent.isCompletion]
    · simp [-List.any_eq_true, -List.any_eq_false, hsentinel, hdisk,
          DARequestDispatch, happear, hkind, __DARequestMount, happrove, hauthorize,
          __DARequestMount_approve, __DARequestMount_authorize, __DARequestMount_commence,
          hidle, hlink, hp, hsp, DAEvent.isAuthorize, DAEvent.isCompletion]

/-- C11 at an unlinked mount request of user 501 on an idle unit. -/
theorem C11_read_only_sentinel_witness :
    ∃ t u, __DARequestMountApprovalCallback (some exampleReadOnly) 0
        (examplePendingState ._kDADiskMount) = some t
      ∧ DARequestGetDissenter t 0 = some exampleReadOnly
      ∧ DARequestDispatch exampleEnv (some 0) t = some (true, u)
      ∧ DADiskGetState u 0 ._kDADiskStateMountPreferenceNoWrite = true
      ∧ DARequestGetDissenter u 0 = none :=
  (C11_read_only_sentinel exampleEnv (examplePendingState ._kDADiskMount) 0 0 exampleReadOnly
    ⟨rfl, rfl, rfl, rfl, rfl, fun _ => ⟨fun _ => rfl, fun _ => by decide⟩⟩ rfl rfl
    (fun h => by cases h.2.1 rfl)).elim
    (fun t ht => ht.elim (fun u hu => ⟨t, u, hu.1, hu.2.1, hu.2.2.1, hu.2.2.2.2.2.2.1,
      hu.2.2.2.2.2.2.2.1⟩))

/-- C11 fails as stated, twice. A linked mount request receives 0xF8DAFF02
while the unit of its disk is CommandActive: the next dispatch returns FALSE
and leaves the sentinel recorded and MountPreferenceNoWrite unset. A linked
mount request on an idle unit receives 0xF8DAFF02, the next dispatch starts
the mount helper, the helper reports status 0, and the client callback
receives the dissenter Busy recorded on the linked request. -/
theorem C11_counterexample :
    (__DARequestMountApprovalCallback (some exampleReadOnly) 0
        (exampleLinkedBusyState ._kDADiskMount)).bind
      (fun t => (DARequestDispatch exampleEnv (some 0) t).map
        (fun r => (r.1, traceSince t r.2, DARequestGetDissenter r.2 0,
          DADiskGetState r.2 0 ._kDADiskStateMountPreferenceNoWrite)))
      = some (false, [], some exampleReadOnly, false)
    ∧ (__DARequestMountApprovalCallback (some exampleReadOnly) 0 exampleLinkedMountState).bind
      (fun t => (DARequestDispatch exampleEnv (some 0) t).bind
        (fun r => (__DARequestMountCallback 0 none 0 r.2).map
          (fun v => (r.1, traceSince t r.2, traceSince r.2 v))))
      = some (true, [DAEvent.DAMountWithArguments 0 none
            DARequestCallback.__DARequestMountCallback 0 none],
          [DAEvent.DADiskLog 0, DAEvent.DADiskDescriptionChangedCallback 0
            [DADiskDescriptionKey.kDADiskDescriptionVolumePathKey],
           DAEvent.DAQueueCallback exampleCallback (some 0)
             (some (DADissenterCreate kDAReturnBusy)), DAEvent.DAStageSignal]) := by
  constructor <;> rfl


/-! ## C12: the sentinel 0xF8DAFF03, mount read-only after authorization -/

/-- C12 fails as stated: a mount request receives 0xF8DAFF03 and the next
dispatch submits the authorization request. At that moment the sentinel is
still recorded as the dissenter of the request and MountPreferenceNoWrite is
not set on the disk. When the authorization then delivers NotPermitted, the
next dispatch completes the request with NotPermitted, not NotPrivileged, and
MountPreferenceNoWrite is still not set. -/
theorem C12_counterexample :
    (__DARequestMountApprovalCallback (some exampleReadOnlyAuthorize) 0
        (examplePendingState ._kDADiskMount)).bind
      (fun t => (DARequestDispatch exampleEnv (some 0) t).bind
        (fun r => (__DARequestMountAuthorizationCallback kDAReturnNotPermitted 0 r.2).bind
          (fun v => (DARequestDispatch exampleEnv (some 0) v).map
            (fun w => (r.1, traceSince t r.2, DARequestGetDissenter r.2 0,
              DADiskGetState r.2 0 ._kDADiskStateMountPreferenceNoWrite,
              w.1, traceSince v w.2,
              DADiskGetState w.2 0 ._kDADiskStateMountPreferenceNoWrite)))))
      = some (false,
          [DAEvent.DAAuthorizeWithCallback
            [DAAuthorizeOption.kDAAuthorizeOptionForce,
              DAAuthorizeOption.kDAAuthorizeOptionInteract]
            (some 0) 501 20 DARequestCallback.__DARequestMountAuthorizationCallback 0
            DAAuthorizeRight._kDAAuthorizeRightMount],
          some exampleReadOnlyAuthorize, false,
          true,
          [DAEvent.DAQueueCallback exampleCallback (some 0)
            (some { status := kDAReturnNotPermitted, string := none }), DAEvent.DAStageSignal],
          false)
    ∧ kDAReturnNotPermitted ≠ kDAReturnNotPrivileged := by
  constructor
  · rfl
  · decide

/-- The mount authorization callback records a dissenter with the delivered
status when it is not 0, and ends the command on the disk. -/
theorem mountAuthorizationCallback_eval (s : DAState) (request : DARequestRef)
    (disk : DADiskRef) (status : DAReturn) (hdisk : (s.requests request).disk = some disk) :
    __DARequestMountAuthorizationCallback status request s
      = some (CFRelease request (DAStageSignal
          (DADiskSetState disk .kDADiskStateCommandActive false
            (if status ≠ 0 then
              DARequestSetDissenter request (some (DADissenterCreate status)) s
             else s)))) := by
  by_cases hstatus : status = 0 <;>
    simp [__DARequestMountAuthorizationCallback, hstatus, hdisk]

/-- C12, amended. For a mount request whose approval is under way and an
approval response with status 0xF8DAFF03: the response is recorded as the
dissenter of the request; the next dispatch, provided a request with a link
finds the unit of its disk not CommandActive, returns FALSE and its only
external call is the authorization request for the right Mount. At that moment
the sentinel is still the dissenter of the request and MountPreferenceNoWrite
is what it was before. If the authorization delivers 0, the following dispatch
sets MountPreferenceNoWrite, clears the dissenter and, when the unit is not
CommandActive, returns TRUE with the mount helper as its only external call.
If the authorization delivers a non-zero status other than 0xF8DAFF02 and
0xF8DAFF03, the following dispatch returns TRUE and completes the request with
a dissenter that carries the delivered status (NotPrivileged exactly when that
is what the authorization delivers), and MountPreferenceNoWrite is what it was
before. -/
theorem C12_authorize_then_read_only (env : DAEnv) (s : DAState) (request : DARequestRef)
    (disk : DADiskRef) (response : DADissenter)
    (hpending : ApprovalPending s request disk)
    (hkind : DARequestGetKind s request = ._kDADiskMount)
    (hsentinel : DADissenterGetStatus response = 0xF8DAFF03)
    (hrun : ¬ YieldsToUnit s request disk) :
    ∃ t u, __DARequestMountApprovalCallback (some response) request s = some t
      ∧ DARequestGetDissenter t request = some response
      ∧ DARequestDispatch env (some request) t = some (false, u)
      ∧ u.trace = t.trace ++ traceSince t u
      ∧ traceSince t u
          = [DAEvent.DAAuthorizeWithCallback
              [DAAuthorizeOption.kDAAuthorizeOptionForce,
                DAAuthorizeOption.kDAAuthorizeOptionInteract]
              (some disk) (DARequestGetUserUID s request) (DARequestGetUserGID s request)
              DARequestCallback.__DARequestMountAuthorizationCallback request
              DAAuthorizeRight._kDAAuthorizeRightMount]
      ∧ DARequestGetDissenter u request = some response
      ∧ DADiskGetState u disk ._kDADiskStateMountPreferenceNoWrite
          = DADiskGetState s disk ._kDADiskStateMountPreferenceNoWrite
      ∧ (∃ v w, __DARequestMountAuthorizationCallback 0 request u = some v
          ∧ DARequestDispatch env (some request) v
              = some (!DAUnitGetState s disk .kDAUnitStateCommandActive, w)
          ∧ w.trace = v.trace ++ traceSince v w
          ∧ DADiskGetState w disk ._kDADiskStateMountPreferenceNoWrite = true
          ∧ DARequestGetDissenter w request = none
          ∧ (DAUnitGetState s disk .kDAUnitStateCommandActive = false →
              traceSince v w
                = [DAEvent.DAMountWithArguments disk
                    ((DARequestGetArgument2 s request).bind CFURLCreateWithString)
                    DARequestCallback.__DARequestMountCallback request
                    (DARequestGetArgument3 s request)]))
      ∧ (∀ status : DAReturn, status ≠ 0 → status ≠ 0xF8DAFF02 → status ≠ 0xF8DAFF03 →
          ∃ v w, __DARequestMountAuthorizationCallback status request u = some v
            ∧ DARequestDispatch env (some request) v = some (true, w)
            ∧ w.trace = v.trace ++ traceSince v w
            ∧ traceSince v w = completionTrace (DARequestGetCallback s request) (some disk)
                (some (DADissenterCreate status))
            ∧ DADiskGetState w disk ._kDADiskStateMountPreferenceNoWrite
                = DADiskGetState s disk ._kDADiskStateMountPreferenceNoWrite) := by
  simp [ApprovalPending, YieldsToUnit] at hpending hsentinel hrun hkind
  obtain ⟨-, hdisk, happear, happrove, hauthorize, hprobe⟩ := hpending
  refine ⟨CFRelease request (DAStageSignal
    (DADiskSetState disk .kDADiskStateCommandActive false
      (DARequestSetDissenter request (some response) s))), ?_⟩
  simp only [approvalCallback_mount_sentinel s request disk response hdisk (Or.inr hsentinel),
    true_and]
  have hgate : ¬ (¬(s.requests request).link = none
      ∧ (s.units (s.disks disk).unit).commandActive = true) := by
    intro hc
    have := hrun (Or.inl hkind) hc.1
    simp [this] at hc
  obtain ⟨hprobe1, hprobe2⟩ := hprobe hkind
  have hpass : ((s.requests request).state &&& 65536 = 0 ∧ ¬(s.disks disk).volumePath = none)
      ∨ (¬(s.requests request).state &&& 65536 = 0 ∧ (s.disks disk).stagedProbe = true) := by
    by_cases hp : (s.requests request).state &&& 65536 = 0
    · exact Or.inl ⟨hp, hprobe2 hp⟩
    · exact Or.inr ⟨hp, hprobe1 hp⟩
  refine ⟨__DARequestAuthorize request DARequestCallback.__DARequestMountAuthorizationCallback
    request DAAuthorizeRight._kDAAuthorizeRightMount
    (DARequestSetState request _kDARequestStateStagedAuthorize true
      (DADiskSetState disk .kDADiskStateCommandActive true
        (CFRetain request
          (DAUnitSetState disk .kDAUnitStateEjected false
            (CFRelease request (DAStageSignal
              (DADiskSetState disk .kDADiskStateCommandActive false
                (DARequestSetDissenter request (some response) s)))))))), ?_, ?_, ?_, ?_, ?_, ?_,
    ?_, ?_⟩
  · simp
  · rcases hpass with ⟨hp, hvol⟩ | ⟨hp, hsp⟩
    · simp [hsentinel, hdisk, DARequestDispatch, happear, hkind, __DARequestMount, happrove,
        hauthorize, __DARequestMount_approve, __DARequestMount_authorize,
        hgate, Option.isSome_iff_ne_none, hp, hvol]
    · simp [hsentinel, hdisk, DARequestDispatch, happear, hkind, __DARequestMount, happrove,
        hauthorize, __DARequestMount_approve, __DARequestMount_authorize,
        hgate, Option.isSome_iff_ne_none, hp, hsp]
  · simp
  · simp [__DARequestAuthorize, hdisk]
  · simp
  · simp
  · rw [mountAuthorizationCallback_eval _ request disk 0 (by simp [__DARequestAuthorize, hdisk])]
    simp only [ne_eq, not_true_eq_false, if_false, Option.some.injEq, exists_and_left,
      exists_eq_left']
    by_cases hidle : (s.units (s.disks disk).unit).commandActive = false
    · rcases hpass with ⟨hp, hvol⟩ | ⟨hp, hsp⟩
      · simp [hsentinel, hdisk, DARequestDispatch, happear, hkind, __DARequestMount, happrove,
          hauthorize, __DARequestMount_approve, __DARequestMount_authorize,
          __DARequestMount_commence, __DARequestAuthorize, hidle, hp, hvol]
        cases (s.requests request).argument2 <;> rfl
      · simp [hsentinel, hdisk, DARequestDispatch, happear, hkind, __DARequestMount, happrove,
          hauthorize, __DARequestMount_approve, __DARequestMount_authorize,
          __DARequestMount_commence, __DARequestAuthorize, hidle, hp, hsp]
        cases (s.requests request).argument2 <;> rfl
    · have hlink : (s.requests request).link = none := by
        by_contra hl
        exact hidle (hrun (Or.inl hkind) hl)
      rcases hpass with ⟨hp, hvol⟩ | ⟨hp, hsp⟩
      · simp [hsentinel, hdisk, DARequestDispatch, happear, hkind, __DARequestMount, happrove,
          hauthorize, __DARequestMount_approve, __DARequestMount_authorize,
          __DARequestMount_commence, __DARequestAuthorize, hidle, hlink, hp, hvol]
      · simp [hsentinel, hdisk, DARequestDispatch, happear, hkind, __DARequestMount, happrove,
          hauthorize, __DARequestMount_approve, __DARequestMount_authorize,
          __DARequestMount_commence, __DARequestAuthorize, hidle, hlink, hp, hsp]
  · intro status hstatus h2 h3
    rw [mountAuthorizationCallback_eval _ request disk status
      (by simp [__DARequestAuthorize, hdisk])]
    simp only [ne_eq, hstatus, not_false_eq_true, if_true, Option.some.injEq, exists_and_left,
      exists_eq_left']
    rcases hpass with ⟨hp, hvol⟩ | ⟨hp, hsp⟩
    · simp [hdisk, DARequestDispatch, happear, hkind, __DARequestMount, happrove,
        hauthorize, __DARequestMount_approve, __DARequestMount_authorize,
        __DARequestMount_commence, __DARequestAuthorize, hgate, Option.isSome_iff_ne_none,
        hp, hvol, h2, h3, completionTrace, completionOf_own]
      cases (s.requests request).callback <;> rfl
    · simp [hdisk, DARequestDispatch, happear, hkind, __DARequestMount, happrove,
        hauthorize, __DARequestMount_approve, __DARequestMount_authorize,
        __DARequestMount_commence, __DARequestAuthorize, hgate, Option.isSome_iff_ne_none,
        hp, hsp, h2, h3, completionTrace, completionOf_own]
      cases (s.requests request).callback <;> rfl

/-- C12 at an unlinked mount request of user 501: the authorization is
submitted with the sentinel still recorded. -/
theorem C12_authorize_then_read_only_witness :
    ∃ t u, __DARequestMountApprovalCallback (some exampleReadOnlyAuthorize) 0
        (examplePendingState ._kDADiskMount) = some t
      ∧ DARequestDispatch exampleEnv (some 0) t = some (false, u)
      ∧ DARequestGetDissenter u 0 = some exampleReadOnlyAuthorize
      ∧ DADiskGetState u 0 ._kDADiskStateMountPreferenceNoWrite
          = DADiskGetState (examplePendingState ._kDADiskMount) 0
              ._kDADiskStateMountPreferenceNoWrite :=
  (C12_authorize_then_read_only exampleEnv (examplePendingState ._kDADiskMount) 0 0
    exampleReadOnlyAuthorize
    ⟨rfl, rfl, rfl, rfl, rfl, fun _ => ⟨fun _ => rfl, fun _ => by decide⟩⟩ rfl rfl
    (fun h => by cases h.2.1 rfl)).elim
    (fun t ht => ht.elim (fun u hu => ⟨t, u, hu.1, hu.2.2.1, hu.2.2.2.2.2.1,
      hu.2.2.2.2.2.2.1⟩))


/-! ## C13: eject of a disk that is not whole media -/

/-- C13. For an eject request without a link whose disk passes the gates of
the dispatcher and has no MediaWhole key or MediaWhole equal to false: the
first dispatch (StagedApprove is not set) returns TRUE; its external calls are
exactly the client callback, which receives a dissenter with status
Unsupported, and the stage signal, so no approval is submitted and the device
is neither opened nor sent DKIOCEJECT; and the requests (staging bits
included), the disks, the units and the disk list are unchanged. -/
theorem C13_eject_unsupported (env : DAEnv) (s : DAState) (request : DARequestRef)
    (disk : DADiskRef)
    (hkind : DARequestGetKind s request = ._kDADiskEject)
    (hlink : DARequestGetLink s request = none)
    (hdisk : DARequestGetDisk s request = some disk)
    (hactive : DADiskGetState s disk .kDADiskStateCommandActive = false)
    (happear : DADiskGetState s disk .kDADiskStateStagedAppear = true)
    (hfirst : DARequestGetState s request kDARequestStateStagedApprove = false)
    (hwhole : DADiskGetDescription s disk .kDADiskDescriptionMediaWholeKey = none
      ∨ DADiskGetDescription s disk .kDADiskDescriptionMediaWholeKey = some kCFBooleanFalse) :
    ∃ u, DARequestDispatch env (some request) s = some (true, u)
      ∧ u.trace = s.trace ++ completionTrace (DARequestGetCallback s request) (some disk)
          (some (DADissenterCreate kDAReturnUnsupported))
      ∧ (completionTrace (DARequestGetCallback s request) (some disk)
          (some (DADissenterCreate kDAReturnUnsupported))).any DAEvent.isApproval = false
      ∧ (completionTrace (DARequestGetCallback s request) (some disk)
          (some (DADissenterCreate kDAReturnUnsupported))).any DAEvent.isExecute = false
      ∧ u.requests = s.requests ∧ u.disks = s.disks ∧ u.units = s.units
      ∧ u.gDADiskList = s.gDADiskList := by
  simp at hkind hlink hdisk hactive happear hfirst hwhole
  have hcompletion : ∀ c : Option DACallback,
      (completionTrace c (some disk) (some (DADissenterCreate kDAReturnUnsupported))).any
          DAEvent.isApproval = false
      ∧ (completionTrace c (some disk) (some (DADissenterCreate kDAReturnUnsupported))).any
          DAEvent.isExecute = false := by
    intro c
    cases c <;> simp [completionTrace, DAEvent.isApproval, DAEvent.isExecute]
  refine ⟨DAStageSignal (DARequestDispatchCallback request kDAReturnUnsupported s),
    ?_, ?_, (hcompletion _).1, (hcompletion _).2, by simp, by simp, by simp, by simp⟩
  · rcases hwhole with hw | hw <;>
      simp [DARequestDispatch, hdisk, hactive, happear, hkind, __DARequestEject, hfirst,
        __DARequestEject_status, hw]
  · simp [completionOf_eval, hlink, hdisk, completionTrace]
    cases (s.requests request).callback <;> rfl

/-- C13 at a fresh eject request of user 501 on a disk with MediaWhole false. -/
theorem C13_eject_unsupported_witness :
    ∃ u, DARequestDispatch exampleEnv (some 0) examplePartitionState = some (true, u)
      ∧ u.trace = examplePartitionState.trace
          ++ completionTrace (some exampleCallback) (some 0)
            (some (DADissenterCreate kDAReturnUnsupported))
      ∧ u.requests = examplePartitionState.requests ∧ u.disks = examplePartitionState.disks
      ∧ u.units = examplePartitionState.units :=
  (C13_eject_unsupported exampleEnv examplePartitionState 0 0 rfl rfl rfl rfl rfl rfl
    (Or.inr rfl)).elim
    (fun u hu => ⟨u, hu.1, hu.2.1, hu.2.2.2.2.1, hu.2.2.2.2.2.1, hu.2.2.2.2.2.2.1⟩)


/-! ## C14: the outcomes of the eject itself -/

/-- The loop of the completion dispatcher reads the dissenters only. -/
theorem dispatchCallback_loop_congr_dissenter (s t : DAState) (start : Option DADissenter)
    (link : List DARequestRef)
    (h : ∀ r, (t.requests r).dissenter = (s.requests r).dissenter) :
    __DARequestDispatchCallback_loop t start link
      = __DARequestDispatchCallback_loop s start link := by
  induction link generalizing start with
  | nil => rfl
  | cons p rest ih => simp [__DARequestDispatchCallback_loop, h, ih]

@[simp] theorem dispatchCallback_loop_CFRetain (s : DAState) (request : DARequestRef)
    (start : Option DADissenter) (link : List DARequestRef) :
    __DARequestDispatchCallback_loop (CFRetain request s) start link
      = __DARequestDispatchCallback_loop s start link := by
  apply dispatchCallback_loop_congr_dissenter
  intro r
  by_cases hr : r = request
  · subst hr; simp
  · simp [CFRetain_requests_other, hr]

@[simp] theorem dispatchCallback_loop_setState (s : DAState) (request : DARequestRef)
    (state : DARequestState) (value : Bool)
    (start : Option DADissenter) (link : List DARequestRef) :
    __DARequestDispatchCallback_loop (DARequestSetState request state value s) start link
      = __DARequestDispatchCallback_loop s start link := by
  apply dispatchCallback_loop_congr_dissenter
  intro r
  by_cases hr : r = request
  · subst hr; simp
  · simp [DARequestSetState_requests_other, hr]

@[simp] theorem dispatchCallback_loop_diskSetState (s : DAState) (disk : DADiskRef)
    (state : DADiskState) (value : Bool)
    (start : Option DADissenter) (link : List DARequestRef) :
    __DARequestDispatchCallback_loop (DADiskSetState disk state value s) start link
      = __DARequestDispatchCallback_loop s start link :=
  dispatchCallback_loop_congr s _ start link (by simp)

@[simp] theorem dispatchCallback_loop_unitSetState (s : DAState) (disk : DADiskRef)
    (state : DAUnitState) (value : Bool)
    (start : Option DADissenter) (link : List DARequestRef) :
    __DARequestDispatchCallback_loop (DAUnitSetState disk state value s) start link
      = __DARequestDispatchCallback_loop s start link :=
  dispatchCallback_loop_congr s _ start link (by simp)

@[simp] theorem dispatchCallback_loop_eject_ioctl (env : DAEnv) (s : DAState) (disk : DADiskRef)
    (start : Option DADissenter) (link : List DARequestRef) :
    __DARequestDispatchCallback_loop (__DARequestEject_ioctl env disk s).2 start link
      = __DARequestDispatchCallback_loop s start link :=
  dispatchCallback_loop_congr s _ start link (by simp)

/-- The system calls of eject when the open fails. -/
theorem eject_ioctl_open_failed (env : DAEnv) (disk : DADiskRef) (s : DAState)
    (hopen : (env.sys_open (s.disks disk).bsdPath).value = minusOne) :
    __DARequestEject_ioctl env disk s
      = ((env.sys_open (s.disks disk).bsdPath).errno,
          s.emit (DAEvent.sys_open (s.disks disk).bsdPath)) := by
  simp [__DARequestEject_ioctl, hopen]

/-- The system calls of eject when the open succeeds, the unit is not latched
Ejected, and DKIOCEJECT answers 0 or fails with ENOTTY. -/
theorem eject_ioctl_ejected (env : DAEnv) (disk : DADiskRef) (s : DAState)
    (hopen : (env.sys_open (s.disks disk).bsdPath).value ≠ minusOne)
    (hlatch : (s.units (s.disks disk).unit).ejected = false)
    (hok : (env.sys_ioctl (env.sys_open (s.disks disk).bsdPath).value).value = 0
      ∨ ((env.sys_ioctl (env.sys_open (s.disks disk).bsdPath).value).value = minusOne
        ∧ (env.sys_ioctl (env.sys_open (s.disks disk).bsdPath).value).errno = ENOTTY)) :
    __DARequestEject_ioctl env disk s
      = (0, (DAUnitSetState disk .kDAUnitStateEjected true
          ((s.emit (DAEvent.sys_open (s.disks disk).bsdPath)).emit
            (DAEvent.sys_ioctl_DKIOCEJECT (env.sys_open (s.disks disk).bsdPath).value))).emit
          (DAEvent.sys_close (env.sys_open (s.disks disk).bsdPath).value)) := by
  rcases hok with h0 | ⟨h1, h2⟩
  · simp only [minusOne, ne_eq] at hopen
    simp [__DARequestEject_ioctl, hopen, hlatch, h0, minusOne]
  · simp [__DARequestEject_ioctl, hopen, hlatch, h1, h2]

/-- The system calls of eject when the open succeeds, the unit is not latched
Ejected, and DKIOCEJECT fails with an errno other than ENOTTY. -/
theorem eject_ioctl_failed (env : DAEnv) (disk : DADiskRef) (s : DAState)
    (hopen : (env.sys_open (s.disks disk).bsdPath).value ≠ minusOne)
    (hlatch : (s.units (s.disks disk).unit).ejected = false)
    (hfail : (env.sys_ioctl (env.sys_open (s.disks disk).bsdPath).value).value = minusOne)
    (hother : (env.sys_ioctl (env.sys_open (s.disks disk).bsdPath).value).errno ≠ ENOTTY)
    (hset : (env.sys_ioctl (env.sys_open (s.disks disk).bsdPath).value).errno ≠ 0) :
    __DARequestEject_ioctl env disk s
      = ((env.sys_ioctl (env.sys_open (s.disks disk).bsdPath).value).errno,
          ((s.emit (DAEvent.sys_open (s.disks disk).bsdPath)).emit
            (DAEvent.sys_ioctl_DKIOCEJECT (env.sys_open (s.disks disk).bsdPath).value)).emit
          (DAEvent.sys_close (env.sys_open (s.disks disk).bsdPath).value)) := by
  simp [__DARequestEject_ioctl, hopen, hlatch, hfail, hother, hset]

/-- Setting a staging bit on the request does not change what the completion
dispatcher queues. -/
theorem completionOf_setState (request : DARequestRef) (dissenter : Option DADissenter)
    (state : DARequestState) (value : Bool) (s : DAState) :
    completionOf request dissenter (DARequestSetState request state value s)
      = completionOf request dissenter s := by
  simp [completionOf_eval]

/-- The unix_err of a status is never 0. -/
theorem unix_err_ne_zero (status : Nat) : unix_err status ≠ 0 := by
  intro h
  have h1 : 49152 ||| status = 0 := h
  have h2 : (49152 ||| status).testBit 15 = true := by
    rw [Nat.testBit_or]
    have : Nat.testBit 49152 15 = true := by decide
    simp [this]
  rw [h1] at h2
  simp at h2

/-- The execute step of eject on a unit that is neither CommandActive nor
latched Ejected, for a request without a dissenter: what it calls and what it
leaves behind, by the results of `open` and `DKIOCEJECT`. -/
theorem eject_commence_outcomes (env : DAEnv) (s : DAState) (request : DARequestRef)
    (disk : DADiskRef) (file result : SysResult)
    (hdisk : DARequestGetDisk s request = some disk)
    (hclean : DARequestGetDissenter s request = none)
    (hidle : DAUnitGetState s disk .kDAUnitStateCommandActive = false)
    (hlatch : DAUnitGetState s disk .kDAUnitStateEjected = false)
    (hfile : env.sys_open (DADiskGetBSDPath s disk) = file)
    (hresult : env.sys_ioctl file.value = result) :
    ∃ u, __DARequestEject_commence env request disk s = some (true, u)
      ∧ u.trace = s.trace ++ traceSince s u
      ∧ DAUnitGetState u disk .kDAUnitStateCommandActive = false
      ∧ DADiskGetState u disk .kDADiskStateCommandActive = false
      ∧ (file.value ≠ minusOne →
          (result.value = 0 ∨ (result.value = minusOne ∧ result.errno = ENOTTY)) →
          traceSince s u
            = [DAEvent.sys_open (DADiskGetBSDPath s disk),
                DAEvent.sys_ioctl_DKIOCEJECT file.value, DAEvent.sys_close file.value]
              ++ completionOf request none s ++ [DAEvent.DAStageSignal]
          ∧ DAUnitGetState u disk .kDAUnitStateEjected = true)
      ∧ (file.value ≠ minusOne → result.value = minusOne → result.errno ≠ ENOTTY →
          result.errno ≠ 0 →
          traceSince s u
            = [DAEvent.sys_open (DADiskGetBSDPath s disk),
                DAEvent.sys_ioctl_DKIOCEJECT file.value, DAEvent.sys_close file.value]
              ++ completionOf request (some (DADissenterCreate (unix_err result.errno))) s
              ++ [DAEvent.DAStageSignal]
          ∧ DAUnitGetState u disk .kDAUnitStateEjected = false)
      ∧ (file.value = minusOne → file.errno ≠ 0 →
          traceSince s u
            = [DAEvent.sys_open (DADiskGetBSDPath s disk)]
              ++ completionOf request (some (DADissenterCreate (unix_err file.errno))) s
              ++ [DAEvent.DAStageSignal]
          ∧ DAUnitGetState u disk .kDAUnitStateEjected = false)
      ∧ (DARequestGetLink s request = none → ∀ dissenter,
          completionOf request dissenter s
            = match DARequestGetCallback s request with
              | some callback => [DAEvent.DAQueueCallback callback (some disk) dissenter]
              | none => []) := by
  simp at hdisk hclean hidle hlatch hfile
  subst hfile hresult
  simp only [DARequestGetLink, DARequestGetCallback, DADiskGetBSDPath, DADiskGetState,
    DAUnitGetState, traceSince]
  simp [__DARequestEject_commence, hclean, hidle, __DARequestEjectCallback, hdisk]
  refine ⟨?_, ?_, ?_, ?_⟩
  · intro hopen hok
    have hE := eject_ioctl_ejected env disk
      (DAUnitSetState disk .kDAUnitStateCommandActive true
        (DADiskSetState disk .kDADiskStateCommandActive true (CFRetain request s)))
      (by simpa using hopen) (by simpa using hlatch) (by simpa using hok)
    simp [ejectSyscalls, hE, completionOf_eval]
  · intro hopen hfail hother hset
    have hE := eject_ioctl_failed env disk
      (DAUnitSetState disk .kDAUnitStateCommandActive true
        (DADiskSetState disk .kDADiskStateCommandActive true (CFRetain request s)))
      (by simpa using hopen) (by simpa using hlatch) (by simpa using hfail)
      (by simpa using hother) (by simpa using hset)
    simp [ejectSyscalls, hE, completionOf_eval, hset, unix_err_ne_zero, hlatch]
  · intro hopen hset
    have hE := eject_ioctl_open_failed env disk
      (DAUnitSetState disk .kDAUnitStateCommandActive true
        (DADiskSetState disk .kDADiskStateCommandActive true (CFRetain request s)))
      (by simpa using hopen)
    simp [ejectSyscalls, hE, completionOf_eval, hset, unix_err_ne_zero, hlatch]
  · intro hlink dissenter
    cases hcb : (s.requests request).callback <;>
      simp [completionOf_eval, hlink, hdisk, hcb]

/-- C14. For an eject request that reaches the execute stage (its disk passes
the gates of the dispatcher, StagedApprove is set and no dissenter is
recorded) with the unit neither CommandActive nor latched Ejected: the
dispatch returns TRUE, and afterwards the unit and the disk are not
CommandActive. When the open succeeds and DKIOCEJECT answers 0 or fails with
errno ENOTTY, the calls are open, ioctl, close, the completion with status 0
and the stage signal, and the Ejected latch is set. When the open succeeds and
DKIOCEJECT fails with another errno e (not 0), the calls are the same with the
completion carrying a dissenter of status unix_err( e ), and the latch is
not set. When the open fails with errno e (not 0), the calls are open, the
completion with a dissenter of status unix_err( e ) and the stage signal, and
the latch is not set. The completion of a request without a link queues the
client callback with exactly that dissenter, NULL for status 0. -/
theorem C14_eject_outcomes (env : DAEnv) (s : DAState) (request : DARequestRef)
    (disk : DADiskRef) (file result : SysResult)
    (hkind : DARequestGetKind s request = ._kDADiskEject)
    (hdisk : DARequestGetDisk s request = some disk)
    (hactive : DADiskGetState s disk .kDADiskStateCommandActive = false)
    (happear : DADiskGetState s disk .kDADiskStateStagedAppear = true)
    (happrove : DARequestGetState s request kDARequestStateStagedApprove = true)
    (hclean : DARequestGetDissenter s request = none)
    (hidle : DAUnitGetState s disk .kDAUnitStateCommandActive = false)
    (hlatch : DAUnitGetState s disk .kDAUnitStateEjected = false)
    (hfile : env.sys_open (DADiskGetBSDPath s disk) = file)
    (hresult : env.sys_ioctl file.value = result) :
    ∃ u, DARequestDispatch env (some request) s = some (true, u)
      ∧ u.trace = s.trace ++ traceSince s u
      ∧ DAUnitGetState u disk .kDAUnitStateCommandActive = false
      ∧ DADiskGetState u disk .kDADiskStateCommandActive = false
      ∧ (file.value ≠ minusOne →
          (result.value = 0 ∨ (result.value = minusOne ∧ result.errno = ENOTTY)) →
          traceSince s u
            = [DAEvent.sys_open (DADiskGetBSDPath s disk),
                DAEvent.sys_ioctl_DKIOCEJECT file.value, DAEvent.sys_close file.value]
              ++ completionOf request none s ++ [DAEvent.DAStageSignal]
          ∧ DAUnitGetState u disk .kDAUnitStateEjected = true)
      ∧ (file.value ≠ minusOne → result.value = minusOne → result.errno ≠ ENOTTY →
          result.errno ≠ 0 →
          traceSince s u
            = [DAEvent.sys_open (DADiskGetBSDPath s disk),
                DAEvent.sys_ioctl_DKIOCEJECT file.value, DAEvent.sys_close file.value]
              ++ completionOf request (some (DADissenterCreate (unix_err result.errno))) s
              ++ [DAEvent.DAStageSignal]
          ∧ DAUnitGetState u disk .kDAUnitStateEjected = false)
      ∧ (file.value = minusOne → file.errno ≠ 0 →
          traceSince s u
            = [DAEvent.sys_open (DADiskGetBSDPath s disk)]
              ++ completionOf request (some (DADissenterCreate (unix_err file.errno))) s
              ++ [DAEvent.DAStageSignal]
          ∧ DAUnitGetState u disk .kDAUnitStateEjected = false)
      ∧ (DARequestGetLink s request = none → ∀ dissenter,
          completionOf request dissenter s
            = match DARequestGetCallback s request with
              | some callback => [DAEvent.DAQueueCallback callback (some disk) dissenter]
              | none => []) := by
  subst hfile hresult
  simp at hkind hactive happear happrove
  have hdisk1 := hdisk
  have hclean1 := hclean
  simp at hdisk1 hclean1
  by_cases hauthorize : (s.requests request).state &&& 2097152 = 0
  · obtain ⟨u, hu, h1, h2, h3, h4, h5, h6, h7⟩ := eject_commence_outcomes env
      (DARequestSetState request _kDARequestStateStagedAuthorize true s) request disk _ _
      (by simpa using hdisk) (by simpa using hclean) (by simpa using hidle)
      (by simpa using hlatch) rfl rfl
    refine ⟨u, ?_, ?_, h2, h3, ?_, ?_, ?_, ?_⟩
    · simp only [_kDARequestStateStagedAuthorize] at hu
      simp [DARequestDispatch, hdisk1, hactive, happear, hkind, __DARequestEject, happrove,
        hauthorize, hclean1, hu]
    · simpa [traceSince] using h1
    · simpa [traceSince, completionOf_setState] using h4
    · simpa [traceSince, completionOf_setState] using h5
    · simpa [traceSince, completionOf_setState] using h6
    · simpa [completionOf_setState] using h7
  · obtain ⟨u, hu, h1, h2, h3, h4, h5, h6, h7⟩ := eject_commence_outcomes env
      s request disk _ _ hdisk hclean hidle hlatch rfl rfl
    refine ⟨u, ?_, h1, h2, h3, h4, h5, h6, h7⟩
    simp [DARequestDispatch, hdisk1, hactive, happear, hkind, __DARequestEject, happrove,
      hauthorize, hclean1, hu]

/-- C14 at an eject request of user 501 whose device does not support
DKIOCEJECT (errno ENOTTY): success, and the Ejected latch is set. -/
theorem C14_eject_outcomes_witness :
    ∃ u, DARequestDispatch exampleEnvNoEject (some 0) exampleEjectState = some (true, u)
      ∧ traceSince exampleEjectState u
          = [DAEvent.sys_open (some "/dev/rdisk1"), DAEvent.sys_ioctl_DKIOCEJECT 3,
              DAEvent.sys_close 3]
            ++ completionOf 0 none exampleEjectState ++ [DAEvent.DAStageSignal]
      ∧ DAUnitGetState u 0 .kDAUnitStateEjected = true
      ∧ DAUnitGetState u 0 .kDAUnitStateCommandActive = false
      ∧ DADiskGetState u 0 .kDADiskStateCommandActive = false
      ∧ completionOf 0 none exampleEjectState
          = [DAEvent.DAQueueCallback exampleCallback (some 0) none] :=
  (C14_eject_outcomes exampleEnvNoEject exampleEjectState 0 0
    { value := 3, errno := 0 } { value := minusOne, errno := ENOTTY }
    rfl rfl rfl rfl rfl rfl rfl rfl rfl rfl).elim
    (fun u hu => ⟨u, hu.1, (hu.2.2.2.2.1 (by decide) (Or.inr ⟨rfl, rfl⟩)).1,
      (hu.2.2.2.2.1 (by decide) (Or.inr ⟨rfl, rfl⟩)).2, hu.2.2.1, hu.2.2.2.1,
      hu.2.2.2.2.2.2.2 rfl none⟩)


/-! ## The approval stage of mount (C15, C16, C17) -/

/-- A mount request that reaches the approval stage is handed to that stage
with the Ejected latch of the unit cleared. -/
theorem dispatch_mount_approve (env : DAEnv) (s : DAState) (request : DARequestRef)
    (disk : DADiskRef) (h : MountApproveStage s request disk) :
    DARequestDispatch env (some request) s
      = some (__DARequestMount_approve env request disk
          (DAUnitSetState disk .kDAUnitStateEjected false s)) := by
  simp [MountApproveStage, YieldsToUnit] at h
  obtain ⟨hkind, hdisk, hactive, happear, hrun, hprobe1, hprobe2, -⟩ := h
  have hgate : ¬ (¬(s.requests request).link = none
      ∧ (s.units (s.disks disk).unit).commandActive = true) := by
    intro hc
    have := hrun (Or.inl hkind) hc.1
    simp [this] at hc
  by_cases hp : (s.requests request).state &&& 65536 = 0
  · have hvol := hprobe2 hp
    simp [DARequestDispatch, hdisk, hactive, happear, hkind, __DARequestMount, hgate,
      Option.isSome_iff_ne_none, hp, hvol]
  · have hsp := hprobe1 hp
    simp [DARequestDispatch, hdisk, hactive, happear, hkind, __DARequestMount, hgate,
      Option.isSome_iff_ne_none, hp, hsp]

/-- C15 fails as stated. A fresh mount request on a disk that is not
mountable and has no VolumePath is handed to the probe: the dispatch returns
FALSE and only raises the stage signal. On a disk that is not mountable and
has a VolumePath, a request without arguments is completed with Busy. On a
disk that is not mountable and requires repair, a probed request is completed
with NotReady. And the client callback of a probed request with a link is
queued with a NULL dissenter. -/
theorem C15_counterexample :
    (DARequestDispatch exampleEnv (some 0) exampleUnmountableState).map
        (fun r => (r.1, r.2.trace))
      = some (false, [DAEvent.DAStageSignal])
    ∧ (DARequestDispatch exampleEnv (some 0) exampleUnmountableMountedState).map
        (fun r => (r.1, r.2.trace))
      = some (true, [DAEvent.DAQueueCallback exampleCallback (some 0)
          (some (DADissenterCreate kDAReturnBusy)), DAEvent.DAStageSignal])
    ∧ (DARequestDispatch exampleEnv (some 0) exampleUnmountableDirtyState).map
        (fun r => (r.1, r.2.trace))
      = some (true, [DAEvent.DAQueueCallback exampleCallback (some 0)
          (some (DADissenterCreate kDAReturnNotReady)), DAEvent.DAStageSignal])
    ∧ (DARequestDispatch exampleEnv (some 0) exampleUnmountableLinkedState).map
        (fun r => (r.1, r.2.trace))
      = some (true, [DAEvent.DAQueueCallback exampleCallback (some 0) none,
          DAEvent.DAStageSignal]) := by
  refine ⟨?_, ?_, ?_, ?_⟩ <;> rfl

/-- C15, amended. For a mount request that reaches the approval stage with
StagedApprove unset on a disk whose VolumeMountable is false, that does not
require repair, and that has no VolumePath or is asked to update (arg3 holds
both update arguments): the dispatch returns TRUE; it completes the request
with status Unsupported and raises the stage signal, and makes no other
external call; the client callback of a request without a link receives a
dissenter with status Unsupported; no request or disk is modified. -/
theorem C15_mount_unsupported (env : DAEnv) (s : DAState) (request : DARequestRef)
    (disk : DADiskRef) (hstage : MountApproveStage s request disk)
    (hmountable : DADiskGetDescription s disk .kDADiskDescriptionVolumeMountableKey
      = some kCFBooleanFalse)
    (hrepair : DADiskGetState s disk .kDADiskStateRequireRepair = false)
    (hfree : DADiskGetDescription s disk .kDADiskDescriptionVolumePathKey = none
      ∨ ∃ arguments, DARequestGetArgument3 s request = some arguments
        ∧ env.DAMountContainsArgument arguments "-u" = true
        ∧ env.DAMountContainsArgument arguments kDAFileSystemMountArgumentUpdate = true) :
    ∃ u, DARequestDispatch env (some request) s = some (true, u)
      ∧ u.trace = s.trace
          ++ completionOf request (some (DADissenterCreate kDAReturnUnsupported)) s
          ++ [DAEvent.DAStageSignal]
      ∧ (DARequestGetLink s request = none →
          u.trace = s.trace ++ completionTrace (DARequestGetCallback s request) (some disk)
            (some (DADissenterCreate kDAReturnUnsupported)))
      ∧ u.requests = s.requests ∧ u.disks = s.disks := by
  rw [dispatch_mount_approve env s request disk hstage]
  simp [MountApproveStage] at hstage hmountable hrepair hfree
  obtain ⟨hkind, hdisk, hactive, happear, hrun, hprobe1, hprobe2, hfirst⟩ := hstage
  have hstatus : __DARequestMount_status env request disk
      (DAUnitSetState disk .kDAUnitStateEjected false s) = kDAReturnUnsupported := by
    rcases hfree with hvol | ⟨arguments, harg, hu, hupdate⟩
    · simp [__DARequestMount_status, hmountable, hvol]
    · simp [__DARequestMount_status, hmountable, harg, hu, hupdate]
  simp [__DARequestMount_approve, hfirst, hrepair, hstatus, completionOf_eval]
  intro hlink
  cases hcb : (s.requests request).callback <;> simp [hlink, hdisk, completionTrace]

/-- C15 at a probed mount request of user 501 on a disk that is not mountable
and not mounted. -/
theorem C15_mount_unsupported_witness :
    ∃ u, DARequestDispatch exampleEnv (some 0) exampleUnmountableProbedState = some (true, u)
      ∧ u.trace = exampleUnmountableProbedState.trace
          ++ completionTrace (some exampleCallback) (some 0)
            (some (DADissenterCreate kDAReturnUnsupported)) :=
  (C15_mount_unsupported exampleEnv exampleUnmountableProbedState 0 0
    ⟨rfl, rfl, rfl, rfl, (fun h => by cases h.2.1 rfl), (fun _ => rfl),
      (fun h => absurd h (by decide)), rfl⟩ rfl rfl (Or.inl rfl)).elim
    (fun u hu => ⟨u, hu.1, hu.2.2.1 rfl⟩)


/-! ## C16: mounting a disk that is mounted already -/

/-- C17. For a mount request that reaches the approval stage with
StagedApprove unset on a disk with RequireRepair set, whatever VolumeMountable,
VolumePath and arg3 are: the dispatch returns TRUE; a dissenter with status
NotReady is recorded on the request; the external calls are exactly the client
callback, which receives a dissenter with status NotReady (also when the
request has a link), and the stage signal, so no Mount approval is submitted;
and the staging bits of the request, StagedApprove among them, are unchanged. -/
theorem C17_mount_not_ready (env : DAEnv) (s : DAState) (request : DARequestRef)
    (disk : DADiskRef) (hstage : MountApproveStage s request disk)
    (hrepair : DADiskGetState s disk .kDADiskStateRequireRepair = true) :
    ∃ u, DARequestDispatch env (some request) s = some (true, u)
      ∧ DARequestGetDissenter u request = some (DADissenterCreate kDAReturnNotReady)
      ∧ u.trace = s.trace ++ completionTrace (DARequestGetCallback s request) (some disk)
          (some (DADissenterCreate kDAReturnNotReady))
      ∧ (completionTrace (DARequestGetCallback s request) (some disk)
          (some (DADissenterCreate kDAReturnNotReady))).any DAEvent.isApproval = false
      ∧ DARequestGetState u request kDARequestStateStagedApprove = false
      ∧ (u.requests request).state = (s.requests request).state := by
  rw [dispatch_mount_approve env s request disk hstage]
  simp [MountApproveStage] at hstage hrepair
  obtain ⟨hkind, hdisk, hactive, happear, hrun, hprobe1, hprobe2, hfirst⟩ := hstage
  simp [__DARequestMount_approve, hfirst, hrepair, completionOf_eval, hdisk]
  cases hcb : (s.requests request).callback <;>
    cases hl : (s.requests request).link <;>
    simp [completionTrace, DAEvent.isApproval]

/-- C17 at a probed mount request with a link on a disk that requires
repair: the client receives NotReady. -/
theorem C17_mount_not_ready_witness :
    ∃ u, DARequestDispatch exampleEnv (some 0) exampleDirtyLinkedState = some (true, u)
      ∧ DARequestGetDissenter u 0 = some (DADissenterCreate kDAReturnNotReady)
      ∧ u.trace = exampleDirtyLinkedState.trace
          ++ completionTrace (some exampleCallback) (some 0)
            (some (DADissenterCreate kDAReturnNotReady))
      ∧ DARequestGetState u 0 kDARequestStateStagedApprove = false :=
  (C17_mount_not_ready exampleEnv exampleDirtyLinkedState 0 0
    ⟨rfl, rfl, rfl, rfl, (fun h => absurd h.2.2 (by decide)), (fun _ => rfl),
      (fun h => absurd h (by decide)), rfl⟩ rfl).elim
    (fun u hu => ⟨u, hu.1, hu.2.1, hu.2.2.1, hu.2.2.2.2.1⟩)


/-! ## C18: the checks of unmount before the approval -/

/-- C18. For an unmount request that reaches the approval stage with
StagedApprove unset: when the disk has no VolumePath the request is completed
with status NotMounted, also when VolumeMountable is false; otherwise, when
VolumeMountable is false, it is completed with status Unsupported. In both
cases the dispatch returns TRUE, the only external calls are the completion
(for a request without a link: the client callback with a dissenter of that
status) and the stage signal, so neither the Unmount approval nor the unmount
helper is invoked, and no request, disk or unit is modified. When the disk has
a VolumePath and VolumeMountable is not false, the dispatch returns FALSE, its
only external call is the Unmount approval, and StagedApprove and the
CommandActive flag of the disk are set. -/
theorem C18_unmount_prechecks (env : DAEnv) (s : DAState) (request : DARequestRef)
    (disk : DADiskRef) (hstage : UnmountApproveStage s request disk) :
    (∀ status : DAReturn,
      ((DADiskGetDescription s disk .kDADiskDescriptionVolumePathKey = none
          ∧ status = kDAReturnNotMounted)
        ∨ (DADiskGetDescription s disk .kDADiskDescriptionVolumePathKey ≠ none
          ∧ DADiskGetDescription s disk .kDADiskDescriptionVolumeMountableKey
              = some kCFBooleanFalse
          ∧ status = kDAReturnUnsupported)) →
      ∃ u, DARequestDispatch env (some request) s = some (true, u)
        ∧ u.trace = s.trace ++ completionOf request (some (DADissenterCreate status)) s
            ++ [DAEvent.DAStageSignal]
        ∧ (DARequestGetLink s request = none →
            u.trace = s.trace ++ completionTrace (DARequestGetCallback s request) (some disk)
              (some (DADissenterCreate status)))
        ∧ (traceSince s u).any DAEvent.isApproval = false
        ∧ (traceSince s u).any DAEvent.isExecuteHelper = false
        ∧ u.requests = s.requests ∧ u.disks = s.disks ∧ u.units = s.units)
    ∧ (DADiskGetDescription s disk .kDADiskDescriptionVolumePathKey ≠ none →
        DADiskGetDescription s disk .kDADiskDescriptionVolumeMountableKey
          ≠ some kCFBooleanFalse →
        ∃ u, DARequestDispatch env (some request) s = some (false, u)
          ∧ u.trace = s.trace ++ [DAEvent.DADiskUnmountApprovalCallback disk
              DARequestCallback.__DARequestUnmountApprovalCallback request]
          ∧ DARequestGetState u request kDARequestStateStagedApprove = true
          ∧ DADiskGetState u disk .kDADiskStateCommandActive = true) := by
  simp [UnmountApproveStage, YieldsToUnit] at hstage
  obtain ⟨hkind, hdisk, hactive, happear, hrun, hfirst⟩ := hstage
  have hgate : ¬ (¬(s.requests request).link = none
      ∧ (s.units (s.disks disk).unit).commandActive = true) := by
    intro hc
    have := hrun (Or.inr hkind) hc.1
    simp [this] at hc
  have hcompletion : ∀ d : Option DADissenter,
      (completionOf request d s ++ [DAEvent.DAStageSignal]).any DAEvent.isApproval = false
      ∧ (completionOf request d s ++ [DAEvent.DAStageSignal]).any DAEvent.isExecuteHelper
          = false := by
    intro d
    cases hcb : (s.requests request).callback <;>
      simp [completionOf_eval, hcb, DAEvent.isApproval, DAEvent.isExecuteHelper]
  refine ⟨?_, ?_⟩
  · intro status hstatus
    have hvalue : __DARequestUnmount_status disk s = status ∧ status ≠ 0 := by
      rcases hstatus with ⟨hvol, rfl⟩ | ⟨hvol, hmountable, rfl⟩
      · simp at hvol
        simp [__DARequestUnmount_status, hvol]
      · simp at hvol hmountable
        simp [__DARequestUnmount_status, hvol, hmountable]
    obtain ⟨hvalue, hne⟩ := hvalue
    simp [-List.any_eq_true, -List.any_eq_false, -List.any_append, DARequestDispatch, hdisk,
      hactive, happear, hkind, __DARequestUnmount, hgate, Option.isSome_iff_ne_none, hfirst,
      hvalue, hne, hcompletion]
    intro hlink
    cases hcb : (s.requests request).callback <;>
      simp [completionOf_eval, hcb, hlink, hdisk, completionTrace]
  · intro hvol hmountable
    simp at hvol hmountable
    have hvalue : __DARequestUnmount_status disk s = 0 := by
      simp [__DARequestUnmount_status, hvol, hmountable]
    simp [DARequestDispatch, hdisk, hactive, happear, hkind, __DARequestUnmount, hgate,
      Option.isSome_iff_ne_none, hfirst, hvalue]

/-- C18 at a fresh unmount request of user 501 on a disk that is neither
mountable nor mounted: the client receives NotMounted. -/
theorem C18_unmount_prechecks_witness :
    ∃ u, DARequestDispatch exampleEnv (some 0) exampleNotMountedState = some (true, u)
      ∧ u.trace = exampleNotMountedState.trace
          ++ completionTrace (some exampleCallback) (some 0)
            (some (DADissenterCreate kDAReturnNotMounted)) :=
  ((C18_unmount_prechecks exampleEnv exampleNotMountedState 0 0
    ⟨rfl, rfl, rfl, rfl, (fun h => absurd h.2.2 (by decide)), rfl⟩).1 kDAReturnNotMounted
    (Or.inl ⟨rfl, rfl⟩)).elim
    (fun u hu => ⟨u, hu.1, hu.2.2.1 rfl⟩)


/-! ## C19: the force argument of unmount -/

/-- The test `options & kDADiskUnmountOptionForce` reads bit 19 of the options. -/
theorem unmountOptionForce_iff (options : Nat) :
    options &&& kDADiskUnmountOptionForce ≠ 0 ↔ options.testBit 19 = true := by
  have h := Nat.and_two_pow options 19
  simp only [show (2:Nat)^19 = 524288 by norm_num] at h
  simp only [kDADiskUnmountOptionForce]
  rw [h]
  cases options.testBit 19 <;> simp

/-- C19. For an unmount request that starts its execute stage (its disk
passes the gates of the dispatcher, StagedApprove is set, no dissenter is
recorded and the unit is not CommandActive): the dispatch returns TRUE and its
only external call is the unmount helper, with the filesystem of the disk, its
current VolumePath, `__DARequestUnmountCallback` and the request, and with the
force argument exactly when bit 19 of arg1, the Force bit, is set, NULL
otherwise; no other bit of arg1 enters the call. -/
theorem C19_unmount_force (env : DAEnv) (s : DAState) (request : DARequestRef)
    (disk : DADiskRef)
    (hkind : DARequestGetKind s request = ._kDADiskUnmount)
    (hdisk : DARequestGetDisk s request = some disk)
    (hactive : DADiskGetState s disk .kDADiskStateCommandActive = false)
    (happear : DADiskGetState s disk .kDADiskStateStagedAppear = true)
    (happrove : DARequestGetState s request kDARequestStateStagedApprove = true)
    (hclean : DARequestGetDissenter s request = none)
    (hidle : DAUnitGetState s disk .kDAUnitStateCommandActive = false) :
    ∃ u, DARequestDispatch env (some request) s = some (true, u)
      ∧ u.trace = s.trace ++ [DAEvent.DAFileSystemUnmountWithArguments
          (DADiskGetFileSystem s disk)
          (DADiskGetDescription s disk .kDADiskDescriptionVolumePathKey)
          DARequestCallback.__DARequestUnmountCallback request
          (if (DARequestGetArgument1 s request).testBit 19 = true then
             some kDAFileSystemUnmountArgumentForce
           else none)]
      ∧ kDADiskUnmountOptionForce = 2 ^ 19 := by
  simp at hkind hdisk hactive happear happrove hclean hidle
  have hforce := unmountOptionForce_iff (s.requests request).argument1
  simp only [kDADiskUnmountOptionForce] at hforce
  by_cases hbit : (s.requests request).argument1.testBit 19 = true
  · have hand := hforce.mpr hbit
    by_cases hauthorize : (s.requests request).state &&& 2097152 = 0 <;>
      simp [DARequestDispatch, hdisk, hactive, happear, hkind, __DARequestUnmount, hidle,
        happrove, hauthorize, hclean, __DARequestUnmount_commence, hbit, hand,
        kDADiskUnmountOptionForce]
  · have hand : (s.requests request).argument1 &&& 524288 = 0 := by
      by_contra hc
      exact hbit (hforce.mp hc)
    by_cases hauthorize : (s.requests request).state &&& 2097152 = 0 <;>
      simp [DARequestDispatch, hdisk, hactive, happear, hkind, __DARequestUnmount, hidle,
        happrove, hauthorize, hclean, __DARequestUnmount_commence, hbit, hand,
        kDADiskUnmountOptionForce]

/-- C19 at an unmount request whose arg1 is 0x00080001: the force argument
is passed. -/
theorem C19_unmount_force_witness :
    ∃ u, DARequestDispatch exampleEnv (some 0) exampleForceState = some (true, u)
      ∧ u.trace = exampleForceState.trace ++ [DAEvent.DAFileSystemUnmountWithArguments
          (some 1) (some (CFType.url "file://localhost/Volumes/Untitled/"))
          DARequestCallback.__DARequestUnmountCallback 0 (some "force")] :=
  (C19_unmount_force exampleEnv exampleForceState 0 0 rfl rfl rfl rfl rfl rfl rfl).elim
    (fun u hu => ⟨u, hu.1, hu.2.1⟩)


/-! ## C20: the outcomes of the unmount helper -/

@[simp] theorem dispatchCallback_loop_removeValue (s : DAState) (disk : DADiskRef)
    (start : Option DADissenter) (link : List DARequestRef) :
    __DARequestDispatchCallback_loop (___CFArrayRemoveValue_gDADiskList disk s) start link
      = __DARequestDispatchCallback_loop s start link :=
  dispatchCallback_loop_congr s _ start link (by simp)

@[simp] theorem CFArrayRemoveValue_gDADiskList_list (disk : DADiskRef) (s : DAState) :
    (___CFArrayRemoveValue_gDADiskList disk s).gDADiskList = s.gDADiskList.erase disk :=
  rfl

/-- C20. For the callback of the unmount helper on a request of `disk`. With
status 0 and no MediaPath on the disk: the mount point is removed, the
Disappeared notification is sent, the request is completed with status 0,
VolumePath is cleared, Zombie is set, and the disk is removed from the global
disk list. With status 0 and a MediaPath: the mount point is removed, the
description-changed notification for VolumePath is sent, the request is
completed with status 0, VolumePath is cleared, and Zombie and the disk list
are unchanged. With a non-zero status: a dissenter with status
unix_err( status ) is recorded on the request and handed to the client
callback, nothing else is called but the stage signal, and VolumePath, Zombie
and the disk list are unchanged. -/
theorem C20_unmount_callback (s : DAState) (request : DARequestRef) (disk : DADiskRef)
    (status : Nat) (hdisk : DARequestGetDisk s request = some disk) :
    ∃ u, __DARequestUnmountCallback status request s = some u
      ∧ u.trace = s.trace ++ traceSince s u
      ∧ (status = 0 → DADiskGetDescription s disk .kDADiskDescriptionMediaPathKey = none →
          traceSince s u
            = [DAEvent.DAMountRemoveMountPoint
                (DADiskGetDescription s disk .kDADiskDescriptionVolumePathKey),
               DAEvent.DADiskDisappearedCallback disk]
              ++ completionOf request none s ++ [DAEvent.DAStageSignal]
          ∧ DADiskGetDescription u disk .kDADiskDescriptionVolumePathKey = none
          ∧ DADiskGetState u disk .kDADiskStateZombie = true
          ∧ u.gDADiskList = s.gDADiskList.erase disk
          ∧ (s.gDADiskList.Nodup → disk ∉ u.gDADiskList))
      ∧ (status = 0 → DADiskGetDescription s disk .kDADiskDescriptionMediaPathKey ≠ none →
          traceSince s u
            = [DAEvent.DAMountRemoveMountPoint
                (DADiskGetDescription s disk .kDADiskDescriptionVolumePathKey),
               DAEvent.DADiskDescriptionChangedCallback disk
                [DADiskDescriptionKey.kDADiskDescriptionVolumePathKey]]
              ++ completionOf request none s ++ [DAEvent.DAStageSignal]
          ∧ DADiskGetDescription u disk .kDADiskDescriptionVolumePathKey = none
          ∧ DADiskGetState u disk .kDADiskStateZombie
              = DADiskGetState s disk .kDADiskStateZombie
          ∧ u.gDADiskList = s.gDADiskList)
      ∧ (status ≠ 0 →
          DARequestGetDissenter u request = some (DADissenterCreate (unix_err status))
          ∧ traceSince s u
              = completionTrace (DARequestGetCallback s request) (some disk)
                  (some (DADissenterCreate (unix_err status)))
          ∧ DADiskGetDescription u disk .kDADiskDescriptionVolumePathKey
              = DADiskGetDescription s disk .kDADiskDescriptionVolumePathKey
          ∧ DADiskGetState u disk .kDADiskStateZombie
              = DADiskGetState s disk .kDADiskStateZombie
          ∧ u.gDADiskList = s.gDADiskList) := by
  simp at hdisk
  by_cases hstatus : status = 0
  · subst hstatus
    by_cases hmedia : (s.disks disk).mediaPath = none
    · simp [__DARequestUnmountCallback, hdisk, hmedia, completionOf_eval]
      intro hnodup
      exact fun hmem => (List.Nodup.mem_erase_iff hnodup).mp hmem |>.1 rfl
    · simp [__DARequestUnmountCallback, hdisk, hmedia, completionOf_eval,
        Option.isSome_iff_ne_none]
  · simp [__DARequestUnmountCallback, hdisk, hstatus, completionOf_eval, unix_err_ne_zero]
    cases hcb : (s.requests request).callback <;>
      cases hl : (s.requests request).link <;>
      simp [completionTrace]

/-- C20 at an unmount whose helper reports 0 after the media has gone: the
disk becomes a zombie and leaves the disk list. -/
theorem C20_unmount_callback_witness :
    ∃ u, __DARequestUnmountCallback 0 0 exampleMediaGoneState = some u
      ∧ traceSince exampleMediaGoneState u
          = [DAEvent.DAMountRemoveMountPoint
              (some (CFType.url "file://localhost/Volumes/Untitled/")),
             DAEvent.DADiskDisappearedCallback 0]
            ++ completionOf 0 none exampleMediaGoneState ++ [DAEvent.DAStageSignal]
      ∧ DADiskGetDescription u 0 .kDADiskDescriptionVolumePathKey = none
      ∧ DADiskGetState u 0 .kDADiskStateZombie = true
      ∧ u.gDADiskList = [] :=
  (C20_unmount_callback exampleMediaGoneState 0 0 0 rfl).elim
    (fun u hu => ⟨u, hu.1, (hu.2.2.1 rfl rfl).1, (hu.2.2.1 rfl rfl).2.1,
      (hu.2.2.1 rfl rfl).2.2.1, (hu.2.2.1 rfl rfl).2.2.2.1⟩)


/-! ## C21: the checks of rename -/

/-- C21. For a rename request whose disk passes the gates of the dispatcher.
While the unit is not CommandActive: the request is completed with Unsupported
when arg2 is NULL; otherwise with NotMounted when the disk has no VolumePath;
otherwise with Unsupported when VolumeMountable is false; in these cases the
dispatch returns TRUE, its only external calls are the completion (for a
request without a link: the client callback with a dissenter of that status)
and the stage signal, and no request, disk or unit is modified. When none of
the three holds, the dispatch returns TRUE and its only external call is the
rename helper with the filesystem of the disk, its VolumePath and arg2, and
the disk and the unit are CommandActive. While the unit is CommandActive the
dispatch returns FALSE and leaves the state as it was. -/
theorem C21_rename_prechecks (env : DAEnv) (s : DAState) (request : DARequestRef)
    (disk : DADiskRef)
    (hkind : DARequestGetKind s request = ._kDADiskRename)
    (hdisk : DARequestGetDisk s request = some disk)
    (hactive : DADiskGetState s disk .kDADiskStateCommandActive = false)
    (happear : DADiskGetState s disk .kDADiskStateStagedAppear = true) :
    (DAUnitGetState s disk .kDAUnitStateCommandActive = false →
      ∀ status : DAReturn,
        ((DARequestGetArgument2 s request = none ∧ status = kDAReturnUnsupported)
          ∨ (DARequestGetArgument2 s request ≠ none
            ∧ DADiskGetDescription s disk .kDADiskDescriptionVolumePathKey = none
            ∧ status = kDAReturnNotMounted)
          ∨ (DARequestGetArgument2 s request ≠ none
            ∧ DADiskGetDescription s disk .kDADiskDescriptionVolumePathKey ≠ none
            ∧ DADiskGetDescription s disk .kDADiskDescriptionVolumeMountableKey
                = some kCFBooleanFalse
            ∧ status = kDAReturnUnsupported)) →
        ∃ u, DARequestDispatch env (some request) s = some (true, u)
          ∧ u.trace = s.trace ++ completionOf request (some (DADissenterCreate status)) s
              ++ [DAEvent.DAStageSignal]
          ∧ (DARequestGetLink s request = none →
              u.trace = s.trace ++ completionTrace (DARequestGetCallback s request)
                (some disk) (some (DADissenterCreate status)))
          ∧ (traceSince s u).any DAEvent.isExecuteHelper = false
          ∧ u.requests = s.requests ∧ u.disks = s.disks ∧ u.units = s.units)
    ∧ (DAUnitGetState s disk .kDAUnitStateCommandActive = false →
        DARequestGetArgument2 s request ≠ none →
        DADiskGetDescription s disk .kDADiskDescriptionVolumePathKey ≠ none →
        DADiskGetDescription s disk .kDADiskDescriptionVolumeMountableKey
          ≠ some kCFBooleanFalse →
        ∃ u, DARequestDispatch env (some request) s = some (true, u)
          ∧ u.trace = s.trace ++ [DAEvent.DAFileSystemRename (DADiskGetFileSystem s disk)
              (DADiskGetDescription s disk .kDADiskDescriptionVolumePathKey)
              (DARequestGetArgument2 s request)
              DARequestCallback.__DARequestRenameCallback request]
          ∧ DADiskGetState u disk .kDADiskStateCommandActive = true
          ∧ DAUnitGetState u disk .kDAUnitStateCommandActive = true)
    ∧ (DAUnitGetState s disk .kDAUnitStateCommandActive = true →
        DARequestDispatch env (some request) s = some (false, s)) := by
  simp at hkind hdisk hactive happear
  have hcompletion : ∀ d : Option DADissenter,
      (completionOf request d s ++ [DAEvent.DAStageSignal]).any DAEvent.isExecuteHelper
        = false := by
    intro d
    cases hcb : (s.requests request).callback <;>
      simp [completionOf_eval, hcb, DAEvent.isExecuteHelper]
  refine ⟨?_, ?_, ?_⟩
  · intro hidle status hstatus
    simp at hidle
    have hvalue : __DARequestRename_status request disk s = status ∧ status ≠ 0 := by
      rcases hstatus with ⟨harg, rfl⟩ | ⟨harg, hvol, rfl⟩ | ⟨harg, hvol, hmountable, rfl⟩
      · simp at harg
        simp [__DARequestRename_status, harg]
      · simp at harg hvol
        simp [__DARequestRename_status, harg, hvol]
      · simp at harg hvol hmountable
        simp [__DARequestRename_status, harg, hvol, hmountable]
    obtain ⟨hvalue, hne⟩ := hvalue
    simp [-List.any_eq_true, -List.any_eq_false, -List.any_append, DARequestDispatch, hdisk,
      hactive, happear, hkind, __DARequestRename, hidle, hvalue, hne, hcompletion]
    intro hlink
    cases hcb : (s.requests request).callback <;>
      simp [completionOf_eval, hcb, hlink, hdisk, completionTrace]
  · intro hidle harg hvol hmountable
    simp at hidle harg hvol hmountable
    have hvalue : __DARequestRename_status request disk s = 0 := by
      simp [__DARequestRename_status, harg, hvol, hmountable]
    simp [DARequestDispatch, hdisk, hactive, happear, hkind, __DARequestRename, hidle, hvalue]
  · intro hbusy
    simp at hbusy
    simp [DARequestDispatch, hdisk, hactive, happear, hkind, __DARequestRename, hbusy]

/-- C21 at a rename request of user 501 to "Data" on a mounted, mountable
disk of an idle unit: the rename helper is invoked. -/
theorem C21_rename_prechecks_witness :
    ∃ u, DARequestDispatch exampleEnv (some 0) exampleRenameState = some (true, u)
      ∧ u.trace = exampleRenameState.trace ++ [DAEvent.DAFileSystemRename (some 1)
          (some (CFType.url "file://localhost/Volumes/Untitled/"))
          (some (CFType.string "Data")) DARequestCallback.__DARequestRenameCallback 0] :=
  ((C21_rename_prechecks exampleEnv exampleRenameState 0 0 rfl rfl rfl rfl).2.1 rfl
    (by decide) (by decide) (by decide)).elim
    (fun u hu => ⟨u, hu.1, hu.2.1⟩)


/-! ## C22: the keys of the description-changed notification of rename -/

/-- Where `CFURLGetString` does not return (line 1058: the disk has no
VolumePath), the callback of a successful rename to a different name does not
return either. -/
theorem renameCallback_unmounted (env : DAEnv) (s : DAState) (request : DARequestRef)
    (disk : DADiskRef) (hdisk : DARequestGetDisk s request = some disk)
    (hname : DADiskGetDescription s disk .kDADiskDescriptionVolumeNameKey
      ≠ DARequestGetArgument2 s request)
    (hpath : CFURLGetString (DADiskGetDescription s disk .kDADiskDescriptionVolumePathKey)
      = none) :
    __DARequestRenameCallback env 0 request s = none := by
  simp at hdisk hname hpath
  simp [__DARequestRenameCallback, hdisk, DADiskCompareDescription, hname, hpath]

/-- C22. For the callback of the rename helper with status 0 on a request of
`disk`, where the VolumePath of the disk is a URL, as it is when the helper is
started (lines 962-965 refuse a disk without VolumePath). When arg2 equals the
current VolumeName, no notification is sent and the description and the
by-path of the disk are unchanged. When it differs, VolumeName is set to arg2
and one description-changed notification is sent: with the keys [VolumeName],
VolumePath unchanged, when VolumePath is file://localhost/ or when no new
mount point was obtained; with the keys [VolumeName, VolumePath], VolumePath
set to the new mount point, otherwise. -/
theorem C22_rename_callback_keys (env : DAEnv) (s : DAState) (request : DARequestRef)
    (disk : DADiskRef) (path : String) (hdisk : DARequestGetDisk s request = some disk)
    (hmounted : CFURLGetString (DADiskGetDescription s disk .kDADiskDescriptionVolumePathKey)
      = some path) :
    ∃ u, __DARequestRenameCallback env 0 request s = some u
      ∧ u.trace = s.trace ++ traceSince s u
      ∧ (DADiskGetDescription s disk .kDADiskDescriptionVolumeNameKey
            = DARequestGetArgument2 s request →
          traceSince s u = completionOf request none s ++ [DAEvent.DAStageSignal]
          ∧ (∀ key, DADiskGetDescription u disk key = DADiskGetDescription s disk key)
          ∧ (u.disks disk).bypath = (s.disks disk).bypath)
      ∧ (DADiskGetDescription s disk .kDADiskDescriptionVolumeNameKey
            ≠ DARequestGetArgument2 s request →
          DADiskGetDescription u disk .kDADiskDescriptionVolumeNameKey
            = DARequestGetArgument2 s request
          ∧ ((path = "file://localhost/"
              ∨ env.DAMountCreateMountPointWithAction disk .kDAMountPointActionMove = none) →
            traceSince s u
              = [DAEvent.DAMountCreateMountPointWithAction disk
                  DAMountPointAction.kDAMountPointActionMove,
                 DAEvent.DADiskDescriptionChangedCallback disk
                  [DADiskDescriptionKey.kDADiskDescriptionVolumeNameKey]]
                ++ completionOf request none s ++ [DAEvent.DAStageSignal]
            ∧ DADiskGetDescription u disk .kDADiskDescriptionVolumePathKey
                = DADiskGetDescription s disk .kDADiskDescriptionVolumePathKey)
          ∧ (∀ mountpoint,
              path ≠ "file://localhost/" →
              env.DAMountCreateMountPointWithAction disk .kDAMountPointActionMove
                = some mountpoint →
              traceSince s u
                = [DAEvent.DAMountCreateMountPointWithAction disk
                    DAMountPointAction.kDAMountPointActionMove,
                   DAEvent.DADiskDescriptionChangedCallback disk
                    [DADiskDescriptionKey.kDADiskDescriptionVolumeNameKey,
                     DADiskDescriptionKey.kDADiskDescriptionVolumePathKey]]
                  ++ completionOf request none s ++ [DAEvent.DAStageSignal]
              ∧ DADiskGetDescription u disk .kDADiskDescriptionVolumePathKey
                  = some mountpoint)) := by
  simp at hdisk hmounted
  by_cases hname : (s.disks disk).volumeName = (s.requests request).argument2
  · simp [__DARequestRenameCallback, hdisk, DADiskCompareDescription, hname, completionOf_eval]
  · by_cases hroot : path = "file://localhost/"
    · cases hmove : env.DAMountCreateMountPointWithAction disk .kDAMountPointActionMove <;>
        simp [__DARequestRenameCallback, hdisk, DADiskCompareDescription, hname, hmounted,
          hroot, hmove, completionOf_eval]
    · cases hmove : env.DAMountCreateMountPointWithAction disk .kDAMountPointActionMove <;>
        simp [__DARequestRenameCallback, hdisk, DADiskCompareDescription, hname, hmounted,
          hroot, hmove, completionOf_eval]

/-- C22 at a rename of "Untitled" to "Data" whose mount point moves: both
keys are notified. -/
theorem C22_rename_callback_keys_witness :
    ∃ u, __DARequestRenameCallback exampleMoveEnv 0 0 exampleRenamingState = some u
      ∧ traceSince exampleRenamingState u
          = [DAEvent.DAMountCreateMountPointWithAction 0
              DAMountPointAction.kDAMountPointActionMove,
             DAEvent.DADiskDescriptionChangedCallback 0
              [DADiskDescriptionKey.kDADiskDescriptionVolumeNameKey,
               DADiskDescriptionKey.kDADiskDescriptionVolumePathKey]]
            ++ completionOf 0 none exampleRenamingState ++ [DAEvent.DAStageSignal]
      ∧ DADiskGetDescription u 0 .kDADiskDescriptionVolumePathKey
          = some (CFType.url "file://localhost/Volumes/Data/") :=
  (C22_rename_callback_keys exampleMoveEnv exampleRenamingState 0 0
      "file://localhost/Volumes/Untitled/" rfl rfl).elim
    (fun u hu => ⟨u, hu.1,
      (((hu.2.2.2 (by decide)).2.2) (CFType.url "file://localhost/Volumes/Data/")
        (by decide) rfl).1,
      (((hu.2.2.2 (by decide)).2.2) (CFType.url "file://localhost/Volumes/Data/")
        (by decide) rfl).2⟩)


/-! ## C23: claiming a disk whose owner is gone -/

/-- C23. For a claim request whose disk passes the gates of the dispatcher and
has a claim owner with a null address, on its first dispatch (StagedApprove
unset): the dispatch returns FALSE, sets StagedApprove, records a dissenter
with status NotPermitted on the request, and its only external call is the
stage signal, so the ClaimRelease hook is not invoked; the disk is not
CommandActive afterwards. The next dispatch returns TRUE, and its external
calls are exactly the client callback, which receives the NotPermitted
dissenter (also when the request has a link), and the stage signal. The claim
of the disk is the same owner after both dispatches. -/
theorem C23_claim_dead_owner (env : DAEnv) (s : DAState) (request : DARequestRef)
    (disk : DADiskRef) (owner : DACallback)
    (hkind : DARequestGetKind s request = ._kDADiskClaim)
    (hdisk : DARequestGetDisk s request = some disk)
    (hactive : DADiskGetState s disk .kDADiskStateCommandActive = false)
    (happear : DADiskGetState s disk .kDADiskStateStagedAppear = true)
    (hfirst : DARequestGetState s request kDARequestStateStagedApprove = false)
    (howner : DADiskGetClaim s disk = some owner)
    (hdead : DACallbackGetAddress owner = 0) :
    ∃ t u, DARequestDispatch env (some request) s = some (false, t)
      ∧ t.trace = s.trace ++ [DAEvent.DAStageSignal]
      ∧ DARequestGetDissenter t request = some (DADissenterCreate kDAReturnNotPermitted)
      ∧ DARequestGetState t request kDARequestStateStagedApprove = true
      ∧ DADiskGetState t disk .kDADiskStateCommandActive = false
      ∧ DADiskGetClaim t disk = some owner
      ∧ DARequestDispatch env (some request) t = some (true, u)
      ∧ u.trace = t.trace ++ completionTrace (DARequestGetCallback s request) (some disk)
          (some (DADissenterCreate kDAReturnNotPermitted))
      ∧ DADiskGetClaim u disk = some owner := by
  simp at hkind hdisk hactive happear hfirst howner hdead
  refine ⟨CFRelease request (DAStageSignal (DADiskSetState disk .kDADiskStateCommandActive false
    (DARequestSetDissenter request (some (DADissenterCreate kDAReturnNotPermitted))
      (DARequestSetState request kDARequestStateStagedApprove true
        (DADiskSetState disk .kDADiskStateCommandActive true (CFRetain request s)))))), ?_⟩
  simp [DARequestDispatch, hdisk, hactive, happear, hkind, __DARequestClaim, hfirst, howner,
    hdead, __DARequestClaimReleaseCallback, completionOf_eval, DADiskSetClaim]
  cases hcb : (s.requests request).callback <;>
    cases hl : (s.requests request).link <;>
    simp [completionTrace]

/-- C23 at a fresh claim request with a link on a disk whose owner is gone. -/
theorem C23_claim_dead_owner_witness :
    ∃ t u, DARequestDispatch exampleEnv (some 0) exampleDeadOwnerState = some (false, t)
      ∧ DARequestDispatch exampleEnv (some 0) t = some (true, u)
      ∧ u.trace = t.trace ++ completionTrace (some exampleCallback) (some 0)
          (some (DADissenterCreate kDAReturnNotPermitted))
      ∧ DADiskGetClaim u 0 = some exampleDeadOwner :=
  (C23_claim_dead_owner exampleEnv exampleDeadOwnerState 0 0 exampleDeadOwner
    rfl rfl rfl rfl rfl rfl rfl).elim
    (fun t ht => ht.elim (fun u hu => ⟨t, u, hu.1, hu.2.2.2.2.2.2.1, hu.2.2.2.2.2.2.2.1,
      hu.2.2.2.2.2.2.2.2⟩))


/-! ## C24: the claim itself -/

@[simp] theorem dispatchCallback_loop_setClaim (s : DAState) (disk : DADiskRef)
    (claim : Option DACallback) (start : Option DADissenter) (link : List DARequestRef) :
    __DARequestDispatchCallback_loop (DADiskSetClaim disk claim s) start link
      = __DARequestDispatchCallback_loop s start link :=
  dispatchCallback_loop_congr s _ start link (by simp)

@[simp] theorem dispatchCallback_loop_stageSignal (s : DAState)
    (start : Option DADissenter) (link : List DARequestRef) :
    __DARequestDispatchCallback_loop (DAStageSignal s) start link
      = __DARequestDispatchCallback_loop s start link :=
  dispatchCallback_loop_congr s _ start link (by simp)

@[simp] theorem dispatchCallback_loop_CFRelease (s : DAState) (request : DARequestRef)
    (start : Option DADissenter) (link : List DARequestRef) :
    __DARequestDispatchCallback_loop (CFRelease request s) start link
      = __DARequestDispatchCallback_loop s start link := by
  apply dispatchCallback_loop_congr_dissenter
  intro r
  by_cases hr : r = request
  · subst hr; simp
  · simp [CFRelease_requests_other, hr]

/-- C24. For a claim request of `disk` whose ClaimRelease approval is under
way (the disk has appeared, StagedApprove is set) and whose client callback
has a session. When the response is NULL, no dissenter is recorded, and the
next dispatch returns TRUE, replaces the claim of the disk by a callback built
from the requesting session with address arg2 and context arg3, completes the
request with status 0 (the client callback of a request without a link
receives no dissenter), makes no other external call but the stage signal, and
leaves the disk not CommandActive. When the response is a dissenter, it is
recorded as the dissenter of the request, whatever userUID is, and the next
dispatch returns TRUE, hands it to the client callback, and keeps the claim
of the disk. -/
theorem C24_claim_execute (env : DAEnv) (s : DAState) (request : DARequestRef)
    (disk : DADiskRef) (callback : DACallback) (session : DASessionRef)
    (hkind : DARequestGetKind s request = ._kDADiskClaim)
    (hdisk : DARequestGetDisk s request = some disk)
    (happear : DADiskGetState s disk .kDADiskStateStagedAppear = true)
    (happrove : DARequestGetState s request kDARequestStateStagedApprove = true)
    (hcallback : DARequestGetCallback s request = some callback)
    (hsession : DACallbackGetSession callback = some session) :
    (∃ t u, __DARequestClaimReleaseCallback none request s = some t
      ∧ DARequestGetDissenter t request = none
      ∧ DARequestDispatch env (some request) t = some (true, u)
      ∧ DADiskGetClaim u disk
          = DACallbackCreate session (___CFNumberGetIntegerValue (DARequestGetArgument2 s request))
              (___CFNumberGetIntegerValue (DARequestGetArgument3 s request))
              _DACallbackKind._kDADiskClaimReleaseCallback
      ∧ u.trace = t.trace ++ completionOf request none t ++ [DAEvent.DAStageSignal]
      ∧ (DARequestGetLink s request = none →
          u.trace = t.trace ++ completionTrace (some callback) (some disk) none)
      ∧ DADiskGetState u disk .kDADiskStateCommandActive = false)
    ∧ (∀ response : DADissenter,
        ∃ t u, __DARequestClaimReleaseCallback (some response) request s = some t
          ∧ DARequestGetDissenter t request = some response
          ∧ DADiskGetClaim t disk = DADiskGetClaim s disk
          ∧ DARequestDispatch env (some request) t = some (true, u)
          ∧ u.trace = t.trace ++ completionTrace (some callback) (some disk) (some response)
          ∧ DADiskGetClaim u disk = DADiskGetClaim s disk) := by
  simp at hkind hdisk happear happrove hcallback hsession
  refine ⟨?_, ?_⟩
  · refine ⟨CFRelease request (DAStageSignal
      (DADiskSetState disk .kDADiskStateCommandActive false
        (DARequestSetDissenter request none s))), ?_⟩
    simp [__DARequestClaimReleaseCallback, hdisk, DARequestDispatch, happear, hkind,
      __DARequestClaim, happrove, hcallback, hsession, DACallbackCreate,
      __DARequestClaimCallback, completionOf_eval]
    intro hlink
    simp [hlink, completionTrace]
  · intro response
    refine ⟨CFRelease request (DAStageSignal
      (DADiskSetState disk .kDADiskStateCommandActive false
        (DARequestSetDissenter request (some response) s))), ?_⟩
    simp [__DARequestClaimReleaseCallback, hdisk, DARequestDispatch, happear, hkind,
      __DARequestClaim, happrove, hcallback, completionOf_eval, completionTrace]
    cases hl : (s.requests request).link <;> simp

/-- C24 at a claim request of session 7 with address 12288 and context 7
whose owner answers NULL: the claim of the disk is replaced. -/
theorem C24_claim_execute_witness :
    ∃ t u, __DARequestClaimReleaseCallback none 0 exampleClaimingState = some t
      ∧ DARequestDispatch exampleEnv (some 0) t = some (true, u)
      ∧ DADiskGetClaim u 0
          = some { session := some 7, address := 12288, context := 7,
                   kind := _DACallbackKind._kDADiskClaimReleaseCallback }
      ∧ u.trace = t.trace ++ completionTrace (some exampleCallback) (some 0) none :=
  (C24_claim_execute exampleEnv exampleClaimingState 0 0 exampleCallback 7
    rfl rfl rfl rfl rfl rfl).1.elim
    (fun t ht => ht.elim (fun u hu => ⟨t, u, hu.1, hu.2.2.1, hu.2.2.2.1,
      hu.2.2.2.2.2.1 rfl⟩))


/-! ## Every result of a handler comes from one of its ways -/

theorem claim_path (request : DARequestRef) (disk : DADiskRef) (s : DAState)
    (hdisk : (s.requests request).disk = some disk) (b : Bool) (t : DAState)
    (h : __DARequestClaim request s = some (b, t)) : ClaimPath request disk s b t := by
  by_cases happrove : (s.requests request).state &&& 1048576 = 0
  · cases hclaim : (s.disks disk).claim with
    | none =>
      simp [__DARequestClaim, hdisk, happrove, hclaim, __DARequestClaimReleaseCallback] at h
      obtain ⟨rfl, rfl⟩ := h
      exact ClaimPath.free (by simp [happrove]) (by simp [hclaim])
    | some owner =>
      by_cases haddress : owner.address = 0
      · simp [__DARequestClaim, hdisk, happrove, hclaim, haddress,
          __DARequestClaimReleaseCallback] at h
        obtain ⟨rfl, rfl⟩ := h
        exact ClaimPath.refuse owner (by simp [happrove]) (by simp [hclaim])
          (by simp [haddress])
      · simp [__DARequestClaim, hdisk, happrove, hclaim, haddress] at h
        obtain ⟨rfl, rfl⟩ := h
        exact ClaimPath.release owner (by simp [happrove]) (by simp [hclaim])
          (by simp [haddress])
  · cases hdis : (s.requests request).dissenter with
    | some d =>
      simp [__DARequestClaim, hdisk, happrove, hdis] at h
      obtain ⟨rfl, rfl⟩ := h
      exact ClaimPath.dissent d (by simp [happrove]) (by simp [hdis])
    | none =>
      cases hcb : (s.requests request).callback with
      | none =>
        simp [__DARequestClaim, hdisk, happrove, hdis, hcb, __DARequestClaimCallback] at h
        obtain ⟨rfl, rfl⟩ := h
        exact ClaimPath.claim none (by simp [happrove]) (by simp [hdis])
      | some cb =>
        cases hsession : cb.session with
        | none =>
          simp [__DARequestClaim, hdisk, happrove, hdis, hcb, hsession,
            __DARequestClaimCallback] at h
          obtain ⟨rfl, rfl⟩ := h
          exact ClaimPath.claim none (by simp [happrove]) (by simp [hdis])
        | some session =>
          simp [__DARequestClaim, hdisk, happrove, hdis, hcb, hsession, DACallbackCreate,
            __DARequestClaimCallback] at h
          obtain ⟨rfl, rfl⟩ := h
          exact ClaimPath.claim (some _) (by simp [happrove]) (by simp [hdis])

theorem eject_commence_path (env : DAEnv) (request : DARequestRef) (disk : DADiskRef)
    (s : DAState) (hdisk : (s.requests request).disk = some disk) (b : Bool) (t : DAState)
    (h : __DARequestEject_commence env request disk s = some (b, t)) :
    EjectCommencePath env request disk s b t := by
  cases hdis : (s.requests request).dissenter with
  | some d =>
    simp [__DARequestEject_commence, hdis] at h
    obtain ⟨rfl, rfl⟩ := h
    exact EjectCommencePath.dissent d (by simp [hdis])
  | none =>
    by_cases hidle : (s.units (s.disks disk).unit).commandActive = false
    · simp [__DARequestEject_commence, hdis, hidle, __DARequestEjectCallback, hdisk] at h
      obtain ⟨rfl, rfl⟩ := h
      simpa using @EjectCommencePath.eject env request disk s
        (by simp [hdis]) (by simp [hidle])
    · simp [__DARequestEject_commence, hdis, hidle] at h
      obtain ⟨rfl, rfl⟩ := h
      exact EjectCommencePath.yield (by simp [hdis]) (by simpa using hidle)

theorem eject_path (env : DAEnv) (request : DARequestRef) (disk : DADiskRef) (s : DAState)
    (hdisk : (s.requests request).disk = some disk) (b : Bool) (t : DAState)
    (h : __DARequestEject env request s = some (b, t)) : EjectPath env request disk s b t := by
  by_cases happrove : (s.requests request).state &&& 1048576 = 0
  · by_cases hstatus : __DARequestEject_status disk s = 0
    · simp [__DARequestEject, hdisk, happrove, hstatus] at h
      obtain ⟨rfl, rfl⟩ := h
      exact EjectPath.approve (by simp [happrove]) hstatus
    · simp [__DARequestEject, hdisk, happrove, hstatus] at h
      obtain ⟨rfl, rfl⟩ := h
      exact EjectPath.refuse (by simp [happrove]) hstatus
  · by_cases hauthorize : (s.requests request).state &&& 2097152 = 0
    · cases hdis : (s.requests request).dissenter with
      | none =>
        simp [__DARequestEject, hdisk, happrove, hauthorize, hdis] at h
        exact EjectPath.commenceFirst b t (by simp [happrove]) (by simp [hauthorize])
          (by simp [hdis]) (eject_commence_path env request disk _ (by simp [hdisk]) b t h)
      | some d =>
        by_cases hs : d.status = 4175101697
        · simp [__DARequestEject, hdisk, happrove, hauthorize, hdis, hs] at h
          obtain ⟨rfl, rfl⟩ := h
          exact EjectPath.authorize d (by simp [happrove]) (by simp [hauthorize])
            (by simp [hdis]) (by simp [hs])
        · simp [__DARequestEject, hdisk, happrove, hauthorize, hdis, hs] at h
          exact EjectPath.commenceFirst b t (by simp [happrove]) (by simp [hauthorize])
            (by simp [hdis, hs]) (eject_commence_path env request disk _ (by simp [hdisk]) b t h)
    · simp [__DARequestEject, hdisk, happrove, hauthorize] at h
      exact EjectPath.commence b t (by simp [happrove]) (by simp [hauthorize])
        (eject_commence_path env request disk _ hdisk b t h)

theorem mount_commence_path (request : DARequestRef) (disk : DADiskRef) (s : DAState)
    (b : Bool) (t : DAState) (h : __DARequestMount_commence request disk s = (b, t)) :
    MountCommencePath request disk s b t := by
  cases hdis : (s.requests request).dissenter with
  | none =>
    by_cases hidle : (s.units (s.disks disk).unit).commandActive = false
    · simp [__DARequestMount_commence, hdis, hidle] at h
      obtain ⟨rfl, rfl⟩ := h
      have hp := @MountCommencePath.mount request disk s
        (by simp [hdis]) (by simp [hidle])
      cases harg : (s.requests request).argument2 <;> simpa [harg] using hp
    · simp [__DARequestMount_commence, hdis, hidle] at h
      obtain ⟨rfl, rfl⟩ := h
      exact MountCommencePath.yield (by simp [hdis]) (by simpa using hidle)
  | some d =>
    by_cases h2 : d.status = 4175101698
    · by_cases hidle : (s.units (s.disks disk).unit).commandActive = false
      · simp [__DARequestMount_commence, hdis, h2, hidle] at h
        obtain ⟨rfl, rfl⟩ := h
        have hp := @MountCommencePath.mountReadOnly request disk s d (by simp [hdis])
          (Or.inl (by simp [h2])) (by simp [hidle])
        cases harg : (s.requests request).argument2 <;> simpa [harg] using hp
      · simp [__DARequestMount_commence, hdis, h2, hidle] at h
        obtain ⟨rfl, rfl⟩ := h
        exact MountCommencePath.yieldReadOnly d (by simp [hdis]) (Or.inl (by simp [h2]))
          (by simpa using hidle)
    · by_cases h3 : d.status = 4175101699
      · by_cases hidle : (s.units (s.disks disk).unit).commandActive = false
        · simp [__DARequestMount_commence, hdis, h2, h3, hidle] at h
          obtain ⟨rfl, rfl⟩ := h
          have hp := @MountCommencePath.mountReadOnly request disk s d (by simp [hdis])
            (Or.inr (by simp [h3])) (by simp [hidle])
          cases harg : (s.requests request).argument2 <;> simpa [harg] using hp
        · simp [__DARequestMount_commence, hdis, h2, h3, hidle] at h
          obtain ⟨rfl, rfl⟩ := h
          exact MountCommencePath.yieldReadOnly d (by simp [hdis]) (Or.inr (by simp [h3]))
            (by simpa using hidle)
      · simp [__DARequestMount_commence, hdis, h2, h3] at h
        obtain ⟨rfl, rfl⟩ := h
        exact MountCommencePath.dissent d (by simp [hdis]) (by simp [h2]) (by simp [h3])

theorem mount_approve_path (env : DAEnv) (request : DARequestRef) (disk : DADiskRef)
    (s : DAState) (b : Bool) (t : DAState)
    (h : __DARequestMount_approve env request disk s = (b, t)) :
    MountApprovePath env request disk s b t := by
  by_cases happrove : (s.requests request).state &&& 1048576 = 0
  · by_cases hrepair : (s.disks disk).requireRepair = true
    · simp [__DARequestMount_approve, happrove, hrepair] at h
      obtain ⟨rfl, rfl⟩ := h
      exact MountApprovePath.repair (by simp [happrove]) (by simp [hrepair])
    · by_cases hstatus : __DARequestMount_status env request disk s = 0
      · simp [__DARequestMount_approve, happrove, hrepair, hstatus] at h
        obtain ⟨rfl, rfl⟩ := h
        exact MountApprovePath.approve (by simp [happrove]) (by simpa using hrepair) hstatus
      · simp [__DARequestMount_approve, happrove, hrepair, hstatus] at h
        obtain ⟨rfl, rfl⟩ := h
        exact MountApprovePath.refuse (by simp [happrove]) (by simpa using hrepair) hstatus
  · by_cases hauthorize : (s.requests request).state &&& 2097152 = 0
    · cases hdis : (s.requests request).dissenter with
      | none =>
        simp [__DARequestMount_approve, __DARequestMount_authorize, happrove, hauthorize,
          hdis] at h
        exact MountApprovePath.commenceFirst b t (by simp [happrove]) (by simp [hauthorize])
          (by simp [hdis]) (mount_commence_path request disk _ b t h)
      | some d =>
        by_cases h1 : d.status = 4175101697
        · simp [__DARequestMount_approve, __DARequestMount_authorize, happrove, hauthorize,
            hdis, h1] at h
          obtain ⟨rfl, rfl⟩ := h
          exact MountApprovePath.authorize d (by simp [happrove]) (by simp [hauthorize])
            (by simp [hdis]) (by simp [h1])
        · by_cases h3 : d.status = 4175101699
          · simp [__DARequestMount_approve, __DARequestMount_authorize, happrove, hauthorize,
              hdis, h1, h3] at h
            obtain ⟨rfl, rfl⟩ := h
            exact MountApprovePath.authorizeReadOnly d (by simp [happrove])
              (by simp [hauthorize]) (by simp [hdis]) (by simp [h3])
          · simp [__DARequestMount_approve, __DARequestMount_authorize, happrove, hauthorize,
              hdis, h1, h3] at h
            exact MountApprovePath.commenceFirst b t (by simp [happrove])
              (by simp [hauthorize]) (by simp [hdis, h1, h3])
              (mount_commence_path request disk _ b t h)
    · simp [__DARequestMount_approve, __DARequestMount_authorize, happrove, hauthorize] at h
      exact MountApprovePath.commence b t (by simp [happrove]) (by simp [hauthorize])
        (mount_commence_path request disk _ b t h)

theorem mount_path (env : DAEnv) (request : DARequestRef) (disk : DADiskRef) (s : DAState)
    (hdisk : (s.requests request).disk = some disk) (b : Bool) (t : DAState)
    (h : __DARequestMount env request s = some (b, t)) : MountPath env request disk s b t := by
  by_cases hgate : ¬(s.requests request).link = none
      ∧ (s.units (s.disks disk).unit).commandActive = true
  · simp [__DARequestMount, hdisk, hgate, Option.isSome_iff_ne_none] at h
    obtain ⟨rfl, rfl⟩ := h
    exact MountPath.yield (by simpa using hgate.1) (by simpa using hgate.2)
  · have hrun : DARequestGetLink s request = none
        ∨ DAUnitGetState s disk .kDAUnitStateCommandActive = false := by
      by_cases hl : (s.requests request).link = none
      · exact Or.inl (by simp [hl])
      · refine Or.inr ?_
        simp only [DAUnitGetState]
        cases hc : (s.units (s.disks disk).unit).commandActive
        · rfl
        · exact absurd ⟨hl, hc⟩ hgate
    by_cases hp : (s.requests request).state &&& 65536 = 0
    · by_cases hvol : (s.disks disk).volumePath = none
      · simp [__DARequestMount, hdisk, hgate, Option.isSome_iff_ne_none, hp, hvol] at h
        obtain ⟨rfl, rfl⟩ := h
        exact MountPath.handOff hrun (by simp [hp]) (by simp [hvol])
      · simp [__DARequestMount, hdisk, hgate, Option.isSome_iff_ne_none, hp, hvol] at h
        exact MountPath.approve b t hrun (Or.inl ⟨by simp [hp], by simpa using hvol⟩)
          (mount_approve_path env request disk _ b t h)
    · by_cases hsp : (s.disks disk).stagedProbe = true
      · simp [__DARequestMount, hdisk, hgate, Option.isSome_iff_ne_none, hp, hsp] at h
        exact MountPath.approve b t hrun (Or.inr ⟨by simp [hp], by simp [hsp]⟩)
          (mount_approve_path env request disk _ b t h)
      · simp [__DARequestMount, hdisk, hgate, Option.isSome_iff_ne_none, hp, hsp] at h
        obtain ⟨rfl, rfl⟩ := h
        exact MountPath.wait hrun (by simp [hp]) (by simpa using hsp)

theorem refresh_path (env : DAEnv) (request : DARequestRef) (disk : DADiskRef) (s : DAState)
    (hdisk : (s.requests request).disk = some disk) (b : Bool) (t : DAState)
    (h : __DARequestRefresh env request s = some (b, t)) :
    RefreshPath env request disk s b t := by
  by_cases hstatus : __DARequestRefresh_status disk s = 0
  · have hp := @RefreshPath.refresh env request disk s
      hstatus
    by_cases hrefresh : env._DADiskRefresh disk = 0
    · simp [__DARequestRefresh, hdisk, hstatus, __DARequestRefreshCallback, hrefresh] at h
      obtain ⟨rfl, rfl⟩ := h
      simpa [hrefresh] using hp
    · simp [__DARequestRefresh, hdisk, hstatus, __DARequestRefreshCallback, hrefresh,
        ENOTSUP] at h
      obtain ⟨rfl, rfl⟩ := h
      simpa [hrefresh, ENOTSUP] using hp
  · simp [__DARequestRefresh, hdisk, hstatus] at h
    obtain ⟨rfl, rfl⟩ := h
    exact RefreshPath.refuse hstatus

theorem rename_path (request : DARequestRef) (disk : DADiskRef) (s : DAState)
    (hdisk : (s.requests request).disk = some disk) (b : Bool) (t : DAState)
    (h : __DARequestRename request s = some (b, t)) : RenamePath request disk s b t := by
  by_cases hidle : (s.units (s.disks disk).unit).commandActive = false
  · by_cases hstatus : __DARequestRename_status request disk s = 0
    · simp [__DARequestRename, hdisk, hidle, hstatus] at h
      obtain ⟨rfl, rfl⟩ := h
      exact RenamePath.rename (by simp [hidle]) hstatus
    · simp [__DARequestRename, hdisk, hidle, hstatus] at h
      obtain ⟨rfl, rfl⟩ := h
      exact RenamePath.refuse (by simp [hidle]) hstatus
  · simp [__DARequestRename, hdisk, hidle] at h
    obtain ⟨rfl, rfl⟩ := h
    exact RenamePath.yield (by simpa using hidle)

theorem unmount_commence_path (request : DARequestRef) (disk : DADiskRef) (s : DAState)
    (b : Bool) (t : DAState) (h : __DARequestUnmount_commence request disk s = (b, t)) :
    UnmountCommencePath request disk s b t := by
  cases hdis : (s.requests request).dissenter with
  | some d =>
    simp [__DARequestUnmount_commence, hdis] at h
    obtain ⟨rfl, rfl⟩ := h
    exact UnmountCommencePath.dissent d (by simp [hdis])
  | none =>
    by_cases hidle : (s.units (s.disks disk).unit).commandActive = false
    · have hp := @UnmountCommencePath.unmount request disk s
        (by simp [hdis]) (by simp [hidle])
      by_cases hforce : (s.requests request).argument1 &&& 524288 = 0
      · simp [__DARequestUnmount_commence, hdis, hidle, kDADiskUnmountOptionForce,
          hforce] at h
        obtain ⟨rfl, rfl⟩ := h
        simpa [kDADiskUnmountOptionForce, hforce] using hp
      · simp [__DARequestUnmount_commence, hdis, hidle, kDADiskUnmountOptionForce,
          hforce] at h
        obtain ⟨rfl, rfl⟩ := h
        simpa [kDADiskUnmountOptionForce, hforce] using hp
    · simp [__DARequestUnmount_commence, hdis, hidle] at h
      obtain ⟨rfl, rfl⟩ := h
      exact UnmountCommencePath.yield (by simp [hdis]) (by simpa using hidle)

theorem unmount_path (request : DARequestRef) (disk : DADiskRef) (s : DAState)
    (hdisk : (s.requests request).disk = some disk) (b : Bool) (t : DAState)
    (h : __DARequestUnmount request s = some (b, t)) : UnmountPath request disk s b t := by
  by_cases hgate : ¬(s.requests request).link = none
      ∧ (s.units (s.disks disk).unit).commandActive = true
  · simp [__DARequestUnmount, hdisk, hgate, Option.isSome_iff_ne_none] at h
    obtain ⟨rfl, rfl⟩ := h
    exact UnmountPath.yield (by simpa using hgate.1) (by simpa using hgate.2)
  · have hrun : DARequestGetLink s request = none
        ∨ DAUnitGetState s disk .kDAUnitStateCommandActive = false := by
      by_cases hl : (s.requests request).link = none
      · exact Or.inl (by simp [hl])
      · refine Or.inr ?_
        simp only [DAUnitGetState]
        cases hc : (s.units (s.disks disk).unit).commandActive
        · rfl
        · exact absurd ⟨hl, hc⟩ hgate
    by_cases happrove : (s.requests request).state &&& 1048576 = 0
    · by_cases hstatus : __DARequestUnmount_status disk s = 0
      · simp [__DARequestUnmount, hdisk, hgate, Option.isSome_iff_ne_none, happrove,
          hstatus] at h
        obtain ⟨rfl, rfl⟩ := h
        exact UnmountPath.approve hrun (by simp [happrove]) hstatus
      · simp [__DARequestUnmount, hdisk, hgate, Option.isSome_iff_ne_none, happrove,
          hstatus] at h
        obtain ⟨rfl, rfl⟩ := h
        exact UnmountPath.refuse hrun (by simp [happrove]) hstatus
    · by_cases hauthorize : (s.requests request).state &&& 2097152 = 0
      · cases hdis : (s.requests request).dissenter with
        | none =>
          simp [__DARequestUnmount, hdisk, hgate, Option.isSome_iff_ne_none, happrove,
            hauthorize, hdis] at h
          exact UnmountPath.commenceFirst b t hrun (by simp [happrove])
            (by simp [hauthorize]) (by simp [hdis]) (unmount_commence_path request disk _ b t h)
        | some d =>
          by_cases hs : d.status = 4175101697
          · simp [__DARequestUnmount, hdisk, hgate, Option.isSome_iff_ne_none, happrove,
              hauthorize, hdis, hs] at h
            obtain ⟨rfl, rfl⟩ := h
            exact UnmountPath.authorize d hrun (by simp [happrove]) (by simp [hauthorize])
              (by simp [hdis]) (by simp [hs])
          · simp [__DARequestUnmount, hdisk, hgate, Option.isSome_iff_ne_none, happrove,
              hauthorize, hdis, hs] at h
            exact UnmountPath.commenceFirst b t hrun (by simp [happrove])
              (by simp [hauthorize]) (by simp [hdis, hs])
              (unmount_commence_path request disk _ b t h)
      · simp [__DARequestUnmount, hdisk, hgate, Option.isSome_iff_ne_none, happrove,
          hauthorize] at h
        exact UnmountPath.commence b t hrun (by simp [happrove]) (by simp [hauthorize])
          (unmount_commence_path request disk _ b t h)

/-- Every result of `DARequestDispatch` for a request that is not NULL comes
from one of the ways through the dispatcher and the handlers. -/
theorem dispatch_path (env : DAEnv) (request : DARequestRef) (s : DAState) (b : Bool)
    (t : DAState) (h : DARequestDispatch env (some request) s = some (b, t)) :
    DispatchPath env request s b t := by
  cases hdisk : (s.requests request).disk with
  | none =>
    simp [DARequestDispatch, hdisk] at h
    obtain ⟨rfl, rfl⟩ := h
    exact DispatchPath.noDisk (by simp [hdisk])
  | some disk =>
    by_cases hactive : (s.disks disk).commandActive = false
    · by_cases happear : (s.disks disk).stagedAppear = true
      · cases hkind : (s.requests request).kind <;>
          simp [DARequestDispatch, hdisk, hactive, happear, hkind] at h
        · exact DispatchPath.claim disk b t (by simp [hdisk]) (by simp [hactive])
            (by simp [happear]) (by simp [hkind]) (claim_path request disk s hdisk b t h)
        · exact DispatchPath.eject disk b t (by simp [hdisk]) (by simp [hactive])
            (by simp [happear]) (by simp [hkind]) (eject_path env request disk s hdisk b t h)
        · exact DispatchPath.mount disk b t (by simp [hdisk]) (by simp [hactive])
            (by simp [happear]) (by simp [hkind]) (mount_path env request disk s hdisk b t h)
        · exact DispatchPath.refresh disk b t (by simp [hdisk]) (by simp [hactive])
            (by simp [happear]) (by simp [hkind])
            (refresh_path env request disk s hdisk b t h)
        · exact DispatchPath.rename disk b t (by simp [hdisk]) (by simp [hactive])
            (by simp [happear]) (by simp [hkind]) (rename_path request disk s hdisk b t h)
        · exact DispatchPath.unmount disk b t (by simp [hdisk]) (by simp [hactive])
            (by simp [happear]) (by simp [hkind]) (unmount_path request disk s hdisk b t h)
      · simp [DARequestDispatch, hdisk, hactive, happear] at h
        obtain ⟨rfl, rfl⟩ := h
        exact DispatchPath.unseen disk (by simp [hdisk]) (by simp [hactive])
          (by simpa using happear)
    · simp [DARequestDispatch, hdisk, hactive] at h
      obtain ⟨rfl, rfl⟩ := h
      exact DispatchPath.busy disk (by simp [hdisk]) (by simpa using hactive)


/-! ## The state word, the callback and the unit flags under the state operations -/

@[simp] theorem CFRetain_requests_state (request : DARequestRef) (s : DAState)
    (r : DARequestRef) : ((CFRetain request s).requests r).state = (s.requests r).state := by
  by_cases h : r = request
  · subst h
    simp
  · simp [CFRetain_requests_other, h]

@[simp] theorem CFRelease_requests_state (request : DARequestRef) (s : DAState)
    (r : DARequestRef) : ((CFRelease request s).requests r).state = (s.requests r).state := by
  by_cases h : r = request
  · subst h
    simp
  · simp [CFRelease_requests_other, h]

@[simp] theorem DARequestSetDissenter_requests_state (request : DARequestRef)
    (dissenter : Option DADissenter) (s : DAState) (r : DARequestRef) :
    ((DARequestSetDissenter request dissenter s).requests r).state = (s.requests r).state := by
  by_cases h : r = request
  · subst h
    simp
  · simp [DARequestSetDissenter_requests_other, h]

@[simp] theorem CFRetain_requests_callback (request : DARequestRef) (s : DAState)
    (r : DARequestRef) :
    ((CFRetain request s).requests r).callback = (s.requests r).callback := by
  by_cases h : r = request
  · subst h
    simp
  · simp [CFRetain_requests_other, h]

@[simp] theorem CFRelease_requests_callback (request : DARequestRef) (s : DAState)
    (r : DARequestRef) :
    ((CFRelease request s).requests r).callback = (s.requests r).callback := by
  by_cases h : r = request
  · subst h
    simp
  · simp [CFRelease_requests_other, h]

@[simp] theorem DARequestSetDissenter_requests_callback (request : DARequestRef)
    (dissenter : Option DADissenter) (s : DAState) (r : DARequestRef) :
    ((DARequestSetDissenter request dissenter s).requests r).callback
      = (s.requests r).callback := by
  by_cases h : r = request
  · subst h
    simp
  · simp [DARequestSetDissenter_requests_other, h]

@[simp] theorem DARequestSetState_requests_callback (request : DARequestRef)
    (state : DARequestState) (value : Bool) (s : DAState) (r : DARequestRef) :
    ((DARequestSetState request state value s).requests r).callback
      = (s.requests r).callback := by
  by_cases h : r = request
  · subst h
    simp
  · simp [DARequestSetState_requests_other, h]

theorem DARequestSetState_requests_state (request : DARequestRef) (state : DARequestState)
    (s : DAState) (r : DARequestRef) :
    ((DARequestSetState request state true s).requests r).state
      = if r = request then (s.requests r).state ||| state else (s.requests r).state := by
  by_cases h : r = request
  · subst h
    simp
  · simp [DARequestSetState_requests_other, h]

@[simp] theorem DAUnitSetState_commandActive_units_ejected (disk : DADiskRef) (value : Bool)
    (s : DAState) (unit : DAUnitRef) :
    ((DAUnitSetState disk .kDAUnitStateCommandActive value s).units unit).ejected
      = (s.units unit).ejected := by
  simp only [DAUnitSetState, updateUnit_units]
  split <;> rfl

@[simp] theorem DAUnitSetState_ejected_units_commandActive (disk : DADiskRef) (value : Bool)
    (s : DAState) (unit : DAUnitRef) :
    ((DAUnitSetState disk .kDAUnitStateEjected value s).units unit).commandActive
      = (s.units unit).commandActive := by
  simp only [DAUnitSetState, updateUnit_units]
  split <;> rfl

theorem DAUnitSetState_units_ejected (disk : DADiskRef) (value : Bool) (s : DAState)
    (unit : DAUnitRef) :
    ((DAUnitSetState disk .kDAUnitStateEjected value s).units unit).ejected
      = if unit = (s.disks disk).unit then value else (s.units unit).ejected := by
  simp only [DAUnitSetState, updateUnit_units]
  split <;> rfl

theorem DAUnitSetState_units_commandActive (disk : DADiskRef) (value : Bool) (s : DAState)
    (unit : DAUnitRef) :
    ((DAUnitSetState disk .kDAUnitStateCommandActive value s).units unit).commandActive
      = if unit = (s.disks disk).unit then value else (s.units unit).commandActive := by
  simp only [DAUnitSetState, updateUnit_units]
  split <;> rfl

@[simp] theorem DADiskSetState_disks_unit (disk : DADiskRef) (state : DADiskState)
    (value : Bool) (s : DAState) (d : DADiskRef) :
    ((DADiskSetState disk state value s).disks d).unit = (s.disks d).unit := by
  simp only [DADiskSetState, updateDisk_disks]
  split
  · cases state <;> rfl
  · rfl

@[simp] theorem DADiskSetDescription_disks_unit (disk : DADiskRef) (key : DADiskDescriptionKey)
    (value : Option CFType) (s : DAState) (d : DADiskRef) :
    ((DADiskSetDescription disk key value s).disks d).unit = (s.disks d).unit := by
  simp only [DADiskSetDescription, updateDisk_disks]
  split
  · cases key <;> rfl
  · rfl

@[simp] theorem DADiskSetClaim_disks_unit (disk : DADiskRef) (claim : Option DACallback)
    (s : DAState) (d : DADiskRef) :
    ((DADiskSetClaim disk claim s).disks d).unit = (s.disks d).unit := by
  simp only [DADiskSetClaim, updateDisk_disks]
  split <;> rfl

@[simp] theorem DADiskSetBypath_disks_unit (disk : DADiskRef) (bypath : Option CFType)
    (s : DAState) (d : DADiskRef) :
    ((DADiskSetBypath disk bypath s).disks d).unit = (s.disks d).unit := by
  simp only [DADiskSetBypath, updateDisk_disks]
  split <;> rfl

theorem DADiskSetState_disks_stagedProbe (disk : DADiskRef) (state : DADiskState)
    (value : Bool) (s : DAState) (d : DADiskRef) :
    ((DADiskSetState disk state value s).disks d).stagedProbe
      = if d = disk ∧ state = .kDADiskStateStagedProbe then value
        else (s.disks d).stagedProbe := by
  simp only [DADiskSetState, updateDisk_disks]
  by_cases h : d = disk
  · cases state <;> simp [h]
  · simp [h]

@[simp] theorem DADiskSetDescription_disks_stagedProbe (disk : DADiskRef)
    (key : DADiskDescriptionKey) (value : Option CFType) (s : DAState) (d : DADiskRef) :
    ((DADiskSetDescription disk key value s).disks d).stagedProbe
      = (s.disks d).stagedProbe := by
  simp only [DADiskSetDescription, updateDisk_disks]
  split
  · cases key <;> rfl
  · rfl

@[simp] theorem DADiskSetClaim_disks_stagedProbe (disk : DADiskRef)
    (claim : Option DACallback) (s : DAState) (d : DADiskRef) :
    ((DADiskSetClaim disk claim s).disks d).stagedProbe = (s.disks d).stagedProbe := by
  simp only [DADiskSetClaim, updateDisk_disks]
  split <;> rfl

@[simp] theorem DADiskSetBypath_disks_stagedProbe (disk : DADiskRef)
    (bypath : Option CFType) (s : DAState) (d : DADiskRef) :
    ((DADiskSetBypath disk bypath s).disks d).stagedProbe = (s.disks d).stagedProbe := by
  simp only [DADiskSetBypath, updateDisk_disks]
  split <;> rfl

/-! ## Staging bits along the ways through the handlers -/

@[simp] theorem completionOf_countP_isApprovalOf (request : DARequestRef)
    (dissenter : Option DADissenter) (s : DAState) (r : DARequestRef) :
    (completionOf request dissenter s).countP (DAEvent.isApprovalOf r) = 0 := by
  unfold completionOf __DARequestDispatchCallback
  cases h : (s.requests request).callback <;> simp [h, traceSince, DAEvent.isApprovalOf]

@[simp] theorem completionOf_countP_isAuthorizeOf (request : DARequestRef)
    (dissenter : Option DADissenter) (s : DAState) (r : DARequestRef) :
    (completionOf request dissenter s).countP (DAEvent.isAuthorizeOf r) = 0 := by
  unfold completionOf __DARequestDispatchCallback
  cases h : (s.requests request).callback <;> simp [h, traceSince, DAEvent.isAuthorizeOf]

@[simp] theorem ejectSyscalls_countP_isApprovalOf (env : DAEnv) (disk : DADiskRef)
    (s : DAState) (r : DARequestRef) :
    (ejectSyscalls env disk s).countP (DAEvent.isApprovalOf r) = 0 := by
  unfold ejectSyscalls __DARequestEject_ioctl
  simp only []
  repeat' split
  all_goals simp [traceSince, DAEvent.isApprovalOf]

@[simp] theorem ejectSyscalls_countP_isAuthorizeOf (env : DAEnv) (disk : DADiskRef)
    (s : DAState) (r : DARequestRef) :
    (ejectSyscalls env disk s).countP (DAEvent.isAuthorizeOf r) = 0 := by
  unfold ejectSyscalls __DARequestEject_ioctl
  simp only []
  repeat' split
  all_goals simp [traceSince, DAEvent.isAuthorizeOf]

@[simp] theorem eject_ioctl_requests_state (env : DAEnv) (disk : DADiskRef) (s : DAState)
    (r : DARequestRef) :
    ((__DARequestEject_ioctl env disk s).2.requests r).state = (s.requests r).state := by
  rw [eject_ioctl_requests]

/-- The tail of a handler submits nothing and leaves every state word. -/
theorem eject_commence_quiet (env : DAEnv) (request : DARequestRef) (disk : DADiskRef)
    (s : DAState) (b : Bool) (t : DAState) (h : EjectCommencePath env request disk s b t)
    (r : DARequestRef) : QuietStep s t r := by
  cases h <;> simp [QuietStep, traceSince, DADiskSetState_disks_stagedProbe,
      DAEvent.isApprovalOf, DAEvent.isAuthorizeOf]

theorem mount_commence_quiet (request : DARequestRef) (disk : DADiskRef)
    (s : DAState) (b : Bool) (t : DAState) (h : MountCommencePath request disk s b t)
    (r : DARequestRef) : QuietStep s t r := by
  cases h <;> simp [QuietStep, traceSince, DADiskSetState_disks_stagedProbe,
      DAEvent.isApprovalOf, DAEvent.isAuthorizeOf]

theorem unmount_commence_quiet (request : DARequestRef) (disk : DADiskRef)
    (s : DAState) (b : Bool) (t : DAState) (h : UnmountCommencePath request disk s b t)
    (r : DARequestRef) : QuietStep s t r := by
  cases h <;> simp [QuietStep, traceSince, DADiskSetState_disks_stagedProbe,
      DAEvent.isApprovalOf, DAEvent.isAuthorizeOf]

theorem QuietStep.staging (s t : DAState) (request r : DARequestRef)
    (h : QuietStep s t r) : StagingStep s t request r := by
  obtain ⟨h1, h2, h3, h4, h5⟩ := h
  refine ⟨h1, Or.inl h2, ?_, ?_, Or.inl h5⟩
  · rw [h3]
    simp [stagedCount, h2]
  · rw [h4]
    simp [stagedCount, h2]

/-- A tail entered after StagedAuthorize was set where it was unset. -/
theorem QuietStep.staging_of_setState (s t : DAState) (request r : DARequestRef)
    (h : QuietStep (DARequestSetState request _kDARequestStateStagedAuthorize true s) t r)
    (hunset : DARequestGetState s request _kDARequestStateStagedAuthorize = false) :
    StagingStep s t request r := by
  obtain ⟨h1, h2, h3, h4, h5⟩ := h
  have htrace : traceSince (DARequestSetState request _kDARequestStateStagedAuthorize true s) t
      = traceSince s t := by
    simp [traceSince]
  rw [htrace] at h1 h3 h4
  rw [DARequestSetState_trace] at h1
  rw [DARequestSetState_requests_state] at h2
  refine ⟨h1, ?_, ?_, ?_, Or.inl (by simpa using h5)⟩
  · by_cases hr : r = request
    · subst hr
      refine Or.inr ⟨_kDARequestStateStagedAuthorize, by simp [stagingBits], hunset, ?_⟩
      simpa using h2
    · exact Or.inl (by simpa [hr] using h2)
  · rw [h3]
    by_cases hr : r = request
    · subst hr
      simp only [if_true] at h2
      simp [stagedCount, h2]
    · simp [stagedCount, h2, hr]
  · rw [h4]
    by_cases hr : r = request
    · subst hr
      simp only [if_true] at h2
      simp [stagedCount, h2] at hunset ⊢
      simp [hunset]
    · simp [stagedCount, h2, hr]

theorem eject_staging (env : DAEnv) (request : DARequestRef) (disk : DADiskRef)
    (s : DAState) (b : Bool) (t : DAState) (h : EjectPath env request disk s b t)
    (r : DARequestRef) : StagingStep s t request r := by
  cases h with
  | commenceFirst b t h1 h2 h3 hc =>
    exact QuietStep.staging_of_setState s t request r
      (eject_commence_quiet env request disk _ b t hc r) h2
  | commence b t h1 h2 hc =>
    exact (eject_commence_quiet env request disk _ b t hc r).staging s t request r
  | refuse h1 h2 =>
    simp [StagingStep, traceSince, stagedCount, DADiskSetState_disks_stagedProbe,
        DAEvent.isApprovalOf, DAEvent.isAuthorizeOf]
  | approve h1 h2 =>
    by_cases hr : r = request
    · subst hr
      simp [StagingStep, traceSince, stagedCount, DADiskSetState_disks_stagedProbe,
          DAEvent.isApprovalOf,
        DAEvent.isAuthorizeOf, stagingBits] at h1 ⊢
      simp [h1]
    · simp [StagingStep, traceSince, stagedCount, DADiskSetState_disks_stagedProbe,
        DAEvent.isApprovalOf,
        DAEvent.isAuthorizeOf, stagingBits, DARequestSetState_requests_other, hr,
        Ne.symm hr]
  | authorize d h1 h2 h3 h4 =>
    by_cases hr : r = request
    · subst hr
      simp [StagingStep, traceSince, stagedCount, DADiskSetState_disks_stagedProbe,
          DAEvent.isApprovalOf,
        DAEvent.isAuthorizeOf, stagingBits] at h1 h2 ⊢
      simp [h2]
    · simp [StagingStep, traceSince, stagedCount, DADiskSetState_disks_stagedProbe,
        DAEvent.isApprovalOf,
        DAEvent.isAuthorizeOf, stagingBits, DARequestSetState_requests_other, hr,
        Ne.symm hr]

theorem StagingStep.of_same_requests (s u t : DAState) (request r : DARequestRef)
    (htrace : u.trace = s.trace) (hrequests : u.requests = s.requests)
    (hdisks : u.disks = s.disks)
    (h : StagingStep u t request r) : StagingStep s t request r := by
  unfold StagingStep traceSince stagedCount DARequestGetState at *
  rw [htrace, hrequests, hdisks] at h
  exact h

theorem claim_staging (request : DARequestRef) (disk : DADiskRef)
    (s : DAState) (b : Bool) (t : DAState) (h : ClaimPath request disk s b t)
    (r : DARequestRef) : StagingStep s t request r := by
  by_cases hr : r = request
  · subst hr
    cases h with
    | release owner h1 h2 h3 =>
      simp [StagingStep, traceSince, stagedCount, DADiskSetState_disks_stagedProbe,
          DAEvent.isApprovalOf,
        DAEvent.isAuthorizeOf, stagingBits] at h1 ⊢
      simp [h1]
    | refuse owner h1 h2 h3 =>
      simp [StagingStep, traceSince, stagedCount, DADiskSetState_disks_stagedProbe,
          DAEvent.isApprovalOf,
        DAEvent.isAuthorizeOf, stagingBits] at h1 ⊢
      simp [h1]
    | free h1 h2 =>
      simp [StagingStep, traceSince, stagedCount, DADiskSetState_disks_stagedProbe,
          DAEvent.isApprovalOf,
        DAEvent.isAuthorizeOf, stagingBits] at h1 ⊢
      simp [h1]
    | dissent d h1 h2 =>
      simp [StagingStep, traceSince, stagedCount, DADiskSetState_disks_stagedProbe,
          DAEvent.isApprovalOf,
        DAEvent.isAuthorizeOf, stagingBits]
    | claim callback h1 h2 =>
      cases callback <;>
      simp [StagingStep, traceSince, stagedCount, DADiskSetState_disks_stagedProbe,
          DAEvent.isApprovalOf,
        DAEvent.isAuthorizeOf, stagingBits]
  · cases h with
    | claim callback h1 h2 =>
      cases callback <;>
      simp [StagingStep, traceSince, stagedCount, DADiskSetState_disks_stagedProbe,
          DAEvent.isApprovalOf,
        DAEvent.isAuthorizeOf, stagingBits, DARequestSetState_requests_other, hr,
        Ne.symm hr]
    | _ =>
      simp [StagingStep, traceSince, stagedCount, DADiskSetState_disks_stagedProbe,
          DAEvent.isApprovalOf,
        DAEvent.isAuthorizeOf, stagingBits, DARequestSetState_requests_other, hr,
        Ne.symm hr]

theorem mount_approve_staging (env : DAEnv) (request : DARequestRef) (disk : DADiskRef)
    (s : DAState) (b : Bool) (t : DAState) (h : MountApprovePath env request disk s b t)
    (r : DARequestRef) : StagingStep s t request r := by
  cases h with
  | commenceFirst b t h1 h2 h3 hc =>
    exact QuietStep.staging_of_setState s t request r
      (mount_commence_quiet request disk _ b t hc r) h2
  | commence b t h1 h2 hc =>
    exact (mount_commence_quiet request disk _ b t hc r).staging s t request r
  | repair h1 h2 =>
    simp [StagingStep, traceSince, stagedCount, DADiskSetState_disks_stagedProbe,
        DAEvent.isApprovalOf, DAEvent.isAuthorizeOf]
  | refuse h1 h2 h3 =>
    simp [StagingStep, traceSince, stagedCount, DADiskSetState_disks_stagedProbe,
        DAEvent.isApprovalOf, DAEvent.isAuthorizeOf]
  | approve h1 h2 h3 =>
    by_cases hr : r = request
    · subst hr
      simp [StagingStep, traceSince, stagedCount, DADiskSetState_disks_stagedProbe,
          DAEvent.isApprovalOf,
        DAEvent.isAuthorizeOf, stagingBits] at h1 ⊢
      simp [h1]
    · simp [StagingStep, traceSince, stagedCount, DADiskSetState_disks_stagedProbe,
        DAEvent.isApprovalOf,
        DAEvent.isAuthorizeOf, stagingBits, DARequestSetState_requests_other, hr,
        Ne.symm hr]
  | authorize d h1 h2 h3 h4 =>
    by_cases hr : r = request
    · subst hr
      simp [StagingStep, traceSince, stagedCount, DADiskSetState_disks_stagedProbe,
          DAEvent.isApprovalOf,
        DAEvent.isAuthorizeOf, stagingBits] at h1 h2 ⊢
      simp [h2]
    · simp [StagingStep, traceSince, stagedCount, DADiskSetState_disks_stagedProbe,
        DAEvent.isApprovalOf,
        DAEvent.isAuthorizeOf, stagingBits, DARequestSetState_requests_other, hr,
        Ne.symm hr]
  | authorizeReadOnly d h1 h2 h3 h4 =>
    by_cases hr : r = request
    · subst hr
      simp [StagingStep, traceSince, stagedCount, DADiskSetState_disks_stagedProbe,
          DAEvent.isApprovalOf,
        DAEvent.isAuthorizeOf, stagingBits] at h1 h2 ⊢
      simp [h2]
    · simp [StagingStep, traceSince, stagedCount, DADiskSetState_disks_stagedProbe,
        DAEvent.isApprovalOf,
        DAEvent.isAuthorizeOf, stagingBits, DARequestSetState_requests_other, hr,
        Ne.symm hr]

theorem mount_staging (env : DAEnv) (request : DARequestRef) (disk : DADiskRef)
    (s : DAState) (b : Bool) (t : DAState) (h : MountPath env request disk s b t)
    (r : DARequestRef) : StagingStep s t request r := by
  cases h with
  | yield h1 h2 =>
    simp [StagingStep, traceSince, stagedCount, DADiskSetState_disks_stagedProbe]
  | handOff h1 h2 h3 =>
    by_cases hr : r = request
    · subst hr
      simp [StagingStep, traceSince, stagedCount, DADiskSetState_disks_stagedProbe,
          DAEvent.isApprovalOf,
        DAEvent.isAuthorizeOf, stagingBits] at h2 ⊢
      simp [h2]
    · simp [StagingStep, traceSince, stagedCount, DADiskSetState_disks_stagedProbe,
        DAEvent.isApprovalOf, DAEvent.isAuthorizeOf, stagingBits,
        DARequestSetState_requests_other, hr, Ne.symm hr] at h2 ⊢
      exact Or.inr h2
  | wait h1 h2 h3 =>
    simp [StagingStep, traceSince, stagedCount, DADiskSetState_disks_stagedProbe]
  | approve b t h1 h2 hc =>
    exact StagingStep.of_same_requests s _ t request r (by simp) (by simp) (by simp)
      (mount_approve_staging env request disk _ b t hc r)

theorem refresh_staging (env : DAEnv) (request : DARequestRef) (disk : DADiskRef)
    (s : DAState) (b : Bool) (t : DAState) (h : RefreshPath env request disk s b t)
    (r : DARequestRef) : StagingStep s t request r := by
  cases h <;> simp [StagingStep, traceSince, stagedCount, DADiskSetState_disks_stagedProbe,
      DAEvent.isApprovalOf,
    DAEvent.isAuthorizeOf]

theorem rename_staging (request : DARequestRef) (disk : DADiskRef)
    (s : DAState) (b : Bool) (t : DAState) (h : RenamePath request disk s b t)
    (r : DARequestRef) : StagingStep s t request r := by
  cases h <;> simp [StagingStep, traceSince, stagedCount, DADiskSetState_disks_stagedProbe,
      DAEvent.isApprovalOf,
    DAEvent.isAuthorizeOf]

theorem unmount_staging (request : DARequestRef) (disk : DADiskRef)
    (s : DAState) (b : Bool) (t : DAState) (h : UnmountPath request disk s b t)
    (r : DARequestRef) : StagingStep s t request r := by
  cases h with
  | yield h1 h2 =>
    simp [StagingStep, traceSince, stagedCount, DADiskSetState_disks_stagedProbe]
  | commenceFirst b t h0 h1 h2 h3 hc =>
    exact QuietStep.staging_of_setState s t request r
      (unmount_commence_quiet request disk _ b t hc r) h2
  | commence b t h0 h1 h2 hc =>
    exact (unmount_commence_quiet request disk _ b t hc r).staging s t request r
  | refuse h0 h1 h2 =>
    simp [StagingStep, traceSince, stagedCount, DADiskSetState_disks_stagedProbe,
        DAEvent.isApprovalOf, DAEvent.isAuthorizeOf]
  | approve h0 h1 h2 =>
    by_cases hr : r = request
    · subst hr
      simp [StagingStep, traceSince, stagedCount, DADiskSetState_disks_stagedProbe,
          DAEvent.isApprovalOf,
        DAEvent.isAuthorizeOf, stagingBits] at h1 ⊢
      simp [h1]
    · simp [StagingStep, traceSince, stagedCount, DADiskSetState_disks_stagedProbe,
        DAEvent.isApprovalOf,
        DAEvent.isAuthorizeOf, stagingBits, DARequestSetState_requests_other, hr,
        Ne.symm hr]
  | authorize d h0 h1 h2 h3 h4 =>
    by_cases hr : r = request
    · subst hr
      simp [StagingStep, traceSince, stagedCount, DADiskSetState_disks_stagedProbe,
          DAEvent.isApprovalOf,
        DAEvent.isAuthorizeOf, stagingBits] at h1 h2 ⊢
      simp [h2]
    · simp [StagingStep, traceSince, stagedCount, DADiskSetState_disks_stagedProbe,
        DAEvent.isApprovalOf,
        DAEvent.isAuthorizeOf, stagingBits, DARequestSetState_requests_other, hr,
        Ne.symm hr]

theorem dispatch_staging (env : DAEnv) (request : DARequestRef) (s : DAState) (b : Bool)
    (t : DAState) (h : DispatchPath env request s b t) (r : DARequestRef) :
    StagingStep s t request r := by
  cases h with
  | noDisk h1 => simp [StagingStep, traceSince, stagedCount, DADiskSetState_disks_stagedProbe]
  | busy disk h1 h2 => simp [StagingStep, traceSince, stagedCount, DADiskSetState_disks_stagedProbe]
  | unseen disk h1 h2 h3 => simp [StagingStep, traceSince, stagedCount,
      DADiskSetState_disks_stagedProbe]
  | claim disk b t h1 h2 h3 h4 hc => exact claim_staging request disk s b t hc r
  | eject disk b t h1 h2 h3 h4 hc => exact eject_staging env request disk s b t hc r
  | mount disk b t h1 h2 h3 h4 hc => exact mount_staging env request disk s b t hc r
  | refresh disk b t h1 h2 h3 h4 hc => exact refresh_staging env request disk s b t hc r
  | rename disk b t h1 h2 h3 h4 hc => exact rename_staging request disk s b t hc r
  | unmount disk b t h1 h2 h3 h4 hc => exact unmount_staging request disk s b t hc r

theorem claimRelease_quiet (response : Option DADissenter) (request : DARequestRef) (s t : DAState)
    (h : __DARequestClaimReleaseCallback response request s = some t) (r : DARequestRef) :
        QuietStep s t r := by
  unfold __DARequestClaimReleaseCallback at h
  simp only [] at h
  repeat' split at h
  all_goals simp at h
  all_goals subst h
  all_goals simp [QuietStep, traceSince, DADiskSetState_disks_stagedProbe, DAEvent.isApprovalOf,
      DAEvent.isAuthorizeOf]

theorem ejectApproval_quiet (response : Option DADissenter) (request : DARequestRef) (s t : DAState)
    (h : __DARequestEjectApprovalCallback response request s = some t) (r : DARequestRef) :
        QuietStep s t r := by
  unfold __DARequestEjectApprovalCallback at h
  simp only [] at h
  repeat' split at h
  all_goals simp at h
  all_goals subst h
  all_goals simp [QuietStep, traceSince, DADiskSetState_disks_stagedProbe, DAEvent.isApprovalOf,
      DAEvent.isAuthorizeOf]

theorem ejectAuthorization_quiet (status : DAReturn) (request : DARequestRef) (s t : DAState)
    (h : __DARequestEjectAuthorizationCallback status request s = some t) (r : DARequestRef) :
        QuietStep s t r := by
  unfold __DARequestEjectAuthorizationCallback at h
  simp only [] at h
  repeat' split at h
  all_goals simp at h
  all_goals subst h
  all_goals simp [QuietStep, traceSince, DADiskSetState_disks_stagedProbe, DAEvent.isApprovalOf,
      DAEvent.isAuthorizeOf]

theorem mountApproval_quiet (response : Option DADissenter) (request : DARequestRef) (s t : DAState)
    (h : __DARequestMountApprovalCallback response request s = some t) (r : DARequestRef) :
        QuietStep s t r := by
  unfold __DARequestMountApprovalCallback at h
  simp only [] at h
  repeat' split at h
  all_goals simp at h
  all_goals subst h
  all_goals simp [QuietStep, traceSince, DADiskSetState_disks_stagedProbe, DAEvent.isApprovalOf,
      DAEvent.isAuthorizeOf]

theorem mountAuthorization_quiet (status : DAReturn) (request : DARequestRef) (s t : DAState)
    (h : __DARequestMountAuthorizationCallback status request s = some t) (r : DARequestRef) :
        QuietStep s t r := by
  unfold __DARequestMountAuthorizationCallback at h
  simp only [] at h
  repeat' split at h
  all_goals simp at h
  all_goals subst h
  all_goals simp [QuietStep, traceSince, DADiskSetState_disks_stagedProbe, DAEvent.isApprovalOf,
      DAEvent.isAuthorizeOf]

theorem mountCallback_quiet (status : Nat) (mountpoint : Option CFType) (request : DARequestRef)
    (s t : DAState)
    (h : __DARequestMountCallback status mountpoint request s = some t) (r : DARequestRef) :
        QuietStep s t r := by
  unfold __DARequestMountCallback at h
  simp only [] at h
  repeat' split at h
  all_goals simp at h
  all_goals subst h
  all_goals simp [QuietStep, traceSince, DADiskSetState_disks_stagedProbe, DAEvent.isApprovalOf,
      DAEvent.isAuthorizeOf]

theorem renameCallback_quiet (env : DAEnv) (status : Nat) (request : DARequestRef) (s t : DAState)
    (h : __DARequestRenameCallback env status request s = some t) (r : DARequestRef) : QuietStep
        s t r := by
  unfold __DARequestRenameCallback at h
  simp only [] at h
  split at h
  · cases h
  · split at h
    · cases h
    · rename_i renamed hrenamed
      simp only [Option.some.injEq] at h
      subst h
      repeat' split at hrenamed
      all_goals simp at hrenamed
      all_goals subst hrenamed
      all_goals simp [QuietStep, traceSince, DADiskSetState_disks_stagedProbe, DAEvent.isApprovalOf,
          DAEvent.isAuthorizeOf]

theorem unmountApproval_quiet (response : Option DADissenter) (request : DARequestRef) (s t :
    DAState)
    (h : __DARequestUnmountApprovalCallback response request s = some t) (r : DARequestRef) :
        QuietStep s t r := by
  unfold __DARequestUnmountApprovalCallback at h
  simp only [] at h
  repeat' split at h
  all_goals simp at h
  all_goals subst h
  all_goals simp [QuietStep, traceSince, DADiskSetState_disks_stagedProbe, DAEvent.isApprovalOf,
      DAEvent.isAuthorizeOf]

theorem unmountAuthorization_quiet (status : DAReturn) (request : DARequestRef) (s t : DAState)
    (h : __DARequestUnmountAuthorizationCallback status request s = some t) (r : DARequestRef) :
        QuietStep s t r := by
  unfold __DARequestUnmountAuthorizationCallback at h
  simp only [] at h
  repeat' split at h
  all_goals simp at h
  all_goals subst h
  all_goals simp [QuietStep, traceSince, DADiskSetState_disks_stagedProbe, DAEvent.isApprovalOf,
      DAEvent.isAuthorizeOf]

theorem unmountCallback_quiet (status : Nat) (request : DARequestRef) (s t : DAState)
    (h : __DARequestUnmountCallback status request s = some t) (r : DARequestRef) : QuietStep s t
        r := by
  unfold __DARequestUnmountCallback at h
  simp only [] at h
  repeat' split at h
  all_goals simp at h
  all_goals subst h
  all_goals simp [QuietStep, traceSince, DADiskSetState_disks_stagedProbe, DAEvent.isApprovalOf,
      DAEvent.isAuthorizeOf]

theorem claimCallback_quiet (status : Nat) (request : DARequestRef) (s t : DAState)
    (h : __DARequestClaimCallback status request s = some t) (r : DARequestRef) : QuietStep s t r := by
  unfold __DARequestClaimCallback at h
  simp only [] at h
  repeat' split at h
  all_goals simp at h
  all_goals subst h
  all_goals simp [QuietStep, traceSince, DADiskSetState_disks_stagedProbe,
    DAEvent.isApprovalOf, DAEvent.isAuthorizeOf]

theorem ejectCallback_quiet (status : Nat) (request : DARequestRef) (s t : DAState)
    (h : __DARequestEjectCallback status request s = some t) (r : DARequestRef) : QuietStep s t r := by
  unfold __DARequestEjectCallback at h
  simp only [] at h
  repeat' split at h
  all_goals simp at h
  all_goals subst h
  all_goals simp [QuietStep, traceSince, DADiskSetState_disks_stagedProbe,
    DAEvent.isApprovalOf, DAEvent.isAuthorizeOf]

theorem refreshCallback_quiet (status : Nat) (request : DARequestRef) (s t : DAState)
    (h : __DARequestRefreshCallback status request s = some t) (r : DARequestRef) : QuietStep s t r := by
  unfold __DARequestRefreshCallback at h
  simp only [] at h
  repeat' split at h
  all_goals simp at h
  all_goals subst h
  all_goals simp [QuietStep, traceSince, DADiskSetState_disks_stagedProbe,
    DAEvent.isApprovalOf, DAEvent.isAuthorizeOf]

theorem stepOf_staging (env : DAEnv) (request : DARequestRef) (s t : DAState)
    (h : DAStepOf env request s t) (r : DARequestRef) : StagingStep s t request r := by
  cases h with
  | dispatch b t h => exact dispatch_staging env request s b t (dispatch_path env request s b t h) r
  | claimRelease response t h =>
    exact (claimRelease_quiet response request s t h r).staging s t request r
  | ejectApproval response t h =>
    exact (ejectApproval_quiet response request s t h r).staging s t request r
  | ejectAuthorization status t h =>
    exact (ejectAuthorization_quiet status request s t h r).staging s t request r
  | mountApproval response t h =>
    exact (mountApproval_quiet response request s t h r).staging s t request r
  | mountAuthorization status t h =>
    exact (mountAuthorization_quiet status request s t h r).staging s t request r
  | mount status mountpoint t h =>
    exact (mountCallback_quiet status mountpoint request s t h r).staging s t request r
  | rename status t h =>
    exact (renameCallback_quiet env status request s t h r).staging s t request r
  | unmountApproval response t h =>
    exact (unmountApproval_quiet response request s t h r).staging s t request r
  | unmountAuthorization status t h =>
    exact (unmountAuthorization_quiet status request s t h r).staging s t request r
  | unmount status t h =>
    exact (unmountCallback_quiet status request s t h r).staging s t request r
  | claimed status t h =>
    exact (claimCallback_quiet status request s t h r).staging s t request r
  | ejected status t h =>
    exact (ejectCallback_quiet status request s t h r).staging s t request r
  | refreshed status t h =>
    exact (refreshCallback_quiet status request s t h r).staging s t request r

theorem step_staging (env : DAEnv) (s t : DAState) (h : DAStep env s t) (r : DARequestRef) :
    ∃ request, StagingStep s t request r := by
  cases h with
  | null b t h =>
    simp [DARequestDispatch] at h
    obtain ⟨rfl, rfl⟩ := h
    exact ⟨r, by simp [StagingStep, traceSince, stagedCount]⟩
  | of request t h => exact ⟨request, stepOf_staging env request s t h r⟩

theorem StagingStep.mono (s t : DAState) (request r : DARequestRef)
    (h : StagingStep s t request r) (bit : DARequestState) (hbit : bit ∈ stagingBits)
    (hset : DARequestGetState s r bit = true) : DARequestGetState t r bit = true := by
  obtain ⟨-, h | ⟨other, hother, -, h⟩, -⟩ := h
  · simpa [h] using hset
  · simp only [stagingBits, List.mem_cons, List.mem_singleton, List.mem_nil_iff,
      or_false] at hbit hother
    rcases hbit with rfl | rfl | rfl <;> rcases hother with rfl | rfl | rfl <;>
      simp_all

theorem traceSince_trans (s t u : DAState) (h1 : t.trace = s.trace ++ traceSince s t)
    (h2 : u.trace = t.trace ++ traceSince t u) :
    u.trace = s.trace ++ traceSince s u
      ∧ traceSince s u = traceSince s t ++ traceSince t u := by
  generalize traceSince s t = x at h1
  generalize traceSince t u = y at h2
  simp [traceSince, h2, h1]

/-- Along a run the staging bits of a request only grow, and the approvals
and authorizations submitted for it are paid for by the bits StagedApprove and
StagedAuthorize being set. -/
theorem run_staging (env : DAEnv) (s t : DAState)
    (h : Relation.ReflTransGen (DAStep env) s t) (r : DARequestRef) :
    t.trace = s.trace ++ traceSince s t
      ∧ (∀ bit ∈ stagingBits, DARequestGetState s r bit = true →
          DARequestGetState t r bit = true)
      ∧ (traceSince s t).countP (DAEvent.isApprovalOf r)
          + stagedCount s r kDARequestStateStagedApprove
        ≤ stagedCount t r kDARequestStateStagedApprove
      ∧ (traceSince s t).countP (DAEvent.isAuthorizeOf r)
          + stagedCount s r _kDARequestStateStagedAuthorize
        ≤ stagedCount t r _kDARequestStateStagedAuthorize := by
  induction h with
  | refl => simp [traceSince]
  | tail _ hstep ih =>
    obtain ⟨request, hs⟩ := step_staging env _ _ hstep r
    obtain ⟨i1, i2, i3, i4⟩ := ih
    have hmono := hs.mono
    obtain ⟨s1, -, s3, s4, -⟩ := hs
    obtain ⟨t1, t2⟩ := traceSince_trans _ _ _ i1 s1
    refine ⟨t1, fun bit hbit hset => hmono bit hbit (i2 bit hbit hset), ?_, ?_⟩
    · rw [t2, List.countP_append]
      omega
    · rw [t2, List.countP_append]
      omega

theorem stagedCount_le_one (s : DAState) (r : DARequestRef) (state : DARequestState) :
    stagedCount s r state ≤ 1 := by
  unfold stagedCount
  split <;> simp

theorem stagedCount_of_set (s : DAState) (r : DARequestRef) (state : DARequestState)
    (h : DARequestGetState s r state = true) : stagedCount s r state = 1 := by
  unfold stagedCount
  rw [h]
  rfl

theorem staged_of_count (s t : DAState) (r : DARequestRef) (state : DARequestState)
    (n : Nat) (h : n + stagedCount s r state ≤ stagedCount t r state) (hpos : 0 < n) :
    DARequestGetState s r state = false ∧ DARequestGetState t r state = true := by
  unfold stagedCount at h
  cases hs : DARequestGetState s r state <;> cases ht : DARequestGetState t r state <;>
    rw [hs, ht] at h <;> simp at h <;> first | omega | exact ⟨rfl, rfl⟩

/-! ## C25: the staging bits only grow -/

/-- C25. For every request `r`: (1) in every step of the engine (a
`DARequestDispatch` call, for NULL or for any request, or a claim, approval,
authorization or execute callback of this file, run for any request) each
staging bit
that is set on `r` before the step is set after it, the state word of `r`
stays as it is or gains exactly one staging bit that was unset on entry, and
an approval or an authorization is submitted for `r` only in a step in which
StagedApprove or StagedAuthorize was unset on entry and is set on exit; (2) a
step on `r` itself that finds StagedProbe set on `r` leaves the StagedProbe
flag of every disk, so the probe hand-off is not repeated; (3) along every run
of steps the bits set at the start are set at the end, at most one approval
and at most one authorization is submitted for `r`, and none when the bit is
set at the start. -/
theorem C25_staging_bits_monotone (env : DAEnv) (r : DARequestRef) :
    (∀ s t, DAStep env s t →
      (∀ bit ∈ stagingBits, DARequestGetState s r bit = true →
        DARequestGetState t r bit = true)
      ∧ ((t.requests r).state = (s.requests r).state
        ∨ ∃ bit ∈ stagingBits, DARequestGetState s r bit = false
            ∧ (t.requests r).state = (s.requests r).state ||| bit)
      ∧ (0 < (traceSince s t).countP (DAEvent.isApprovalOf r) →
          DARequestGetState s r kDARequestStateStagedApprove = false
          ∧ DARequestGetState t r kDARequestStateStagedApprove = true)
      ∧ (0 < (traceSince s t).countP (DAEvent.isAuthorizeOf r) →
          DARequestGetState s r _kDARequestStateStagedAuthorize = false
          ∧ DARequestGetState t r _kDARequestStateStagedAuthorize = true))
    ∧ (∀ s t, DAStepOf env r s t →
        DARequestGetState s r kDARequestStateStagedProbe = true →
        ∀ d, (t.disks d).stagedProbe = (s.disks d).stagedProbe)
    ∧ (∀ s t, Relation.ReflTransGen (DAStep env) s t →
        (∀ bit ∈ stagingBits, DARequestGetState s r bit = true →
          DARequestGetState t r bit = true)
        ∧ (traceSince s t).countP (DAEvent.isApprovalOf r) ≤ 1
        ∧ (traceSince s t).countP (DAEvent.isAuthorizeOf r) ≤ 1
        ∧ (DARequestGetState s r kDARequestStateStagedApprove = true →
            (traceSince s t).countP (DAEvent.isApprovalOf r) = 0)
        ∧ (DARequestGetState s r _kDARequestStateStagedAuthorize = true →
            (traceSince s t).countP (DAEvent.isAuthorizeOf r) = 0)) := by
  refine ⟨fun s t hstep => ?_, fun s t hstep hset => ?_, fun s t hrun => ?_⟩
  · obtain ⟨request, hs⟩ := step_staging env s t hstep r
    have hmono := hs.mono
    obtain ⟨-, h2, h3, h4, -⟩ := hs
    exact ⟨hmono, h2, fun hpos => staged_of_count s t r _ _ h3 hpos,
      fun hpos => staged_of_count s t r _ _ h4 hpos⟩
  · obtain ⟨-, -, -, -, h5 | ⟨h5, -⟩⟩ := stepOf_staging env r s t hstep r
    · exact h5
    · rw [hset] at h5
      cases h5
  · obtain ⟨-, h2, h3, h4⟩ := run_staging env s t hrun r
    have a1 := stagedCount_le_one t r kDARequestStateStagedApprove
    have a2 := stagedCount_le_one t r _kDARequestStateStagedAuthorize
    refine ⟨h2, by omega, by omega, fun hset => ?_, fun hset => ?_⟩
    · have := stagedCount_of_set s r _ hset
      omega
    · have := stagedCount_of_set s r _ hset
      omega

/-- C25 at a fresh eject request: its first dispatch submits the approval
and sets StagedApprove; over the run of that dispatch and the approval
callback at most one approval is submitted; and the dispatch of a mount
request that awaits the probe leaves the StagedProbe flag of every disk. -/
theorem C25_staging_bits_monotone_witness :
    (DARequestGetState exampleFreshEjectState 0 kDARequestStateStagedApprove = false
      ∧ DARequestGetState exampleApprovingState 0 kDARequestStateStagedApprove = true)
    ∧ (traceSince exampleFreshEjectState exampleApprovedState).countP
        (DAEvent.isApprovalOf 0) ≤ 1
    ∧ (∀ d,
        ((DAUnitSetState 0 .kDAUnitStateEjected false exampleProbingState).disks d).stagedProbe
        = (exampleProbingState.disks d).stagedProbe) :=
  ⟨((C25_staging_bits_monotone exampleEnv 0).1 exampleFreshEjectState exampleApprovingState
      (DAStep.of 0 _ (DAStepOf.dispatch false _ rfl))).2.2.1 (by decide),
    ((C25_staging_bits_monotone exampleEnv 0).2.2 exampleFreshEjectState exampleApprovedState
      (Relation.ReflTransGen.tail
        (Relation.ReflTransGen.single (DAStep.of 0 _ (DAStepOf.dispatch false _ rfl)))
        (DAStep.of 0 _ (DAStepOf.ejectApproval none _ rfl)))).2.1,
    (C25_staging_bits_monotone exampleEnv 0).2.1 exampleProbingState _
      (DAStepOf.dispatch false _ rfl) rfl⟩


/-! ## The execute stage and the CommandActive flag of the unit -/

@[simp] theorem completionOf_any_isExecuteHelper (request : DARequestRef)
    (dissenter : Option DADissenter) (s : DAState) :
    (completionOf request dissenter s).any DAEvent.isExecuteHelper = false := by
  unfold completionOf __DARequestDispatchCallback
  cases h : (s.requests request).callback <;> simp [h, traceSince, DAEvent.isExecuteHelper]

@[simp] theorem ejectSyscalls_any_isExecuteHelper (env : DAEnv) (disk : DADiskRef)
    (s : DAState) : (ejectSyscalls env disk s).any DAEvent.isExecuteHelper = false := by
  unfold ejectSyscalls __DARequestEject_ioctl
  simp only []
  repeat' split
  all_goals simp [traceSince, DAEvent.isExecuteHelper]

theorem eject_commence_gated (env : DAEnv) (request : DARequestRef) (disk : DADiskRef)
    (s : DAState) (b : Bool) (t : DAState) (h : EjectCommencePath env request disk s b t) :
    CommenceGated s t request disk b := by
  cases h <;> simp_all [CommenceGated, traceSince, DAEvent.isExecute,
    DAEvent.isExecuteHelper, DAUnitSetState_units_commandActive]

theorem mount_commence_gated (request : DARequestRef) (disk : DADiskRef)
    (s : DAState) (b : Bool) (t : DAState) (h : MountCommencePath request disk s b t) :
    CommenceGated s t request disk b := by
  cases h <;> simp_all [CommenceGated, traceSince, DAEvent.isExecute,
    DAEvent.isExecuteHelper, DAUnitSetState_units_commandActive]

theorem unmount_commence_gated (request : DARequestRef) (disk : DADiskRef)
    (s : DAState) (b : Bool) (t : DAState) (h : UnmountCommencePath request disk s b t) :
    CommenceGated s t request disk b := by
  cases h <;> simp_all [CommenceGated, traceSince, DAEvent.isExecute,
    DAEvent.isExecuteHelper, DAUnitSetState_units_commandActive]

theorem CommenceGated.gated (s t : DAState) (request : DARequestRef) (disk : DADiskRef)
    (b : Bool) (h : CommenceGated s t request disk b) : ExecuteGated s t request disk b :=
  ⟨fun hbusy => ⟨(h.1 hbusy).1, (h.1 hbusy).2.1, fun hb => Or.inr ((h.1 hbusy).2.2 hb)⟩,
    h.2⟩

theorem CommenceGated.gated_of_setState (s t : DAState) (request : DARequestRef)
    (disk : DADiskRef) (b : Bool) (state : DARequestState)
    (h : CommenceGated (DARequestSetState request state true s) t request disk b) :
    ExecuteGated s t request disk b := by
  simp only [CommenceGated, ExecuteGated, traceSince, DAUnitGetState, DARequestGetDissenter,
    DARequestSetState_trace, DARequestSetState_units, DARequestSetState_disks,
    DARequestSetState_requests_same] at h ⊢
  exact ⟨fun hbusy => ⟨(h.1 hbusy).1, (h.1 hbusy).2.1,
    fun hb => Or.inr ((h.1 hbusy).2.2 hb)⟩, h.2⟩

theorem eject_gated (env : DAEnv) (request : DARequestRef) (disk : DADiskRef)
    (s : DAState) (b : Bool) (t : DAState) (h : EjectPath env request disk s b t) :
    ExecuteGated s t request disk b := by
  cases h with
  | commenceFirst b t h1 h2 h3 hc =>
    exact (eject_commence_gated env request disk _ b t hc).gated_of_setState
  | commence b t h1 h2 hc => exact (eject_commence_gated env request disk _ b t hc).gated
  | refuse h1 h2 =>
    simp_all [ExecuteGated, traceSince, DAEvent.isExecute, DAEvent.isExecuteHelper]
  | approve h1 h2 =>
    simp_all [ExecuteGated, traceSince, DAEvent.isExecute, DAEvent.isExecuteHelper]
  | authorize d h1 h2 h3 h4 =>
    simp_all [ExecuteGated, traceSince, DAEvent.isExecute, DAEvent.isExecuteHelper,
      __DARequestAuthorize]

theorem mount_approve_gated (env : DAEnv) (request : DARequestRef) (disk : DADiskRef)
    (s : DAState) (b : Bool) (t : DAState) (h : MountApprovePath env request disk s b t) :
    ExecuteGated s t request disk b := by
  cases h with
  | commenceFirst b t h1 h2 h3 hc =>
    exact (mount_commence_gated request disk _ b t hc).gated_of_setState
  | commence b t h1 h2 hc => exact (mount_commence_gated request disk _ b t hc).gated
  | repair h1 h2 =>
    simp_all [ExecuteGated, traceSince, DAEvent.isExecute, DAEvent.isExecuteHelper]
  | refuse h1 h2 h3 =>
    simp_all [ExecuteGated, traceSince, DAEvent.isExecute, DAEvent.isExecuteHelper]
  | approve h1 h2 h3 =>
    simp_all [ExecuteGated, traceSince, DAEvent.isExecute, DAEvent.isExecuteHelper]
  | authorize d h1 h2 h3 h4 =>
    simp_all [ExecuteGated, traceSince, DAEvent.isExecute, DAEvent.isExecuteHelper,
      __DARequestAuthorize]
  | authorizeReadOnly d h1 h2 h3 h4 =>
    simp_all [ExecuteGated, traceSince, DAEvent.isExecute, DAEvent.isExecuteHelper,
      __DARequestAuthorize]

theorem mount_gated (env : DAEnv) (request : DARequestRef) (disk : DADiskRef)
    (s : DAState) (b : Bool) (t : DAState) (h : MountPath env request disk s b t) :
    ExecuteGated s t request disk b := by
  cases h with
  | yield h1 h2 => simp_all [ExecuteGated, traceSince]
  | handOff h1 h2 h3 =>
    simp_all [ExecuteGated, traceSince, DAEvent.isExecute, DAEvent.isExecuteHelper]
  | wait h1 h2 h3 => simp_all [ExecuteGated, traceSince]
  | approve b t h1 h2 hc =>
    have h := mount_approve_gated env request disk _ b t hc
    simp only [ExecuteGated, traceSince, DAUnitGetState, DARequestGetDissenter,
      DARequestGetState, DAUnitSetState_trace, DAUnitSetState_disks,
      DAUnitSetState_requests, DAUnitSetState_ejected_units_commandActive] at h ⊢
    exact h

theorem rename_gated (request : DARequestRef) (disk : DADiskRef)
    (s : DAState) (b : Bool) (t : DAState) (h : RenamePath request disk s b t) :
    ExecuteGated s t request disk b
      ∧ (DAUnitGetState s disk .kDAUnitStateCommandActive = true → b = false) := by
  cases h <;> simp_all [ExecuteGated, traceSince, DAEvent.isExecute,
    DAEvent.isExecuteHelper, DAUnitSetState_units_commandActive]

theorem unmount_gated (request : DARequestRef) (disk : DADiskRef)
    (s : DAState) (b : Bool) (t : DAState) (h : UnmountPath request disk s b t) :
    ExecuteGated s t request disk b := by
  cases h with
  | yield h1 h2 => simp_all [ExecuteGated, traceSince]
  | commenceFirst b t h0 h1 h2 h3 hc =>
    exact (unmount_commence_gated request disk _ b t hc).gated_of_setState
  | commence b t h0 h1 h2 hc => exact (unmount_commence_gated request disk _ b t hc).gated
  | refuse h0 h1 h2 =>
    simp_all [ExecuteGated, traceSince, DAEvent.isExecute, DAEvent.isExecuteHelper]
  | approve h0 h1 h2 =>
    simp_all [ExecuteGated, traceSince, DAEvent.isExecute, DAEvent.isExecuteHelper]
  | authorize d h0 h1 h2 h3 h4 =>
    simp_all [ExecuteGated, traceSince, DAEvent.isExecute, DAEvent.isExecuteHelper,
      __DARequestAuthorize]

theorem ExecuteGated.of_no_step (s : DAState) (request : DARequestRef) (disk : DADiskRef) :
    ExecuteGated s s request disk false := by
  simp [ExecuteGated, traceSince]

/-- The dispatch of an eject, mount, rename or unmount request: the handler
is entered only with the disk not CommandActive, and it is gated on the unit. -/
theorem dispatch_gated (env : DAEnv) (request : DARequestRef) (s : DAState) (b : Bool)
    (t : DAState) (h : DispatchPath env request s b t) (disk : DADiskRef)
    (hdisk : DARequestGetDisk s request = some disk)
    (hkind : DARequestGetKind s request = ._kDADiskEject
      ∨ DARequestGetKind s request = ._kDADiskMount
      ∨ DARequestGetKind s request = ._kDADiskRename
      ∨ DARequestGetKind s request = ._kDADiskUnmount) :
    ExecuteGated s t request disk b
      ∧ (DARequestGetKind s request = ._kDADiskRename →
          DAUnitGetState s disk .kDAUnitStateCommandActive = true → b = false)
      ∧ ((traceSince s t).any DAEvent.isExecute = true →
          DADiskGetState s disk .kDADiskStateCommandActive = false) := by
  cases h with
  | noDisk h1 =>
    rw [h1] at hdisk
    cases hdisk
  | busy d h1 h2 => exact ⟨ExecuteGated.of_no_step s request disk, by simp, by simp [traceSince]⟩
  | unseen d h1 h2 h3 =>
    exact ⟨ExecuteGated.of_no_step s request disk, by simp, by simp [traceSince]⟩
  | claim d b t h1 h2 h3 h4 hc =>
    rw [h4] at hkind
    simp at hkind
  | refresh d b t h1 h2 h3 h4 hc =>
    rw [h4] at hkind
    simp at hkind
  | eject d b t h1 h2 h3 h4 hc =>
    obtain rfl : d = disk := by
      rw [h1] at hdisk
      exact Option.some.inj hdisk
    exact ⟨eject_gated env request d s b t hc,
      fun hk => absurd (h4.symm.trans hk) (by decide), fun _ => h2⟩
  | mount d b t h1 h2 h3 h4 hc =>
    obtain rfl : d = disk := by
      rw [h1] at hdisk
      exact Option.some.inj hdisk
    exact ⟨mount_gated env request d s b t hc,
      fun hk => absurd (h4.symm.trans hk) (by decide), fun _ => h2⟩
  | rename d b t h1 h2 h3 h4 hc =>
    obtain rfl : d = disk := by
      rw [h1] at hdisk
      exact Option.some.inj hdisk
    exact ⟨(rename_gated request d s b t hc).1, fun _ => (rename_gated request d s b t hc).2,
      fun _ => h2⟩
  | unmount d b t h1 h2 h3 h4 hc =>
    obtain rfl : d = disk := by
      rw [h1] at hdisk
      exact Option.some.inj hdisk
    exact ⟨unmount_gated request d s b t hc,
      fun hk => absurd (h4.symm.trans hk) (by decide), fun _ => h2⟩

theorem mountCallback_clears (status : Nat) (mountpoint : Option CFType)
    (request : DARequestRef) (s t : DAState) (disk : DADiskRef)
    (hdisk : DARequestGetDisk s request = some disk)
    (h : __DARequestMountCallback status mountpoint request s = some t) :
    DAUnitGetState t disk .kDAUnitStateCommandActive = false := by
  simp only [DARequestGetDisk] at hdisk
  unfold __DARequestMountCallback at h
  simp only [DARequestGetDisk, hdisk] at h
  repeat' split at h
  all_goals simp at h
  all_goals subst h
  all_goals simp [DAUnitSetState_units_commandActive]

theorem renameCallback_clears (env : DAEnv) (status : Nat)
    (request : DARequestRef) (s t : DAState) (disk : DADiskRef)
    (hdisk : DARequestGetDisk s request = some disk)
    (h : __DARequestRenameCallback env status request s = some t) :
    DAUnitGetState t disk .kDAUnitStateCommandActive = false := by
  simp only [DARequestGetDisk] at hdisk
  unfold __DARequestRenameCallback at h
  simp only [DARequestGetDisk, hdisk] at h
  repeat' split at h
  all_goals simp at h
  all_goals subst h
  all_goals simp [DAUnitSetState_units_commandActive]

theorem unmountCallback_clears (status : Nat)
    (request : DARequestRef) (s t : DAState) (disk : DADiskRef)
    (hdisk : DARequestGetDisk s request = some disk)
    (h : __DARequestUnmountCallback status request s = some t) :
    DAUnitGetState t disk .kDAUnitStateCommandActive = false := by
  simp only [DARequestGetDisk] at hdisk
  unfold __DARequestUnmountCallback at h
  simp only [DARequestGetDisk, hdisk] at h
  repeat' split at h
  all_goals simp at h
  all_goals subst h
  all_goals simp [DAUnitSetState_units_commandActive]

theorem claim_busy (request : DARequestRef) (disk : DADiskRef)
    (s : DAState) (b : Bool) (t : DAState) (h : ClaimPath request disk s b t) :
    BusyKept s t := by
  cases h with
  | claim callback h1 h2 => cases callback <;> simp [BusyKept]
  | _ => simp [BusyKept]

theorem eject_commence_busy (env : DAEnv) (request : DARequestRef) (disk : DADiskRef)
    (s : DAState) (b : Bool) (t : DAState) (h : EjectCommencePath env request disk s b t) :
    BusyKept s t := by
  cases h with
  | eject h1 h2 =>
    intro u hu
    by_cases hunit : u = (s.disks disk).unit
    · subst hunit
      simp only [DAUnitGetState] at h2
      rw [h2] at hu
      cases hu
    · simp [DAUnitSetState_units_commandActive, hunit, hu]
  | _ => simp [BusyKept]

theorem eject_busy (env : DAEnv) (request : DARequestRef) (disk : DADiskRef)
    (s : DAState) (b : Bool) (t : DAState) (h : EjectPath env request disk s b t) :
    BusyKept s t := by
  cases h with
  | commenceFirst b t h1 h2 h3 hc =>
    have h := eject_commence_busy env request disk _ b t hc
    simpa [BusyKept] using h
  | commence b t h1 h2 hc => exact eject_commence_busy env request disk _ b t hc
  | refuse h1 h2 => simp [BusyKept]
  | approve h1 h2 => simp [BusyKept]
  | authorize d h1 h2 h3 h4 => simp [BusyKept, __DARequestAuthorize]

theorem mount_commence_busy (request : DARequestRef) (disk : DADiskRef)
    (s : DAState) (b : Bool) (t : DAState) (h : MountCommencePath request disk s b t) :
    BusyKept s t := by
  cases h <;> simp +contextual [BusyKept, DAUnitSetState_units_commandActive]

theorem mount_approve_busy (env : DAEnv) (request : DARequestRef) (disk : DADiskRef)
    (s : DAState) (b : Bool) (t : DAState) (h : MountApprovePath env request disk s b t) :
    BusyKept s t := by
  cases h with
  | commenceFirst b t h1 h2 h3 hc =>
    have h := mount_commence_busy request disk _ b t hc
    simpa [BusyKept] using h
  | commence b t h1 h2 hc => exact mount_commence_busy request disk _ b t hc
  | repair h1 h2 => simp [BusyKept]
  | refuse h1 h2 h3 => simp [BusyKept]
  | approve h1 h2 h3 => simp [BusyKept]
  | authorize d h1 h2 h3 h4 => simp [BusyKept, __DARequestAuthorize]
  | authorizeReadOnly d h1 h2 h3 h4 => simp [BusyKept, __DARequestAuthorize]

theorem mount_busy (env : DAEnv) (request : DARequestRef) (disk : DADiskRef)
    (s : DAState) (b : Bool) (t : DAState) (h : MountPath env request disk s b t) :
    BusyKept s t := by
  cases h with
  | yield h1 h2 => simp [BusyKept]
  | handOff h1 h2 h3 => simp [BusyKept]
  | wait h1 h2 h3 => simp [BusyKept]
  | approve b t h1 h2 hc =>
    have h := mount_approve_busy env request disk _ b t hc
    simpa [BusyKept] using h

theorem refresh_busy (env : DAEnv) (request : DARequestRef) (disk : DADiskRef)
    (s : DAState) (b : Bool) (t : DAState) (h : RefreshPath env request disk s b t) :
    BusyKept s t := by
  cases h <;> simp [BusyKept]

theorem rename_busy (request : DARequestRef) (disk : DADiskRef)
    (s : DAState) (b : Bool) (t : DAState) (h : RenamePath request disk s b t) :
    BusyKept s t := by
  cases h <;> simp +contextual [BusyKept, DAUnitSetState_units_commandActive]

theorem unmount_commence_busy (request : DARequestRef) (disk : DADiskRef)
    (s : DAState) (b : Bool) (t : DAState) (h : UnmountCommencePath request disk s b t) :
    BusyKept s t := by
  cases h <;> simp +contextual [BusyKept, DAUnitSetState_units_commandActive]

theorem unmount_busy (request : DARequestRef) (disk : DADiskRef)
    (s : DAState) (b : Bool) (t : DAState) (h : UnmountPath request disk s b t) :
    BusyKept s t := by
  cases h with
  | yield h1 h2 => simp [BusyKept]
  | commenceFirst b t h0 h1 h2 h3 hc =>
    have h := unmount_commence_busy request disk _ b t hc
    simpa [BusyKept] using h
  | commence b t h0 h1 h2 hc => exact unmount_commence_busy request disk _ b t hc
  | refuse h0 h1 h2 => simp [BusyKept]
  | approve h0 h1 h2 => simp [BusyKept]
  | authorize d h0 h1 h2 h3 h4 => simp [BusyKept, __DARequestAuthorize]

theorem dispatch_busy (env : DAEnv) (request : DARequestRef) (s : DAState) (b : Bool)
    (t : DAState) (h : DispatchPath env request s b t) : BusyKept s t := by
  cases h with
  | noDisk h1 => exact fun _ hu => hu
  | busy d h1 h2 => exact fun _ hu => hu
  | unseen d h1 h2 h3 => exact fun _ hu => hu
  | claim d b t h1 h2 h3 h4 hc => exact claim_busy request d s b t hc
  | eject d b t h1 h2 h3 h4 hc => exact eject_busy env request d s b t hc
  | mount d b t h1 h2 h3 h4 hc => exact mount_busy env request d s b t hc
  | refresh d b t h1 h2 h3 h4 hc => exact refresh_busy env request d s b t hc
  | rename d b t h1 h2 h3 h4 hc => exact rename_busy request d s b t hc
  | unmount d b t h1 h2 h3 h4 hc => exact unmount_busy request d s b t hc

theorem claimRelease_busy (response : Option DADissenter) (request : DARequestRef) (s t : DAState)
    (h : __DARequestClaimReleaseCallback response request s = some t) : BusyKept s t := by
  unfold __DARequestClaimReleaseCallback at h
  simp only [] at h
  repeat' split at h
  all_goals simp at h
  all_goals subst h
  all_goals simp [BusyKept]

theorem ejectApproval_busy (response : Option DADissenter) (request : DARequestRef) (s t : DAState)
    (h : __DARequestEjectApprovalCallback response request s = some t) : BusyKept s t := by
  unfold __DARequestEjectApprovalCallback at h
  simp only [] at h
  repeat' split at h
  all_goals simp at h
  all_goals subst h
  all_goals simp [BusyKept]

theorem ejectAuthorization_busy (status : DAReturn) (request : DARequestRef) (s t : DAState)
    (h : __DARequestEjectAuthorizationCallback status request s = some t) : BusyKept s t := by
  unfold __DARequestEjectAuthorizationCallback at h
  simp only [] at h
  repeat' split at h
  all_goals simp at h
  all_goals subst h
  all_goals simp [BusyKept]

theorem mountApproval_busy (response : Option DADissenter) (request : DARequestRef) (s t : DAState)
    (h : __DARequestMountApprovalCallback response request s = some t) : BusyKept s t := by
  unfold __DARequestMountApprovalCallback at h
  simp only [] at h
  repeat' split at h
  all_goals simp at h
  all_goals subst h
  all_goals simp [BusyKept]

theorem mountAuthorization_busy (status : DAReturn) (request : DARequestRef) (s t : DAState)
    (h : __DARequestMountAuthorizationCallback status request s = some t) : BusyKept s t := by
  unfold __DARequestMountAuthorizationCallback at h
  simp only [] at h
  repeat' split at h
  all_goals simp at h
  all_goals subst h
  all_goals simp [BusyKept]

theorem unmountApproval_busy (response : Option DADissenter) (request : DARequestRef) (s t : DAState)
    (h : __DARequestUnmountApprovalCallback response request s = some t) : BusyKept s t := by
  unfold __DARequestUnmountApprovalCallback at h
  simp only [] at h
  repeat' split at h
  all_goals simp at h
  all_goals subst h
  all_goals simp [BusyKept]

theorem unmountAuthorization_busy (status : DAReturn) (request : DARequestRef) (s t : DAState)
    (h : __DARequestUnmountAuthorizationCallback status request s = some t) : BusyKept s t := by
  unfold __DARequestUnmountAuthorizationCallback at h
  simp only [] at h
  repeat' split at h
  all_goals simp at h
  all_goals subst h
  all_goals simp [BusyKept]

theorem claimCallback_busy (status : Nat) (request : DARequestRef) (s t : DAState)
    (h : __DARequestClaimCallback status request s = some t) : BusyKept s t := by
  unfold __DARequestClaimCallback at h
  simp only [] at h
  repeat' split at h
  all_goals simp at h
  all_goals subst h
  all_goals simp [BusyKept]

theorem refreshCallback_busy (status : Nat) (request : DARequestRef) (s t : DAState)
    (h : __DARequestRefreshCallback status request s = some t) : BusyKept s t := by
  unfold __DARequestRefreshCallback at h
  simp only [] at h
  repeat' split at h
  all_goals simp at h
  all_goals subst h
  all_goals simp [BusyKept]

/-- A step keeps every CommandActive unit CommandActive, unless it is the
callback of an execute stage. -/
theorem step_busy (env : DAEnv) (s t : DAState) (h : DAStep env s t) :
    BusyKept s t
      ∨ ∃ request,
          (∃ status mountpoint, __DARequestMountCallback status mountpoint request s = some t)
          ∨ (∃ status, __DARequestRenameCallback env status request s = some t)
          ∨ (∃ status, __DARequestUnmountCallback status request s = some t)
          ∨ (∃ status, __DARequestEjectCallback status request s = some t) := by
  cases h with
  | null b t h =>
    simp [DARequestDispatch] at h
    obtain ⟨rfl, rfl⟩ := h
    exact Or.inl (fun _ hu => hu)
  | of request t h =>
    cases h with
    | dispatch b t h =>
      exact Or.inl (dispatch_busy env request s b t (dispatch_path env request s b t h))
    | claimRelease response t h => exact Or.inl (claimRelease_busy response request s t h)
    | ejectApproval response t h => exact Or.inl (ejectApproval_busy response request s t h)
    | ejectAuthorization status t h =>
      exact Or.inl (ejectAuthorization_busy status request s t h)
    | mountApproval response t h => exact Or.inl (mountApproval_busy response request s t h)
    | mountAuthorization status t h =>
      exact Or.inl (mountAuthorization_busy status request s t h)
    | mount status mountpoint t h => exact Or.inr ⟨request, Or.inl ⟨status, mountpoint, h⟩⟩
    | rename status t h => exact Or.inr ⟨request, Or.inr (Or.inl ⟨status, h⟩)⟩
    | unmountApproval response t h =>
      exact Or.inl (unmountApproval_busy response request s t h)
    | unmountAuthorization status t h =>
      exact Or.inl (unmountAuthorization_busy status request s t h)
    | unmount status t h => exact Or.inr ⟨request, Or.inr (Or.inr (Or.inl ⟨status, h⟩))⟩
    | claimed status t h => exact Or.inl (claimCallback_busy status request s t h)
    | ejected status t h => exact Or.inr ⟨request, Or.inr (Or.inr (Or.inr ⟨status, h⟩))⟩
    | refreshed status t h => exact Or.inl (refreshCallback_busy status request s t h)

theorem ejectCallback_clears (status : Nat)
    (request : DARequestRef) (s t : DAState) (disk : DADiskRef)
    (hdisk : DARequestGetDisk s request = some disk)
    (h : __DARequestEjectCallback status request s = some t) :
    DAUnitGetState t disk .kDAUnitStateCommandActive = false := by
  simp only [DARequestGetDisk] at hdisk
  unfold __DARequestEjectCallback at h
  simp only [DARequestGetDisk, hdisk] at h
  repeat' split at h
  all_goals simp at h
  all_goals subst h
  all_goals simp [DAUnitSetState_units_commandActive]

/-! ## C26: the execute stage is gated on the unit -/

/-- C26 as written fails: a fresh unmount request of a disk without
VolumePath, dispatched while the unit of the disk is CommandActive, is
completed with NotMounted and the call returns TRUE, not FALSE. -/
theorem C26_counterexample :
    DARequestGetKind exampleBusyUnitState 0 = ._kDADiskUnmount
    ∧ DAUnitGetState exampleBusyUnitState 0 .kDAUnitStateCommandActive = true
    ∧ (DARequestDispatch exampleEnv (some 0) exampleBusyUnitState).map
        (fun r => (r.1, traceSince exampleBusyUnitState r.2))
      = some (true, [DAEvent.DAQueueCallback exampleCallback (some 0)
          (some (DADissenterCreate kDAReturnNotMounted)), DAEvent.DAStageSignal]) := by
  refine ⟨rfl, rfl, ?_⟩
  rfl

/-- C26, amended. For every eject, mount, rename and unmount request and every
state, about a `DARequestDispatch` call that answers `b` in state `t`: (1) it
issues the system calls of eject or starts the mount, rename or unmount helper
only if the CommandActive flags of the unit and of the disk were both false on
entry; (2) when a helper was started, the unit is CommandActive afterwards;
(3) if the unit is CommandActive on entry, the call starts no execute stage
and leaves the CommandActive flag of every unit, and it returns FALSE unless
the request is completed with a precheck status (StagedApprove unset on
entry) or with a recorded dissenter, which never happens for a rename
request; (4) the eject, mount, rename and unmount callbacks clear the
CommandActive flag of the unit of the disk; (5) no other step of the engine
clears the CommandActive flag of a unit, so a unit stays CommandActive from
the start of a helper to its callback and by (3) no second execute stage
starts on a disk of that unit in between. -/
theorem C26_execute_gated (env : DAEnv) (s : DAState) (request : DARequestRef)
    (disk : DADiskRef) (b : Bool) (t : DAState)
    (hkind : DARequestGetKind s request = ._kDADiskEject
      ∨ DARequestGetKind s request = ._kDADiskMount
      ∨ DARequestGetKind s request = ._kDADiskRename
      ∨ DARequestGetKind s request = ._kDADiskUnmount)
    (hdisk : DARequestGetDisk s request = some disk)
    (hrun : DARequestDispatch env (some request) s = some (b, t)) :
    ((traceSince s t).any DAEvent.isExecute = true →
      DAUnitGetState s disk .kDAUnitStateCommandActive = false
      ∧ DADiskGetState s disk .kDADiskStateCommandActive = false)
    ∧ ((traceSince s t).any DAEvent.isExecuteHelper = true →
      DAUnitGetState t disk .kDAUnitStateCommandActive = true)
    ∧ (DAUnitGetState s disk .kDAUnitStateCommandActive = true →
      (traceSince s t).any DAEvent.isExecute = false
      ∧ (∀ u, (t.units u).commandActive = (s.units u).commandActive)
      ∧ (b = true → DARequestGetKind s request ≠ ._kDADiskRename
          ∧ (DARequestGetState s request kDARequestStateStagedApprove = false
            ∨ (DARequestGetDissenter s request).isSome = true)))
    ∧ (∀ u v d, DARequestGetDisk u request = some d →
      ((∃ status mountpoint, __DARequestMountCallback status mountpoint request u = some v)
        ∨ (∃ status, __DARequestRenameCallback env status request u = some v)
        ∨ (∃ status, __DARequestUnmountCallback status request u = some v)
        ∨ (∃ status, __DARequestEjectCallback status request u = some v)) →
      DAUnitGetState v d .kDAUnitStateCommandActive = false)
    ∧ (∀ u v, DAStep env u v →
      (∀ unit, (u.units unit).commandActive = true → (v.units unit).commandActive = true)
      ∨ ∃ q,
          (∃ status mountpoint, __DARequestMountCallback status mountpoint q u = some v)
          ∨ (∃ status, __DARequestRenameCallback env status q u = some v)
          ∨ (∃ status, __DARequestUnmountCallback status q u = some v)
          ∨ (∃ status, __DARequestEjectCallback status q u = some v)) := by
  obtain ⟨⟨h1, h2⟩, h3, h4⟩ :=
    dispatch_gated env request s b t (dispatch_path env request s b t hrun) disk hdisk hkind
  refine ⟨fun hexecute => ⟨?_, h4 hexecute⟩, h2, fun hbusy => ⟨(h1 hbusy).1, (h1 hbusy).2.1,
    fun hb => ⟨fun hk => ?_, (h1 hbusy).2.2 hb⟩⟩, ?_, fun u v hstep => step_busy env u v hstep⟩
  · cases hbusy : DAUnitGetState s disk .kDAUnitStateCommandActive
    · rfl
    · rw [(h1 hbusy).1] at hexecute
      cases hexecute
  · rw [h3 hk hbusy] at hb
    cases hb
  · rintro u v d hd (⟨status, mountpoint, h⟩ | ⟨status, h⟩ | ⟨status, h⟩ | ⟨status, h⟩)
    · exact mountCallback_clears status mountpoint request u v d hd h
    · exact renameCallback_clears env status request u v d hd h
    · exact unmountCallback_clears status request u v d hd h
    · exact ejectCallback_clears status request u v d hd h

/-- C26 at a mount request past approval and authorization on an idle unit:
the dispatch starts the mount helper, which it could only do with the unit and
the disk not CommandActive, and leaves the unit CommandActive. -/
theorem C26_execute_gated_witness :
    (DAUnitGetState exampleMountState 0 .kDAUnitStateCommandActive = false
      ∧ DADiskGetState exampleMountState 0 .kDADiskStateCommandActive = false)
    ∧ DAUnitGetState exampleMountingState 0 .kDAUnitStateCommandActive = true :=
  ⟨(C26_execute_gated exampleEnv exampleMountState 0 0 true exampleMountingState
      (Or.inr (Or.inl rfl)) rfl rfl).1 (by decide),
    (C26_execute_gated exampleEnv exampleMountState 0 0 true exampleMountingState
      (Or.inr (Or.inl rfl)) rfl rfl).2.1 (by decide)⟩


/-! ## The order of the stages -/

@[simp] theorem completionOf_any_isApproval (request : DARequestRef)
    (dissenter : Option DADissenter) (s : DAState) :
    (completionOf request dissenter s).any DAEvent.isApproval = false := by
  unfold completionOf __DARequestDispatchCallback
  cases h : (s.requests request).callback <;> simp [h, traceSince, DAEvent.isApproval]

@[simp] theorem ejectSyscalls_any_isApproval (env : DAEnv) (disk : DADiskRef)
    (s : DAState) : (ejectSyscalls env disk s).any DAEvent.isApproval = false := by
  unfold ejectSyscalls __DARequestEject_ioctl
  simp only []
  repeat' split
  all_goals simp [traceSince, DAEvent.isApproval]

theorem eject_commence_order (env : DAEnv) (request : DARequestRef) (disk : DADiskRef)
    (s : DAState) (b : Bool) (t : DAState) (h : EjectCommencePath env request disk s b t) :
    CommenceOrder s t request := by
  cases h <;> simp_all [CommenceOrder, traceSince, DAEvent.isExecute, DAEvent.isAuthorize,
    DAEvent.isApproval]

theorem mount_commence_order (request : DARequestRef) (disk : DADiskRef)
    (s : DAState) (b : Bool) (t : DAState) (h : MountCommencePath request disk s b t) :
    CommenceOrder s t request := by
  cases h <;> simp_all [CommenceOrder, traceSince, DAEvent.isExecute, DAEvent.isAuthorize,
    DAEvent.isApproval]

theorem unmount_commence_order (request : DARequestRef) (disk : DADiskRef)
    (s : DAState) (b : Bool) (t : DAState) (h : UnmountCommencePath request disk s b t) :
    CommenceOrder s t request := by
  cases h <;> simp_all [CommenceOrder, traceSince, DAEvent.isExecute, DAEvent.isAuthorize,
    DAEvent.isApproval]

theorem CommenceOrder.order (s t : DAState) (request : DARequestRef)
    (h : CommenceOrder s t request)
    (happrove : DARequestGetState s request kDARequestStateStagedApprove = true)
    (hauthorize : DARequestGetState s request _kDARequestStateStagedAuthorize = true) :
    StageOrder s t request := by
  obtain ⟨h0, h1, h2⟩ := h
  refine ⟨fun ha => ?_, fun ha => ?_, fun he => ⟨happrove, ?_, (h2 he).2⟩⟩
  · rw [h0] at ha
    cases ha
  · rw [h1] at ha
    cases ha
  · simpa [(h2 he).1] using hauthorize

theorem CommenceOrder.order_of_setState (s t : DAState) (request : DARequestRef)
    (h : CommenceOrder (DARequestSetState request _kDARequestStateStagedAuthorize true s) t
      request)
    (happrove : DARequestGetState s request kDARequestStateStagedApprove = true) :
    StageOrder s t request := by
  simp only [CommenceOrder, traceSince, DARequestGetDissenter, DARequestSetState_trace,
    DARequestSetState_requests_same] at h
  obtain ⟨h0, h1, h2⟩ := h
  refine ⟨fun ha => ?_, fun ha => ?_, fun he => ⟨happrove, ?_, (h2 he).2⟩⟩
  · simp only [traceSince] at ha
    rw [h0] at ha
    cases ha
  · simp only [traceSince] at ha
    rw [h1] at ha
    cases ha
  · simp [(h2 he).1]

theorem eject_order (env : DAEnv) (request : DARequestRef) (disk : DADiskRef)
    (s : DAState) (b : Bool) (t : DAState) (h : EjectPath env request disk s b t) :
    StageOrder s t request
      ∧ ((traceSince s t).any DAEvent.isExecute = true →
          DARequestGetDissenter s request = none) := by
  cases h with
  | commenceFirst b t h1 h2 h3 hc =>
    refine ⟨(eject_commence_order env request disk _ b t hc).order_of_setState s t request h1,
      ?_⟩
    cases hc <;> simp_all [traceSince, DAEvent.isExecute]
  | commence b t h1 h2 hc =>
    refine ⟨(eject_commence_order env request disk _ b t hc).order s t request h1 h2, ?_⟩
    cases hc <;> simp_all [traceSince, DAEvent.isExecute]
  | refuse h1 h2 =>
    simp_all [StageOrder, traceSince, DAEvent.isExecute, DAEvent.isAuthorize,
      DAEvent.isApproval]
  | approve h1 h2 =>
    simp_all [StageOrder, traceSince, DAEvent.isExecute, DAEvent.isAuthorize,
      DAEvent.isApproval]
  | authorize d h1 h2 h3 h4 =>
    simp_all [StageOrder, traceSince, DAEvent.isExecute, DAEvent.isAuthorize,
      DAEvent.isApproval, __DARequestAuthorize]

theorem mount_approve_order (env : DAEnv) (request : DARequestRef) (disk : DADiskRef)
    (s : DAState) (b : Bool) (t : DAState) (h : MountApprovePath env request disk s b t) :
    StageOrder s t request := by
  cases h with
  | commenceFirst b t h1 h2 h3 hc =>
    exact (mount_commence_order request disk _ b t hc).order_of_setState s t request h1
  | commence b t h1 h2 hc =>
    exact (mount_commence_order request disk _ b t hc).order s t request h1 h2
  | repair h1 h2 =>
    simp_all [StageOrder, traceSince, DAEvent.isExecute, DAEvent.isAuthorize,
      DAEvent.isApproval]
  | refuse h1 h2 h3 =>
    simp_all [StageOrder, traceSince, DAEvent.isExecute, DAEvent.isAuthorize,
      DAEvent.isApproval]
  | approve h1 h2 h3 =>
    simp_all [StageOrder, traceSince, DAEvent.isExecute, DAEvent.isAuthorize,
      DAEvent.isApproval]
  | authorize d h1 h2 h3 h4 =>
    simp_all [StageOrder, traceSince, DAEvent.isExecute, DAEvent.isAuthorize,
      DAEvent.isApproval, __DARequestAuthorize]
  | authorizeReadOnly d h1 h2 h3 h4 =>
    simp_all [StageOrder, traceSince, DAEvent.isExecute, DAEvent.isAuthorize,
      DAEvent.isApproval, __DARequestAuthorize]

theorem mount_order (env : DAEnv) (request : DARequestRef) (disk : DADiskRef)
    (s : DAState) (b : Bool) (t : DAState) (h : MountPath env request disk s b t) :
    StageOrder s t request := by
  cases h with
  | yield h1 h2 => simp [StageOrder, traceSince]
  | handOff h1 h2 h3 =>
    simp [StageOrder, traceSince, DAEvent.isExecute, DAEvent.isAuthorize, DAEvent.isApproval]
  | wait h1 h2 h3 => simp [StageOrder, traceSince]
  | approve b t h1 h2 hc =>
    have h := mount_approve_order env request disk _ b t hc
    simp only [StageOrder, traceSince, DARequestGetDissenter, DARequestGetState,
      DAUnitSetState_trace, DAUnitSetState_requests] at h ⊢
    exact h

theorem unmount_order (request : DARequestRef) (disk : DADiskRef)
    (s : DAState) (b : Bool) (t : DAState) (h : UnmountPath request disk s b t) :
    StageOrder s t request
      ∧ ((traceSince s t).any DAEvent.isExecute = true →
          DARequestGetDissenter s request = none) := by
  cases h with
  | yield h1 h2 => simp [StageOrder, traceSince]
  | commenceFirst b t h0 h1 h2 h3 hc =>
    refine ⟨(unmount_commence_order request disk _ b t hc).order_of_setState s t request h1,
      ?_⟩
    cases hc <;> simp_all [traceSince, DAEvent.isExecute]
  | commence b t h0 h1 h2 hc =>
    refine ⟨(unmount_commence_order request disk _ b t hc).order s t request h1 h2, ?_⟩
    cases hc <;> simp_all [traceSince, DAEvent.isExecute]
  | refuse h0 h1 h2 =>
    simp_all [StageOrder, traceSince, DAEvent.isExecute, DAEvent.isAuthorize,
      DAEvent.isApproval]
  | approve h0 h1 h2 =>
    simp_all [StageOrder, traceSince, DAEvent.isExecute, DAEvent.isAuthorize,
      DAEvent.isApproval]
  | authorize d h0 h1 h2 h3 h4 =>
    simp_all [StageOrder, traceSince, DAEvent.isExecute, DAEvent.isAuthorize,
      DAEvent.isApproval, __DARequestAuthorize]

theorem StageOrder.of_unchanged (s : DAState) (request : DARequestRef) :
    StageOrder s s request := by
  simp [StageOrder, traceSince]

theorem dispatch_order (env : DAEnv) (request : DARequestRef) (s : DAState) (b : Bool)
    (t : DAState) (h : DispatchPath env request s b t)
    (hkind : isStagedKind (DARequestGetKind s request) = true) :
    StageOrder s t request
      ∧ ((traceSince s t).any DAEvent.isExecute = true →
          ∀ d, DARequestGetDissenter s request = some d →
            DARequestGetKind s request = ._kDADiskMount) := by
  cases h with
  | noDisk h1 => exact ⟨StageOrder.of_unchanged s request, by simp [traceSince]⟩
  | busy d h1 h2 => exact ⟨StageOrder.of_unchanged s request, by simp [traceSince]⟩
  | unseen d h1 h2 h3 => exact ⟨StageOrder.of_unchanged s request, by simp [traceSince]⟩
  | claim d b t h1 h2 h3 h4 hc =>
    rw [h4] at hkind
    cases hkind
  | refresh d b t h1 h2 h3 h4 hc =>
    rw [h4] at hkind
    cases hkind
  | rename d b t h1 h2 h3 h4 hc =>
    rw [h4] at hkind
    cases hkind
  | eject d b t h1 h2 h3 h4 hc =>
    refine ⟨(eject_order env request d s b t hc).1, fun he x hx => ?_⟩
    rw [(eject_order env request d s b t hc).2 he] at hx
    cases hx
  | mount d b t h1 h2 h3 h4 hc =>
    exact ⟨mount_order env request d s b t hc, fun _ _ _ => h4⟩
  | unmount d b t h1 h2 h3 h4 hc =>
    refine ⟨(unmount_order request d s b t hc).1, fun he x hx => ?_⟩
    rw [(unmount_order request d s b t hc).2 he] at hx
    cases hx

/-! ## C27: approve, authorize, execute -/

/-- C27. For every eject, mount and unmount request and every state (reachable
or not), about a `DARequestDispatch` call that answers `b` in state `t`: an
approval is submitted only if StagedApprove was unset on entry, and it is set
afterwards; an authorization is requested only if StagedApprove was set on the
request on entry (and StagedAuthorize was not, and is set afterwards); the
execute stage
(the system calls of eject, the mount or unmount helper) starts only if
StagedApprove was set on entry and StagedAuthorize is set and the request has
no dissenter when it starts: a dissenter recorded on entry can only be one of
the sentinels 0xF8DAFF02 and 0xF8DAFF03 on a mount request, which the dispatch
turns into the read-only preference and removes before the mount starts. -/
theorem C27_stage_order (env : DAEnv) (s : DAState) (request : DARequestRef)
    (b : Bool) (t : DAState)
    (hkind : DARequestGetKind s request = ._kDADiskEject
      ∨ DARequestGetKind s request = ._kDADiskMount
      ∨ DARequestGetKind s request = ._kDADiskUnmount)
    (hrun : DARequestDispatch env (some request) s = some (b, t)) :
    ((traceSince s t).any DAEvent.isApproval = true →
      DARequestGetState s request kDARequestStateStagedApprove = false
      ∧ DARequestGetState t request kDARequestStateStagedApprove = true)
    ∧ ((traceSince s t).any DAEvent.isAuthorize = true →
      DARequestGetState s request kDARequestStateStagedApprove = true
      ∧ DARequestGetState s request _kDARequestStateStagedAuthorize = false
      ∧ DARequestGetState t request _kDARequestStateStagedAuthorize = true)
    ∧ ((traceSince s t).any DAEvent.isExecute = true →
      DARequestGetState s request kDARequestStateStagedApprove = true
      ∧ DARequestGetState t request kDARequestStateStagedApprove = true
      ∧ DARequestGetState t request _kDARequestStateStagedAuthorize = true
      ∧ DARequestGetDissenter t request = none
      ∧ ∀ d, DARequestGetDissenter s request = some d →
          DARequestGetKind s request = ._kDADiskMount
          ∧ (DADissenterGetStatus d = 0xF8DAFF02 ∨ DADissenterGetStatus d = 0xF8DAFF03)) := by
  have hstaged : isStagedKind (DARequestGetKind s request) = true := by
    rcases hkind with h | h | h <;> rw [h] <;> rfl
  have hpath := dispatch_path env request s b t hrun
  obtain ⟨⟨h0, h1, h2⟩, h3⟩ := dispatch_order env request s b t hpath hstaged
  refine ⟨h0, h1, fun he => ⟨(h2 he).1, ?_, (h2 he).2.1, (h2 he).2.2.1,
    fun d hd => ⟨h3 he d hd, (h2 he).2.2.2 d hd⟩⟩⟩
  exact StagingStep.mono s t request request
    (dispatch_staging env request s b t hpath request) _ (by simp [stagingBits]) (h2 he).1

/-- C27 at a mount request past approval and authorization: the dispatch
that starts the mount helper found StagedApprove set, and StagedAuthorize is
set and no dissenter is recorded when the helper starts. -/
theorem C27_stage_order_witness :
    DARequestGetState exampleMountState 0 kDARequestStateStagedApprove = true
    ∧ DARequestGetState exampleMountingState 0 _kDARequestStateStagedAuthorize = true
    ∧ DARequestGetDissenter exampleMountingState 0 = none :=
  ⟨((C27_stage_order exampleEnv exampleMountState 0 true exampleMountingState
      (Or.inr (Or.inl rfl)) rfl).2.2 (by decide)).1,
    ((C27_stage_order exampleEnv exampleMountState 0 true exampleMountingState
      (Or.inr (Or.inl rfl)) rfl).2.2 (by decide)).2.2.1,
    ((C27_stage_order exampleEnv exampleMountState 0 true exampleMountingState
      (Or.inr (Or.inl rfl)) rfl).2.2 (by decide)).2.2.2.1⟩


/-! ## The client callback along the ways through the handlers -/

@[simp] theorem completionOf_countP_isCompletion (request : DARequestRef)
    (dissenter : Option DADissenter) (s : DAState) :
    (completionOf request dissenter s).countP DAEvent.isCompletion
      = if ((s.requests request).callback).isSome then 1 else 0 := by
  unfold completionOf __DARequestDispatchCallback
  cases h : (s.requests request).callback <;> simp [h, traceSince, DAEvent.isCompletion]

@[simp] theorem completionOf_countP_isExecuteHelper (request : DARequestRef)
    (dissenter : Option DADissenter) (s : DAState) :
    (completionOf request dissenter s).countP DAEvent.isExecuteHelper = 0 := by
  unfold completionOf __DARequestDispatchCallback
  cases h : (s.requests request).callback <;> simp [h, traceSince, DAEvent.isExecuteHelper]

@[simp] theorem ejectSyscalls_countP_isCompletion (env : DAEnv) (disk : DADiskRef)
    (s : DAState) : (ejectSyscalls env disk s).countP DAEvent.isCompletion = 0 := by
  unfold ejectSyscalls __DARequestEject_ioctl
  simp only []
  repeat' split
  all_goals simp [traceSince, DAEvent.isCompletion]

@[simp] theorem ejectSyscalls_countP_isExecuteHelper (env : DAEnv) (disk : DADiskRef)
    (s : DAState) : (ejectSyscalls env disk s).countP DAEvent.isExecuteHelper = 0 := by
  unfold ejectSyscalls __DARequestEject_ioctl
  simp only []
  repeat' split
  all_goals simp [traceSince, DAEvent.isExecuteHelper]

@[simp] theorem eject_ioctl_requests_callback (env : DAEnv) (disk : DADiskRef) (s : DAState)
    (r : DARequestRef) :
    ((__DARequestEject_ioctl env disk s).2.requests r).callback = (s.requests r).callback := by
  rw [eject_ioctl_requests]

theorem eject_commence_completion (env : DAEnv) (request : DARequestRef) (disk : DADiskRef)
    (s : DAState) (b : Bool) (t : DAState) (h : EjectCommencePath env request disk s b t) :
    CompletionStep s t request b := by
  cases h <;> simp [CompletionStep, traceSince, DAEvent.isCompletion,
    DAEvent.isExecuteHelper]

theorem mount_commence_completion (request : DARequestRef) (disk : DADiskRef)
    (s : DAState) (b : Bool) (t : DAState) (h : MountCommencePath request disk s b t) :
    CompletionStep s t request b := by
  cases h <;> simp [CompletionStep, traceSince, DAEvent.isCompletion,
    DAEvent.isExecuteHelper]

theorem unmount_commence_completion (request : DARequestRef) (disk : DADiskRef)
    (s : DAState) (b : Bool) (t : DAState) (h : UnmountCommencePath request disk s b t) :
    CompletionStep s t request b := by
  cases h <;> simp [CompletionStep, traceSince, DAEvent.isCompletion,
    DAEvent.isExecuteHelper]

theorem CompletionStep.of_same_callbacks (s u t : DAState) (request : DARequestRef) (b : Bool)
    (htrace : u.trace = s.trace) (hrequests : ∀ r, (u.requests r).callback
      = (s.requests r).callback)
    (h : CompletionStep u t request b) : CompletionStep s t request b := by
  unfold CompletionStep traceSince DARequestGetCallback at *
  rw [htrace, hrequests] at h
  exact ⟨fun r => (h.1 r).trans (hrequests r), h.2⟩

theorem eject_completion (env : DAEnv) (request : DARequestRef) (disk : DADiskRef)
    (s : DAState) (b : Bool) (t : DAState) (h : EjectPath env request disk s b t) :
    CompletionStep s t request b := by
  cases h with
  | commenceFirst b t h1 h2 h3 hc =>
    exact CompletionStep.of_same_callbacks s _ t request b (by simp) (by simp)
      (eject_commence_completion env request disk _ b t hc)
  | commence b t h1 h2 hc => exact eject_commence_completion env request disk _ b t hc
  | refuse h1 h2 => simp [CompletionStep, traceSince, DAEvent.isCompletion, DAEvent.isExecuteHelper]
  | approve h1 h2 => simp [CompletionStep, traceSince, DAEvent.isCompletion,
      DAEvent.isExecuteHelper]
  | authorize d h1 h2 h3 h4 =>
    simp [CompletionStep, traceSince, DAEvent.isCompletion, DAEvent.isExecuteHelper,
      __DARequestAuthorize]

theorem claim_completion (request : DARequestRef) (disk : DADiskRef)
    (s : DAState) (b : Bool) (t : DAState) (h : ClaimPath request disk s b t) :
    CompletionStep s t request b := by
  cases h with
  | claim callback h1 h2 =>
    cases callback <;> simp [CompletionStep, traceSince, DAEvent.isCompletion,
        DAEvent.isExecuteHelper]
  | _ => simp [CompletionStep, traceSince, DAEvent.isCompletion, DAEvent.isExecuteHelper]

theorem mount_approve_completion (env : DAEnv) (request : DARequestRef) (disk : DADiskRef)
    (s : DAState) (b : Bool) (t : DAState) (h : MountApprovePath env request disk s b t) :
    CompletionStep s t request b := by
  cases h with
  | commenceFirst b t h1 h2 h3 hc =>
    exact CompletionStep.of_same_callbacks s _ t request b (by simp) (by simp)
      (mount_commence_completion request disk _ b t hc)
  | commence b t h1 h2 hc => exact mount_commence_completion request disk _ b t hc
  | repair h1 h2 => simp [CompletionStep, traceSince, DAEvent.isCompletion, DAEvent.isExecuteHelper]
  | refuse h1 h2 h3 => simp [CompletionStep, traceSince, DAEvent.isCompletion,
      DAEvent.isExecuteHelper]
  | approve h1 h2 h3 => simp [CompletionStep, traceSince, DAEvent.isCompletion,
      DAEvent.isExecuteHelper]
  | authorize d h1 h2 h3 h4 =>
    simp [CompletionStep, traceSince, DAEvent.isCompletion, DAEvent.isExecuteHelper,
      __DARequestAuthorize]
  | authorizeReadOnly d h1 h2 h3 h4 =>
    simp [CompletionStep, traceSince, DAEvent.isCompletion, DAEvent.isExecuteHelper,
      __DARequestAuthorize]

theorem mount_completion (env : DAEnv) (request : DARequestRef) (disk : DADiskRef)
    (s : DAState) (b : Bool) (t : DAState) (h : MountPath env request disk s b t) :
    CompletionStep s t request b := by
  cases h with
  | yield h1 h2 => simp [CompletionStep, traceSince, DAEvent.isCompletion, DAEvent.isExecuteHelper]
  | handOff h1 h2 h3 => simp [CompletionStep, traceSince, DAEvent.isCompletion,
      DAEvent.isExecuteHelper]
  | wait h1 h2 h3 => simp [CompletionStep, traceSince, DAEvent.isCompletion,
      DAEvent.isExecuteHelper]
  | approve b t h1 h2 hc =>
    exact CompletionStep.of_same_callbacks s _ t request b (by simp) (by simp)
      (mount_approve_completion env request disk _ b t hc)

theorem refresh_completion (env : DAEnv) (request : DARequestRef) (disk : DADiskRef)
    (s : DAState) (b : Bool) (t : DAState) (h : RefreshPath env request disk s b t) :
    CompletionStep s t request b := by
  cases h <;> simp [CompletionStep, traceSince, DAEvent.isCompletion, DAEvent.isExecuteHelper]

theorem rename_completion (request : DARequestRef) (disk : DADiskRef)
    (s : DAState) (b : Bool) (t : DAState) (h : RenamePath request disk s b t) :
    CompletionStep s t request b := by
  cases h <;> simp [CompletionStep, traceSince, DAEvent.isCompletion, DAEvent.isExecuteHelper]

theorem unmount_completion (request : DARequestRef) (disk : DADiskRef)
    (s : DAState) (b : Bool) (t : DAState) (h : UnmountPath request disk s b t) :
    CompletionStep s t request b := by
  cases h with
  | yield h1 h2 => simp [CompletionStep, traceSince, DAEvent.isCompletion, DAEvent.isExecuteHelper]
  | commenceFirst b t h0 h1 h2 h3 hc =>
    exact CompletionStep.of_same_callbacks s _ t request b (by simp) (by simp)
      (unmount_commence_completion request disk _ b t hc)
  | commence b t h0 h1 h2 hc => exact unmount_commence_completion request disk _ b t hc
  | refuse h0 h1 h2 => simp [CompletionStep, traceSince, DAEvent.isCompletion,
      DAEvent.isExecuteHelper]
  | approve h0 h1 h2 => simp [CompletionStep, traceSince, DAEvent.isCompletion,
      DAEvent.isExecuteHelper]
  | authorize d h0 h1 h2 h3 h4 =>
    simp [CompletionStep, traceSince, DAEvent.isCompletion, DAEvent.isExecuteHelper,
      __DARequestAuthorize]

theorem dispatch_completion (env : DAEnv) (request : DARequestRef) (s : DAState) (b : Bool)
    (t : DAState) (h : DispatchPath env request s b t) : CompletionStep s t request b := by
  cases h with
  | noDisk h1 => simp [CompletionStep, traceSince, DAEvent.isCompletion, DAEvent.isExecuteHelper]
  | busy d h1 h2 => simp [CompletionStep, traceSince, DAEvent.isCompletion, DAEvent.isExecuteHelper]
  | unseen d h1 h2 h3 => simp [CompletionStep, traceSince, DAEvent.isCompletion,
      DAEvent.isExecuteHelper]
  | claim d b t h1 h2 h3 h4 hc => exact claim_completion request d s b t hc
  | eject d b t h1 h2 h3 h4 hc => exact eject_completion env request d s b t hc
  | mount d b t h1 h2 h3 h4 hc => exact mount_completion env request d s b t hc
  | refresh d b t h1 h2 h3 h4 hc => exact refresh_completion env request d s b t hc
  | rename d b t h1 h2 h3 h4 hc => exact rename_completion request d s b t hc
  | unmount d b t h1 h2 h3 h4 hc => exact unmount_completion request d s b t hc

theorem claimRelease_completion (response : Option DADissenter) (request : DARequestRef) (s t :
    DAState)
    (h : __DARequestClaimReleaseCallback response request s = some t) :
    (∀ r, (t.requests r).callback = (s.requests r).callback)
      ∧ (traceSince s t).countP DAEvent.isCompletion = 0 := by
  unfold __DARequestClaimReleaseCallback at h
  simp only [] at h
  repeat' split at h
  all_goals simp at h
  all_goals subst h
  all_goals simp [traceSince, DAEvent.isCompletion]

theorem ejectApproval_completion (response : Option DADissenter) (request : DARequestRef) (s t :
    DAState)
    (h : __DARequestEjectApprovalCallback response request s = some t) :
    (∀ r, (t.requests r).callback = (s.requests r).callback)
      ∧ (traceSince s t).countP DAEvent.isCompletion = 0 := by
  unfold __DARequestEjectApprovalCallback at h
  simp only [] at h
  repeat' split at h
  all_goals simp at h
  all_goals subst h
  all_goals simp [traceSince, DAEvent.isCompletion]

theorem ejectAuthorization_completion (status : DAReturn) (request : DARequestRef) (s t : DAState)
    (h : __DARequestEjectAuthorizationCallback status request s = some t) :
    (∀ r, (t.requests r).callback = (s.requests r).callback)
      ∧ (traceSince s t).countP DAEvent.isCompletion = 0 := by
  unfold __DARequestEjectAuthorizationCallback at h
  simp only [] at h
  repeat' split at h
  all_goals simp at h
  all_goals subst h
  all_goals simp [traceSince, DAEvent.isCompletion]

theorem mountApproval_completion (response : Option DADissenter) (request : DARequestRef) (s t :
    DAState)
    (h : __DARequestMountApprovalCallback response request s = some t) :
    (∀ r, (t.requests r).callback = (s.requests r).callback)
      ∧ (traceSince s t).countP DAEvent.isCompletion = 0 := by
  unfold __DARequestMountApprovalCallback at h
  simp only [] at h
  repeat' split at h
  all_goals simp at h
  all_goals subst h
  all_goals simp [traceSince, DAEvent.isCompletion]

theorem mountAuthorization_completion (status : DAReturn) (request : DARequestRef) (s t : DAState)
    (h : __DARequestMountAuthorizationCallback status request s = some t) :
    (∀ r, (t.requests r).callback = (s.requests r).callback)
      ∧ (traceSince s t).countP DAEvent.isCompletion = 0 := by
  unfold __DARequestMountAuthorizationCallback at h
  simp only [] at h
  repeat' split at h
  all_goals simp at h
  all_goals subst h
  all_goals simp [traceSince, DAEvent.isCompletion]

theorem mountCallback_completion (status : Nat) (mountpoint : Option CFType) (request :
    DARequestRef) (s t : DAState)
    (h : __DARequestMountCallback status mountpoint request s = some t) :
    (∀ r, (t.requests r).callback = (s.requests r).callback)
      ∧ (traceSince s t).countP DAEvent.isCompletion = if (DARequestGetCallback s request).isSome
          then 1 else 0 := by
  unfold __DARequestMountCallback at h
  simp only [] at h
  repeat' split at h
  all_goals simp at h
  all_goals subst h
  all_goals simp [traceSince, DAEvent.isCompletion]

theorem renameCallback_completion (env : DAEnv) (status : Nat) (request : DARequestRef) (s t :
    DAState)
    (h : __DARequestRenameCallback env status request s = some t) :
    (∀ r, (t.requests r).callback = (s.requests r).callback)
      ∧ (traceSince s t).countP DAEvent.isCompletion = if (DARequestGetCallback s request).isSome
          then 1 else 0 := by
  unfold __DARequestRenameCallback at h
  simp only [] at h
  split at h
  · cases h
  · split at h
    · cases h
    · rename_i renamed hrenamed
      simp only [Option.some.injEq] at h
      subst h
      repeat' split at hrenamed
      all_goals simp at hrenamed
      all_goals subst hrenamed
      all_goals simp [traceSince, DAEvent.isCompletion]

theorem unmountApproval_completion (response : Option DADissenter) (request : DARequestRef) (s t
    : DAState)
    (h : __DARequestUnmountApprovalCallback response request s = some t) :
    (∀ r, (t.requests r).callback = (s.requests r).callback)
      ∧ (traceSince s t).countP DAEvent.isCompletion = 0 := by
  unfold __DARequestUnmountApprovalCallback at h
  simp only [] at h
  repeat' split at h
  all_goals simp at h
  all_goals subst h
  all_goals simp [traceSince, DAEvent.isCompletion]

theorem unmountAuthorization_completion (status : DAReturn) (request : DARequestRef) (s t : DAState)
    (h : __DARequestUnmountAuthorizationCallback status request s = some t) :
    (∀ r, (t.requests r).callback = (s.requests r).callback)
      ∧ (traceSince s t).countP DAEvent.isCompletion = 0 := by
  unfold __DARequestUnmountAuthorizationCallback at h
  simp only [] at h
  repeat' split at h
  all_goals simp at h
  all_goals subst h
  all_goals simp [traceSince, DAEvent.isCompletion]

theorem unmountCallback_completion (status : Nat) (request : DARequestRef) (s t : DAState)
    (h : __DARequestUnmountCallback status request s = some t) :
    (∀ r, (t.requests r).callback = (s.requests r).callback)
      ∧ (traceSince s t).countP DAEvent.isCompletion = if (DARequestGetCallback s request).isSome
          then 1 else 0 := by
  unfold __DARequestUnmountCallback at h
  simp only [] at h
  repeat' split at h
  all_goals simp at h
  all_goals subst h
  all_goals simp [traceSince, DAEvent.isCompletion]

theorem claimCallback_completion (status : Nat) (request : DARequestRef) (s t : DAState)
    (h : __DARequestClaimCallback status request s = some t) :
    (∀ r, (t.requests r).callback = (s.requests r).callback)
      ∧ (traceSince s t).countP DAEvent.isCompletion
        = if (DARequestGetCallback s request).isSome then 1 else 0 := by
  unfold __DARequestClaimCallback at h
  simp only [] at h
  repeat' split at h
  all_goals simp at h
  all_goals subst h
  all_goals simp [traceSince, DAEvent.isCompletion]

theorem ejectCallback_completion (status : Nat) (request : DARequestRef) (s t : DAState)
    (h : __DARequestEjectCallback status request s = some t) :
    (∀ r, (t.requests r).callback = (s.requests r).callback)
      ∧ (traceSince s t).countP DAEvent.isCompletion
        = if (DARequestGetCallback s request).isSome then 1 else 0 := by
  unfold __DARequestEjectCallback at h
  simp only [] at h
  repeat' split at h
  all_goals simp at h
  all_goals subst h
  all_goals simp [traceSince, DAEvent.isCompletion]

theorem refreshCallback_completion (status : Nat) (request : DARequestRef) (s t : DAState)
    (h : __DARequestRefreshCallback status request s = some t) :
    (∀ r, (t.requests r).callback = (s.requests r).callback)
      ∧ (traceSince s t).countP DAEvent.isCompletion
        = if (DARequestGetCallback s request).isSome then 1 else 0 := by
  unfold __DARequestRefreshCallback at h
  simp only [] at h
  repeat' split at h
  all_goals simp at h
  all_goals subst h
  all_goals simp [traceSince, DAEvent.isCompletion]

theorem stepOf_callback (env : DAEnv) (request : DARequestRef) (s t : DAState)
    (h : DAStepOf env request s t) (r : DARequestRef) :
    (t.requests r).callback = (s.requests r).callback := by
  cases h with
  | dispatch b t h =>
    exact (dispatch_completion env request s b t (dispatch_path env request s b t h)).1 r
  | claimRelease response t h => exact (claimRelease_completion response request s t h).1 r
  | ejectApproval response t h => exact (ejectApproval_completion response request s t h).1 r
  | ejectAuthorization status t h =>
    exact (ejectAuthorization_completion status request s t h).1 r
  | mountApproval response t h => exact (mountApproval_completion response request s t h).1 r
  | mountAuthorization status t h =>
    exact (mountAuthorization_completion status request s t h).1 r
  | mount status mountpoint t h =>
    exact (mountCallback_completion status mountpoint request s t h).1 r
  | rename status t h => exact (renameCallback_completion env status request s t h).1 r
  | unmountApproval response t h =>
    exact (unmountApproval_completion response request s t h).1 r
  | unmountAuthorization status t h =>
    exact (unmountAuthorization_completion status request s t h).1 r
  | unmount status t h => exact (unmountCallback_completion status request s t h).1 r
  | claimed status t h => exact (claimCallback_completion status request s t h).1 r
  | ejected status t h => exact (ejectCallback_completion status request s t h).1 r
  | refreshed status t h => exact (refreshCallback_completion status request s t h).1 r

theorem respond_completion (request : DARequestRef) (s t : DAState)
    (h : (∃ response, __DARequestClaimReleaseCallback response request s = some t)
      ∨ (∃ response, approvalCallback (DARequestGetKind s request) response request s
          = some t)
      ∨ (∃ status, authorizationCallback (DARequestGetKind s request) status request s
          = some t)) :
    (∀ r, (t.requests r).callback = (s.requests r).callback)
      ∧ (traceSince s t).countP DAEvent.isCompletion = 0 := by
  rcases h with ⟨response, h⟩ | ⟨response, h⟩ | ⟨status, h⟩
  · exact claimRelease_completion response request s t h
  · unfold approvalCallback at h
    split at h
    · exact ejectApproval_completion response request s t h
    · exact mountApproval_completion response request s t h
    · exact unmountApproval_completion response request s t h
    · cases h
  · unfold authorizationCallback at h
    split at h
    · exact ejectAuthorization_completion status request s t h
    · exact mountAuthorization_completion status request s t h
    · exact unmountAuthorization_completion status request s t h
    · cases h

theorem executed_completion (env : DAEnv) (request : DARequestRef) (s t : DAState)
    (h : (∃ status mountpoint, __DARequestMountCallback status mountpoint request s = some t)
      ∨ (∃ status, __DARequestRenameCallback env status request s = some t)
      ∨ (∃ status, __DARequestUnmountCallback status request s = some t)) :
    (∀ r, (t.requests r).callback = (s.requests r).callback)
      ∧ (traceSince s t).countP DAEvent.isCompletion
        = if (DARequestGetCallback s request).isSome then 1 else 0 := by
  rcases h with ⟨status, mountpoint, h⟩ | ⟨status, h⟩ | ⟨status, h⟩
  · exact mountCallback_completion status mountpoint request s t h
  · exact renameCallback_completion env status request s t h
  · exact unmountCallback_completion status request s t h

theorem countP_eq_zero_of_any (l : List DAEvent) (p : DAEvent → Bool)
    (h : l.any p = false) : l.countP p = 0 := by
  rw [List.countP_eq_zero]
  intro a ha hp
  rw [List.any_eq_false] at h
  exact h a ha hp

theorem countP_pos_of_any (l : List DAEvent) (p : DAEvent → Bool)
    (h : l.any p = true) : 0 < l.countP p := by
  rw [List.countP_pos_iff]
  rw [List.any_eq_true] at h
  exact h

/-- Along a run the client callback handle of the request is kept, and the
number of client callbacks queued for it is 0 while the request is pending or
its execute helper is outstanding, and 1 once it is settled. -/
theorem run_completion (env : DAEnv) (request : DARequestRef) (s0 : DAState)
    (hcallback : DARequestGetCallback s0 request ≠ none)
    (phase : DAPhase) (s : DAState) (n : Nat) (h : DARun env request s0 phase s n) :
    (s.requests request).callback = (s0.requests request).callback
      ∧ (phase = .finished → n = 1) ∧ (phase ≠ .finished → n = 0) := by
  have hsome : ∀ u : DAState, (u.requests request).callback = (s0.requests request).callback →
      (DARequestGetCallback u request).isSome = true := by
    intro u hu
    simp only [DARequestGetCallback] at hcallback ⊢
    rw [hu]
    exact Option.isSome_iff_ne_none.mpr hcallback
  induction h with
  | start => simp
  | other q phase s t n _ hq hstep ih =>
    exact ⟨(stepOf_callback env q s t hstep request).trans ih.1, ih.2⟩
  | yield s t n _ hrun ih =>
    have hc := dispatch_completion env request s false t
      (dispatch_path env request s false t hrun)
    have h0 := ih.2.2 (by simp)
    refine ⟨(hc.1 request).trans ih.1, by simp, fun _ => ?_⟩
    rw [(hc.2.1 rfl).1, h0]
  | settle s t n _ hrun hhelper ih =>
    have hc := dispatch_completion env request s true t
      (dispatch_path env request s true t hrun)
    have h0 := ih.2.2 (by simp)
    refine ⟨(hc.1 request).trans ih.1, fun _ => ?_, by simp⟩
    rcases hc.2.2 rfl with ⟨h1, -⟩ | ⟨-, h2⟩
    · rw [h1, h0, hsome s ih.1]
      rfl
    · rw [countP_eq_zero_of_any _ _ hhelper] at h2
      cases h2
  | execute s t n _ hrun hhelper ih =>
    have hc := dispatch_completion env request s true t
      (dispatch_path env request s true t hrun)
    have h0 := ih.2.2 (by simp)
    refine ⟨(hc.1 request).trans ih.1, by simp, fun _ => ?_⟩
    rcases hc.2.2 rfl with ⟨-, h2⟩ | ⟨h1, -⟩
    · have := countP_pos_of_any _ _ hhelper
      omega
    · rw [h1, h0]
  | respond phase s t n _ hstep ih =>
    have hc := respond_completion request s t hstep
    refine ⟨(hc.1 request).trans ih.1, fun hp => ?_, fun hp => ?_⟩
    · rw [hc.2, ih.2.1 hp]
    · rw [hc.2, ih.2.2 hp]
  | executed s t n _ hstep ih =>
    have hc := executed_completion env request s t hstep
    have h0 := ih.2.2 (by simp)
    refine ⟨(hc.1 request).trans ih.1, fun _ => ?_, by simp⟩
    rw [hc.2, h0, hsome s ih.1]
    rfl

/-! ## C28: the client callback is queued once -/

/-- C28. For every request with a client callback and every run from a state
`s0` (steps on other requests interleaved; the request dispatched only until a
dispatch returns TRUE; the callback of an execute helper delivered once, after
the dispatch that started the helper; claim-release, approval and
authorization callbacks delivered at any time): the steps on the request queue
the client callback at most once, not at all before the request is settled,
and exactly once when it is settled, that is when a dispatch has returned TRUE
and the callback of the execute helper it started, if any, has been delivered.
And a single `DARequestDispatch` call, with the callbacks it runs
synchronously, queues at most one client callback in every state. -/
theorem C28_client_callback_once (env : DAEnv) (request : DARequestRef) (s0 : DAState)
    (hcallback : DARequestGetCallback s0 request ≠ none)
    (phase : DAPhase) (s : DAState) (n : Nat) (hrun : DARun env request s0 phase s n) :
    n ≤ 1
      ∧ (phase = .finished → n = 1)
      ∧ (phase ≠ .finished → n = 0)
      ∧ ∀ u b t, DARequestDispatch env (some request) u = some (b, t) →
          (traceSince u t).countP DAEvent.isCompletion ≤ 1 := by
  obtain ⟨-, h1, h2⟩ := run_completion env request s0 hcallback phase s n hrun
  refine ⟨?_, h1, h2, fun u b t hdispatch => ?_⟩
  · by_cases hp : phase = .finished
    · rw [h1 hp]
    · rw [h2 hp]
      exact Nat.zero_le 1
  · obtain ⟨-, h3, h4⟩ := dispatch_completion env request u b t
      (dispatch_path env request u b t hdispatch)
    cases b
    · rw [(h3 rfl).1]
      exact Nat.zero_le 1
    · rcases h4 rfl with ⟨h5, -⟩ | ⟨h5, -⟩
      · rw [h5]
        split <;> simp
      · rw [h5]
        exact Nat.zero_le 1

/-- C28 at a mount request past approval and authorization: the dispatch
starts the mount helper and queues nothing, and the delivery of the callback
of the helper queues the client callback, once. -/
theorem C28_client_callback_once_witness :
    0 + (traceSince exampleMountState exampleMountingState).countP DAEvent.isCompletion
        + (traceSince exampleMountingState exampleMountedState).countP DAEvent.isCompletion
      = 1 :=
  (C28_client_callback_once exampleEnv 0 exampleMountState (by decide) .finished
    exampleMountedState _
    (DARun.executed exampleMountingState exampleMountedState _
      (DARun.execute exampleMountState exampleMountingState 0 DARun.start rfl (by decide))
      (Or.inl ⟨0, some (CFType.url "file://localhost/Volumes/Untitled/"), rfl⟩))).2.1 rfl


/-! ## The Ejected latch along the ways through the handlers -/

theorem eject_ioctl_units_ejected (env : DAEnv) (disk : DADiskRef) (s : DAState)
    (u : DAUnitRef) (h : (s.units u).ejected = true) :
    ((__DARequestEject_ioctl env disk s).2.units u).ejected = true := by
  unfold __DARequestEject_ioctl
  simp only []
  repeat' split
  all_goals simp [DAUnitSetState_units_ejected, h]

theorem claim_latch (request : DARequestRef) (disk : DADiskRef)
    (s : DAState) (b : Bool) (t : DAState) (h : ClaimPath request disk s b t) :
    LatchKept s t := by
  cases h with
  | claim callback h1 h2 => cases callback <;> simp [LatchKept]
  | _ => simp [LatchKept]

theorem eject_commence_latch (env : DAEnv) (request : DARequestRef) (disk : DADiskRef)
    (s : DAState) (b : Bool) (t : DAState) (h : EjectCommencePath env request disk s b t) :
    LatchKept s t := by
  cases h with
  | eject h1 h2 =>
    intro u hu
    simp only [CFRelease_units, DAStageSignal_units, DADiskSetState_units,
      DAUnitSetState_commandActive_units_ejected, dispatchCallback_status_units]
    exact eject_ioctl_units_ejected env disk _ u (by simpa using hu)
  | _ => simp [LatchKept]

theorem eject_latch (env : DAEnv) (request : DARequestRef) (disk : DADiskRef)
    (s : DAState) (b : Bool) (t : DAState) (h : EjectPath env request disk s b t) :
    LatchKept s t := by
  cases h with
  | commenceFirst b t h1 h2 h3 hc =>
    have h := eject_commence_latch env request disk _ b t hc
    simpa [LatchKept] using h
  | commence b t h1 h2 hc => exact eject_commence_latch env request disk _ b t hc
  | refuse h1 h2 => simp [LatchKept]
  | approve h1 h2 => simp [LatchKept]
  | authorize d h1 h2 h3 h4 => simp [LatchKept, __DARequestAuthorize]

theorem mount_commence_latch (request : DARequestRef) (disk : DADiskRef)
    (s : DAState) (b : Bool) (t : DAState) (h : MountCommencePath request disk s b t) :
    LatchSame s t := by
  cases h <;> simp [LatchSame]

theorem mount_approve_latch (env : DAEnv) (request : DARequestRef) (disk : DADiskRef)
    (s : DAState) (b : Bool) (t : DAState) (h : MountApprovePath env request disk s b t) :
    LatchSame s t := by
  cases h with
  | commenceFirst b t h1 h2 h3 hc =>
    have h := mount_commence_latch request disk _ b t hc
    simpa [LatchSame] using h
  | commence b t h1 h2 hc => exact mount_commence_latch request disk _ b t hc
  | repair h1 h2 => simp [LatchSame]
  | refuse h1 h2 h3 => simp [LatchSame]
  | approve h1 h2 h3 => simp [LatchSame]
  | authorize d h1 h2 h3 h4 => simp [LatchSame, __DARequestAuthorize]
  | authorizeReadOnly d h1 h2 h3 h4 => simp [LatchSame, __DARequestAuthorize]

/-- Every way through `__DARequestMount` clears the Ejected latch of the unit
of the disk. -/
theorem mount_latch (env : DAEnv) (request : DARequestRef) (disk : DADiskRef)
    (s : DAState) (b : Bool) (t : DAState) (h : MountPath env request disk s b t) :
    LatchCleared s t disk := by
  cases h with
  | yield h1 h2 => simp [LatchCleared, DAUnitSetState_units_ejected]
  | handOff h1 h2 h3 => simp [LatchCleared, DAUnitSetState_units_ejected]
  | wait h1 h2 h3 => simp [LatchCleared, DAUnitSetState_units_ejected]
  | approve b t h1 h2 hc =>
    have h := mount_approve_latch env request disk _ b t hc
    intro u
    rw [h u, DAUnitSetState_units_ejected]

theorem refresh_latch (env : DAEnv) (request : DARequestRef) (disk : DADiskRef)
    (s : DAState) (b : Bool) (t : DAState) (h : RefreshPath env request disk s b t) :
    LatchKept s t := by
  cases h <;> simp [LatchKept]

theorem rename_latch (request : DARequestRef) (disk : DADiskRef)
    (s : DAState) (b : Bool) (t : DAState) (h : RenamePath request disk s b t) :
    LatchKept s t := by
  cases h <;> simp [LatchKept]

theorem unmount_commence_latch (request : DARequestRef) (disk : DADiskRef)
    (s : DAState) (b : Bool) (t : DAState) (h : UnmountCommencePath request disk s b t) :
    LatchKept s t := by
  cases h <;> simp [LatchKept]

theorem unmount_latch (request : DARequestRef) (disk : DADiskRef)
    (s : DAState) (b : Bool) (t : DAState) (h : UnmountPath request disk s b t) :
    LatchKept s t := by
  cases h with
  | yield h1 h2 => simp [LatchKept]
  | commenceFirst b t h0 h1 h2 h3 hc =>
    have h := unmount_commence_latch request disk _ b t hc
    simpa [LatchKept] using h
  | commence b t h0 h1 h2 hc => exact unmount_commence_latch request disk _ b t hc
  | refuse h0 h1 h2 => simp [LatchKept]
  | approve h0 h1 h2 => simp [LatchKept]
  | authorize d h0 h1 h2 h3 h4 => simp [LatchKept, __DARequestAuthorize]

theorem claimRelease_latch (response : Option DADissenter) (request : DARequestRef) (s t : DAState)
    (h : __DARequestClaimReleaseCallback response request s = some t) : LatchKept s t := by
  unfold __DARequestClaimReleaseCallback at h
  simp only [] at h
  repeat' split at h
  all_goals simp at h
  all_goals subst h
  all_goals simp [LatchKept]

theorem ejectApproval_latch (response : Option DADissenter) (request : DARequestRef) (s t : DAState)
    (h : __DARequestEjectApprovalCallback response request s = some t) : LatchKept s t := by
  unfold __DARequestEjectApprovalCallback at h
  simp only [] at h
  repeat' split at h
  all_goals simp at h
  all_goals subst h
  all_goals simp [LatchKept]

theorem ejectAuthorization_latch (status : DAReturn) (request : DARequestRef) (s t : DAState)
    (h : __DARequestEjectAuthorizationCallback status request s = some t) : LatchKept s t := by
  unfold __DARequestEjectAuthorizationCallback at h
  simp only [] at h
  repeat' split at h
  all_goals simp at h
  all_goals subst h
  all_goals simp [LatchKept]

theorem mountApproval_latch (response : Option DADissenter) (request : DARequestRef) (s t : DAState)
    (h : __DARequestMountApprovalCallback response request s = some t) : LatchKept s t := by
  unfold __DARequestMountApprovalCallback at h
  simp only [] at h
  repeat' split at h
  all_goals simp at h
  all_goals subst h
  all_goals simp [LatchKept]

theorem mountAuthorization_latch (status : DAReturn) (request : DARequestRef) (s t : DAState)
    (h : __DARequestMountAuthorizationCallback status request s = some t) : LatchKept s t := by
  unfold __DARequestMountAuthorizationCallback at h
  simp only [] at h
  repeat' split at h
  all_goals simp at h
  all_goals subst h
  all_goals simp [LatchKept]

theorem mountCallback_latch (status : Nat) (mountpoint : Option CFType) (request : DARequestRef)
    (s t : DAState)
    (h : __DARequestMountCallback status mountpoint request s = some t) : LatchKept s t := by
  unfold __DARequestMountCallback at h
  simp only [] at h
  repeat' split at h
  all_goals simp at h
  all_goals subst h
  all_goals simp [LatchKept]

theorem renameCallback_latch (env : DAEnv) (status : Nat) (request : DARequestRef) (s t : DAState)
    (h : __DARequestRenameCallback env status request s = some t) : LatchKept s t := by
  unfold __DARequestRenameCallback at h
  simp only [] at h
  split at h
  · cases h
  · split at h
    · cases h
    · rename_i renamed hrenamed
      simp only [Option.some.injEq] at h
      subst h
      repeat' split at hrenamed
      all_goals simp at hrenamed
      all_goals subst hrenamed
      all_goals simp [LatchKept]

theorem unmountApproval_latch (response : Option DADissenter) (request : DARequestRef) (s t :
    DAState)
    (h : __DARequestUnmountApprovalCallback response request s = some t) : LatchKept s t := by
  unfold __DARequestUnmountApprovalCallback at h
  simp only [] at h
  repeat' split at h
  all_goals simp at h
  all_goals subst h
  all_goals simp [LatchKept]

theorem unmountAuthorization_latch (status : DAReturn) (request : DARequestRef) (s t : DAState)
    (h : __DARequestUnmountAuthorizationCallback status request s = some t) : LatchKept s t := by
  unfold __DARequestUnmountAuthorizationCallback at h
  simp only [] at h
  repeat' split at h
  all_goals simp at h
  all_goals subst h
  all_goals simp [LatchKept]

theorem unmountCallback_latch (status : Nat) (request : DARequestRef) (s t : DAState)
    (h : __DARequestUnmountCallback status request s = some t) : LatchKept s t := by
  unfold __DARequestUnmountCallback at h
  simp only [] at h
  repeat' split at h
  all_goals simp at h
  all_goals subst h
  all_goals simp [LatchKept]

theorem claimCallback_latch (status : Nat) (request : DARequestRef) (s t : DAState)
    (h : __DARequestClaimCallback status request s = some t) : LatchKept s t := by
  unfold __DARequestClaimCallback at h
  simp only [] at h
  repeat' split at h
  all_goals simp at h
  all_goals subst h
  all_goals simp [LatchKept]

theorem ejectCallback_latch (status : Nat) (request : DARequestRef) (s t : DAState)
    (h : __DARequestEjectCallback status request s = some t) : LatchKept s t := by
  unfold __DARequestEjectCallback at h
  simp only [] at h
  repeat' split at h
  all_goals simp at h
  all_goals subst h
  all_goals simp [LatchKept]

theorem refreshCallback_latch (status : Nat) (request : DARequestRef) (s t : DAState)
    (h : __DARequestRefreshCallback status request s = some t) : LatchKept s t := by
  unfold __DARequestRefreshCallback at h
  simp only [] at h
  repeat' split at h
  all_goals simp at h
  all_goals subst h
  all_goals simp [LatchKept]

/-- A step on a request keeps every Ejected latch, unless it is the dispatch
of a mount request into its handler, which clears the latch of the unit of the
disk. -/
theorem stepOf_latch (env : DAEnv) (request : DARequestRef) (s t : DAState)
    (h : DAStepOf env request s t) :
    LatchKept s t
      ∨ ∃ disk b, DARequestDispatch env (some request) s = some (b, t)
          ∧ DARequestGetKind s request = ._kDADiskMount
          ∧ DARequestGetDisk s request = some disk
          ∧ DADiskGetState s disk .kDADiskStateCommandActive = false
          ∧ DADiskGetState s disk .kDADiskStateStagedAppear = true
          ∧ LatchCleared s t disk := by
  cases h with
  | dispatch b t h =>
    cases dispatch_path env request s b t h with
    | noDisk h1 => exact Or.inl (fun _ hu => hu)
    | busy d h1 h2 => exact Or.inl (fun _ hu => hu)
    | unseen d h1 h2 h3 => exact Or.inl (fun _ hu => hu)
    | claim d b t h1 h2 h3 h4 hc => exact Or.inl (claim_latch request d s b t hc)
    | eject d b t h1 h2 h3 h4 hc => exact Or.inl (eject_latch env request d s b t hc)
    | mount d b t h1 h2 h3 h4 hc =>
      exact Or.inr ⟨d, b, h, h4, h1, h2, h3, mount_latch env request d s b t hc⟩
    | refresh d b t h1 h2 h3 h4 hc => exact Or.inl (refresh_latch env request d s b t hc)
    | rename d b t h1 h2 h3 h4 hc => exact Or.inl (rename_latch request d s b t hc)
    | unmount d b t h1 h2 h3 h4 hc => exact Or.inl (unmount_latch request d s b t hc)
  | claimRelease response t h => exact Or.inl (claimRelease_latch response request s t h)
  | ejectApproval response t h => exact Or.inl (ejectApproval_latch response request s t h)
  | ejectAuthorization status t h =>
    exact Or.inl (ejectAuthorization_latch status request s t h)
  | mountApproval response t h => exact Or.inl (mountApproval_latch response request s t h)
  | mountAuthorization status t h =>
    exact Or.inl (mountAuthorization_latch status request s t h)
  | mount status mountpoint t h =>
    exact Or.inl (mountCallback_latch status mountpoint request s t h)
  | rename status t h => exact Or.inl (renameCallback_latch env status request s t h)
  | unmountApproval response t h =>
    exact Or.inl (unmountApproval_latch response request s t h)
  | unmountAuthorization status t h =>
    exact Or.inl (unmountAuthorization_latch status request s t h)
  | unmount status t h => exact Or.inl (unmountCallback_latch status request s t h)
  | claimed status t h => exact Or.inl (claimCallback_latch status request s t h)
  | ejected status t h => exact Or.inl (ejectCallback_latch status request s t h)
  | refreshed status t h => exact Or.inl (refreshCallback_latch status request s t h)

theorem dispatch_mount_latch (env : DAEnv) (request : DARequestRef) (s : DAState) (b : Bool)
    (t : DAState) (h : DispatchPath env request s b t) (disk : DADiskRef)
    (hkind : DARequestGetKind s request = ._kDADiskMount)
    (hdisk : DARequestGetDisk s request = some disk)
    (hactive : DADiskGetState s disk .kDADiskStateCommandActive = false)
    (happear : DADiskGetState s disk .kDADiskStateStagedAppear = true) :
    LatchCleared s t disk := by
  cases h with
  | noDisk h1 =>
    rw [h1] at hdisk
    cases hdisk
  | busy d h1 h2 =>
    rw [hdisk] at h1
    cases h1
    rw [hactive] at h2
    cases h2
  | unseen d h1 h2 h3 =>
    rw [hdisk] at h1
    cases h1
    rw [happear] at h3
    cases h3
  | claim d b t h1 h2 h3 h4 hc =>
    rw [hkind] at h4
    cases h4
  | eject d b t h1 h2 h3 h4 hc =>
    rw [hkind] at h4
    cases h4
  | refresh d b t h1 h2 h3 h4 hc =>
    rw [hkind] at h4
    cases h4
  | rename d b t h1 h2 h3 h4 hc =>
    rw [hkind] at h4
    cases h4
  | unmount d b t h1 h2 h3 h4 hc =>
    rw [hkind] at h4
    cases h4
  | mount d b t h1 h2 h3 h4 hc =>
    rw [hdisk] at h1
    cases h1
    exact mount_latch env request disk s b t hc

/-! ## C29: the Ejected latch -/

/-- C29 as written fails: a mount request that was handed to the probe and
awaits it (StagedProbe set on the request, not on the disk), on a unit that is
latched Ejected, is dispatched; the call returns FALSE and makes no external
call, nothing was mounted, and the latch is cleared. -/
theorem C29_counterexample :
    DARequestGetKind exampleProbingState 0 = ._kDADiskMount
    ∧ DAUnitGetState exampleProbingState 0 .kDAUnitStateEjected = true
    ∧ (DARequestDispatch exampleEnv (some 0) exampleProbingState).map
        (fun r => (r.1, traceSince exampleProbingState r.2,
          DAUnitGetState r.2 0 .kDAUnitStateEjected))
      = some (false, [], false) := by
  refine ⟨rfl, rfl, ?_⟩
  rfl

/-- C29, amended. For every unit whose Ejected latch is set and every step of
the engine (a `DARequestDispatch` call or a claim, approval, authorization
or execute callback of this file): the latch stays set unless the step is a
`DARequestDispatch` call that hands a mount request on a disk of that unit to
its handler (the disk has StagedAppear and is not CommandActive). And every
such call clears the latch of the unit of the disk, whatever it answers: also
when the request yields to the probe or to a CommandActive unit, fails a
precondition or is completed with a dissenter. -/
theorem C29_ejected_latch (env : DAEnv) (s t : DAState) (unit : DAUnitRef)
    (hlatch : (s.units unit).ejected = true) (hstep : DAStep env s t) :
    ((t.units unit).ejected = true
      ∨ ∃ request disk b, DARequestDispatch env (some request) s = some (b, t)
          ∧ DARequestGetKind s request = ._kDADiskMount
          ∧ DARequestGetDisk s request = some disk
          ∧ DADiskGetState s disk .kDADiskStateCommandActive = false
          ∧ DADiskGetState s disk .kDADiskStateStagedAppear = true
          ∧ (s.disks disk).unit = unit)
    ∧ ∀ request disk b u, DARequestGetKind s request = ._kDADiskMount →
        DARequestGetDisk s request = some disk →
        DADiskGetState s disk .kDADiskStateCommandActive = false →
        DADiskGetState s disk .kDADiskStateStagedAppear = true →
        DARequestDispatch env (some request) s = some (b, u) →
        (u.units (s.disks disk).unit).ejected = false := by
  constructor
  · cases hstep with
    | null b t h =>
      simp [DARequestDispatch] at h
      obtain ⟨rfl, rfl⟩ := h
      exact Or.inl hlatch
    | of request t h =>
      rcases stepOf_latch env request s t h with hk | ⟨disk, b, h1, h2, h3, h4, h5, h6⟩
      · exact Or.inl (hk unit hlatch)
      · by_cases hu : unit = (s.disks disk).unit
        · exact Or.inr ⟨request, disk, b, h1, h2, h3, h4, h5, hu.symm⟩
        · refine Or.inl ?_
          rw [h6 unit, if_neg hu]
          exact hlatch
  · intro request disk b u hkind hdisk hactive happear hrun
    rw [dispatch_mount_latch env request s b u (dispatch_path env request s b u hrun) disk
      hkind hdisk hactive happear, if_pos rfl]

/-- C29 at an eject request past approval and authorization on a unit that is
latched Ejected: the dispatch, which ejects nothing again and completes the
request, keeps the latch. -/
theorem C29_ejected_latch_witness :
    (exampleLatchedState.units 0).ejected = true
    ∧ (exampleLatchedDoneState.units 0).ejected = true :=
  ⟨rfl, ((C29_ejected_latch exampleEnv exampleLatchedState exampleLatchedDoneState 0 rfl
    (DAStep.of 0 _ (DAStepOf.dispatch true _ rfl))).1).resolve_right
    (fun h => h.elim (fun _ h => h.elim (fun _ h => h.elim
      (fun _ h => absurd h.2.1 (fun hk => by cases hk)))))⟩


/-! ## C30: the probe hand-off of mount -/

/-- C30 as written fails: a fresh mount request with a link, on a disk
without VolumePath whose unit is CommandActive, yields at the head of
`__DARequestMount` (lines 511-517): the dispatch returns FALSE without setting
StagedProbe on the request, without clearing StagedProbe on the disk and
without raising the stage signal. -/
theorem C30_counterexample :
    DARequestGetKind exampleLinkedProbeState 0 = ._kDADiskMount
    ∧ DARequestGetState exampleLinkedProbeState 0 kDARequestStateStagedProbe = false
    ∧ DADiskGetDescription exampleLinkedProbeState 0 .kDADiskDescriptionVolumePathKey = none
    ∧ (DARequestDispatch exampleEnv (some 0) exampleLinkedProbeState).map
        (fun r => (r.1, DARequestGetState r.2 0 kDARequestStateStagedProbe,
          DADiskGetState r.2 0 .kDADiskStateStagedProbe,
          traceSince exampleLinkedProbeState r.2))
      = some (false, false, true, []) := by
  refine ⟨rfl, rfl, rfl, ?_⟩
  rfl

/-- C30, amended. For every mount request that is handed to its handler (its
disk has StagedAppear and is not CommandActive) and does not yield to a
CommandActive unit there (only a request with a link does): (1) without
StagedProbe on a disk that has no VolumePath, the dispatch returns FALSE, sets
StagedProbe on the request and no other bit, clears StagedProbe on the disk,
and its only external call is the stage signal, so no approval is submitted;
(2) while the request has StagedProbe and the StagedProbe of the disk is
false, the dispatch returns FALSE, makes no external call and leaves every
request (staging bits and dissenter), every disk and the CommandActive flag of
every unit; (3) once the StagedProbe of the disk is true, the dispatch is the
approval stage of `__DARequestMount` (line 552 on), which a request with
StagedApprove unset reaches. -/
theorem C30_probe_handoff (env : DAEnv) (s : DAState) (request : DARequestRef)
    (disk : DADiskRef)
    (hkind : DARequestGetKind s request = ._kDADiskMount)
    (hdisk : DARequestGetDisk s request = some disk)
    (hactive : DADiskGetState s disk .kDADiskStateCommandActive = false)
    (happear : DADiskGetState s disk .kDADiskStateStagedAppear = true)
    (hrun : ¬ YieldsToUnit s request disk) :
    (DARequestGetState s request kDARequestStateStagedProbe = false →
      DADiskGetDescription s disk .kDADiskDescriptionVolumePathKey = none →
      ∃ t, DARequestDispatch env (some request) s = some (false, t)
        ∧ DARequestGetState t request kDARequestStateStagedProbe = true
        ∧ (t.requests request).state
            = (s.requests request).state ||| kDARequestStateStagedProbe
        ∧ DADiskGetState t disk .kDADiskStateStagedProbe = false
        ∧ traceSince s t = [DAEvent.DAStageSignal]
        ∧ (traceSince s t).any DAEvent.isApproval = false)
    ∧ (DARequestGetState s request kDARequestStateStagedProbe = true →
      DADiskGetState s disk .kDADiskStateStagedProbe = false →
      ∃ t, DARequestDispatch env (some request) s = some (false, t)
        ∧ t.requests = s.requests ∧ t.disks = s.disks ∧ t.gDADiskList = s.gDADiskList
        ∧ t.trace = s.trace
        ∧ ∀ u, (t.units u).commandActive = (s.units u).commandActive)
    ∧ (DARequestGetState s request kDARequestStateStagedProbe = true →
      DADiskGetState s disk .kDADiskStateStagedProbe = true →
      DARequestDispatch env (some request) s
          = some (__DARequestMount_approve env request disk
              (DAUnitSetState disk .kDAUnitStateEjected false s))
        ∧ (DARequestGetState s request kDARequestStateStagedApprove = false →
            MountApproveStage s request disk)) := by
  have hgate : ¬ (¬(s.requests request).link = none
      ∧ (s.units (s.disks disk).unit).commandActive = true) := by
    intro hc
    exact hrun ⟨Or.inl hkind, by simpa using hc.1, by simpa using hc.2⟩
  simp only [DARequestGetKind, DARequestGetDisk, DADiskGetState] at hkind hdisk hactive happear
  refine ⟨fun hprobe hvol => ?_, fun hprobe hwait => ?_,
    fun hprobe hdone => ⟨?_, fun hfirst => ?_⟩⟩
  · simp at hprobe hvol
    simp [DARequestDispatch, hdisk, hactive, happear, hkind, __DARequestMount, hgate,
      Option.isSome_iff_ne_none, hprobe, hvol, traceSince, DAEvent.isApproval,
      DADiskSetState_disks_stagedProbe]
  · simp at hprobe hwait
    simp [DARequestDispatch, hdisk, hactive, happear, hkind, __DARequestMount, hgate,
      Option.isSome_iff_ne_none, hprobe, hwait]
  · simp at hprobe hdone
    simp [DARequestDispatch, hdisk, hactive, happear, hkind, __DARequestMount, hgate,
      Option.isSome_iff_ne_none, hprobe, hdone]
  · exact ⟨hkind, hdisk, hactive, happear, hrun, fun _ => hdone,
      (fun h => absurd (hprobe.symm.trans h) (by decide)), hfirst⟩

/-- C30 at a fresh mount request without a link on a disk without VolumePath:
the dispatch hands the disk to the probe. -/
theorem C30_probe_handoff_witness :
    ∃ t, DARequestDispatch exampleEnv (some 0) exampleUnprobedState = some (false, t)
      ∧ DARequestGetState t 0 kDARequestStateStagedProbe = true
      ∧ DADiskGetState t 0 .kDADiskStateStagedProbe = false
      ∧ traceSince exampleUnprobedState t = [DAEvent.DAStageSignal] :=
  ((C30_probe_handoff exampleEnv exampleUnprobedState 0 0 rfl rfl rfl rfl
      (fun h => absurd h.2.1 (fun hl => hl rfl))).1 rfl rfl).elim
    (fun t ht => ⟨t, ht.1, ht.2.1, ht.2.2.2.1, ht.2.2.2.2.1⟩)


/-! ## C31: renaming the root-mounted disk -/

/-- C31 as written fails: when the rename helper reports status 0 for the
rename of "Untitled" to "Data" on the root-mounted disk, the mount-point Move
action is invoked and the by-path of the disk, unset before, is set to the
mount point it returns; VolumePath is left as it is and only VolumeName is
notified. -/
theorem C31_counterexample :
    CFURLGetString
        (DADiskGetDescription exampleRootRenamingState 0 .kDADiskDescriptionVolumePathKey)
      = some "file://localhost/"
    ∧ (exampleRootRenamingState.disks 0).bypath = none
    ∧ (__DARequestRenameCallback exampleMoveEnv 0 0 exampleRootRenamingState).map
        (fun u => (traceSince exampleRootRenamingState u, (u.disks 0).bypath,
          DADiskGetDescription u 0 .kDADiskDescriptionVolumePathKey))
      = some ([DAEvent.DAMountCreateMountPointWithAction 0
                DAMountPointAction.kDAMountPointActionMove,
               DAEvent.DADiskDescriptionChangedCallback 0
                [DADiskDescriptionKey.kDADiskDescriptionVolumeNameKey],
               DAEvent.DAQueueCallback exampleCallback (some 0) none,
               DAEvent.DAStageSignal],
              some (CFType.url "file://localhost/Volumes/Data/"),
              some (CFType.url "file://localhost/")) := by
  refine ⟨rfl, rfl, ?_⟩
  rfl

/-- C31, amended. For the callback of the rename helper with status 0 on a
request of `disk` whose VolumePath is file://localhost/: only the name is
renamed in the description, that is, VolumeName becomes arg2 and every other
key, VolumePath among them, is left as it is. When arg2 equals the current
VolumeName nothing else happens: the Move action is not invoked, no
notification is sent and the by-path is left unchanged. When it differs, the
mount-point Move action is invoked once and VolumeName alone is notified; the
by-path of the disk is set to the mount point the action returns, and left
unchanged only when it returns none. -/
theorem C31_rename_root (env : DAEnv) (s : DAState) (request : DARequestRef)
    (disk : DADiskRef) (hdisk : DARequestGetDisk s request = some disk)
    (hroot : CFURLGetString (DADiskGetDescription s disk .kDADiskDescriptionVolumePathKey)
      = some "file://localhost/") :
    ∃ u, __DARequestRenameCallback env 0 request s = some u
      ∧ DADiskGetDescription u disk .kDADiskDescriptionVolumeNameKey
          = DARequestGetArgument2 s request
      ∧ (∀ key, key ≠ .kDADiskDescriptionVolumeNameKey →
          DADiskGetDescription u disk key = DADiskGetDescription s disk key)
      ∧ (DADiskGetDescription s disk .kDADiskDescriptionVolumeNameKey
            = DARequestGetArgument2 s request →
          traceSince s u = completionOf request none s ++ [DAEvent.DAStageSignal]
          ∧ (u.disks disk).bypath = (s.disks disk).bypath)
      ∧ (DADiskGetDescription s disk .kDADiskDescriptionVolumeNameKey
            ≠ DARequestGetArgument2 s request →
          traceSince s u
            = [DAEvent.DAMountCreateMountPointWithAction disk
                DAMountPointAction.kDAMountPointActionMove,
               DAEvent.DADiskDescriptionChangedCallback disk
                [DADiskDescriptionKey.kDADiskDescriptionVolumeNameKey]]
              ++ completionOf request none s ++ [DAEvent.DAStageSignal]
          ∧ (u.disks disk).bypath
              = match env.DAMountCreateMountPointWithAction disk .kDAMountPointActionMove with
                | some mountpoint => some mountpoint
                | none => (s.disks disk).bypath) := by
  simp at hdisk hroot
  by_cases hname : (s.disks disk).volumeName = (s.requests request).argument2
  · simp [__DARequestRenameCallback, hdisk, DADiskCompareDescription, hname, completionOf_eval,
      traceSince]
  · cases hmove : env.DAMountCreateMountPointWithAction disk .kDAMountPointActionMove <;>
      simp [__DARequestRenameCallback, hdisk, DADiskCompareDescription, hname, hroot, hmove,
        completionOf_eval, traceSince]
    all_goals intro key hkey
    all_goals cases key <;> simp at hkey ⊢

/-- C31 at the rename of "Untitled" to "Data" on the root-mounted disk: the
VolumePath stays file://localhost/ and the by-path becomes the moved mount
point. -/
theorem C31_rename_root_witness :
    ∃ u, __DARequestRenameCallback exampleMoveEnv 0 0 exampleRootRenamingState = some u
      ∧ DADiskGetDescription u 0 .kDADiskDescriptionVolumeNameKey
          = some (CFType.string "Data")
      ∧ DADiskGetDescription u 0 .kDADiskDescriptionVolumePathKey
          = some (CFType.url "file://localhost/")
      ∧ (u.disks 0).bypath = some (CFType.url "file://localhost/Volumes/Data/") :=
  (C31_rename_root exampleMoveEnv exampleRootRenamingState 0 0 rfl rfl).elim
    (fun u hu => ⟨u, hu.1, hu.2.1, hu.2.2.1 _ (by decide), (hu.2.2.2.2 (by decide)).2⟩)


/-! ## C32: eject on a unit that is latched Ejected -/

/-- The system calls of eject when the open succeeds and the unit is latched
Ejected: open and close, and `status` is read without having been assigned. -/
theorem eject_ioctl_latched (env : DAEnv) (disk : DADiskRef) (s : DAState)
    (hopen : (env.sys_open (s.disks disk).bsdPath).value ≠ minusOne)
    (hlatch : (s.units (s.disks disk).unit).ejected = true) :
    __DARequestEject_ioctl env disk s
      = (env.indeterminate,
          (s.emit (DAEvent.sys_open (s.disks disk).bsdPath)).emit
            (DAEvent.sys_close (env.sys_open (s.disks disk).bsdPath).value)) := by
  simp [__DARequestEject_ioctl, hopen, hlatch]

/-- The execute step of eject on a unit that is not CommandActive and is
latched Ejected, when the open succeeds. -/
theorem eject_commence_latched (env : DAEnv) (s : DAState) (request : DARequestRef)
    (disk : DADiskRef) (file : SysResult)
    (hdisk : DARequestGetDisk s request = some disk)
    (hclean : DARequestGetDissenter s request = none)
    (hidle : DAUnitGetState s disk .kDAUnitStateCommandActive = false)
    (hlatch : DAUnitGetState s disk .kDAUnitStateEjected = true)
    (hfile : env.sys_open (DADiskGetBSDPath s disk) = file)
    (hopen : file.value ≠ minusOne) :
    ∃ u, __DARequestEject_commence env request disk s = some (true, u)
      ∧ traceSince s u
          = [DAEvent.sys_open (DADiskGetBSDPath s disk), DAEvent.sys_close file.value]
            ++ completionOf request
                (if env.indeterminate ≠ 0 then
                   some (DADissenterCreate (unix_err env.indeterminate))
                 else none) s
            ++ [DAEvent.DAStageSignal]
      ∧ DAUnitGetState u disk .kDAUnitStateEjected = true
      ∧ DAUnitGetState u disk .kDAUnitStateCommandActive = false
      ∧ DADiskGetState u disk .kDADiskStateCommandActive = false := by
  simp at hdisk hclean hidle hlatch hfile
  subst hfile
  have hE := eject_ioctl_latched env disk
    (DAUnitSetState disk .kDAUnitStateCommandActive true
      (DADiskSetState disk .kDADiskStateCommandActive true (CFRetain request s)))
    (by simpa using hopen) (by simpa using hlatch)
  simp only [DADiskGetBSDPath, DADiskGetState, DAUnitGetState, traceSince]
  simp [__DARequestEject_commence, hclean, hidle, __DARequestEjectCallback, hdisk]
  by_cases hzero : env.indeterminate = 0
  · simp [ejectSyscalls, hE, completionOf_eval, hzero, hlatch]
  · simp [ejectSyscalls, hE, completionOf_eval, hzero, hlatch, unix_err_ne_zero]

/-- C32, what the code does. For an eject request that reaches the execute
stage (its disk passes the gates of the dispatcher, StagedApprove is set and no
dissenter is recorded) with the unit not CommandActive and latched Ejected,
when the open succeeds: the dispatch returns TRUE; its calls are open and
close, with no DKIOCEJECT between them, the completion and the stage signal;
the Ejected latch stays set and the CommandActive flags are clear afterwards.
The status of the completion is the value of the automatic variable `status`,
which no statement has assigned (lines 369, 387-398, 404): the completion
carries no dissenter only if that value is 0, and a dissenter of status
unix_err( value ) otherwise, which the client callback of a request without a
link receives. -/
theorem C32_eject_latched_status (env : DAEnv) (s : DAState) (request : DARequestRef)
    (disk : DADiskRef) (file : SysResult)
    (hkind : DARequestGetKind s request = ._kDADiskEject)
    (hdisk : DARequestGetDisk s request = some disk)
    (hactive : DADiskGetState s disk .kDADiskStateCommandActive = false)
    (happear : DADiskGetState s disk .kDADiskStateStagedAppear = true)
    (happrove : DARequestGetState s request kDARequestStateStagedApprove = true)
    (hclean : DARequestGetDissenter s request = none)
    (hidle : DAUnitGetState s disk .kDAUnitStateCommandActive = false)
    (hlatch : DAUnitGetState s disk .kDAUnitStateEjected = true)
    (hfile : env.sys_open (DADiskGetBSDPath s disk) = file)
    (hopen : file.value ≠ minusOne) :
    ∃ u, DARequestDispatch env (some request) s = some (true, u)
      ∧ traceSince s u
          = [DAEvent.sys_open (DADiskGetBSDPath s disk), DAEvent.sys_close file.value]
            ++ completionOf request
                (if env.indeterminate ≠ 0 then
                   some (DADissenterCreate (unix_err env.indeterminate))
                 else none) s
            ++ [DAEvent.DAStageSignal]
      ∧ DAUnitGetState u disk .kDAUnitStateEjected = true
      ∧ DAUnitGetState u disk .kDAUnitStateCommandActive = false
      ∧ DADiskGetState u disk .kDADiskStateCommandActive = false
      ∧ (DARequestGetLink s request = none → ∀ dissenter,
          completionOf request dissenter s
            = match DARequestGetCallback s request with
              | some callback => [DAEvent.DAQueueCallback callback (some disk) dissenter]
              | none => []) := by
  have hlink : DARequestGetLink s request = none → ∀ dissenter,
      completionOf request dissenter s
        = match DARequestGetCallback s request with
          | some callback => [DAEvent.DAQueueCallback callback (some disk) dissenter]
          | none => [] := by
    intro hlink dissenter
    simp at hlink hdisk
    cases hcb : (s.requests request).callback <;>
      simp [completionOf_eval, hlink, hdisk, hcb]
  simp at hkind hactive happear happrove
  have hdisk1 := hdisk
  have hclean1 := hclean
  simp at hdisk1 hclean1
  by_cases hauthorize : (s.requests request).state &&& 2097152 = 0
  · obtain ⟨u, hu, h1, h2, h3, h4⟩ := eject_commence_latched env
      (DARequestSetState request _kDARequestStateStagedAuthorize true s) request disk file
      (by simpa using hdisk) (by simpa using hclean) (by simpa using hidle)
      (by simpa using hlatch) (by simpa using hfile) hopen
    refine ⟨u, ?_, ?_, h2, h3, h4, hlink⟩
    · simp only [_kDARequestStateStagedAuthorize] at hu
      simp [DARequestDispatch, hdisk1, hactive, happear, hkind, __DARequestEject, happrove,
        hauthorize, hclean1, hu]
    · simpa [traceSince, completionOf_setState] using h1
  · obtain ⟨u, hu, h1, h2, h3, h4⟩ := eject_commence_latched env
      s request disk file hdisk hclean hidle hlatch hfile hopen
    refine ⟨u, ?_, h1, h2, h3, h4, hlink⟩
    simp [DARequestDispatch, hdisk1, hactive, happear, hkind, __DARequestEject, happrove,
      hauthorize, hclean1, hu]

/-- C32 at an eject request of user 501 on a latched unit, when the variable
holds 5: DKIOCEJECT is not issued, the descriptor is closed, the latch stays
set, and the client callback receives a dissenter of status unix_err( 5 ). -/
theorem C32_eject_latched_status_witness :
    ∃ u, DARequestDispatch exampleEnvIndeterminate (some 0) exampleLatchedState
        = some (true, u)
      ∧ traceSince exampleLatchedState u
          = [DAEvent.sys_open (some "/dev/rdisk1"), DAEvent.sys_close 3,
             DAEvent.DAQueueCallback exampleCallback (some 0)
              (some (DADissenterCreate (unix_err 5))),
             DAEvent.DAStageSignal]
      ∧ DAUnitGetState u 0 .kDAUnitStateEjected = true :=
  (C32_eject_latched_status exampleEnvIndeterminate exampleLatchedState 0 0
    { value := 3, errno := 0 } rfl rfl rfl rfl rfl rfl rfl rfl rfl (by decide)).elim
    (fun u hu => ⟨u, hu.1,
      hu.2.1.trans (congrArg (fun l => [DAEvent.sys_open (some "/dev/rdisk1"),
        DAEvent.sys_close 3] ++ l ++ [DAEvent.DAStageSignal])
        (hu.2.2.2.2.2 rfl (some (DADissenterCreate (unix_err 5))))),
      hu.2.2.1⟩)


/-! ## Authorization is asked for a sentinel only -/

theorem CommenceOrder.sentinel (s t : DAState) (request : DARequestRef) (readOnly : Bool)
    (h : CommenceOrder s t request) : AuthorizeOnSentinel s t request readOnly := by
  intro ha
  rw [h.2.1] at ha
  cases ha

theorem CommenceOrder.sentinel_of_setState (s t : DAState) (request : DARequestRef)
    (readOnly : Bool)
    (h : CommenceOrder (DARequestSetState request _kDARequestStateStagedAuthorize true s) t
      request) : AuthorizeOnSentinel s t request readOnly := by
  intro ha
  have h1 := h.2.1
  simp only [traceSince, DARequestSetState_trace] at h1 ha
  rw [h1] at ha
  cases ha

theorem eject_sentinel (env : DAEnv) (request : DARequestRef) (disk : DADiskRef)
    (s : DAState) (b : Bool) (t : DAState) (h : EjectPath env request disk s b t) :
    AuthorizeOnSentinel s t request false := by
  cases h with
  | commenceFirst b t h1 h2 h3 hc =>
    exact (eject_commence_order env request disk _ b t hc).sentinel_of_setState s t request _
  | commence b t h1 h2 hc =>
    exact (eject_commence_order env request disk _ b t hc).sentinel s t request _
  | refuse h1 h2 =>
    simp [AuthorizeOnSentinel, traceSince, DAEvent.isAuthorize]
  | approve h1 h2 =>
    simp [AuthorizeOnSentinel, traceSince, DAEvent.isAuthorize]
  | authorize d h1 h2 h3 h4 =>
    exact fun _ => ⟨d, h3, Or.inl h4⟩

theorem mount_approve_sentinel (env : DAEnv) (request : DARequestRef) (disk : DADiskRef)
    (s : DAState) (b : Bool) (t : DAState) (h : MountApprovePath env request disk s b t) :
    AuthorizeOnSentinel s t request true := by
  cases h with
  | commenceFirst b t h1 h2 h3 hc =>
    exact (mount_commence_order request disk _ b t hc).sentinel_of_setState s t request _
  | commence b t h1 h2 hc =>
    exact (mount_commence_order request disk _ b t hc).sentinel s t request _
  | repair h1 h2 =>
    simp [AuthorizeOnSentinel, traceSince, DAEvent.isAuthorize]
  | refuse h1 h2 h3 =>
    simp [AuthorizeOnSentinel, traceSince, DAEvent.isAuthorize]
  | approve h1 h2 h3 =>
    simp [AuthorizeOnSentinel, traceSince, DAEvent.isAuthorize]
  | authorize d h1 h2 h3 h4 =>
    exact fun _ => ⟨d, h3, Or.inl h4⟩
  | authorizeReadOnly d h1 h2 h3 h4 =>
    exact fun _ => ⟨d, h3, Or.inr ⟨rfl, h4⟩⟩

theorem mount_sentinel (env : DAEnv) (request : DARequestRef) (disk : DADiskRef)
    (s : DAState) (b : Bool) (t : DAState) (h : MountPath env request disk s b t) :
    AuthorizeOnSentinel s t request true := by
  cases h with
  | yield h1 h2 => simp [AuthorizeOnSentinel, traceSince]
  | handOff h1 h2 h3 => simp [AuthorizeOnSentinel, traceSince, DAEvent.isAuthorize]
  | wait h1 h2 h3 => simp [AuthorizeOnSentinel, traceSince]
  | approve b t h1 h2 hc =>
    have h := mount_approve_sentinel env request disk _ b t hc
    simp only [AuthorizeOnSentinel, traceSince, DARequestGetDissenter,
      DAUnitSetState_trace, DAUnitSetState_requests] at h ⊢
    exact h

theorem unmount_sentinel (request : DARequestRef) (disk : DADiskRef)
    (s : DAState) (b : Bool) (t : DAState) (h : UnmountPath request disk s b t) :
    AuthorizeOnSentinel s t request false := by
  cases h with
  | yield h1 h2 => simp [AuthorizeOnSentinel, traceSince]
  | commenceFirst b t h0 h1 h2 h3 hc =>
    exact (unmount_commence_order request disk _ b t hc).sentinel_of_setState s t request _
  | commence b t h0 h1 h2 hc =>
    exact (unmount_commence_order request disk _ b t hc).sentinel s t request _
  | refuse h0 h1 h2 =>
    simp [AuthorizeOnSentinel, traceSince, DAEvent.isAuthorize]
  | approve h0 h1 h2 =>
    simp [AuthorizeOnSentinel, traceSince, DAEvent.isAuthorize]
  | authorize d h0 h1 h2 h3 h4 =>
    exact fun _ => ⟨d, h3, Or.inl h4⟩

theorem dispatch_sentinel (env : DAEnv) (request : DARequestRef) (s : DAState) (b : Bool)
    (t : DAState) (h : DispatchPath env request s b t)
    (hkind : isStagedKind (DARequestGetKind s request) = true) :
    AuthorizeOnSentinel s t request
      (decide (DARequestGetKind s request = ._kDADiskMount)) := by
  cases h with
  | noDisk h1 => simp [AuthorizeOnSentinel, traceSince]
  | busy d h1 h2 => simp [AuthorizeOnSentinel, traceSince]
  | unseen d h1 h2 h3 => simp [AuthorizeOnSentinel, traceSince]
  | claim d b t h1 h2 h3 h4 hc =>
    rw [h4] at hkind
    cases hkind
  | refresh d b t h1 h2 h3 h4 hc =>
    rw [h4] at hkind
    cases hkind
  | rename d b t h1 h2 h3 h4 hc =>
    rw [h4] at hkind
    cases hkind
  | eject d b t h1 h2 h3 h4 hc =>
    intro ha
    obtain ⟨x, hx, hs⟩ := eject_sentinel env request d s b t hc ha
    refine ⟨x, hx, ?_⟩
    rcases hs with hs | ⟨hs, _⟩
    · exact Or.inl hs
    · cases hs
  | mount d b t h1 h2 h3 h4 hc =>
    intro ha
    obtain ⟨x, hx, hs⟩ := mount_sentinel env request d s b t hc ha
    refine ⟨x, hx, ?_⟩
    rcases hs with hs | ⟨_, hs⟩
    · exact Or.inl hs
    · exact Or.inr ⟨decide_eq_true h4, hs⟩
  | unmount d b t h1 h2 h3 h4 hc =>
    intro ha
    obtain ⟨x, hx, hs⟩ := unmount_sentinel request d s b t hc ha
    refine ⟨x, hx, ?_⟩
    rcases hs with hs | ⟨hs, _⟩
    · exact Or.inl hs
    · cases hs


/-! ## C10: no veto, no authorization request -/

/-- C10 fails as stated: the approval of an unmount request answers with no
dissenter, and the next dispatch starts the unmount helper without having
submitted any authorization request. -/
theorem C10_counterexample :
    (approvalCallback ._kDADiskUnmount none 0 (examplePendingState ._kDADiskUnmount)).bind
      (fun t => (DARequestDispatch exampleEnv (some 0) t).map
        (fun r => (DARequestGetDissenter t 0, r.1, traceSince t r.2)))
      = some (none, true, [DAEvent.DAFileSystemUnmountWithArguments (some 1)
          (some (CFType.url "file://localhost/Volumes/Untitled/"))
          DARequestCallback.__DARequestUnmountCallback 0 none]) := by
  rfl

/-- C10, amended. For an eject, mount or unmount request whose approval
round-trip yielded no veto (the response is NULL and no dissenter is recorded
on the request), the next dispatch submits no authorization request and
returns TRUE exactly when the unit is not CommandActive. Unless the request
yields at the head of its handler (a mount or unmount request with a link
whose unit is CommandActive: no external call, StagedAuthorize left unset),
the dispatch sets StagedAuthorize; when the unit is not CommandActive it
starts the execute step in that same dispatch, and when the unit is
CommandActive it does not start it. And whatever the state, a dispatch of the
request submits an authorization request only when a sentinel dissenter is
recorded on the request: 0xF8DAFF01, or 0xF8DAFF03 on a mount request. -/
theorem C10_no_veto_no_authorization (env : DAEnv) (s : DAState) (request : DARequestRef)
    (disk : DADiskRef) (hpending : ApprovalPending s request disk)
    (hclean : DARequestGetDissenter s request = none) :
    (∃ t u, approvalCallback (DARequestGetKind s request) none request s = some t
      ∧ DARequestGetDissenter t request = none
      ∧ DARequestDispatch env (some request) t
          = some (!DAUnitGetState s disk .kDAUnitStateCommandActive, u)
      ∧ u.trace = t.trace ++ traceSince t u
      ∧ (traceSince t u).any DAEvent.isAuthorize = false
      ∧ (¬ YieldsToUnit s request disk →
          DARequestGetState u request _kDARequestStateStagedAuthorize = true)
      ∧ (YieldsToUnit s request disk →
          traceSince t u = []
          ∧ DARequestGetState u request _kDARequestStateStagedAuthorize = false)
      ∧ (DAUnitGetState s disk .kDAUnitStateCommandActive = false →
          DARequestGetState u request _kDARequestStateStagedAuthorize = true
          ∧ (traceSince t u).any DAEvent.isExecute = true)
      ∧ (DAUnitGetState s disk .kDAUnitStateCommandActive = true →
          (traceSince t u).any DAEvent.isExecute = false))
    ∧ (∀ (v : DAState) (b : Bool) (w : DAState),
        (DARequestGetKind v request = ._kDADiskEject
          ∨ DARequestGetKind v request = ._kDADiskMount
          ∨ DARequestGetKind v request = ._kDADiskUnmount) →
        DARequestDispatch env (some request) v = some (b, w) →
        (traceSince v w).any DAEvent.isAuthorize = true →
        ∃ d, DARequestGetDissenter v request = some d
          ∧ (DADissenterGetStatus d = 0xF8DAFF01
            ∨ (DARequestGetKind v request = ._kDADiskMount
              ∧ DADissenterGetStatus d = 0xF8DAFF03))) := by
  refine ⟨?_, ?_⟩
  · simp [ApprovalPending] at hpending hclean
    obtain ⟨hkind, hdisk, happear, happrove, hauthorize, hprobe⟩ := hpending
    refine ⟨CFRelease request (DAStageSignal
      (DADiskSetState disk .kDADiskStateCommandActive false s)), ?_⟩
    simp only [DARequestGetKind, approvalCallback_none s request disk hkind hdisk hclean,
      true_and]
    cases hk : (s.requests request).kind
    case _kDADiskEject =>
      by_cases hidle : (s.units (s.disks disk).unit).commandActive = false <;>
      simp [-List.any_eq_true, -List.any_eq_false, hdisk, hclean, YieldsToUnit,
        DARequestDispatch, happear, hk, __DARequestEject, happrove, hauthorize,
        __DARequestEject_commence, __DARequestEjectCallback, hidle, DAEvent.isExecute,
        DAEvent.isAuthorize]
    case _kDADiskUnmount =>
      by_cases hidle : (s.units (s.disks disk).unit).commandActive = false
      · simp [-List.any_eq_true, -List.any_eq_false, hdisk, hclean, YieldsToUnit,
          DARequestDispatch, happear, hk, __DARequestUnmount, happrove, hauthorize,
          __DARequestUnmount_commence, hidle, DAEvent.isExecute, DAEvent.isAuthorize]
      · by_cases hlink : (s.requests request).link = none <;>
        simp [-List.any_eq_true, -List.any_eq_false, hdisk, hclean, YieldsToUnit,
          DARequestDispatch, happear, hk, __DARequestUnmount, happrove, hauthorize,
          __DARequestUnmount_commence, hidle, hlink, DAEvent.isExecute, DAEvent.isAuthorize,
          Option.isSome_iff_ne_none]
    case _kDADiskMount =>
      obtain ⟨hprobe1, hprobe2⟩ := hprobe hk
      have hpass : ((s.requests request).state &&& 65536 = 0
            ∧ ¬(s.disks disk).volumePath = none)
          ∨ (¬(s.requests request).state &&& 65536 = 0
            ∧ (s.disks disk).stagedProbe = true) := by
        by_cases hp : (s.requests request).state &&& 65536 = 0
        · exact Or.inl ⟨hp, hprobe2 hp⟩
        · exact Or.inr ⟨hp, hprobe1 hp⟩
      by_cases hidle : (s.units (s.disks disk).unit).commandActive = false
      · rcases hpass with ⟨hp, hvol⟩ | ⟨hp, hsp⟩
        · simp [-List.any_eq_true, -List.any_eq_false, hdisk, hclean, YieldsToUnit,
            DARequestDispatch, happear, hk, __DARequestMount, happrove, hauthorize,
            __DARequestMount_approve, __DARequestMount_authorize, __DARequestMount_commence,
            hidle, hp, hvol, DAEvent.isExecute, DAEvent.isAuthorize]
        · simp [-List.any_eq_true, -List.any_eq_false, hdisk, hclean, YieldsToUnit,
            DARequestDispatch, happear, hk, __DARequestMount, happrove, hauthorize,
            __DARequestMount_approve, __DARequestMount_authorize, __DARequestMount_commence,
            hidle, hp, hsp, DAEvent.isExecute, DAEvent.isAuthorize]
      · by_cases hlink : (s.requests request).link = none
        · rcases hpass with ⟨hp, hvol⟩ | ⟨hp, hsp⟩
          · simp [-List.any_eq_true, -List.any_eq_false, hdisk, hclean, YieldsToUnit,
              DARequestDispatch, happear, hk, __DARequestMount, happrove, hauthorize,
              __DARequestMount_approve, __DARequestMount_authorize,
              __DARequestMount_commence, hidle, hlink, hp, hvol, DAEvent.isExecute,
              DAEvent.isAuthorize, Option.isSome_iff_ne_none]
          · simp [-List.any_eq_true, -List.any_eq_false, hdisk, hclean, YieldsToUnit,
              DARequestDispatch, happear, hk, __DARequestMount, happrove, hauthorize,
              __DARequestMount_approve, __DARequestMount_authorize,
              __DARequestMount_commence, hidle, hlink, hp, hsp, DAEvent.isExecute,
              DAEvent.isAuthorize, Option.isSome_iff_ne_none]
        · simp [-List.any_eq_true, -List.any_eq_false, hdisk, YieldsToUnit,
            DARequestDispatch, happear, hk, __DARequestMount, hidle, hlink, hclean,
            hauthorize, Option.isSome_iff_ne_none]
    all_goals simp [hk, isStagedKind] at hkind
  · intro v b w hkind hrun ha
    have hstaged : isStagedKind (DARequestGetKind v request) = true := by
      rcases hkind with h | h | h <;> rw [h] <;> rfl
    obtain ⟨d, hd, hs⟩ :=
      dispatch_sentinel env request v b w (dispatch_path env request v b w hrun) hstaged ha
    refine ⟨d, hd, ?_⟩
    rcases hs with hs | ⟨hm, hs⟩
    · exact Or.inl hs
    · exact Or.inr ⟨of_decide_eq_true hm, hs⟩

/-- C10 at an eject request whose approval answered NULL. -/
theorem C10_no_veto_no_authorization_witness :
    ∃ t u, approvalCallback ._kDADiskEject none 0 (examplePendingState ._kDADiskEject) = some t
      ∧ DARequestGetDissenter t 0 = none
      ∧ DARequestDispatch exampleEnv (some 0) t = some (true, u)
      ∧ u.trace = t.trace ++ traceSince t u
      ∧ (traceSince t u).any DAEvent.isAuthorize = false
      ∧ DARequestGetState u 0 _kDARequestStateStagedAuthorize = true
      ∧ (traceSince t u).any DAEvent.isExecute = true :=
  (C10_no_veto_no_authorization exampleEnv (examplePendingState ._kDADiskEject) 0 0
    ⟨rfl, rfl, rfl, rfl, rfl, fun h => by cases h⟩ rfl).1.elim
    (fun t ht => ht.elim (fun u hu => ⟨t, u, hu.1, hu.2.1, hu.2.2.1, hu.2.2.2.1,
      hu.2.2.2.2.1, (hu.2.2.2.2.2.2.2.1 rfl).1, (hu.2.2.2.2.2.2.2.1 rfl).2⟩))


/-! ## The rename helper runs on a mounted disk -/

/-- The dispatch of a rename request starts the rename helper only for a disk
that has a VolumePath (lines 962-965), and leaves that VolumePath. -/
theorem rename_helper_mounted (env : DAEnv) (s : DAState) (request : DARequestRef)
    (disk : DADiskRef) (b : Bool) (t : DAState)
    (hdisk : DARequestGetDisk s request = some disk)
    (hkind : DARequestGetKind s request = ._kDADiskRename)
    (hrun : DARequestDispatch env (some request) s = some (b, t))
    (hhelper : (traceSince s t).any DAEvent.isExecuteHelper = true) :
    DADiskGetDescription t disk .kDADiskDescriptionVolumePathKey
        = DADiskGetDescription s disk .kDADiskDescriptionVolumePathKey
      ∧ DADiskGetDescription s disk .kDADiskDescriptionVolumePathKey ≠ none := by
  cases dispatch_path env request s b t hrun with
  | noDisk h1 => simp [traceSince] at hhelper
  | busy d h1 h2 => simp [traceSince] at hhelper
  | unseen d h1 h2 h3 => simp [traceSince] at hhelper
  | claim d b t h1 h2 h3 h4 hc =>
    rw [h4] at hkind
    cases hkind
  | refresh d b t h1 h2 h3 h4 hc =>
    rw [h4] at hkind
    cases hkind
  | eject d b t h1 h2 h3 h4 hc =>
    rw [h4] at hkind
    cases hkind
  | mount d b t h1 h2 h3 h4 hc =>
    rw [h4] at hkind
    cases hkind
  | unmount d b t h1 h2 h3 h4 hc =>
    rw [h4] at hkind
    cases hkind
  | rename d b t h1 h2 h3 h4 hc =>
    obtain rfl : d = disk := by
      rw [h1] at hdisk
      exact Option.some.inj hdisk
    cases hc with
    | yield h5 => simp [traceSince] at hhelper
    | refuse h5 h6 =>
      simp [-List.any_eq_true, -List.any_eq_false, traceSince, DAEvent.isExecuteHelper]
        at hhelper
    | rename h5 h6 =>
      refine ⟨by simp, ?_⟩
      intro hnone
      simp at hnone
      simp [__DARequestRename_status, hnone] at h6
      split at h6 <;> simp at h6


end DiskArbitration
